import Mathlib

/-! # bhyve xHCI host-controller emulation: command and event engine

A shallow embedding of `usr.sbin/bhyve/pci_xhci.c`.

Conventions of the embedding.

* Machine integers are natural numbers.  Where the C arithmetic can wrap
  (`dwEvrsTableSize - 1` on a 32-bit unsigned) the wrap is written out.
* A host pointer into guest memory (`cr_p`, `erst_p`, a TRB pointer) is
  the guest address it maps; `XHCI_GADDR` is the identity.  `erstba_p`,
  which is `NULL` until the guest writes ERSTBA and which
  `pci_xhci_insert_event` dereferences first, is an `Option`; `erst_p` is
  assigned by the same write and dereferenced only after `erstba_p`.
* Guest memory is a family of disjoint typed regions: the TRB rings the
  controller consumes (`trbmem`), the event ring segment the controller
  produces into (`evmem`), the event ring segment table (`erstmem`), the
  device context base address array (`dcbaamem`), output device contexts
  (`devctxmem`), input contexts (`inctxmem`) and stream contexts
  (`sctxmem`).  Each is a function of the guest address.
* A pointer the C code compares with `NULL` is an `Option`.
* A function that can trip an `assert`, or dereference a pointer that is
  `NULL`, returns an `Option`; `none` is the aborted emulator.
* `DPRINTF`/`WPRINTF` output is not modelled.
-/

namespace Xhci

/-! ## Constants of the register interface -/

/-- The number of device slots, `XHCI_MAX_SLOTS` of the source ("min allowed by Windows drivers"). -/
def XHCI_MAX_SLOTS : Nat := 64

/-- The number of root-hub ports, `XHCI_MAX_DEVS` of the source (4 USB3 + 4 USB2). -/
def XHCI_MAX_DEVS : Nat := 8

/-- Modelled from the spec: `XHCI_TRB_3_CYCLE_BIT` of the absent `xhcireg.h`, bit 0 of dword 3. -/
def XHCI_TRB_3_CYCLE_BIT : Nat := 0x1

/-- Modelled from the spec: `XHCI_TRB_3_TC_BIT` of the absent `xhcireg.h`, toggle-cycle, bit 1. -/
def XHCI_TRB_3_TC_BIT : Nat := 0x2

/-- Modelled from the spec: `XHCI_TRB_3_DCEP_BIT` of the absent `xhcireg.h`, deconfigure, bit 9. -/
def XHCI_TRB_3_DCEP_BIT : Nat := 0x200

/-- Modelled from the spec: `XHCI_TRB_3_TYPE_GET` of the absent `xhcireg.h`, bits 10..15. -/
def XHCI_TRB_3_TYPE_GET (x : Nat) : Nat := (x >>> 10) &&& 0x3F

/-- Modelled from the spec: `XHCI_TRB_3_TYPE_SET` of the absent `xhcireg.h`, bits 10..15. -/
def XHCI_TRB_3_TYPE_SET (x : Nat) : Nat := (x &&& 0x3F) <<< 10

/-- Modelled from the spec: `XHCI_TRB_3_EP_GET` of the absent `xhcireg.h`, bits 16..20. -/
def XHCI_TRB_3_EP_GET (x : Nat) : Nat := (x >>> 16) &&& 0x1F

/-- Modelled from the spec: `XHCI_TRB_3_SLOT_GET` of the absent `xhcireg.h`; the slot id is
`dwTrb3[24..31]`. -/
def XHCI_TRB_3_SLOT_GET (x : Nat) : Nat := (x >>> 24) &&& 0xFF

/-- Modelled from the spec: `XHCI_TRB_3_SLOT_SET` of the absent `xhcireg.h`; the slot id is
`dwTrb3[24..31]`. -/
def XHCI_TRB_3_SLOT_SET (x : Nat) : Nat := (x &&& 0xFF) <<< 24

/-- Modelled from the spec: `XHCI_TRB_2_ERROR_SET` of the absent `xhcireg.h`; the completion code
is `dwTrb2[24..31]`. -/
def XHCI_TRB_2_ERROR_SET (x : Nat) : Nat := (x &&& 0xFF) <<< 24

/-- Modelled from the spec: `XHCI_TRB_2_ERROR_GET` of the absent `xhcireg.h`. -/
def XHCI_TRB_2_ERROR_GET (x : Nat) : Nat := (x >>> 24) &&& 0xFF

/-- Modelled from the spec: `XHCI_TRB_2_STREAM_GET` of the absent `xhcireg.h`, bits 16..31. -/
def XHCI_TRB_2_STREAM_GET (x : Nat) : Nat := (x >>> 16) &&& 0xFFFF

/-! TRB types (`XHCI_TRB_TYPE_*`, `XHCI_TRB_EVENT_*` of the absent `xhcireg.h`); the values are
the indices of the `trbtypes` table of `pci_xhci_dump_trb` and the case labels of
`pci_xhci_complete_commands`. -/

/-- Modelled from the spec: TRB type LINK (0x06, as the case label says). -/
def XHCI_TRB_TYPE_LINK : Nat := 0x06
/-- Modelled from the spec: TRB type ENABLE_SLOT (0x09). -/
def XHCI_TRB_TYPE_ENABLE_SLOT : Nat := 0x09
/-- Modelled from the spec: TRB type DISABLE_SLOT (0x0A). -/
def XHCI_TRB_TYPE_DISABLE_SLOT : Nat := 0x0A
/-- Modelled from the spec: TRB type ADDRESS_DEVICE (0x0B). -/
def XHCI_TRB_TYPE_ADDRESS_DEVICE : Nat := 0x0B
/-- Modelled from the spec: TRB type CONFIGURE_EP (0x0C). -/
def XHCI_TRB_TYPE_CONFIGURE_EP : Nat := 0x0C
/-- Modelled from the spec: TRB type EVALUATE_CTX (0x0D). -/
def XHCI_TRB_TYPE_EVALUATE_CTX : Nat := 0x0D
/-- Modelled from the spec: TRB type RESET_EP (0x0E). -/
def XHCI_TRB_TYPE_RESET_EP : Nat := 0x0E
/-- Modelled from the spec: TRB type STOP_EP (0x0F). -/
def XHCI_TRB_TYPE_STOP_EP : Nat := 0x0F
/-- Modelled from the spec: TRB type SET_TR_DEQUEUE (0x10). -/
def XHCI_TRB_TYPE_SET_TR_DEQUEUE : Nat := 0x10
/-- Modelled from the spec: TRB type RESET_DEVICE (0x11). -/
def XHCI_TRB_TYPE_RESET_DEVICE : Nat := 0x11
/-- Modelled from the spec: TRB type NOOP_CMD (0x17). -/
def XHCI_TRB_TYPE_NOOP_CMD : Nat := 0x17
/-- Modelled from the spec: event TRB type CMD_COMPLETION (0x21). -/
def XHCI_TRB_EVENT_CMD_COMPLETE : Nat := 0x21
/-- Modelled from the spec: event TRB type PORT_STATUS_CHANGE (0x22). -/
def XHCI_TRB_EVENT_PORT_STS_CHANGE : Nat := 0x22
/-- Modelled from the spec: event TRB type HOST_CONTROLLER (0x25). -/
def XHCI_TRB_EVENT_HOST_CTRL : Nat := 0x25

/-! Completion codes (`XHCI_TRB_ERROR_*` of the absent `xhcireg.h`). -/

/-- Modelled from the spec: completion code SUCCESS (1). -/
def XHCI_TRB_ERROR_SUCCESS : Nat := 0x01
/-- Modelled from the spec: completion code TRB error (5). -/
def XHCI_TRB_ERROR_TRB : Nat := 0x05
/-- Modelled from the spec: completion code NO_SLOTS (9). -/
def XHCI_TRB_ERROR_NO_SLOTS : Nat := 0x09
/-- Modelled from the spec: completion code SLOT_NOT_ON (11). -/
def XHCI_TRB_ERROR_SLOT_NOT_ON : Nat := 0x0B
/-- Modelled from the spec: completion code ENDP_NOT_ON (12). -/
def XHCI_TRB_ERROR_ENDP_NOT_ON : Nat := 0x0C
/-- Modelled from the spec: completion code CONTEXT_STATE (19). -/
def XHCI_TRB_ERROR_CONTEXT_STATE : Nat := 0x13
/-- Modelled from the spec: completion code EV_RING_FULL (21). -/
def XHCI_TRB_ERROR_EV_RING_FULL : Nat := 0x15
/-- Modelled from the spec: completion code STREAM_TYPE (10). -/
def XHCI_TRB_ERROR_STREAM_TYPE : Nat := 0x0A
/-- Modelled from the spec: completion code INVALID_SID (34). -/
def XHCI_TRB_ERROR_INVALID_SID : Nat := 0x22

/-! Operational and runtime register bits (`xhcireg.h`, absent). -/

/-- Modelled from the spec: USBCMD.RS, run/stop, bit 0. -/
def XHCI_CMD_RS : Nat := 0x1
/-- Modelled from the spec: USBCMD.HCRST, controller reset, bit 1 (the spec writes `0x02`). -/
def XHCI_CMD_HCRST : Nat := 0x2
/-- Modelled from the spec: USBCMD.INTE, interrupter enable, bit 2. -/
def XHCI_CMD_INTE : Nat := 0x4
/-- Modelled from the spec: USBCMD.CSS, controller save state, bit 8. -/
def XHCI_CMD_CSS : Nat := 0x100
/-- Modelled from the spec: USBCMD.CRS, controller restore state, bit 9. -/
def XHCI_CMD_CRS : Nat := 0x200
/-- Modelled from the spec: USBSTS.HCH, controller halted, bit 0 (`1<<0` in the spec). -/
def XHCI_STS_HCH : Nat := 0x1
/-- Modelled from the spec: USBSTS.HSE, host system error, bit 2. -/
def XHCI_STS_HSE : Nat := 0x4
/-- Modelled from the spec: USBSTS.EINT, event interrupt, bit 3. -/
def XHCI_STS_EINT : Nat := 0x8
/-- Modelled from the spec: USBSTS.PCD, port change detect, bit 4. -/
def XHCI_STS_PCD : Nat := 0x10
/-- Modelled from the spec: CRCR.RCS, ring cycle state, bit 0. -/
def XHCI_CRCR_LO_RCS : Nat := 0x1
/-- Modelled from the spec: CRCR.CS, command stop, bit 1. -/
def XHCI_CRCR_LO_CS : Nat := 0x2
/-- Modelled from the spec: CRCR.CA, command abort, bit 2. -/
def XHCI_CRCR_LO_CA : Nat := 0x4
/-- Modelled from the spec: CRCR.CRR, command ring running, bit 3. -/
def XHCI_CRCR_LO_CRR : Nat := 0x8
/-- Modelled from the spec: IMAN.IP, interrupt pending, bit 0. -/
def XHCI_IMAN_INTR_PEND : Nat := 0x1
/-- Modelled from the spec: IMAN.IE, interrupt enable, bit 1. -/
def XHCI_IMAN_INTR_ENA : Nat := 0x2
/-- Modelled from the spec: ERDP.EHB, event handler busy, bit 3. -/
def XHCI_ERDP_LO_BUSY : Nat := 0x8
/-- Modelled from the spec: `XHCI_ERDP_LO_SINDEX`, dequeue segment index, bits 0..2. -/
def XHCI_ERDP_LO_SINDEX (x : Nat) : Nat := x &&& 0x7

/-- The 64-bit mask `~0xF` applied to a 64-bit register. -/
def MASK_NOT_F (x : Nat) : Nat := x &&& 0xFFFFFFFFFFFFFFF0

/-- `MASK_64_HI(x)` of the source: `(x) & ~0xFFFFFFFFULL`. -/
def MASK_64_HI (x : Nat) : Nat := x &&& 0xFFFFFFFF00000000

/-- `MASK_64_LO(x)` of the source: `(x) & 0xFFFFFFFFULL`. -/
def MASK_64_LO (x : Nat) : Nat := x &&& 0xFFFFFFFF

/-- The 32-bit complement `~m` of a mask `m` on a `uint32_t`. -/
def NOT32 (m : Nat) : Nat := 0xFFFFFFFF ^^^ (m &&& 0xFFFFFFFF)

/-- The 64-bit complement `~m` of a mask `m` on a `uint64_t`. -/
def NOT64 (m : Nat) : Nat := 0xFFFFFFFFFFFFFFFF ^^^ (m &&& 0xFFFFFFFFFFFFFFFF)

/-! ## Data model -/

/-- A transfer request block (`struct xhci_trb`): 16 bytes. -/
structure xhci_trb where
  qwTrb0 : Nat
  dwTrb2 : Nat
  dwTrb3 : Nat
deriving DecidableEq, Repr

/-- An entry of the event ring segment table (`struct xhci_event_ring_seg`). -/
structure xhci_event_ring_seg where
  qwEvrsTablePtr : Nat
  dwEvrsTableSize : Nat
deriving DecidableEq, Repr

/-- A slot context (`struct xhci_slot_ctx` of the absent `xhci.h`): eight dwords. -/
structure xhci_slot_ctx where
  dwSctx0 : Nat
  dwSctx1 : Nat
  dwSctx2 : Nat
  dwSctx3 : Nat
  dwSctx4 : Nat
  dwSctx5 : Nat
  dwSctx6 : Nat
  dwSctx7 : Nat
deriving DecidableEq, Repr

/-- An endpoint context (`struct xhci_endp_ctx` of the absent `xhci.h`). -/
structure xhci_endp_ctx where
  dwEpCtx0 : Nat
  dwEpCtx1 : Nat
  qwEpCtx2 : Nat
  dwEpCtx4 : Nat
  dwEpCtx5 : Nat
  dwEpCtx6 : Nat
  dwEpCtx7 : Nat
deriving DecidableEq, Repr

/-- An input control context (`struct xhci_input_ctx` of the absent `xhci.h`): `dwInCtx0` is the
drop mask, `dwInCtx1` the add mask. -/
structure xhci_input_ctx where
  dwInCtx0 : Nat
  dwInCtx1 : Nat
  dwInCtx2 : Nat
  dwInCtx3 : Nat
  dwInCtx4 : Nat
  dwInCtx5 : Nat
  dwInCtx6 : Nat
  dwInCtx7 : Nat
deriving DecidableEq, Repr

/-- An output device context (`struct xhci_dev_ctx`): the slot context and the endpoint contexts
`ctx_ep[1..31]`; `ctx_ep[1]` is EP0. -/
structure xhci_dev_ctx where
  ctx_slot : xhci_slot_ctx
  ctx_ep : Nat → xhci_endp_ctx

/-- An input device context (`struct xhci_input_dev_ctx`). -/
structure xhci_input_dev_ctx where
  ctx_input : xhci_input_ctx
  ctx_slot : xhci_slot_ctx
  ctx_ep : Nat → xhci_endp_ctx

/-- A stream ring cursor (`struct pci_xhci_trb_ring`). -/
structure pci_xhci_trb_ring where
  ringaddr : Nat
  ccs : Nat
deriving DecidableEq, Repr

/-- One block of a transfer chain (`struct usb_data_xfer_block` of the absent `usb_emul.h`),
with the members that the controller reads or writes: `buf` is the guest address of the data
(or the immediate data of the TRB), `blen` the number of bytes still to transfer, `bdone` the
number of bytes transferred, `processed` the flag that `pci_xhci_handle_transfer` sets,
`stat` and `type` the block status and kind that `pci_xhci_xfer_complete` reads, `trb_addr`
the guest address of the TRB of the block, `ccs` the cycle state at the TRB, `streamid` and
`trbnext` the stream and the guest address of the TRB that follows. -/
structure usb_data_xfer_block where
  buf : Nat
  blen : Nat
  bdone : Nat
  processed : Nat
  stat : Nat
  type : Nat
  trb_addr : Nat
  ccs : Nat
  streamid : Nat
  trbnext : Nat
deriving DecidableEq, Repr

/-- A zeroed block. -/
def usb_data_xfer_block.zero : usb_data_xfer_block :=
  { buf := 0, blen := 0, bdone := 0, processed := 0, stat := 0, type := 0, trb_addr := 0,
    ccs := 0, streamid := 0, trbnext := 0 }

/-- The transfer chain of an endpoint (`struct usb_data_xfer` of the absent `usb_emul.h`):
the block array `data` of `max_blk_cnt` blocks used as a ring from `head` to `tail` with
`ndata` blocks in use, the backend status `status` of the chain, and the setup packet `ureq`
of a control transfer (`none` while not allocated). -/
structure usb_data_xfer where
  max_blk_cnt : Nat
  ndata : Nat
  head : Nat
  tail : Nat
  data : Nat → usb_data_xfer_block
  status : Nat
  ureq : Option Nat

/-- A zeroed transfer chain (`calloc`) of `max_blk_cnt` blocks. -/
def usb_data_xfer.zero (max_blk_cnt : Nat) : usb_data_xfer :=
  { max_blk_cnt := max_blk_cnt, ndata := 0, head := 0, tail := 0,
    data := fun _ => usb_data_xfer_block.zero, status := 0, ureq := none }

/-- The per-endpoint transfer state (`struct pci_xhci_dev_ep`).  `ep_ringaddr`/`ep_ccs` is the
cached dequeue of an endpoint without streams, `ep_sctx`/`ep_sctx_trbs` the stream context array
and the per-stream cursors of an endpoint with streams, `ep_xfer` the transfer chain.  In the
source `ep_sctx_trbs` shares its storage with `ep_ringaddr` (a union); here they are two
fields, a store to `ep_ringaddr` drops the stream cursors, and the pointer `ep_sctx_trbs` is
`NULL` exactly when there are no stream cursors and `ep_ringaddr` is 0. -/
structure pci_xhci_dev_ep where
  ep_tr : Nat
  ep_sctx : Option Nat
  ep_ringaddr : Nat
  ep_ccs : Nat
  ep_sctx_trbs : Option (Nat → pci_xhci_trb_ring)
  ep_xfer : Option usb_data_xfer

/-- The zeroed endpoint state left by `memset(devep, 0, ...)`. -/
def pci_xhci_dev_ep.zero : pci_xhci_dev_ep :=
  { ep_tr := 0, ep_sctx := none, ep_ringaddr := 0, ep_ccs := 0, ep_sctx_trbs := none,
    ep_xfer := none }

/-- The backend of an emulated device (`struct usb_devemu` of the absent `usb_emul.h`), as far as
the controller uses it: `ue_reset` is `none` for a `NULL` callback and otherwise the value the
callback returns, `ue_stop` says whether the stop callback is present.  `ue_request` (control
transfers) and `ue_data` (data transfers, with the direction and the endpoint number) are
`none` for a `NULL` callback and otherwise what the callback makes of the transfer chain: the
chain as it leaves it and the backend status it returns. -/
structure usb_devemu where
  ue_usbver : Nat
  ue_usbspeed : Nat
  ue_reset : Option Int
  ue_stop : Bool
  ue_request : Option (usb_data_xfer → usb_data_xfer × Nat) := none
  ue_data : Option (usb_data_xfer → Nat → Nat → usb_data_xfer × Nat) := none

/-- An emulated device instance (`struct pci_xhci_dev_emu`).  `dev_ctx` is the guest address of
the output device context bound by ADDRESS_DEVICE. -/
structure pci_xhci_dev_emu where
  dev_ctx : Option Nat
  eps : Nat → pci_xhci_dev_ep
  dev_slotstate : Nat
  dev_ue : usb_devemu
  hci_address : Nat
  hci_port : Nat

/-- The port register set (`struct pci_xhci_portregs`). -/
structure pci_xhci_portregs where
  portsc : Nat
  portpmsc : Nat
  portli : Nat
  porthlpmc : Nat
deriving DecidableEq, Repr

/-- The operational registers (`struct pci_xhci_opregs`). -/
structure pci_xhci_opregs where
  usbcmd : Nat
  usbsts : Nat
  pgsz : Nat
  dnctrl : Nat
  crcr : Nat
  dcbaap : Nat
  config : Nat
  cr_p : Nat
  dcbaa_p : Option Nat
deriving DecidableEq, Repr

/-- The interrupter register set (`intrreg` of `struct pci_xhci_rtsregs`). -/
structure pci_xhci_intrreg where
  iman : Nat
  imod : Nat
  erstsz : Nat
  rsvd : Nat
  erstba : Nat
  erdp : Nat
deriving DecidableEq, Repr

/-- The runtime registers (`struct pci_xhci_rtsregs`).  `erstba_p` is `none` while the
pointer is `NULL`, that is until the guest writes the high dword of ERSTBA. -/
structure pci_xhci_rtsregs where
  mfindex : Nat
  intrreg : pci_xhci_intrreg
  erstba_p : Option Nat
  erst_p : Nat
  er_deq_seg : Nat
  er_enq_idx : Nat
  er_enq_seg : Nat
  er_events_cnt : Nat
  event_pcs : Nat
deriving DecidableEq, Repr

/-- A host device path (`struct usb_devpath` of the absent `usb_pmapper.h`). -/
structure usb_devpath where
  bus : Nat
  depth : Nat
  path : List Nat
deriving DecidableEq, Repr

/-- What the host reports about a device (`struct usb_native_devinfo`). -/
structure usb_native_devinfo where
  path : usb_devpath
  speed : Nat
  bcd : Nat
  type : Nat
  maxchild : Nat
deriving DecidableEq, Repr

/-- An entry of the native port table (`struct pci_xhci_native_port`). -/
structure pci_xhci_native_port where
  info : usb_native_devinfo
  vport : Nat
  state : Nat
deriving DecidableEq, Repr

/-- A saved port of the VBus-drop cache (`struct pci_xhci_vbdp_dev_state`). -/
structure pci_xhci_vbdp_dev_state where
  path : usb_devpath
  vport : Nat
  state : Nat
deriving DecidableEq, Repr

/-- What the PCI layer has been asked to do (`pci_generate_msi`, `pci_lintr_assert` on
`xsc_pi`), and whether MSI is enabled. -/
structure pci_devinst where
  msi_enabled : Bool
  msi_generated : Nat
  lintr_asserted : Nat
deriving DecidableEq, Repr

/-- The controller (`struct pci_xhci_softc`) together with the guest memory it reaches.
`devs` is the heap of device instances; `devices` (by port) and `slots` (by slot id) hold
indices into it, so that one instance can be reached from both as in the source.
`usb_dev_backend` is the host USB backend as `pci_xhci_dev_create` sees it: the device emulation
it sets up for a host device, `none` when `ue_init` or `ue_info` fails. -/
structure pci_xhci_softc where
  xsc_pi : pci_devinst
  dboff : Nat
  rtsoff : Nat
  regsend : Nat
  opregs : pci_xhci_opregs
  rtsregs : pci_xhci_rtsregs
  portregs : Option (Nat → pci_xhci_portregs)
  devs : Nat → pci_xhci_dev_emu
  devs_next : Nat
  devices : Nat → Option Nat
  slots : Nat → Option Nat
  slot_allocated : Nat → Bool
  ndevices : Nat
  usb2_port_start : Nat
  usb3_port_start : Nat
  vbdp_dev_num : Nat
  vbdp_devs : Nat → pci_xhci_vbdp_dev_state
  native_ports : Nat → pci_xhci_native_port
  trbmem : Nat → xhci_trb
  evmem : Nat → xhci_trb
  erstmem : Nat → xhci_event_ring_seg
  dcbaamem : Nat → Nat
  devctxmem : Nat → xhci_dev_ctx
  inctxmem : Nat → xhci_input_dev_ctx
  sctxmem : Nat → Nat
  usb_dev_backend : usb_native_devinfo → Option usb_devemu

/-- Pointwise update of a function of the guest address (a store to guest memory) or of an
index (a store to an array). -/
def upd {α : Type} (f : Nat → α) (i : Nat) (v : α) : Nat → α :=
  fun j => if j = i then v else f j

/-! ## Interrupter and event ring -/

/-- The source's `pci_xhci_assert_interrupt`: set ERDP.busy, IMAN.pend and USBSTS.EINT, and
deliver an interrupt if permitted. -/
def pci_xhci_assert_interrupt (sc : pci_xhci_softc) : pci_xhci_softc :=
  let sc1 : pci_xhci_softc :=
    { sc with
      rtsregs := { sc.rtsregs with
        intrreg := { sc.rtsregs.intrreg with
          erdp := sc.rtsregs.intrreg.erdp ||| XHCI_ERDP_LO_BUSY
          iman := sc.rtsregs.intrreg.iman ||| XHCI_IMAN_INTR_PEND } }
      opregs := { sc.opregs with usbsts := sc.opregs.usbsts ||| XHCI_STS_EINT } }
  if (sc1.opregs.usbcmd &&& XHCI_CMD_INTE) ≠ 0 ∧
      (sc1.rtsregs.intrreg.iman &&& XHCI_IMAN_INTR_ENA) ≠ 0 then
    if sc1.xsc_pi.msi_enabled then
      { sc1 with xsc_pi := { sc1.xsc_pi with msi_generated := sc1.xsc_pi.msi_generated + 1 } }
    else
      { sc1 with xsc_pi := { sc1.xsc_pi with lintr_asserted := sc1.xsc_pi.lintr_asserted + 1 } }
  else sc1

/-- The tail of `pci_xhci_insert_event` from the label `done`. -/
def insert_event_done (sc : pci_xhci_softc) (do_intr : Bool) (err : Nat) :
    pci_xhci_softc × Nat :=
  (if do_intr then pci_xhci_assert_interrupt sc else sc, err)

/-- The size of the event ring segment, `rts->erstba_p->dwEvrsTableSize`, for a pointer that
is not `NULL` (0 stands in where it is, a case in which no function of the model reads the
size). -/
def evrs_table_size (sc : pci_xhci_softc) : Nat :=
  match sc.rtsregs.erstba_p with
  | some p => (sc.erstmem p).dwEvrsTableSize
  | none => 0

/-- The guest address of the event ring segment, `rts->erstba_p->qwEvrsTablePtr`, for a pointer
that is not `NULL` (0 stands in where it is). -/
def evrs_table_ptr (sc : pci_xhci_softc) : Nat :=
  match sc.rtsregs.erstba_p with
  | some p => (sc.erstmem p).qwEvrsTablePtr
  | none => 0

/-- The guest address of entry `i` of the event ring segment, `&rts->erst_p[i]`. -/
def erst_entry (sc : pci_xhci_softc) (i : Nat) : Nat :=
  sc.rtsregs.erst_p + 16 * i

/-- The part of `pci_xhci_insert_event` that stores the caller's event: the cycle bit of the
event is replaced by `event_pcs`, the event is copied to entry `er_enq_idx`, the index advances
modulo the segment size and `event_pcs` is toggled when the index is 0 again. -/
def insert_event_store (sc : pci_xhci_softc) (evtrb : xhci_trb) (do_intr : Bool) :
    pci_xhci_softc × Nat :=
  let rts := sc.rtsregs
  let ev : xhci_trb :=
    { evtrb with dwTrb3 := (evtrb.dwTrb3 &&& NOT32 XHCI_TRB_3_CYCLE_BIT) ||| rts.event_pcs }
  let idx := (rts.er_enq_idx + 1) % evrs_table_size sc
  let pcs := if idx = 0 then rts.event_pcs ^^^ 1 else rts.event_pcs
  insert_event_done
    { sc with
      evmem := upd sc.evmem (erst_entry sc rts.er_enq_idx) ev
      rtsregs := { rts with er_enq_idx := idx, event_pcs := pcs } }
    do_intr XHCI_TRB_ERROR_SUCCESS

/-- The source's `pci_xhci_insert_event` from line 1235 on, that is once `erstba_p` has been
dereferenced: the new state and the completion code (`err`).  `er_events_cnt++` cannot wrap:
it is reached only with `er_events_cnt < dwEvrsTableSize`. -/
def insert_event_ring (sc : pci_xhci_softc) (evtrb : xhci_trb) (do_intr : Bool) :
    pci_xhci_softc × Nat :=
  let rts := sc.rtsregs
  let tblsz := evrs_table_size sc
  if rts.er_events_cnt ≥ tblsz then
    insert_event_done sc do_intr XHCI_TRB_ERROR_EV_RING_FULL
  else if rts.er_events_cnt = (tblsz + 2 ^ 32 - 1) % 2 ^ 32 then
    if (sc.evmem (erst_entry sc rts.er_enq_idx)).dwTrb3 &&& 0x1 = rts.event_pcs &&& 0x1 then
      let errev : xhci_trb :=
        { qwTrb0 := 0
          dwTrb2 := XHCI_TRB_2_ERROR_SET XHCI_TRB_ERROR_EV_RING_FULL
          dwTrb3 := XHCI_TRB_3_TYPE_SET XHCI_TRB_EVENT_HOST_CTRL ||| rts.event_pcs }
      insert_event_done
        { sc with
          evmem := upd sc.evmem (erst_entry sc rts.er_enq_idx) errev
          rtsregs := { rts with
            er_events_cnt := rts.er_events_cnt + 1
            er_enq_idx := (rts.er_enq_idx + 1) % tblsz } }
        true XHCI_TRB_ERROR_EV_RING_FULL
    else
      insert_event_store sc evtrb do_intr
  else
    insert_event_store
      { sc with rtsregs := { rts with er_events_cnt := rts.er_events_cnt + 1 } } evtrb do_intr

/-- The source's `pci_xhci_insert_event`: the new state and the completion code (`err`);
`none` when `erstba_p` is `NULL`, which the function dereferences before anything else
(`rts->erstba_p[rts->er_deq_seg].qwEvrsTablePtr`, for the index that it only prints). -/
def pci_xhci_insert_event (sc : pci_xhci_softc) (evtrb : xhci_trb) (do_intr : Bool) :
    Option (pci_xhci_softc × Nat) :=
  match sc.rtsregs.erstba_p with
  | none => none
  | some _ => some (insert_event_ring sc evtrb do_intr)

/-! ## Port registers -/

/-- Modelled from the spec: `XHCI_MAX_DEVICES` of the absent `xhci.h`
(`MIN(USB_MAX_DEVICES, 128)`), the size of the native port table. -/
def XHCI_MAX_DEVICES : Nat := 128

/-- Modelled from the spec: PORTSC.CCS, current connect status, bit 0. -/
def XHCI_PS_CCS : Nat := 0x1
/-- Modelled from the spec: PORTSC.PED, port enabled, bit 1. -/
def XHCI_PS_PED : Nat := 0x2
/-- Modelled from the spec: PORTSC.OCA, over-current active, bit 3. -/
def XHCI_PS_OCA : Nat := 0x8
/-- Modelled from the spec: PORTSC.PR, port reset, bit 4. -/
def XHCI_PS_PR : Nat := 0x10
/-- Modelled from the spec: PORTSC.PP, port power, bit 9 (`PP | PLS(RxDetect) = 0x02A0`). -/
def XHCI_PS_PP : Nat := 0x200
/-- Modelled from the spec: PORTSC.LWS, link state write strobe, bit 16. -/
def XHCI_PS_LWS : Nat := 0x10000
/-- Modelled from the spec: PORTSC.CSC, connect status change, bit 17. -/
def XHCI_PS_CSC : Nat := 0x20000
/-- Modelled from the spec: PORTSC.PEC, port enable change, bit 18. -/
def XHCI_PS_PEC : Nat := 0x40000
/-- Modelled from the spec: PORTSC.WRC, warm reset change, bit 19. -/
def XHCI_PS_WRC : Nat := 0x80000
/-- Modelled from the spec: PORTSC.OCC, over-current change, bit 20. -/
def XHCI_PS_OCC : Nat := 0x100000
/-- Modelled from the spec: PORTSC.PRC, port reset change, bit 21. -/
def XHCI_PS_PRC : Nat := 0x200000
/-- Modelled from the spec: PORTSC.PLC, port link state change, bit 22. -/
def XHCI_PS_PLC : Nat := 0x400000
/-- Modelled from the spec: PORTSC.CEC, config error change, bit 23. -/
def XHCI_PS_CEC : Nat := 0x800000
/-- Modelled from the spec: PORTSC.CAS, cold attach status, bit 24. -/
def XHCI_PS_CAS : Nat := 0x1000000
/-- Modelled from the spec: PORTSC.DR, device removable, bit 30. -/
def XHCI_PS_DR : Nat := 0x40000000
/-- Modelled from the spec: PORTSC.WPR, warm port reset, bit 31. -/
def XHCI_PS_WPR : Nat := 0x80000000
/-- Modelled from the spec: `XHCI_PS_PLS_GET`, the port link state, bits 5..8. -/
def XHCI_PS_PLS_GET (x : Nat) : Nat := (x >>> 5) &&& 0xF
/-- Modelled from the spec: `XHCI_PS_PLS_SET`, the port link state, bits 5..8. -/
def XHCI_PS_PLS_SET (x : Nat) : Nat := (x &&& 0xF) <<< 5
/-- The source's `XHCI_PS_PLS_MASK`, `0xF << 5`. -/
def XHCI_PS_PLS_MASK : Nat := 0xF <<< 5
/-- The source's `XHCI_PS_SPEED_MASK`, `0xF << 10`. -/
def XHCI_PS_SPEED_MASK : Nat := 0xF <<< 10
/-- The source's `XHCI_PS_PIC_MASK`, `0x3 << 14`. -/
def XHCI_PS_PIC_MASK : Nat := 0x3 <<< 14
/-- The source's `XHCI_PS_SPEED_SET`. -/
def XHCI_PS_SPEED_SET (x : Nat) : Nat := (x &&& 0xF) <<< 10
/-- Modelled from the spec: link state U0 (`UPS_PORT_LS_U0` of the absent `usb.h`). -/
def UPS_PORT_LS_U0 : Nat := 0x00
/-- Modelled from the spec: link state RxDetect (`UPS_PORT_LS_RX_DET`), 5. -/
def UPS_PORT_LS_RX_DET : Nat := 0x05
/-- Modelled from the spec: link state Polling (`UPS_PORT_LS_POLL`), 7. -/
def UPS_PORT_LS_POLL : Nat := 0x07

/-- The source's port mapping state `VPORT_FREE`. -/
def VPORT_FREE : Nat := 0
/-- The source's port mapping state `VPORT_ASSIGNED`. -/
def VPORT_ASSIGNED : Nat := 1
/-- The source's port mapping state `VPORT_CONNECTED`. -/
def VPORT_CONNECTED : Nat := 2
/-- The source's port mapping state `VPORT_EMULATED`. -/
def VPORT_EMULATED : Nat := 3

/-- The source's `S3_VBDP_NONE`. -/
def S3_VBDP_NONE : Nat := 0
/-- The source's `S3_VBDP_START`. -/
def S3_VBDP_START : Nat := 1
/-- The source's `S3_VBDP_END`. -/
def S3_VBDP_END : Nat := 2

/-- Modelled from the spec: slot state Disabled (`XHCI_ST_DISABLED` of the absent `xhci.h`). -/
def XHCI_ST_DISABLED : Nat := 0
/-- Modelled from the spec: slot state Enabled (`XHCI_ST_ENABLED`). -/
def XHCI_ST_ENABLED : Nat := 1
/-- Modelled from the spec: slot state Default (`XHCI_ST_DEFAULT`). -/
def XHCI_ST_DEFAULT : Nat := 2
/-- Modelled from the spec: slot state Addressed (`XHCI_ST_ADDRESSED`). -/
def XHCI_ST_ADDRESSED : Nat := 3
/-- Modelled from the spec: slot state Configured (`XHCI_ST_CONFIGURED`). -/
def XHCI_ST_CONFIGURED : Nat := 4

/-- The source's `pci_xhci_set_evtrb`. -/
def pci_xhci_set_evtrb (port errcode evtype : Nat) : xhci_trb :=
  { qwTrb0 := (port <<< 24) % 2 ^ 64
    dwTrb2 := XHCI_TRB_2_ERROR_SET errcode
    dwTrb3 := XHCI_TRB_3_TYPE_SET evtype }

/-- The source's `pci_xhci_is_vport_free`: true when some native port is mapped to `portnum`. -/
def pci_xhci_is_vport_free (xdev : pci_xhci_softc) (portnum : Nat) : Bool :=
  (List.range XHCI_MAX_DEVICES).any fun i => (xdev.native_ports i).vport = portnum

/-- The source's `pci_xhci_init_port`; `none` when `portregs` is `NULL`. -/
def pci_xhci_init_port (sc : pci_xhci_softc) (portn : Nat) : Option pci_xhci_softc :=
  match sc.portregs with
  | none => none
  | some pr =>
    let portsc :=
      match sc.devices portn with
      | some d =>
        let ue := (sc.devs d).dev_ue
        if ue.ue_usbver = 2 then
          (XHCI_PS_CCS ||| XHCI_PS_PP) |||
            (XHCI_PS_PLS_SET UPS_PORT_LS_POLL ||| XHCI_PS_SPEED_SET ue.ue_usbspeed)
        else
          (XHCI_PS_CCS ||| XHCI_PS_PP) |||
            (XHCI_PS_PLS_SET UPS_PORT_LS_U0 ||| XHCI_PS_PED ||| XHCI_PS_SPEED_SET ue.ue_usbspeed)
      | none => XHCI_PS_PLS_SET UPS_PORT_LS_RX_DET ||| XHCI_PS_PP
    some { sc with portregs := some (upd pr portn { pr portn with portsc := portsc }) }

/-- The source's `pci_xhci_reset_port`; `none` when `portregs` is `NULL`, when the assertion
on the port number fails or when `pci_xhci_insert_event` does not return. -/
def pci_xhci_reset_port (sc : pci_xhci_softc) (portn : Nat) (warm : Bool) :
    Option pci_xhci_softc :=
  if portn > XHCI_MAX_DEVS then none
  else
    match sc.devices portn with
    | none => some sc
    | some d =>
      match sc.portregs with
      | none => none
      | some pr =>
        let ue := (sc.devs d).dev_ue
        let p0 := (pr portn).portsc &&& NOT32 (XHCI_PS_PLS_MASK ||| XHCI_PS_PR ||| XHCI_PS_PRC)
        let p1 := p0 ||| (XHCI_PS_PED ||| XHCI_PS_SPEED_SET ue.ue_usbspeed)
        let p2 := if warm ∧ ue.ue_usbver = 3 then p1 ||| XHCI_PS_WRC else p1
        if p2 &&& XHCI_PS_PRC = 0 then
          let p3 := p2 ||| XHCI_PS_PRC
          let sc1 : pci_xhci_softc :=
            { sc with portregs := some (upd pr portn { pr portn with portsc := p3 }) }
          (pci_xhci_insert_event sc1
            (pci_xhci_set_evtrb portn XHCI_TRB_ERROR_SUCCESS XHCI_TRB_EVENT_PORT_STS_CHANGE)
            true).map fun r => r.1
        else
          some { sc with portregs := some (upd pr portn { pr portn with portsc := p2 }) }

/-- The source's `pci_xhci_portregs_write`, `offset` relative to the operational registers
(at least `0x400`); `none` when `pci_xhci_reset_port` or `pci_xhci_insert_event` does not
return. -/
def pci_xhci_portregs_write (sc : pci_xhci_softc) (offset value : Nat) :
    Option pci_xhci_softc :=
  match sc.portregs with
  | none => some sc
  | some pr =>
    let port := (offset - 0x3F0) / 0x10
    let off := (offset - 0x3F0) % 0x10
    if port > XHCI_MAX_DEVS then some sc
    else
      let p := pr port
      if off = 0 then
        if value &&& (XHCI_PS_PR ||| XHCI_PS_WPR) ≠ 0 then
          pci_xhci_reset_port sc port (value &&& XHCI_PS_WPR ≠ 0)
        else if p.portsc &&& XHCI_PS_PP = 0 then some sc
        else
          let oldpls := XHCI_PS_PLS_GET p.portsc
          let newpls := XHCI_PS_PLS_GET value
          let v0 := p.portsc &&&
            (XHCI_PS_PED ||| XHCI_PS_PLS_MASK ||| XHCI_PS_SPEED_MASK ||| XHCI_PS_PIC_MASK)
          let v1 :=
            if (sc.devices port).isSome ∨ pci_xhci_is_vport_free sc port = true then
              v0 ||| XHCI_PS_CCS
            else v0
          let v2 := v1 ||| ((value &&& NOT32
            (XHCI_PS_OCA ||| XHCI_PS_PR ||| XHCI_PS_PED ||| XHCI_PS_PLS_MASK |||
              XHCI_PS_SPEED_MASK ||| XHCI_PS_PIC_MASK ||| XHCI_PS_LWS ||| XHCI_PS_DR |||
              XHCI_PS_WPR)) % 2 ^ 32)
          let v3 := v2 &&& NOT32 (value &&&
            (XHCI_PS_CSC ||| XHCI_PS_PEC ||| XHCI_PS_WRC ||| XHCI_PS_OCC ||| XHCI_PS_PRC |||
              XHCI_PS_PLC ||| XHCI_PS_CEC ||| XHCI_PS_CAS))
          let setp (v : Nat) : pci_xhci_softc :=
            { sc with portregs := some (upd pr port { p with portsc := v }) }
          if value &&& XHCI_PS_LWS = 0 then some (setp v3)
          else if newpls = 0 ∨ newpls = 3 then
            if oldpls ≠ newpls then
              let v4 := (v3 &&& NOT32 XHCI_PS_PLS_MASK) |||
                (XHCI_PS_PLS_SET newpls ||| XHCI_PS_PLC)
              if oldpls ≠ 0 ∧ newpls = 0 then
                (pci_xhci_insert_event (setp v4)
                  (pci_xhci_set_evtrb port XHCI_TRB_ERROR_SUCCESS
                    XHCI_TRB_EVENT_PORT_STS_CHANGE) true).map fun r => r.1
              else some (setp v4)
            else some (setp v3)
          else some (setp v3)
      else if off = 4 then
        some { sc with portregs := some (upd pr port { p with portpmsc := value % 2 ^ 32 }) }
      else if off = 8 then some sc
      else if off = 12 then
        some { sc with portregs := some (upd pr port { p with porthlpmc := value % 2 ^ 32 }) }
      else some sc

/-! ## Controller reset and USBCMD -/

/-- The source's `pci_xhci_reset_slot`. -/
def pci_xhci_reset_slot (sc : pci_xhci_softc) (slot : Nat) : pci_xhci_softc :=
  match sc.slots slot with
  | none => sc
  | some d =>
    { sc with devs := upd sc.devs d { sc.devs d with dev_slotstate := XHCI_ST_DISABLED } }

/-- The source's `pci_xhci_reset` (controller reset): the loop runs `i = 1 .. XHCI_MAX_SLOTS`. -/
def pci_xhci_reset (sc : pci_xhci_softc) : pci_xhci_softc :=
  let sc1 : pci_xhci_softc :=
    { sc with rtsregs := { sc.rtsregs with er_enq_idx := 0, er_events_cnt := 0, event_pcs := 1 } }
  (List.range' 1 XHCI_MAX_SLOTS).foldl pci_xhci_reset_slot sc1

/-- The loop of `pci_xhci_usbcmd_write` that queues a port change event for every attached
device when the controller goes from stopped to running (`i` runs over the list, the loop is
left at the first failed insertion); `none` when `portregs` is `NULL` or
`pci_xhci_insert_event` does not return. -/
def usbcmd_run_ports (sc : pci_xhci_softc) : List Nat → Option pci_xhci_softc
  | [] => some sc
  | i :: rest =>
    match sc.devices i with
    | none => usbcmd_run_ports sc rest
    | some d =>
      match sc.portregs with
      | none => none
      | some pr =>
        let p0 := (pr i).portsc ||| (XHCI_PS_CSC ||| XHCI_PS_CCS)
        let p1 := p0 &&& NOT32 XHCI_PS_PLS_MASK
        let p2 :=
          if (sc.devs d).dev_ue.ue_usbver = 2 then p1 ||| XHCI_PS_PLS_SET UPS_PORT_LS_POLL
          else p1 ||| XHCI_PS_PLS_SET UPS_PORT_LS_U0
        let sc1 : pci_xhci_softc :=
          { sc with portregs := some (upd pr i { pr i with portsc := p2 }) }
        match pci_xhci_insert_event sc1
          (pci_xhci_set_evtrb i XHCI_TRB_ERROR_SUCCESS XHCI_TRB_EVENT_PORT_STS_CHANGE) false with
        | none => none
        | some r =>
          if r.2 ≠ XHCI_TRB_ERROR_SUCCESS then some r.1 else usbcmd_run_ports r.1 rest

/-- The save-state loop of `pci_xhci_usbcmd_write` (USBCMD.CSS) over the native port table. -/
def usbcmd_save_ports (sc : pci_xhci_softc) : List Nat → Option pci_xhci_softc
  | [] => some sc
  | i :: rest =>
    let p := sc.native_ports i
    if p.state = VPORT_EMULATED then
      let sc1 : pci_xhci_softc :=
        { sc with
          vbdp_devs :=
            upd sc.vbdp_devs i { path := p.info.path, vport := p.vport, state := S3_VBDP_START }
          vbdp_dev_num := sc.vbdp_dev_num + 1 }
      match pci_xhci_init_port sc1 p.vport with
      | none => none
      | some sc2 =>
        usbcmd_save_ports
          { sc2 with
            native_ports :=
              upd sc2.native_ports i { p with vport := 0, state := VPORT_ASSIGNED } }
          rest
    else usbcmd_save_ports sc rest

/-- The source's `pci_xhci_usbcmd_write`: returns the new state and the value the caller stores
in USBCMD; `none` when `portregs` is `NULL` where it is dereferenced or
`pci_xhci_insert_event` does not return. -/
def pci_xhci_usbcmd_write (sc : pci_xhci_softc) (cmd : Nat) : Option (pci_xhci_softc × Nat) :=
  let do_intr : Bool := cmd &&& XHCI_CMD_RS ≠ 0 ∧ sc.opregs.usbcmd &&& XHCI_CMD_RS = 0
  let sc1? : Option pci_xhci_softc :=
    if cmd &&& XHCI_CMD_RS ≠ 0 then
      let s : pci_xhci_softc :=
        { sc with opregs := { sc.opregs with
            usbcmd := sc.opregs.usbcmd ||| XHCI_CMD_RS
            usbsts := (sc.opregs.usbsts &&& NOT32 XHCI_STS_HCH) ||| XHCI_STS_PCD } }
      if do_intr then usbcmd_run_ports s (List.range' 1 XHCI_MAX_DEVS) else some s
    else
      some { sc with opregs := { sc.opregs with
          usbcmd := sc.opregs.usbcmd &&& NOT32 XHCI_CMD_RS
          usbsts := (sc.opregs.usbsts ||| XHCI_STS_HCH) &&& NOT32 XHCI_STS_PCD } }
  match sc1? with
  | none => none
  | some sc1 =>
    let cmd1 := cmd ||| (sc1.opregs.usbcmd &&& XHCI_CMD_RS)
    let sc2 := if cmd1 &&& XHCI_CMD_HCRST ≠ 0 then pci_xhci_reset sc1 else sc1
    let cmd2 := if cmd1 &&& XHCI_CMD_HCRST ≠ 0 then cmd1 &&& NOT32 XHCI_CMD_HCRST else cmd1
    let sc3? : Option pci_xhci_softc :=
      if cmd2 &&& XHCI_CMD_CSS ≠ 0 then
        usbcmd_save_ports
          { sc2 with
            vbdp_dev_num := 0
            vbdp_devs := fun _ =>
              { path := { bus := 0, depth := 0, path := [] }, vport := 0, state := 0 } }
          (List.range XHCI_MAX_DEVICES)
      else some sc2
    match sc3? with
    | none => none
    | some sc3 =>
      let cmd3 := cmd2 &&& NOT32 (XHCI_CMD_CSS ||| XHCI_CMD_CRS)
      some (if do_intr then pci_xhci_assert_interrupt sc3 else sc3, cmd3)

/-! ## Runtime registers -/

/-- The source's `pci_xhci_deassert_interrupt` (it calls `pci_lintr_assert`, as the source
does). -/
def pci_xhci_deassert_interrupt (sc : pci_xhci_softc) : pci_xhci_softc :=
  if sc.xsc_pi.msi_enabled then sc
  else { sc with xsc_pi := { sc.xsc_pi with lintr_asserted := sc.xsc_pi.lintr_asserted + 1 } }

/-- The source's `pci_xhci_rtsregs_write`; `offset` is the offset in the BAR, the two
subtractions wrap as on a `uint64_t`.  `none` when the write of the high dword of ERDP finds
events in the ring and `erstba_p` is `NULL`. -/
def pci_xhci_rtsregs_write (sc : pci_xhci_softc) (offset value : Nat) :
    Option pci_xhci_softc :=
  let off0 := (offset + 2 ^ 64 - sc.rtsoff) % 2 ^ 64
  if off0 = 0 then some sc
  else
    let off := (off0 + 2 ^ 64 - 0x20) % 2 ^ 64
    let rts := sc.rtsregs
    let ir := rts.intrreg
    if off = 0x00 then
      let iman1 :=
        if value &&& XHCI_IMAN_INTR_PEND ≠ 0 then ir.iman &&& NOT32 XHCI_IMAN_INTR_PEND
        else ir.iman
      let iman2 := (value &&& XHCI_IMAN_INTR_ENA) ||| (iman1 &&& XHCI_IMAN_INTR_PEND)
      let sc1 : pci_xhci_softc :=
        { sc with rtsregs := { rts with intrreg := { ir with iman := iman2 } } }
      some (if value &&& XHCI_IMAN_INTR_ENA = 0 then pci_xhci_deassert_interrupt sc1 else sc1)
    else if off = 0x04 then
      some { sc with rtsregs := { rts with intrreg := { ir with imod := value % 2 ^ 32 } } }
    else if off = 0x08 then
      some { sc with rtsregs := { rts with intrreg := { ir with erstsz := value &&& 0xFFFF } } }
    else if off = 0x10 then
      some { sc with rtsregs := { rts with intrreg := { ir with
          erstba := MASK_64_HI ir.erstba ||| (value &&& 0xFFFFFFFFFFFFFFC0) } } }
    else if off = 0x14 then
      let erstba := ((value <<< 32) % 2 ^ 64) ||| MASK_64_LO ir.erstba
      let erstba_p := erstba &&& 0xFFFFFFFFFFFFFFC0
      let erst_p := (sc.erstmem erstba_p).qwEvrsTablePtr &&& 0xFFFFFFFFFFFFFFC0
      some { sc with rtsregs := { rts with
          intrreg := { ir with erstba := erstba }
          erstba_p := some erstba_p
          erst_p := erst_p
          er_enq_idx := 0
          er_events_cnt := 0 } }
    else if off = 0x18 then
      let erdp1 := MASK_64_HI ir.erdp ||| (ir.erdp &&& XHCI_ERDP_LO_BUSY) ||| MASK_NOT_F value
      let busy : Bool := value &&& XHCI_ERDP_LO_BUSY ≠ 0
      let erdp2 := if busy then erdp1 &&& NOT64 XHCI_ERDP_LO_BUSY else erdp1
      let iman2 := if busy then ir.iman &&& NOT32 XHCI_IMAN_INTR_PEND else ir.iman
      some { sc with rtsregs := { rts with
          intrreg := { ir with erdp := erdp2, iman := iman2 }
          er_deq_seg := XHCI_ERDP_LO_SINDEX value } }
    else if off = 0x1C then
      let erdp1 := ((value <<< 32) % 2 ^ 64) ||| MASK_64_LO ir.erdp
      if rts.er_events_cnt > 0 ∧ rts.erstba_p.isNone then none
      else
        let cnt :=
          if rts.er_events_cnt > 0 then
            let erdp := MASK_NOT_F erdp1
            let erdp_i :=
              (((erdp + 2 ^ 64 - evrs_table_ptr sc) % 2 ^ 64) / 16) % 2 ^ 32
            if erdp_i ≤ rts.er_enq_idx then
              (rts.er_enq_idx + 2 ^ 32 - erdp_i) % 2 ^ 32
            else
              (evrs_table_size sc + 2 ^ 32 - (erdp_i - rts.er_enq_idx)) % 2 ^ 32
          else rts.er_events_cnt
        some { sc with rtsregs := { rts with
            intrreg := { ir with erdp := erdp1 }
            er_events_cnt := cnt } }
    else some sc

/-! ## Operational registers -/

/-- Modelled from the spec: USBSTS.SSS, save state status, bit 8. -/
def XHCI_STS_SSS : Nat := 0x100
/-- Modelled from the spec: USBSTS.RSS, restore state status, bit 9. -/
def XHCI_STS_RSS : Nat := 0x200
/-- Modelled from the spec: USBSTS.SRE, save/restore error, bit 10. -/
def XHCI_STS_SRE : Nat := 0x400
/-- Modelled from the spec: USBSTS.CNR, controller not ready, bit 11. -/
def XHCI_STS_CNR : Nat := 0x800

/-- The source's `XHCI_CAPLEN`, the offset of the operational registers (`4*8`). -/
def XHCI_CAPLEN : Nat := 4 * 8

/-- The source's `pci_xhci_hostop_write`; `offset` is the offset in the BAR.  The register
offsets (`XHCI_USBCMD` 0x00, `XHCI_USBSTS` 0x04, `XHCI_PAGESIZE` 0x08, `XHCI_DNCTRL` 0x14,
`XHCI_CRCR_LO` 0x18, `XHCI_CRCR_HI` 0x1C, `XHCI_DCBAAP_LO` 0x30, `XHCI_DCBAAP_HI` 0x34,
`XHCI_CONFIG` 0x38) are those of the register layout of the spec. -/
def pci_xhci_hostop_write (sc : pci_xhci_softc) (offset value : Nat) : Option pci_xhci_softc :=
  let off := (offset + 2 ^ 64 - XHCI_CAPLEN) % 2 ^ 64
  let op := sc.opregs
  if off = 0x00 then
    match pci_xhci_usbcmd_write sc (value &&& 0x3F0F) with
    | none => none
    | some (sc1, cmd) => some { sc1 with opregs := { sc1.opregs with usbcmd := cmd } }
  else if off = 0x04 then
    some { sc with opregs := { op with
      usbsts := op.usbsts &&& NOT32 (value &&&
        (XHCI_STS_HSE ||| XHCI_STS_EINT ||| XHCI_STS_PCD ||| XHCI_STS_SSS ||| XHCI_STS_RSS |||
          XHCI_STS_SRE ||| XHCI_STS_CNR)) } }
  else if off = 0x08 then some sc
  else if off = 0x14 then
    some { sc with opregs := { op with dnctrl := value &&& 0xFFFF } }
  else if off = 0x18 then
    if op.crcr &&& XHCI_CRCR_LO_CRR ≠ 0 then
      some { sc with opregs := { op with
        crcr := (op.crcr &&& NOT64 (XHCI_CRCR_LO_CS ||| XHCI_CRCR_LO_CA)) |||
          (value &&& (XHCI_CRCR_LO_CS ||| XHCI_CRCR_LO_CA)) } }
    else
      some { sc with opregs := { op with
        crcr := MASK_64_HI op.crcr ||| (value &&& (0xFFFFFFC0 ||| XHCI_CRCR_LO_RCS)) } }
  else if off = 0x1C then
    if op.crcr &&& XHCI_CRCR_LO_CRR = 0 then
      let crcr := MASK_64_LO op.crcr ||| ((value <<< 32) % 2 ^ 64)
      some { sc with opregs := { op with crcr := crcr, cr_p := MASK_NOT_F crcr } }
    else some sc
  else if off = 0x30 then
    some { sc with opregs := { op with
      dcbaap := MASK_64_HI op.dcbaap ||| (value &&& 0xFFFFFFC0) } }
  else if off = 0x34 then
    let dcbaap := MASK_64_LO op.dcbaap ||| ((value <<< 32) % 2 ^ 64)
    some { sc with opregs := { op with
      dcbaap := dcbaap, dcbaa_p := some (dcbaap &&& 0xFFFFFFFFFFFFFFC0) } }
  else if off = 0x38 then
    some { sc with opregs := { op with config := value &&& 0x03FF } }
  else if off ≥ 0x400 then pci_xhci_portregs_write sc off value
  else some sc

/-! ## Slot commands -/

/-- The source's `FIELD_REPLACE(a,b,m,s)` on a `uint32_t`. -/
def FIELD_REPLACE (a b m s : Nat) : Nat := (a &&& NOT32 (m <<< s)) ||| (((b &&& m) <<< s) % 2 ^ 32)

/-- The source's `FIELD_COPY(a,b,m,s)` on a `uint32_t`. -/
def FIELD_COPY (a b m s : Nat) : Nat := (a &&& NOT32 (m <<< s)) ||| (b &&& ((m <<< s) % 2 ^ 32))

/-- Modelled from the spec: slot-context state Default (`XHCI_ST_SLCTX_DEFAULT`). -/
def XHCI_ST_SLCTX_DEFAULT : Nat := 1
/-- Modelled from the spec: slot-context state Addressed (`XHCI_ST_SLCTX_ADDRESSED`). -/
def XHCI_ST_SLCTX_ADDRESSED : Nat := 2
/-- Modelled from the spec: slot-context state Configured (`XHCI_ST_SLCTX_CONFIGURED`). -/
def XHCI_ST_SLCTX_CONFIGURED : Nat := 3
/-- Modelled from the spec: endpoint state Disabled (`XHCI_ST_EPCTX_DISABLED`). -/
def XHCI_ST_EPCTX_DISABLED : Nat := 0
/-- Modelled from the spec: endpoint state Running (`XHCI_ST_EPCTX_RUNNING`). -/
def XHCI_ST_EPCTX_RUNNING : Nat := 1
/-- Modelled from the spec: endpoint state Halted (`XHCI_ST_EPCTX_HALTED`). -/
def XHCI_ST_EPCTX_HALTED : Nat := 2
/-- Modelled from the spec: endpoint state Stopped (`XHCI_ST_EPCTX_STOPPED`). -/
def XHCI_ST_EPCTX_STOPPED : Nat := 3
/-- Modelled from the spec: endpoint state Error (`XHCI_ST_EPCTX_ERROR`). -/
def XHCI_ST_EPCTX_ERROR : Nat := 4

/-- The first loop of `pci_xhci_cmd_enable_slot`: the first slot id of the list whose device is
in state Disabled. -/
def enable_slot_find_dev (sc : pci_xhci_softc) : List Nat → Option (Nat × Nat)
  | [] => none
  | i :: rest =>
    match sc.slots i with
    | some d =>
      if (sc.devs d).dev_slotstate = XHCI_ST_DISABLED then some (i, d)
      else enable_slot_find_dev sc rest
    | none => enable_slot_find_dev sc rest

/-- The second loop of `pci_xhci_cmd_enable_slot`: the value of `i` when the loop
`for (i = 1; i <= XHCI_MAX_SLOTS; i++) if (sc->slot_allocated[i] == false) break;` is left. -/
def enable_slot_scan (sc : pci_xhci_softc) : Nat :=
  ((List.range' 1 XHCI_MAX_SLOTS).find? fun i => sc.slot_allocated i = false).getD
    (XHCI_MAX_SLOTS + 1)

/-- The source's `pci_xhci_cmd_enable_slot`.  `slot` is the value of `*slot` on entry; the
result is the new state, the completion code and the value of `*slot` on return. -/
def pci_xhci_cmd_enable_slot (sc : pci_xhci_softc) (slot : Nat) :
    pci_xhci_softc × Nat × Nat :=
  let r1 : pci_xhci_softc × Nat × Nat :=
    if sc.portregs.isSome then
      match enable_slot_find_dev sc (List.range' 1 XHCI_MAX_SLOTS) with
      | some (i, d) =>
        ({ sc with
            devs := upd sc.devs d
              { sc.devs d with dev_slotstate := XHCI_ST_ENABLED, hci_address := i } },
          XHCI_TRB_ERROR_SUCCESS, i)
      | none => (sc, XHCI_TRB_ERROR_NO_SLOTS, slot)
    else (sc, XHCI_TRB_ERROR_NO_SLOTS, slot)
  let sc1 := r1.1
  let i := enable_slot_scan sc1
  if i < XHCI_MAX_SLOTS then
    ({ sc1 with slot_allocated := upd sc1.slot_allocated i true }, XHCI_TRB_ERROR_SUCCESS, i)
  else r1

/-- The source's `pci_xhci_cmd_disable_slot`. -/
def pci_xhci_cmd_disable_slot (sc : pci_xhci_softc) (slot : Nat) : pci_xhci_softc × Nat :=
  if sc.portregs.isNone then (sc, XHCI_TRB_ERROR_NO_SLOTS)
  else if slot > sc.ndevices then (sc, XHCI_TRB_ERROR_SLOT_NOT_ON)
  else
    match sc.slots slot with
    | some d =>
      if (sc.devs d).dev_slotstate = XHCI_ST_DISABLED then (sc, XHCI_TRB_ERROR_SLOT_NOT_ON)
      else
        ({ sc with devs := upd sc.devs d { sc.devs d with dev_slotstate := XHCI_ST_DISABLED } },
          XHCI_TRB_ERROR_SUCCESS)
    | none => (sc, XHCI_TRB_ERROR_NO_SLOTS)

/-- The source's `pci_xhci_get_dev_ctx`: `none` when an assertion fails, `some none` for a
`NULL` result, else the guest address of the device context. -/
def pci_xhci_get_dev_ctx (sc : pci_xhci_softc) (slot : Nat) : Option (Option Nat) :=
  if ¬ (slot > 0 ∧ slot ≤ sc.ndevices) then none
  else
    match sc.opregs.dcbaa_p with
    | none => none
    | some dp =>
      if sc.slot_allocated slot = false then some none
      else
        let devctx_addr := sc.dcbaamem (dp + 8 * slot)
        if devctx_addr = 0 then some none
        else some (some (devctx_addr &&& 0xFFFFFFFFFFFFFFC0))

/-- The loop of `pci_xhci_cmd_reset_device` over the endpoint contexts `2..31`. -/
def reset_device_eps (ctx : xhci_dev_ctx) : xhci_dev_ctx :=
  { ctx with ctx_ep := fun i =>
      if 2 ≤ i ∧ i ≤ 31 then
        { ctx.ctx_ep i with
          dwEpCtx0 := FIELD_REPLACE (ctx.ctx_ep i).dwEpCtx0 XHCI_ST_EPCTX_DISABLED 0x7 0 }
      else ctx.ctx_ep i }

/-- The source's `pci_xhci_cmd_reset_device`; `none` when `pci_xhci_get_dev_ctx` aborts or
returns `NULL` (which the source dereferences). -/
def pci_xhci_cmd_reset_device (sc : pci_xhci_softc) (slot : Nat) :
    Option (pci_xhci_softc × Nat) :=
  if sc.portregs.isNone then some (sc, XHCI_TRB_ERROR_NO_SLOTS)
  else
    match sc.slots slot with
    | none => some (pci_xhci_reset_slot sc slot, XHCI_TRB_ERROR_SLOT_NOT_ON)
    | some d =>
      if (sc.devs d).dev_slotstate = XHCI_ST_DISABLED then
        some (pci_xhci_reset_slot sc slot, XHCI_TRB_ERROR_SLOT_NOT_ON)
      else
        let sc1 : pci_xhci_softc :=
          { sc with
            devs := upd sc.devs d
              { sc.devs d with dev_slotstate := XHCI_ST_DEFAULT, hci_address := 0 } }
        match pci_xhci_get_dev_ctx sc1 slot with
        | some (some a) =>
          let ctx := sc1.devctxmem a
          let ctx1 : xhci_dev_ctx :=
            { ctx with ctx_slot := { ctx.ctx_slot with
                dwSctx3 := FIELD_REPLACE ctx.ctx_slot.dwSctx3 XHCI_ST_SLCTX_DEFAULT 0x1F 27
                dwSctx0 := FIELD_REPLACE ctx.ctx_slot.dwSctx0 1 0x1F 27 } }
          let sc2 : pci_xhci_softc :=
            { sc1 with devctxmem := upd sc1.devctxmem a (reset_device_eps ctx1) }
          some (pci_xhci_reset_slot sc2 slot, XHCI_TRB_ERROR_SUCCESS)
        | _ => none

/-! ## Endpoint set-up -/

/-- Modelled from the spec: `XHCI_EPCTX_0_EPSTATE_GET` of the absent `xhci.h`, bits 0..2. -/
def XHCI_EPCTX_0_EPSTATE_GET (x : Nat) : Nat := x &&& 0x7
/-- Modelled from the spec: `XHCI_EPCTX_0_EPSTATE_SET` of the absent `xhci.h`, bits 0..2. -/
def XHCI_EPCTX_0_EPSTATE_SET (x : Nat) : Nat := x &&& 0x7
/-- Modelled from the spec: `XHCI_EPCTX_0_MAXP_STREAMS_GET` of the absent `xhci.h`,
bits 10..14. -/
def XHCI_EPCTX_0_MAXP_STREAMS_GET (x : Nat) : Nat := (x >>> 10) &&& 0x1F
/-- Modelled from the spec: `XHCI_EPCTX_0_LSA_GET` of the absent `xhci.h`, bit 15. -/
def XHCI_EPCTX_0_LSA_GET (x : Nat) : Nat := (x >>> 15) &&& 0x1
/-- Modelled from the spec: `XHCI_EPCTX_1_EPTYPE_GET` of the absent `xhci.h`, bits 3..5. -/
def XHCI_EPCTX_1_EPTYPE_GET (x : Nat) : Nat := (x >>> 3) &&& 0x7
/-- Modelled from the spec: `XHCI_EPCTX_2_DCS_GET` of the absent `xhci.h`, bit 0. -/
def XHCI_EPCTX_2_DCS_GET (x : Nat) : Nat := x &&& 0x1
/-- Modelled from the spec: `XHCI_SCTX_0_SCT_GET` of the absent `xhci.h`, bits 1..3. -/
def XHCI_SCTX_0_SCT_GET (x : Nat) : Nat := (x >>> 1) &&& 0x7
/-- Modelled from the spec: `XHCI_SCTX_0_DCS_GET` of the absent `xhci.h`, bit 0. -/
def XHCI_SCTX_0_DCS_GET (x : Nat) : Nat := x &&& 0x1
/-- Modelled from the spec: `XHCI_SCTX_1_RH_PORT_GET` of the absent `xhci.h`, bits 16..23 of
slot-context dword 1. -/
def XHCI_SCTX_1_RH_PORT_GET (x : Nat) : Nat := (x >>> 16) &&& 0xFF
/-- Modelled from the spec: `XHCI_SCTX_3_SLOT_STATE_SET` of the absent `xhci.h`, bits 27..31. -/
def XHCI_SCTX_3_SLOT_STATE_SET (x : Nat) : Nat := (x &&& 0x1F) <<< 27
/-- Modelled from the spec: `XHCI_SCTX_3_DEV_ADDR_SET` of the absent `xhci.h`, bits 0..7. -/
def XHCI_SCTX_3_DEV_ADDR_SET (x : Nat) : Nat := x &&& 0xFF
/-- The source's `XHCI_STREAMS_MAX`. -/
def XHCI_STREAMS_MAX : Nat := 1

/-- The source's `pci_xhci_alloc_usb_xfer`, given the endpoint context: `none` (`NULL`) for an
endpoint type that is not valid. -/
def pci_xhci_alloc_usb_xfer (ep_ctx : xhci_endp_ctx) : Option usb_data_xfer :=
  let type := XHCI_EPCTX_1_EPTYPE_GET ep_ctx.dwEpCtx1
  if type = 4 ∨ type = 7 ∨ type = 3 then
    some (usb_data_xfer.zero 128)
  else if type = 6 ∨ type = 2 then
    some (usb_data_xfer.zero 1024)
  else if type = 5 ∨ type = 1 then
    some (usb_data_xfer.zero 2048)
  else none

/-- Modelled from the spec: `USB_DATA_XFER_RESET` of the absent `usb_emul.h`: the blocks are
zeroed and the chain is emptied. -/
def USB_DATA_XFER_RESET (x : usb_data_xfer) : usb_data_xfer :=
  { x with data := fun _ => usb_data_xfer_block.zero, ndata := 0, head := 0, tail := 0 }

/-- The source's `pci_xhci_init_ep` on the device instance `d` whose device context is at `a`;
`none` when the assertion `devep->ep_sctx_trbs == NULL` fails (stream cursors are allocated,
or the shared storage holds a non-zero `ep_ringaddr`). -/
def pci_xhci_init_ep (sc : pci_xhci_softc) (d a epid : Nat) : Option pci_xhci_softc :=
  let dev := sc.devs d
  let ep_ctx := (sc.devctxmem a).ctx_ep epid
  let devep := dev.eps epid
  let pstreams := XHCI_EPCTX_0_MAXP_STREAMS_GET ep_ctx.dwEpCtx0
  let devep1? : Option pci_xhci_dev_ep :=
    if pstreams > 0 then
      if devep.ep_sctx_trbs.isSome ∨ devep.ep_ringaddr ≠ 0 then none
      else
        let base := MASK_NOT_F ep_ctx.qwEpCtx2
        some { devep with
          ep_sctx := some base
          ep_sctx_trbs := some fun i =>
            if i < pstreams then
              { ringaddr := MASK_NOT_F (sc.sctxmem (base + 16 * i))
                ccs := XHCI_SCTX_0_DCS_GET (sc.sctxmem (base + 16 * i)) }
            else { ringaddr := 0, ccs := 0 } }
    else
      some { devep with
        ep_ringaddr := MASK_NOT_F ep_ctx.qwEpCtx2
        ep_sctx_trbs := none
        ep_ccs := XHCI_EPCTX_2_DCS_GET ep_ctx.qwEpCtx2
        ep_tr := MASK_NOT_F ep_ctx.qwEpCtx2 }
  match devep1? with
  | none => none
  | some devep1 =>
    let devep2 : pci_xhci_dev_ep :=
      if devep1.ep_xfer.isNone then { devep1 with ep_xfer := pci_xhci_alloc_usb_xfer ep_ctx }
      else devep1
    some { sc with devs := upd sc.devs d { dev with eps := upd dev.eps epid devep2 } }

/-- The source's `pci_xhci_disable_ep` on the device instance `d`; `none` when the device has
no device context (`dev->dev_ctx` is `NULL`), and when `free(devep->ep_sctx_trbs)` is reached
with a pointer that `calloc` did not return: the endpoint context has primary streams, there
are no stream cursors, and the storage that `ep_sctx_trbs` shares with `ep_ringaddr` holds a
ring address that is not 0. -/
def pci_xhci_disable_ep (sc : pci_xhci_softc) (d epid : Nat) : Option pci_xhci_softc :=
  let dev := sc.devs d
  match dev.dev_ctx with
  | none => none
  | some a =>
    let ctx := sc.devctxmem a
    let ep_ctx := ctx.ctx_ep epid
    let ep_ctx1 : xhci_endp_ctx :=
      { ep_ctx with dwEpCtx0 := (ep_ctx.dwEpCtx0 &&& NOT32 0x7) ||| XHCI_ST_EPCTX_DISABLED }
    let devep := dev.eps epid
    if XHCI_EPCTX_0_MAXP_STREAMS_GET ep_ctx1.dwEpCtx0 > 0 ∧
        devep.ep_sctx_trbs.isNone ∧ devep.ep_ringaddr ≠ 0 then none
    else
      some { sc with
        devctxmem := upd sc.devctxmem a { ctx with ctx_ep := upd ctx.ctx_ep epid ep_ctx1 }
        devs := upd sc.devs d { dev with eps := upd dev.eps epid pci_xhci_dev_ep.zero } }

/-- A loop `for (i = ...; ...; i++) pci_xhci_disable_ep(dev, i);` over the listed ids. -/
def disable_eps (sc : pci_xhci_softc) (d : Nat) : List Nat → Option pci_xhci_softc
  | [] => some sc
  | i :: rest =>
    match pci_xhci_disable_ep sc d i with
    | none => none
    | some sc1 => disable_eps sc1 d rest

/-- The source's `pci_xhci_get_native_port_index_by_vport`: `none` for `-1`. -/
def pci_xhci_get_native_port_index_by_vport (sc : pci_xhci_softc) (vport : Nat) : Option Nat :=
  (List.range XHCI_MAX_DEVICES).find? fun i => (sc.native_ports i).vport = vport

/-- The source's `pci_xhci_dev_create`: the new device instance, `none` for `NULL`. -/
def pci_xhci_dev_create (sc : pci_xhci_softc) (di : usb_native_devinfo) :
    Option pci_xhci_dev_emu :=
  match sc.usb_dev_backend di with
  | none => none
  | some ue =>
    some { dev_ctx := none, eps := fun _ => pci_xhci_dev_ep.zero, dev_slotstate := 0,
           dev_ue := ue, hci_address := 0, hci_port := 0 }

/-! ## Context commands -/

/-- The source's `pci_xhci_cmd_address_device`; `none` when an assertion fails. -/
def pci_xhci_cmd_address_device (sc : pci_xhci_softc) (slot : Nat) (trb : xhci_trb) :
    Option (pci_xhci_softc × Nat) :=
  let input_ctx := sc.inctxmem (MASK_NOT_F trb.qwTrb0)
  let islot_ctx := input_ctx.ctx_slot
  if input_ctx.ctx_input.dwInCtx0 ≠ 0 ∨ input_ctx.ctx_input.dwInCtx1 &&& 0x03 ≠ 0x03 then
    some (sc, XHCI_TRB_ERROR_TRB)
  else if slot = 0 ∨ slot > XHCI_MAX_SLOTS ∨ sc.slot_allocated slot = false then
    some (sc, XHCI_TRB_ERROR_SLOT_NOT_ON)
  else
    let bound : pci_xhci_softc ⊕ Nat :=
      match sc.slots slot with
      | some _ => Sum.inl sc
      | none =>
        let rh_port := XHCI_SCTX_1_RH_PORT_GET islot_ctx.dwSctx1
        match pci_xhci_get_native_port_index_by_vport sc rh_port with
        | none => Sum.inr XHCI_TRB_ERROR_TRB
        | some index =>
          match pci_xhci_dev_create sc (sc.native_ports index).info with
          | none => Sum.inr XHCI_TRB_ERROR_SUCCESS
          | some dev =>
            let d := sc.devs_next
            Sum.inl { sc with
              devs := upd sc.devs d { dev with hci_address := slot }
              devs_next := d + 1
              native_ports :=
                upd sc.native_ports index { sc.native_ports index with state := VPORT_EMULATED }
              devices := upd sc.devices rh_port (some d)
              ndevices := sc.ndevices + 1
              slots := upd sc.slots slot (some d) }
    match bound with
    | Sum.inr err => some (sc, err)
    | Sum.inl sc1 =>
      match pci_xhci_get_dev_ctx sc1 slot with
      | none => none
      | some none => some (sc1, XHCI_TRB_ERROR_CONTEXT_STATE)
      | some (some a) =>
        match sc1.slots slot with
        | none => none
        | some d =>
          let dev := sc1.devs d
          let sc2 : pci_xhci_softc :=
            { sc1 with devs := upd sc1.devs d { dev with hci_address := slot, dev_ctx := some a } }
          if dev.dev_ue.ue_reset.isNone ∨ dev.dev_ue.ue_reset.getD 0 < 0 then
            some (sc2, XHCI_TRB_ERROR_ENDP_NOT_ON)
          else
            let ctx := sc2.devctxmem a
            let ep0 := input_ctx.ctx_ep 1
            let ctx1 : xhci_dev_ctx :=
              { ctx_slot := { islot_ctx with
                  dwSctx3 := XHCI_SCTX_3_SLOT_STATE_SET XHCI_ST_SLCTX_ADDRESSED |||
                    XHCI_SCTX_3_DEV_ADDR_SET slot }
                ctx_ep := upd ctx.ctx_ep 1
                  { ep0 with dwEpCtx0 := (ep0.dwEpCtx0 &&& NOT32 0x7) |||
                      XHCI_EPCTX_0_EPSTATE_SET XHCI_ST_EPCTX_RUNNING } }
            let sc3 : pci_xhci_softc := { sc2 with devctxmem := upd sc2.devctxmem a ctx1 }
            match pci_xhci_init_ep sc3 d a 1 with
            | none => none
            | some sc4 =>
              some ({ sc4 with
                      devs :=
                        upd sc4.devs d { sc4.devs d with dev_slotstate := XHCI_ST_ADDRESSED } },
                XHCI_TRB_ERROR_SUCCESS)

/-- The store `dev_ctx->ctx_ep[i] = e`. -/
def set_ctx_ep (ctx : xhci_dev_ctx) (i : Nat) (e : xhci_endp_ctx) : xhci_dev_ctx :=
  { ctx with ctx_ep := upd ctx.ctx_ep i e }

/-- The store `dev->eps[epid] = devep`. -/
def set_devep (dev : pci_xhci_dev_emu) (epid : Nat) (devep : pci_xhci_dev_ep) :
    pci_xhci_dev_emu :=
  { dev with eps := upd dev.eps epid devep }

/-- The loop of `pci_xhci_cmd_config_ep` over the endpoint ids of the list, for the device
instance `d` with device context at `a` and the input context `input_ctx`. -/
def config_ep_loop (input_ctx : xhci_input_dev_ctx) (d a : Nat) (sc : pci_xhci_softc) :
    List Nat → Option pci_xhci_softc
  | [] => some sc
  | i :: rest =>
    let dropped : Option pci_xhci_softc :=
      if input_ctx.ctx_input.dwInCtx0 &&& (1 <<< i) ≠ 0 then pci_xhci_disable_ep sc d i
      else some sc
    match dropped with
    | none => none
    | some sc1 =>
      if input_ctx.ctx_input.dwInCtx1 &&& (1 <<< i) ≠ 0 then
        let ctx := sc1.devctxmem a
        let sc2 : pci_xhci_softc :=
          { sc1 with devctxmem := upd sc1.devctxmem a (set_ctx_ep ctx i (input_ctx.ctx_ep i)) }
        match pci_xhci_init_ep sc2 d a i with
        | none => none
        | some sc3 =>
          let ctx3 := sc3.devctxmem a
          let ep := ctx3.ctx_ep i
          let ep1 : xhci_endp_ctx :=
            { ep with dwEpCtx0 := FIELD_REPLACE ep.dwEpCtx0 XHCI_ST_EPCTX_RUNNING 0x7 0 }
          config_ep_loop input_ctx d a
            { sc3 with devctxmem := upd sc3.devctxmem a (set_ctx_ep ctx3 i ep1) }
            rest
      else config_ep_loop input_ctx d a sc1 rest

/-- The source's `pci_xhci_cmd_config_ep`; `none` when an assertion fails or a `NULL` device
context is dereferenced. -/
def pci_xhci_cmd_config_ep (sc : pci_xhci_softc) (slot : Nat) (trb : xhci_trb) :
    Option (pci_xhci_softc × Nat) :=
  match sc.slots slot with
  | none => none
  | some d =>
    let dev := sc.devs d
    if trb.dwTrb3 &&& XHCI_TRB_3_DCEP_BIT ≠ 0 then
      let sc1 : pci_xhci_softc :=
        { sc with
          devs := upd sc.devs d
            { dev with dev_slotstate := XHCI_ST_ADDRESSED, hci_address := 0 } }
      match pci_xhci_get_dev_ctx sc1 slot with
      | some (some a) =>
        let ctx := sc1.devctxmem a
        let s0 := FIELD_REPLACE ctx.ctx_slot.dwSctx0 1 0x1F 27
        let s3 := FIELD_REPLACE ctx.ctx_slot.dwSctx3 XHCI_ST_SLCTX_ADDRESSED 0x1F 27
        let sc2 : pci_xhci_softc :=
          { sc1 with
            devctxmem := upd sc1.devctxmem a
              { ctx with ctx_slot := { ctx.ctx_slot with dwSctx0 := s0, dwSctx3 := s3 } } }
        match disable_eps sc2 d (List.range' 2 30) with
        | none => none
        | some sc3 => some (sc3, XHCI_TRB_ERROR_SUCCESS)
      | _ => none
    else if dev.dev_slotstate < XHCI_ST_ADDRESSED then some (sc, XHCI_TRB_ERROR_SLOT_NOT_ON)
    else
      let input_ctx := sc.inctxmem (MASK_NOT_F trb.qwTrb0)
      match dev.dev_ctx with
      | none => none
      | some a =>
        match config_ep_loop input_ctx d a sc (List.range' 2 30) with
        | none => none
        | some sc1 =>
          let ctx := sc1.devctxmem a
          let s3 := FIELD_REPLACE ctx.ctx_slot.dwSctx3 XHCI_ST_SLCTX_CONFIGURED 0x1F 27
          let s0 := FIELD_COPY ctx.ctx_slot.dwSctx0 input_ctx.ctx_slot.dwSctx0 0x1F 27
          some ({ sc1 with
                  devctxmem := upd sc1.devctxmem a
                    { ctx with ctx_slot := { ctx.ctx_slot with dwSctx3 := s3, dwSctx0 := s0 } }
                  devs := upd sc1.devs d
                    { sc1.devs d with dev_slotstate := XHCI_ST_CONFIGURED } },
            XHCI_TRB_ERROR_SUCCESS)

/-- The source's `pci_xhci_cmd_reset_ep` (RESET_EP and STOP_EP); `none` when an assertion
fails.  `ep_ringaddr` is read as the cached ring address: for an endpoint that holds stream
cursors the source reads the storage it shares with the pointer `ep_sctx_trbs`, a host address
that the model does not represent. -/
def pci_xhci_cmd_reset_ep (sc : pci_xhci_softc) (slot : Nat) (trb : xhci_trb) :
    Option (pci_xhci_softc × Nat) :=
  let epid := XHCI_TRB_3_EP_GET trb.dwTrb3
  let type := XHCI_TRB_3_TYPE_GET trb.dwTrb3
  match sc.slots slot with
  | none => none
  | some d =>
    let dev := sc.devs d
    if epid < 1 ∨ epid > 31 then some (sc, XHCI_TRB_ERROR_TRB)
    else
      let devep := dev.eps epid
      let devep1 : pci_xhci_dev_ep :=
        { devep with ep_xfer := devep.ep_xfer.map USB_DATA_XFER_RESET }
      match dev.dev_ctx with
      | none => none
      | some a =>
        let ctx := sc.devctxmem a
        let ep_ctx := ctx.ctx_ep epid
        let e0 := (ep_ctx.dwEpCtx0 &&& NOT32 0x7) ||| XHCI_ST_EPCTX_STOPPED
        let q2 :=
          if XHCI_EPCTX_0_MAXP_STREAMS_GET e0 = 0 then devep.ep_ringaddr ||| devep.ep_ccs
          else ep_ctx.qwEpCtx2
        let sc1 : pci_xhci_softc :=
          { sc with
            devs := upd sc.devs d (set_devep dev epid devep1)
            devctxmem := upd sc.devctxmem a
              (set_ctx_ep ctx epid { ep_ctx with dwEpCtx0 := e0, qwEpCtx2 := q2 }) }
        if type = XHCI_TRB_TYPE_RESET_EP ∧
            (dev.dev_ue.ue_reset.isNone ∨ dev.dev_ue.ue_reset.getD 0 < 0) then
          some (sc1, XHCI_TRB_ERROR_ENDP_NOT_ON)
        else some (sc1, XHCI_TRB_ERROR_SUCCESS)

/-- The source's `pci_xhci_find_stream`: the completion code and, on success, the guest address
of the stream context (`*osctx`). -/
def pci_xhci_find_stream (sc : pci_xhci_softc) (ep : xhci_endp_ctx) (streamid : Nat) :
    Nat × Option Nat :=
  let maxpstreams := XHCI_EPCTX_0_MAXP_STREAMS_GET ep.dwEpCtx0
  if maxpstreams = 0 then (XHCI_TRB_ERROR_TRB, none)
  else if maxpstreams > XHCI_STREAMS_MAX then (XHCI_TRB_ERROR_INVALID_SID, none)
  else if XHCI_EPCTX_0_LSA_GET ep.dwEpCtx0 = 0 then (XHCI_TRB_ERROR_INVALID_SID, none)
  else if streamid > maxpstreams then (XHCI_TRB_ERROR_STREAM_TYPE, none)
  else
    let sctx := MASK_NOT_F ep.qwEpCtx2 + 16 * streamid
    if XHCI_SCTX_0_SCT_GET (sc.sctxmem sctx) = 0 then (XHCI_TRB_ERROR_STREAM_TYPE, none)
    else (XHCI_TRB_ERROR_SUCCESS, some sctx)

/-- The source's `pci_xhci_cmd_set_tr` (SET_TR_DEQUEUE); `none` when an assertion fails. -/
def pci_xhci_cmd_set_tr (sc : pci_xhci_softc) (slot : Nat) (trb : xhci_trb) :
    Option (pci_xhci_softc × Nat) :=
  match sc.slots slot with
  | none => none
  | some d =>
    let dev := sc.devs d
    let epid := XHCI_TRB_3_EP_GET trb.dwTrb3
    if epid < 1 ∨ epid > 31 then some (sc, XHCI_TRB_ERROR_TRB)
    else
      match dev.dev_ctx with
      | none => none
      | some a =>
        let ctx := sc.devctxmem a
        let ep_ctx := ctx.ctx_ep epid
        let devep := dev.eps epid
        let st := XHCI_EPCTX_0_EPSTATE_GET ep_ctx.dwEpCtx0
        if ¬ (st = XHCI_ST_EPCTX_STOPPED ∨ st = XHCI_ST_EPCTX_ERROR) then
          some (sc, XHCI_TRB_ERROR_CONTEXT_STATE)
        else
          let streamid := XHCI_TRB_2_STREAM_GET trb.dwTrb2
          let stopped (e : xhci_endp_ctx) : xhci_endp_ctx :=
            { e with dwEpCtx0 := (e.dwEpCtx0 &&& NOT32 0x7) ||| XHCI_ST_EPCTX_STOPPED }
          if XHCI_EPCTX_0_MAXP_STREAMS_GET ep_ctx.dwEpCtx0 > 0 then
            let r := pci_xhci_find_stream sc ep_ctx streamid
            let sc1? : Option pci_xhci_softc :=
              match r.2 with
              | none => some sc
              | some _ =>
                match devep.ep_sctx, devep.ep_sctx_trbs with
                | some base, some trbs =>
                  let ring : pci_xhci_trb_ring :=
                    { ringaddr := MASK_NOT_F trb.qwTrb0, ccs := XHCI_EPCTX_2_DCS_GET trb.qwTrb0 }
                  some { sc with
                    sctxmem := upd sc.sctxmem (base + 16 * streamid) trb.qwTrb0
                    devs := upd sc.devs d
                      (set_devep dev epid
                        { devep with ep_sctx_trbs := some (upd trbs streamid ring) }) }
                | _, _ => none
            match sc1? with
            | none => none
            | some sc1 =>
              let ctx1 := sc1.devctxmem a
              some ({ sc1 with
                      devctxmem := upd sc1.devctxmem a
                        (set_ctx_ep ctx1 epid (stopped (ctx1.ctx_ep epid))) },
                r.1)
          else
            let q2 := MASK_NOT_F trb.qwTrb0
            let devep1 : pci_xhci_dev_ep :=
              { devep with
                ep_ringaddr := MASK_NOT_F q2
                ep_sctx_trbs := none
                ep_ccs := trb.qwTrb0 &&& 0x1
                ep_tr := MASK_NOT_F q2 }
            some ({ sc with
                    devs := upd sc.devs d (set_devep dev epid devep1)
                    devctxmem := upd sc.devctxmem a
                      (set_ctx_ep ctx epid (stopped { ep_ctx with qwEpCtx2 := q2 })) },
              XHCI_TRB_ERROR_SUCCESS)

/-- The source's `pci_xhci_cmd_eval_ctx` (EVALUATE_CTX); `none` when `pci_xhci_get_dev_ctx`
aborts or returns `NULL` (which the source dereferences). -/
def pci_xhci_cmd_eval_ctx (sc : pci_xhci_softc) (slot : Nat) (trb : xhci_trb) :
    Option (pci_xhci_softc × Nat) :=
  let input_ctx := sc.inctxmem (MASK_NOT_F trb.qwTrb0)
  if input_ctx.ctx_input.dwInCtx0 ≠ 0 ∨ input_ctx.ctx_input.dwInCtx1 &&& 0x03 = 0 then
    some (sc, XHCI_TRB_ERROR_TRB)
  else
    match pci_xhci_get_dev_ctx sc slot with
    | some (some a) =>
      let ctx := sc.devctxmem a
      let slot1 : xhci_slot_ctx :=
        if input_ctx.ctx_input.dwInCtx1 &&& 0x01 ≠ 0 then
          { ctx.ctx_slot with
            dwSctx1 := FIELD_COPY ctx.ctx_slot.dwSctx1 input_ctx.ctx_slot.dwSctx1 0xFFFF 0
            dwSctx2 := FIELD_COPY ctx.ctx_slot.dwSctx2 input_ctx.ctx_slot.dwSctx2 0x3FF 22 }
        else ctx.ctx_slot
      let ep1 : xhci_endp_ctx :=
        if input_ctx.ctx_input.dwInCtx1 &&& 0x02 ≠ 0 then
          { ctx.ctx_ep 1 with
            dwEpCtx1 := FIELD_COPY (ctx.ctx_ep 1).dwEpCtx1 (input_ctx.ctx_ep 1).dwEpCtx1
              0xFFFF 16 }
        else ctx.ctx_ep 1
      some ({ sc with
              devctxmem := upd sc.devctxmem a
                { ctx_slot := slot1, ctx_ep := upd ctx.ctx_ep 1 ep1 } },
        XHCI_TRB_ERROR_SUCCESS)
    | _ => none

/-! ## Command ring -/

/-- How a run of the command engine ends: with a new state, with the emulator aborted (a failed
assertion or a `NULL` dereference in a command or in the insertion of its completion event),
or with the loop still running when the fuel of the model is used up. -/
inductive cmd_result where
  | done (sc : pci_xhci_softc)
  | aborted
  | out_of_fuel

/-- The source's `pci_xhci_trb_next` with `guestaddr` given: the guest address of the next TRB
(`next`) and the new `*guestaddr`. -/
def pci_xhci_trb_next (curtrb : xhci_trb) (cur : Nat) (guestaddr : Nat) : Nat × Nat :=
  if XHCI_TRB_3_TYPE_GET curtrb.dwTrb3 = XHCI_TRB_TYPE_LINK then
    (MASK_NOT_F curtrb.qwTrb0, MASK_NOT_F curtrb.qwTrb0)
  else (cur + 16, (guestaddr + 16) % 2 ^ 64)

/-- The `switch (type)` of `pci_xhci_complete_commands`: the new state, the completion code
`cmderr`, the slot id `slot` and the consumer cycle state `ccs` after the command; `none` when
the command aborts the emulator. -/
def cmd_dispatch (sc : pci_xhci_softc) (trb : xhci_trb) (ccs : Nat) :
    Option (pci_xhci_softc × Nat × Nat × Nat) :=
  let type := XHCI_TRB_3_TYPE_GET trb.dwTrb3
  let slot := XHCI_TRB_3_SLOT_GET trb.dwTrb3
  if type = XHCI_TRB_TYPE_LINK then
    some (sc, XHCI_TRB_ERROR_SUCCESS, 0,
      if trb.dwTrb3 &&& XHCI_TRB_3_TC_BIT ≠ 0 then ccs ^^^ XHCI_CRCR_LO_RCS else ccs)
  else if type = XHCI_TRB_TYPE_ENABLE_SLOT then
    let r := pci_xhci_cmd_enable_slot sc 0
    some (r.1, r.2.1, r.2.2, ccs)
  else if type = XHCI_TRB_TYPE_DISABLE_SLOT then
    let r := pci_xhci_cmd_disable_slot sc slot
    some (r.1, r.2, slot, ccs)
  else if type = XHCI_TRB_TYPE_ADDRESS_DEVICE then
    (pci_xhci_cmd_address_device sc slot trb).map fun r => (r.1, r.2, slot, ccs)
  else if type = XHCI_TRB_TYPE_CONFIGURE_EP then
    (pci_xhci_cmd_config_ep sc slot trb).map fun r => (r.1, r.2, slot, ccs)
  else if type = XHCI_TRB_TYPE_EVALUATE_CTX then
    (pci_xhci_cmd_eval_ctx sc slot trb).map fun r => (r.1, r.2, slot, ccs)
  else if type = XHCI_TRB_TYPE_RESET_EP then
    (pci_xhci_cmd_reset_ep sc slot trb).map fun r => (r.1, r.2, slot, ccs)
  else if type = XHCI_TRB_TYPE_STOP_EP then
    (pci_xhci_cmd_reset_ep sc slot trb).map fun r => (r.1, r.2, slot, ccs)
  else if type = XHCI_TRB_TYPE_SET_TR_DEQUEUE then
    (pci_xhci_cmd_set_tr sc slot trb).map fun r => (r.1, r.2, slot, ccs)
  else if type = XHCI_TRB_TYPE_RESET_DEVICE then
    (pci_xhci_cmd_reset_device sc slot).map fun r => (r.1, r.2, slot, ccs)
  else some (sc, XHCI_TRB_ERROR_SUCCESS, 0, ccs)

/-- The command completion event that `pci_xhci_complete_commands` builds for the command at
guest address `crcr`, before `pci_xhci_insert_event` sets its cycle bit. -/
def cmd_completion_event (crcr ccs cmderr slot : Nat) : xhci_trb :=
  { qwTrb0 := crcr
    dwTrb2 := 0 ||| XHCI_TRB_2_ERROR_SET cmderr
    dwTrb3 := ((ccs &&& XHCI_TRB_3_CYCLE_BIT) ||| XHCI_TRB_3_TYPE_SET XHCI_TRB_EVENT_CMD_COMPLETE)
      ||| XHCI_TRB_3_SLOT_SET slot }

/-- The `while (1)` loop of `pci_xhci_complete_commands`, one iteration per unit of fuel: `trb`
is the guest address of the current TRB, `crcr` the guest address reported in the completion
event, `ccs` the consumer cycle state.  The result carries the state and the final `crcr` and
`ccs` in CRCR; it is `aborted` when a command handler aborts or `pci_xhci_insert_event` does
not return. -/
def complete_commands_loop : Nat → pci_xhci_softc → Nat → Nat → Nat → cmd_result
  | 0, _, _, _, _ => cmd_result.out_of_fuel
  | fuel + 1, sc, trb, crcr, ccs =>
    let sc0 : pci_xhci_softc := { sc with opregs := { sc.opregs with cr_p := trb } }
    let t := sc0.trbmem trb
    let type := XHCI_TRB_3_TYPE_GET t.dwTrb3
    if t.dwTrb3 &&& XHCI_TRB_3_CYCLE_BIT ≠ ccs &&& XHCI_TRB_3_CYCLE_BIT then
      let crcr1 := crcr ||| (sc0.opregs.crcr &&& XHCI_CRCR_LO_CA) ||| ccs
      cmd_result.done
        { sc0 with opregs := { sc0.opregs with crcr := crcr1 &&& NOT64 XHCI_CRCR_LO_CRR } }
    else
      match cmd_dispatch sc0 t ccs with
      | none => cmd_result.aborted
      | some (sc1, cmderr, slot, ccs1) =>
        let sc2? : Option pci_xhci_softc :=
          if type ≠ XHCI_TRB_TYPE_LINK then
            (pci_xhci_insert_event sc1 (cmd_completion_event crcr ccs cmderr slot) true).map
              fun r => r.1
          else some sc1
        match sc2? with
        | none => cmd_result.aborted
        | some sc2 =>
          let nx := pci_xhci_trb_next t trb crcr
          complete_commands_loop fuel sc2 nx.1 nx.2 ccs1

/-- The source's `pci_xhci_complete_commands`, with the fuel of the loop. -/
def pci_xhci_complete_commands (fuel : Nat) (sc : pci_xhci_softc) : cmd_result :=
  let sc1 : pci_xhci_softc :=
    { sc with opregs := { sc.opregs with crcr := sc.opregs.crcr ||| XHCI_CRCR_LO_CRR } }
  complete_commands_loop fuel sc1 sc1.opregs.cr_p (MASK_NOT_F sc1.opregs.crcr)
    (sc1.opregs.crcr &&& XHCI_CRCR_LO_RCS)

/-- The source's `XHCI_HALTED`. -/
def XHCI_HALTED (sc : pci_xhci_softc) : Bool := sc.opregs.usbsts &&& XHCI_STS_HCH ≠ 0

/-- The source's `pci_xhci_dbregs_write`; `offset` is the offset in the BAR.  Doorbell 0 runs
the command engine; the device doorbells (`pci_xhci_device_doorbell`, the transfer engine) are
the parameter `device_doorbell`, called with the slot, the endpoint target and the stream id. -/
def pci_xhci_dbregs_write
    (device_doorbell : pci_xhci_softc → Nat → Nat → Nat → cmd_result)
    (fuel : Nat) (sc : pci_xhci_softc) (offset value : Nat) : cmd_result :=
  let off := ((offset + 2 ^ 64 - sc.dboff) % 2 ^ 64) / 4
  if XHCI_HALTED sc then cmd_result.done sc
  else if off = 0 then pci_xhci_complete_commands fuel sc
  else if sc.portregs.isSome then
    device_doorbell sc off (value &&& 0xFF) ((value >>> 16) &&& 0xFFFF)
  else cmd_result.done sc

/-! ## Initialisation -/

/-- The loop of `pci_xhci_parse_opts` over the options that name emulated devices, each given
by its device emulation: `usb3_port` and `usb2_port` are the 0-based counters of the source,
the arrays are indexed from 1 as after `sc->devices--` and `sc->slots--`.  `none` when the
limit of four devices per protocol is hit (the source then fails the initialisation). -/
def parse_opts_devs (sc : pci_xhci_softc) (usb3_port usb2_port : Nat) :
    List usb_devemu → Option pci_xhci_softc
  | [] => some sc
  | ue :: rest =>
    if usb2_port = (sc.usb2_port_start - 1) + XHCI_MAX_DEVS / 2 ∨
        usb3_port = (sc.usb3_port_start - 1) + XHCI_MAX_DEVS / 2 then none
    else
      let port := if ue.ue_usbver = 2 then usb2_port else usb3_port
      let d := sc.devs_next
      let dev : pci_xhci_dev_emu :=
        { dev_ctx := none, eps := fun _ => pci_xhci_dev_ep.zero, dev_slotstate := 0,
          dev_ue := ue, hci_address := 0, hci_port := port + 1 }
      parse_opts_devs
        { sc with
          devs := upd sc.devs d dev
          devs_next := d + 1
          devices := upd sc.devices (port + 1) (some d)
          slots := upd sc.slots (sc.ndevices + 1) (some d)
          ndevices := sc.ndevices + 1 }
        (if ue.ue_usbver = 2 then usb3_port else usb3_port + 1)
        (if ue.ue_usbver = 2 then usb2_port + 1 else usb2_port)
        rest

/-- The label `portsfinal` of `pci_xhci_parse_opts`: the port registers are allocated and, when
a device is configured, initialised. -/
def parse_opts_portsfinal (sc : pci_xhci_softc) : Option pci_xhci_softc :=
  let sc1 : pci_xhci_softc :=
    { sc with portregs := some fun _ => { portsc := 0, portpmsc := 0, portli := 0, porthlpmc := 0 } }
  if sc1.ndevices > 0 then
    (List.range' 1 XHCI_MAX_DEVS).foldlM pci_xhci_init_port sc1
  else some { sc1 with ndevices := 1 }

/-- The zeroed controller that `calloc` returns in `pci_xhci_init`, with zeroed guest memory,
the given PCI MSI setting and host USB backend. -/
def softc_zero (msi : Bool) (backend : usb_native_devinfo → Option usb_devemu) :
    pci_xhci_softc :=
  { xsc_pi := { msi_enabled := msi, msi_generated := 0, lintr_asserted := 0 }
    dboff := 0, rtsoff := 0, regsend := 0
    opregs := { usbcmd := 0, usbsts := 0, pgsz := 0, dnctrl := 0, crcr := 0, dcbaap := 0,
                config := 0, cr_p := 0, dcbaa_p := none }
    rtsregs := { mfindex := 0
                 intrreg := { iman := 0, imod := 0, erstsz := 0, rsvd := 0, erstba := 0, erdp := 0 }
                 erstba_p := none, erst_p := 0, er_deq_seg := 0, er_enq_idx := 0, er_enq_seg := 0
                 er_events_cnt := 0, event_pcs := 0 }
    portregs := none
    devs := fun _ =>
      { dev_ctx := none, eps := fun _ => pci_xhci_dev_ep.zero, dev_slotstate := 0
        dev_ue := { ue_usbver := 0, ue_usbspeed := 0, ue_reset := none, ue_stop := false }
        hci_address := 0, hci_port := 0 }
    devs_next := 0
    devices := fun _ => none
    slots := fun _ => none
    slot_allocated := fun _ => false
    ndevices := 0
    usb2_port_start := 0, usb3_port_start := 0
    vbdp_dev_num := 0
    vbdp_devs := fun _ =>
      { path := { bus := 0, depth := 0, path := [] }, vport := 0, state := 0 }
    native_ports := fun _ =>
      { info := { path := { bus := 0, depth := 0, path := [] }, speed := 0, bcd := 0, type := 0,
                  maxchild := 0 }
        vport := 0, state := 0 }
    trbmem := fun _ => { qwTrb0 := 0, dwTrb2 := 0, dwTrb3 := 0 }
    evmem := fun _ => { qwTrb0 := 0, dwTrb2 := 0, dwTrb3 := 0 }
    erstmem := fun _ => { qwEvrsTablePtr := 0, dwEvrsTableSize := 0 }
    dcbaamem := fun _ => 0
    devctxmem := fun _ =>
      { ctx_slot := ⟨0, 0, 0, 0, 0, 0, 0, 0⟩, ctx_ep := fun _ => ⟨0, 0, 0, 0, 0, 0, 0⟩ }
    inctxmem := fun _ =>
      { ctx_input := ⟨0, 0, 0, 0, 0, 0, 0, 0⟩, ctx_slot := ⟨0, 0, 0, 0, 0, 0, 0, 0⟩
        ctx_ep := fun _ => ⟨0, 0, 0, 0, 0, 0, 0⟩ }
    sctxmem := fun _ => 0
    usb_dev_backend := backend }

/-- The source's `pci_xhci_init` for a configuration string that names the emulated devices
`ues`: the register offsets, `USBSTS = HCH`, the page size (`XHCI_PAGESIZE_4K`, 1) and the
controller reset.  `none` when the option parsing fails. -/
def pci_xhci_init (msi : Bool) (backend : usb_native_devinfo → Option usb_devemu)
    (ues : List usb_devemu) : Option pci_xhci_softc :=
  let sc0 : pci_xhci_softc :=
    { softc_zero msi backend with
      usb2_port_start := XHCI_MAX_DEVS / 2 + 1
      usb3_port_start := 1 }
  match parse_opts_devs sc0 (sc0.usb3_port_start - 1) (sc0.usb2_port_start - 1) ues with
  | none => none
  | some sc1 =>
    match parse_opts_portsfinal sc1 with
    | none => none
    | some sc2 =>
      let dboff := (XHCI_CAPLEN + 0x400 + XHCI_MAX_DEVS * 16) &&& NOT32 0x03
      let rtsoff := (dboff + (XHCI_MAX_SLOTS + 1) * 32) &&& NOT32 0x0F
      let rtsoff1 := if rtsoff &&& 0x1F ≠ 0 then (rtsoff + 0x1F) &&& NOT32 0x1F else rtsoff
      let sc3 : pci_xhci_softc :=
        { sc2 with
          dboff := dboff
          rtsoff := rtsoff1
          opregs := { sc2.opregs with usbsts := XHCI_STS_HCH, pgsz := 1 } }
      some { pci_xhci_reset sc3 with regsend := rtsoff1 + 0x20 + 32 }

/-! ## Concrete controllers used as witnesses -/

/-- The emulated USB 3 tablet of the configuration string `tablet`. -/
def ue_tablet : usb_devemu :=
  { ue_usbver := 3, ue_usbspeed := 3, ue_reset := some 0, ue_stop := true }

/-- A controller after `pci_xhci_init` with one emulated device, no MSI and no host devices. -/
def sc_fresh : pci_xhci_softc :=
  (pci_xhci_init false (fun _ => none) [ue_tablet]).getD (softc_zero false fun _ => none)

/-- The fresh controller after the guest has put an event ring segment table at `0x1000` that
describes one segment of `n` entries at `0x2000` (the segment itself is zeroed), and has
written ERSTBA (low dword, then high dword). -/
def sc_evring (n : Nat) : pci_xhci_softc :=
  let sc1 : pci_xhci_softc :=
    { sc_fresh with
      erstmem := fun a =>
        if a = 0x1000 then { qwEvrsTablePtr := 0x2000, dwEvrsTableSize := n }
        else { qwEvrsTablePtr := 0, dwEvrsTableSize := 0 } }
  let sc2 := (pci_xhci_rtsregs_write sc1 (sc1.rtsoff + 0x20 + 0x10) 0x1000).getD sc1
  (pci_xhci_rtsregs_write sc2 (sc2.rtsoff + 0x20 + 0x14) 0).getD sc2

/-- A sequence of `pci_xhci_insert_event` calls, each with its event and its `do_intr`: the
final state and the completion codes in call order; `none` when a call does not return. -/
def insert_events (sc : pci_xhci_softc) :
    List (xhci_trb × Bool) → Option (pci_xhci_softc × List Nat)
  | [] => some (sc, [])
  | ev :: rest =>
    match pci_xhci_insert_event sc ev.1 ev.2 with
    | none => none
    | some r =>
      match insert_events r.1 rest with
      | none => none
      | some rs => some (rs.1, r.2 :: rs.2)

/-- A port status change event for port `p`, as `pci_xhci_set_evtrb` builds it. -/
def port_event (p : Nat) : xhci_trb :=
  pci_xhci_set_evtrb p XHCI_TRB_ERROR_SUCCESS XHCI_TRB_EVENT_PORT_STS_CHANGE

/-- The event ring of four entries after three port events have been inserted and none
consumed: `er_enq_idx = 3`, `er_events_cnt = 3`, entry 3 still zeroed. -/
def sc_evring_three : pci_xhci_softc :=
  ((insert_events (sc_evring 4)
    [(port_event 1, false), (port_event 2, false), (port_event 3, false)]).getD
      (sc_evring 4, [])).1

/-- As `sc_evring_three`, but the guest memory of entry 3 holds a stale TRB whose cycle bit
is 1 (the guest did not zero the segment). -/
def sc_evring_three_stale : pci_xhci_softc :=
  { sc_evring_three with
    evmem := upd sc_evring_three.evmem (0x2000 + 16 * 3)
      { qwTrb0 := 0, dwTrb2 := 0, dwTrb3 := 1 } }

/-- The guest writes ERDP: the low dword `lo` at offset `0x18` of the interrupter register set,
then the high dword `hi` at offset `0x1C`. -/
def guest_write_erdp (sc : pci_xhci_softc) (lo hi : Nat) : Option pci_xhci_softc :=
  (pci_xhci_rtsregs_write sc (sc.rtsoff + 0x20 + 0x18) lo).bind fun s1 =>
    pci_xhci_rtsregs_write s1 (sc.rtsoff + 0x20 + 0x1C) hi

/-- The guest writes ERSTBA: the low dword `lo` at offset `0x10` of the interrupter register
set, then the high dword `hi` at offset `0x14`. -/
def guest_write_erstba (sc : pci_xhci_softc) (lo hi : Nat) : Option pci_xhci_softc :=
  (pci_xhci_rtsregs_write sc (sc.rtsoff + 0x20 + 0x10) lo).bind fun s1 =>
    pci_xhci_rtsregs_write s1 (sc.rtsoff + 0x20 + 0x14) hi

/-- The event ring of four entries after two port events have been inserted and none
consumed. -/
def sc_evring_two : pci_xhci_softc :=
  ((insert_events (sc_evring 4) [(port_event 1, false), (port_event 2, false)]).getD
    (sc_evring 4, [])).1

/-- An event ring of two entries that has wrapped once: an event is inserted, the guest
consumes it (ERDP written to entry 1), a second event is inserted in entry 1, so that
`er_enq_idx` is 0 again and `event_pcs` has been toggled to 0. -/
def sc_evring_wrapped : pci_xhci_softc :=
  let s1 := ((pci_xhci_insert_event (sc_evring 2) (port_event 1) false).getD (sc_evring 2, 0)).1
  let s2 := (guest_write_erdp s1 0x2010 0).getD s1
  ((pci_xhci_insert_event s2 (port_event 2) false).getD (s2, 0)).1

/-- The source's `pci_xhci_portregs_read`, `offset` relative to the operational registers. -/
def pci_xhci_portregs_read (sc : pci_xhci_softc) (offset : Nat) : Nat :=
  match sc.portregs with
  | none => 0
  | some pr =>
    let port := (offset - 0x3F0) / 0x10
    if port > XHCI_MAX_DEVS then XHCI_PS_SPEED_SET 3
    else
      let off := (offset - 0x3F0) % 0x10
      let p := pr port
      if off / 4 = 0 then p.portsc
      else if off / 4 = 1 then p.portpmsc
      else if off / 4 = 2 then p.portli
      else p.porthlpmc

/-- The fresh controller after the guest has written 0 to PORTSC of the empty port 2 (BAR
offset `0x430`), which clears PP. -/
def sc_port2_unpowered : pci_xhci_softc :=
  (pci_xhci_hostop_write sc_fresh 0x430 0).getD sc_fresh

/-! ## The command ring as the specification describes it -/

/-- The TRBs a consumer takes from a ring, following the spec's words (TrbRing): starting at
`addr` with cycle state `ccs`, a TRB whose cycle bit does not match ends the iteration; a LINK
TRB is followed to its parameter and toggles the cycle state if TC is set; any other TRB is
followed by the next 16 bytes.  The result is the list of the TRBs taken, each with its guest
address, or `none` if no mismatching TRB is met within `fuel` steps. -/
def cmd_ring_walk (mem : Nat → xhci_trb) : Nat → Nat → Nat → Option (List (Nat × xhci_trb))
  | 0, _, _ => none
  | fuel + 1, addr, ccs =>
    let t := mem addr
    if t.dwTrb3 &&& XHCI_TRB_3_CYCLE_BIT ≠ ccs &&& XHCI_TRB_3_CYCLE_BIT then some []
    else
      let link : Bool := XHCI_TRB_3_TYPE_GET t.dwTrb3 = XHCI_TRB_TYPE_LINK
      let ccs1 :=
        if link ∧ t.dwTrb3 &&& XHCI_TRB_3_TC_BIT ≠ 0 then ccs ^^^ XHCI_CRCR_LO_RCS else ccs
      let next := if link then MASK_NOT_F t.qwTrb0 else addr + 16
      (cmd_ring_walk mem fuel next ccs1).map fun l => (addr, t) :: l

/-- The commands of a ring: its TRBs that are not LINK TRBs. -/
def ring_cmds (ring : List (Nat × xhci_trb)) : List (Nat × xhci_trb) :=
  ring.filter fun p => XHCI_TRB_3_TYPE_GET p.2.dwTrb3 ≠ XHCI_TRB_TYPE_LINK

/-- The log of a run of the loop of `pci_xhci_complete_commands` (a ghost of the loop, which
it follows step by step): for every command dispatched that is not a LINK TRB, in order, the
guest address the TRB was read from, the completion code `cmderr` and the slot id `slot` that
the `switch` produced for it. -/
def complete_commands_log : Nat → pci_xhci_softc → Nat → Nat → Nat → List (Nat × Nat × Nat)
  | 0, _, _, _, _ => []
  | fuel + 1, sc, trb, crcr, ccs =>
    let sc0 : pci_xhci_softc := { sc with opregs := { sc.opregs with cr_p := trb } }
    let t := sc0.trbmem trb
    let type := XHCI_TRB_3_TYPE_GET t.dwTrb3
    if t.dwTrb3 &&& XHCI_TRB_3_CYCLE_BIT ≠ ccs &&& XHCI_TRB_3_CYCLE_BIT then []
    else
      match cmd_dispatch sc0 t ccs with
      | none => []
      | some (sc1, cmderr, slot, ccs1) =>
        let sc2? : Option pci_xhci_softc :=
          if type ≠ XHCI_TRB_TYPE_LINK then
            (pci_xhci_insert_event sc1 (cmd_completion_event crcr ccs cmderr slot) true).map
              fun r => r.1
          else some sc1
        match sc2? with
        | none => []
        | some sc2 =>
          let nx := pci_xhci_trb_next t trb crcr
          let rest := complete_commands_log fuel sc2 nx.1 nx.2 ccs1
          if type ≠ XHCI_TRB_TYPE_LINK then (trb, cmderr, slot) :: rest else rest

/-- What the spec says of a command completion event: it carries the guest address of the
command TRB as its parameter, the type CMD_COMPLETION, the slot id in `dwTrb3[24..31]` and the
completion code in `dwTrb2[24..31]`. -/
def is_cmd_completion (e : xhci_trb) (addr cmderr slot : Nat) : Prop :=
  e.qwTrb0 = addr ∧
  XHCI_TRB_3_TYPE_GET e.dwTrb3 = XHCI_TRB_EVENT_CMD_COMPLETE ∧
  XHCI_TRB_3_SLOT_GET e.dwTrb3 = slot % 256 ∧
  XHCI_TRB_2_ERROR_GET e.dwTrb2 = cmderr % 256

instance (e : xhci_trb) (addr cmderr slot : Nat) :
    Decidable (is_cmd_completion e addr cmderr slot) := by
  unfold is_cmd_completion; infer_instance

/-- The transfer engine left out: a device doorbell that does nothing. -/
def no_device_doorbell (sc : pci_xhci_softc) (_slot _epid _sid : Nat) : cmd_result :=
  cmd_result.done sc

/-- The state of a finished run, or the given state if the run did not finish. -/
def cmd_result.get (r : cmd_result) (dflt : pci_xhci_softc) : pci_xhci_softc :=
  match r with
  | cmd_result.done sc => sc
  | _ => dflt

/-- The scenario "Enable slot" of the spec on the fresh controller with an event ring of four
entries: the guest starts the controller (USBCMD = RS), puts one ENABLE_SLOT TRB (type 9,
cycle 1) at `X = 0x3000`, followed by a zeroed TRB, and writes CRCR = `X | 1`. -/
def sc_cmd_enable_slot : pci_xhci_softc :=
  let s1 := (pci_xhci_hostop_write (sc_evring 4) XHCI_CAPLEN 0x01).getD (sc_evring 4)
  let s2 : pci_xhci_softc :=
    { s1 with
      trbmem := fun a =>
        if a = 0x3000 then
          { qwTrb0 := 0, dwTrb2 := 0, dwTrb3 := XHCI_TRB_3_TYPE_SET XHCI_TRB_TYPE_ENABLE_SLOT ||| 1 }
        else { qwTrb0 := 0, dwTrb2 := 0, dwTrb3 := 0 } }
  let s3 := (pci_xhci_hostop_write s2 (XHCI_CAPLEN + 0x18) 0x3001).getD s2
  (pci_xhci_hostop_write s3 (XHCI_CAPLEN + 0x1C) 0).getD s3

/-- As `sc_cmd_enable_slot`, with a CONFIGURE_EP TRB (type 12, cycle 1) for slot 5, to which no
device is bound, in place of the ENABLE_SLOT TRB. -/
def sc_cmd_config_ep_no_dev : pci_xhci_softc :=
  { sc_cmd_enable_slot with
    trbmem := fun a =>
      if a = 0x3000 then
        { qwTrb0 := 0, dwTrb2 := 0
          dwTrb3 := XHCI_TRB_3_SLOT_SET 5 ||| XHCI_TRB_3_TYPE_SET XHCI_TRB_TYPE_CONFIGURE_EP ||| 1 }
      else { qwTrb0 := 0, dwTrb2 := 0, dwTrb3 := 0 } }

/-- The fresh controller after 63 ENABLE_SLOT commands: the slot ids 1..63 are allocated, slot
id 64 is not. -/
def sc_slots_63 : pci_xhci_softc :=
  (fun s => (pci_xhci_cmd_enable_slot s 0).1)^[63] sc_fresh

/-- The part of the state that the command handlers leave alone: the rings the controller
consumes, the runtime registers, the event ring segment and its segment table. -/
def ring_frame (sc sc1 : pci_xhci_softc) : Prop :=
  sc1.trbmem = sc.trbmem ∧ sc1.rtsregs = sc.rtsregs ∧ sc1.evmem = sc.evmem ∧
    sc1.erstmem = sc.erstmem

/-- The log of a run of `pci_xhci_complete_commands`: `complete_commands_log` started as the
function starts its loop. -/
def pci_xhci_complete_commands_log (fuel : Nat) (sc : pci_xhci_softc) :
    List (Nat × Nat × Nat) :=
  let sc1 : pci_xhci_softc :=
    { sc with opregs := { sc.opregs with crcr := sc.opregs.crcr ||| XHCI_CRCR_LO_CRR } }
  complete_commands_log fuel sc1 sc1.opregs.cr_p (MASK_NOT_F sc1.opregs.crcr)
    (sc1.opregs.crcr &&& XHCI_CRCR_LO_RCS)

/-- The state `sc_cmd_enable_slot` after the guest writes `0x5001` to the low dword of CRCR and
nothing to the high dword: CRCR holds the address `0x5000`, where the memory is zeroed, and
`cr_p` still points at the ENABLE_SLOT TRB at `0x3000`. -/
def sc_cmd_crcr_lo_only : pci_xhci_softc :=
  (pci_xhci_hostop_write sc_cmd_enable_slot (XHCI_CAPLEN + 0x18) 0x5001).getD sc_cmd_enable_slot

/-- The TRBs whose case of the `switch` of `pci_xhci_complete_commands` reaches no `assert`:
LINK, ENABLE_SLOT, DISABLE_SLOT and the types on which the `switch` only breaks (NOOP_CMD and
the types it does not handle).  The handlers of the other commands look up the device of the
slot or its device context and assert on the result. -/
def cmd_without_assert (t : xhci_trb) : Bool :=
  let type := XHCI_TRB_3_TYPE_GET t.dwTrb3
  type ≠ XHCI_TRB_TYPE_ADDRESS_DEVICE ∧ type ≠ XHCI_TRB_TYPE_CONFIGURE_EP ∧
    type ≠ XHCI_TRB_TYPE_EVALUATE_CTX ∧ type ≠ XHCI_TRB_TYPE_RESET_EP ∧
    type ≠ XHCI_TRB_TYPE_STOP_EP ∧ type ≠ XHCI_TRB_TYPE_SET_TR_DEQUEUE ∧
    type ≠ XHCI_TRB_TYPE_RESET_DEVICE

/-- Whether a run finished (the function returned). -/
def cmd_result.is_done : cmd_result → Bool
  | cmd_result.done _ => true
  | _ => false

/-- Whether a run aborted the emulator (an `assert` failed). -/
def cmd_result.is_aborted : cmd_result → Bool
  | cmd_result.aborted => true
  | _ => false

/-! ## Concrete controllers for the slot and context commands -/

/-- The controller `sc_evring 4` after the guest writes USBCMD = INTE (run/stop clear) and
IMAN = IE: interrupts are enabled and the controller is stopped. -/
def sc_inte_no_rs : pci_xhci_softc :=
  let s1 := (pci_xhci_hostop_write (sc_evring 4) XHCI_CAPLEN XHCI_CMD_INTE).getD (sc_evring 4)
  (pci_xhci_rtsregs_write s1 (s1.rtsoff + 0x20) XHCI_IMAN_INTR_ENA).getD s1

/-- The guest memory that the context commands read, as a driver sets it up: a device context
base address array at `0x6000` with the output device contexts of slot 1 at `0x7000` and of
slot 2 at `0x7800` (DCBAAP written, low dword then high dword), and an input context at
`0x4000` with add mask `0b11`, drop mask 0, a slot context that names the root-hub port
`rh_port`, and a control endpoint context for EP0 with dequeue pointer `0x8000`, DCS 1. -/
def guest_ctx_setup (sc : pci_xhci_softc) (rh_port : Nat) : pci_xhci_softc :=
  let s0 : pci_xhci_softc :=
    { sc with
      dcbaamem := fun a =>
        if a = 0x6000 + 8 * 1 then 0x7000 else if a = 0x6000 + 8 * 2 then 0x7800 else 0
      inctxmem := fun a =>
        if a = 0x4000 then
          { ctx_input := ⟨0, 3, 0, 0, 0, 0, 0, 0⟩
            ctx_slot := ⟨0x08300000, rh_port <<< 16, 0, 0, 0, 0, 0, 0⟩
            ctx_ep := fun i =>
              if i = 1 then ⟨0, 0x400026, 0x8001, 0, 0, 0, 0⟩ else ⟨0, 0, 0, 0, 0, 0, 0⟩ }
        else sc.inctxmem a }
  let s1 := (pci_xhci_hostop_write s0 (XHCI_CAPLEN + 0x30) 0x6000).getD s0
  (pci_xhci_hostop_write s1 (XHCI_CAPLEN + 0x34) 0).getD s1

/-- An ADDRESS_DEVICE command TRB for `slot` whose input context is at `0x4000`. -/
def trb_address_device (slot : Nat) : xhci_trb :=
  { qwTrb0 := 0x4000, dwTrb2 := 0
    dwTrb3 := XHCI_TRB_3_SLOT_SET slot ||| XHCI_TRB_3_TYPE_SET XHCI_TRB_TYPE_ADDRESS_DEVICE ||| 1 }

/-- The controller with the emulated tablet after ENABLE_SLOT: slot 1 is allocated and the
tablet, bound to slot 1 by the configuration, is Enabled. -/
def sc_tablet_enabled : pci_xhci_softc :=
  (pci_xhci_cmd_enable_slot (guest_ctx_setup sc_fresh 1) 0).1

/-- The controller with the emulated tablet after ENABLE_SLOT and ADDRESS_DEVICE for slot 1. -/
def sc_tablet_addressed : pci_xhci_softc :=
  ((pci_xhci_cmd_address_device sc_tablet_enabled 1 (trb_address_device 1)).map
    fun r => r.1).getD sc_tablet_enabled

/-- A host USB device as the backend reports it. -/
def di_stick : usb_native_devinfo :=
  { path := { bus := 1, depth := 1, path := [3] }, speed := 3, bcd := 0x200, type := 0
    maxchild := 0 }

/-- The state that `pci_xhci_native_usb_dev_conn_cb` leaves in the native port table when the
host device `di` arrives on the native port `index` and is given the virtual port `vport`. -/
def native_port_connected (sc : pci_xhci_softc) (index vport : Nat) (di : usb_native_devinfo) :
    pci_xhci_softc :=
  { sc with
    native_ports := upd sc.native_ports index { info := di, vport := vport, state := VPORT_CONNECTED } }

/-- A controller without configured devices, with the host device `di_stick` connected on
virtual port 2, after ENABLE_SLOT (slot 1 is allocated, no device is bound to it); `backend`
is the host USB backend.  The input context at `0x4000` names root-hub port 2. -/
def sc_native_enabled (backend : usb_native_devinfo → Option usb_devemu) : pci_xhci_softc :=
  let s0 := (pci_xhci_init false backend []).getD (softc_zero false backend)
  (pci_xhci_cmd_enable_slot (guest_ctx_setup (native_port_connected s0 0 2 di_stick) 2) 0).1

/-- The device emulation that the host backend sets up for `di_stick`. -/
def ue_stick : usb_devemu :=
  { ue_usbver := 2, ue_usbspeed := 3, ue_reset := some 0, ue_stop := true }

/-- A host USB backend that knows the device `di_stick` only. -/
def backend_stick (di : usb_native_devinfo) : Option usb_devemu :=
  if di = di_stick then some ue_stick else none

/-- The controller `sc_native_enabled backend_stick` after ADDRESS_DEVICE for slot 1. -/
def sc_native_addressed : pci_xhci_softc :=
  ((pci_xhci_cmd_address_device (sc_native_enabled backend_stick) 1 (trb_address_device 1)).map
    fun r => r.1).getD (sc_native_enabled backend_stick)

/-- The controller with the emulated tablet (bound to slot 1) and, in addition, the host
device `di_stick` connected on virtual port 2, after ENABLE_SLOT; the input context at
`0x4000` names root-hub port 2. -/
def sc_tablet_and_native : pci_xhci_softc :=
  (pci_xhci_cmd_enable_slot (guest_ctx_setup (native_port_connected sc_fresh 0 2 di_stick) 2) 0).1

/-- The endpoint context `i` after CONFIGURE_EP as the spec describes it, given the input
context `ic` and the endpoint context `old` before the command: with the add flag of `i` set,
the input endpoint context with endpoint state Running; else with the drop flag set, the old
context with endpoint state Disabled; else the old context. -/
def config_ep_ctx_spec (ic : xhci_input_dev_ctx) (old : xhci_endp_ctx) (i : Nat) :
    xhci_endp_ctx :=
  if ic.ctx_input.dwInCtx1 &&& (1 <<< i) ≠ 0 then
    { ic.ctx_ep i with
      dwEpCtx0 := FIELD_REPLACE (ic.ctx_ep i).dwEpCtx0 XHCI_ST_EPCTX_RUNNING 0x7 0 }
  else if ic.ctx_input.dwInCtx0 &&& (1 <<< i) ≠ 0 then
    { old with dwEpCtx0 := (old.dwEpCtx0 &&& NOT32 0x7) ||| XHCI_ST_EPCTX_DISABLED }
  else old

/-- The controller `sc_tablet_addressed` with two more input contexts in guest memory, both
with drop mask 0 and the add flags of the slot context and of endpoint 2: at `0x4800`
endpoint 2 is an interrupt IN endpoint without streams and dequeue pointer `0x9000`, DCS 1;
at `0x4900` endpoint 2 is a bulk endpoint with MaxPStreams 1. -/
def sc_cfg : pci_xhci_softc :=
  { sc_tablet_addressed with
    inctxmem := fun a =>
      if a = 0x4800 then
        { ctx_input := ⟨0, 5, 0, 0, 0, 0, 0, 0⟩
          ctx_slot := ⟨0x10300000, 1 <<< 16, 0, 0, 0, 0, 0, 0⟩
          ctx_ep := fun i =>
            if i = 2 then ⟨0, 0x80003E, 0x9001, 0, 0, 0, 0⟩ else ⟨0, 0, 0, 0, 0, 0, 0⟩ }
      else if a = 0x4900 then
        { ctx_input := ⟨0, 5, 0, 0, 0, 0, 0, 0⟩
          ctx_slot := ⟨0x10300000, 1 <<< 16, 0, 0, 0, 0, 0, 0⟩
          ctx_ep := fun i =>
            if i = 2 then ⟨0x400, 0x2000016, 0xA000, 0, 0, 0, 0⟩ else ⟨0, 0, 0, 0, 0, 0, 0⟩ }
      else sc_tablet_addressed.inctxmem a }

/-- A CONFIGURE_EP command TRB (DCEP clear) for `slot` whose input context is at `addr`. -/
def trb_configure_ep (addr slot : Nat) : xhci_trb :=
  { qwTrb0 := addr, dwTrb2 := 0
    dwTrb3 := XHCI_TRB_3_SLOT_SET slot ||| XHCI_TRB_3_TYPE_SET XHCI_TRB_TYPE_CONFIGURE_EP ||| 1 }

/-- The controller `sc_cfg` after CONFIGURE_EP with the input context at `0x4900`: the slot
is Configured and endpoint 2 has its stream rings. -/
def sc_cfg_streams : pci_xhci_softc :=
  ((pci_xhci_cmd_config_ep sc_cfg 1 (trb_configure_ep 0x4900 1)).map fun r => r.1).getD sc_cfg

/-- The controller `sc_cfg` after CONFIGURE_EP with the input context at `0x4800` (endpoint 2
is added without streams, so that its cached ring address is `0x9000`), after which the guest
has set MaxPStreams to 1 in the output context of endpoint 2 (dword 0 is `0x401`: Running,
MaxPStreams 1) and has put an input context at `0x4B00` with the drop flag of endpoint 2 and
the add flag of the slot context only. -/
def sc_cfg_ring_as_streams : pci_xhci_softc :=
  let s1 := ((pci_xhci_cmd_config_ep sc_cfg 1 (trb_configure_ep 0x4800 1)).map
    fun r => r.1).getD sc_cfg
  let ctx := s1.devctxmem 0x7000
  { s1 with
    devctxmem := upd s1.devctxmem 0x7000
      (set_ctx_ep ctx 2 { ctx.ctx_ep 2 with dwEpCtx0 := 0x401 })
    inctxmem := fun a =>
      if a = 0x4B00 then
        { ctx_input := ⟨4, 1, 0, 0, 0, 0, 0, 0⟩
          ctx_slot := ⟨0x10300000, 1 <<< 16, 0, 0, 0, 0, 0, 0⟩
          ctx_ep := fun _ => ⟨0, 0, 0, 0, 0, 0, 0⟩ }
      else s1.inctxmem a }

/-! ## Slot states as the specification describes them -/

/-- What a command leaves alone of the slot table: the devices bound to the slots, the size of
the device heap, and the slot state of every device instance. -/
def slot_frame (sc r : pci_xhci_softc) : Prop :=
  r.slots = sc.slots ∧ r.devs_next = sc.devs_next ∧
    ∀ e, (r.devs e).dev_slotstate = (sc.devs e).dev_slotstate

/-- A command TRB of the given type for `slot`, with parameter `addr` and cycle bit 1. -/
def trb_cmd (type addr slot : Nat) : xhci_trb :=
  { qwTrb0 := addr, dwTrb2 := 0
    dwTrb3 := XHCI_TRB_3_SLOT_SET slot ||| XHCI_TRB_3_TYPE_SET type ||| 1 }

/-- The controller `sc_tablet_addressed` with one more input context in guest memory, at
`0x4A00`: drop mask 0, add flags of the slot context and of EP0, max exit latency `0x1234`,
interrupter target 5 and, for EP0, max packet size 64. -/
def sc_eval : pci_xhci_softc :=
  { sc_tablet_addressed with
    inctxmem := fun a =>
      if a = 0x4A00 then
        { ctx_input := ⟨0, 3, 0, 0, 0, 0, 0, 0⟩
          ctx_slot := ⟨0x08300000, 0x00FF1234, 0x01400003, 0, 0, 0, 0, 0⟩
          ctx_ep := fun i =>
            if i = 1 then ⟨0, 0x400026, 0x8001, 0, 0, 0, 0⟩ else ⟨0, 0, 0, 0, 0, 0, 0⟩ }
      else sc_tablet_addressed.inctxmem a }

/-- A command TRB of the given type for the endpoint `epid` of `slot`, with parameter `addr`
and cycle bit 1. -/
def trb_ep_cmd (type addr slot epid : Nat) : xhci_trb :=
  { qwTrb0 := addr, dwTrb2 := 0
    dwTrb3 := XHCI_TRB_3_SLOT_SET slot ||| XHCI_TRB_3_TYPE_SET type ||| (epid <<< 16) ||| 1 }

/-- The controller `sc_tablet_addressed` after STOP_EP for endpoint 1 of slot 1. -/
def sc_ep0_stopped : pci_xhci_softc :=
  ((pci_xhci_cmd_reset_ep sc_tablet_addressed 1
    (trb_ep_cmd XHCI_TRB_TYPE_STOP_EP 0 1 1)).map fun r => r.1).getD sc_tablet_addressed

/-- The controller `sc_ep0_stopped` after SET_TR_DEQUEUE with parameter `0x9015` (dequeue
pointer `0x9010`, DCS 1) for endpoint 1 of slot 1. -/
def sc_ep0_set_tr : pci_xhci_softc :=
  ((pci_xhci_cmd_set_tr sc_ep0_stopped 1
    (trb_ep_cmd XHCI_TRB_TYPE_SET_TR_DEQUEUE 0x9015 1 1)).map fun r => r.1).getD sc_ep0_stopped

/-! ## Backend statuses and their completion codes -/

/-! The backend statuses `USB_ERR_*` of the absent `usb_emul.h`.  Modelled from the spec:
the names are those of its mapping table; the values are those of an enumeration that
declares them in the order in which `xhci_usb_errors` lists them, `USB_ERR_MAX` last. -/

/-- Modelled from the spec: backend status NORMAL_COMPLETION. -/
def USB_ERR_NORMAL_COMPLETION : Nat := 0
/-- Modelled from the spec: backend status PENDING_REQUESTS. -/
def USB_ERR_PENDING_REQUESTS : Nat := 1
/-- Modelled from the spec: backend status NOT_STARTED. -/
def USB_ERR_NOT_STARTED : Nat := 2
/-- Modelled from the spec: backend status INVAL. -/
def USB_ERR_INVAL : Nat := 3
/-- Modelled from the spec: backend status NOMEM. -/
def USB_ERR_NOMEM : Nat := 4
/-- Modelled from the spec: backend status CANCELLED. -/
def USB_ERR_CANCELLED : Nat := 5
/-- Modelled from the spec: backend status BAD_ADDRESS. -/
def USB_ERR_BAD_ADDRESS : Nat := 6
/-- Modelled from the spec: backend status BAD_BUFSIZE. -/
def USB_ERR_BAD_BUFSIZE : Nat := 7
/-- Modelled from the spec: backend status BAD_FLAG. -/
def USB_ERR_BAD_FLAG : Nat := 8
/-- Modelled from the spec: backend status NO_CALLBACK. -/
def USB_ERR_NO_CALLBACK : Nat := 9
/-- Modelled from the spec: backend status IN_USE. -/
def USB_ERR_IN_USE : Nat := 10
/-- Modelled from the spec: backend status NO_ADDR. -/
def USB_ERR_NO_ADDR : Nat := 11
/-- Modelled from the spec: backend status NO_PIPE. -/
def USB_ERR_NO_PIPE : Nat := 12
/-- Modelled from the spec: backend status ZERO_NFRAMES (not in the spec's table). -/
def USB_ERR_ZERO_NFRAMES : Nat := 13
/-- Modelled from the spec: backend status ZERO_MAXP (not in the spec's table). -/
def USB_ERR_ZERO_MAXP : Nat := 14
/-- Modelled from the spec: backend status SET_ADDR_FAILED. -/
def USB_ERR_SET_ADDR_FAILED : Nat := 15
/-- Modelled from the spec: backend status NO_POWER. -/
def USB_ERR_NO_POWER : Nat := 16
/-- Modelled from the spec: backend status TOO_DEEP. -/
def USB_ERR_TOO_DEEP : Nat := 17
/-- Modelled from the spec: backend status IOERROR. -/
def USB_ERR_IOERROR : Nat := 18
/-- Modelled from the spec: backend status NOT_CONFIGURED. -/
def USB_ERR_NOT_CONFIGURED : Nat := 19
/-- Modelled from the spec: backend status TIMEOUT. -/
def USB_ERR_TIMEOUT : Nat := 20
/-- Modelled from the spec: backend status SHORT_XFER. -/
def USB_ERR_SHORT_XFER : Nat := 21
/-- Modelled from the spec: backend status STALLED. -/
def USB_ERR_STALLED : Nat := 22
/-- Modelled from the spec: backend status INTERRUPTED. -/
def USB_ERR_INTERRUPTED : Nat := 23
/-- Modelled from the spec: backend status DMA_LOAD_FAILED. -/
def USB_ERR_DMA_LOAD_FAILED : Nat := 24
/-- Modelled from the spec: backend status BAD_CONTEXT. -/
def USB_ERR_BAD_CONTEXT : Nat := 25
/-- Modelled from the spec: backend status NO_ROOT_HUB (not in the spec's table). -/
def USB_ERR_NO_ROOT_HUB : Nat := 26
/-- Modelled from the spec: backend status NO_INTR_THREAD (not in the spec's table). -/
def USB_ERR_NO_INTR_THREAD : Nat := 27
/-- Modelled from the spec: backend status NOT_LOCKED (not in the spec's table). -/
def USB_ERR_NOT_LOCKED : Nat := 28
/-- Modelled from the spec: the number of backend statuses, `USB_ERR_MAX`. -/
def USB_ERR_MAX : Nat := 29

/-- Modelled from the spec: completion code INVALID (0). -/
def XHCI_TRB_ERROR_INVALID : Nat := 0x00
/-- Modelled from the spec: completion code DATA_BUF (2). -/
def XHCI_TRB_ERROR_DATA_BUF : Nat := 0x02
/-- Modelled from the spec: completion code BABBLE (3). -/
def XHCI_TRB_ERROR_BABBLE : Nat := 0x03
/-- Modelled from the spec: completion code XACT (4). -/
def XHCI_TRB_ERROR_XACT : Nat := 0x04
/-- Modelled from the spec: completion code STALL (6). -/
def XHCI_TRB_ERROR_STALL : Nat := 0x06
/-- Modelled from the spec: completion code RESOURCE (7). -/
def XHCI_TRB_ERROR_RESOURCE : Nat := 0x07
/-- Modelled from the spec: completion code SHORT_PKT (13). -/
def XHCI_TRB_ERROR_SHORT_PKT : Nat := 0x0D
/-- Modelled from the spec: completion code PARAMETER (17). -/
def XHCI_TRB_ERROR_PARAMETER : Nat := 0x11
/-- Modelled from the spec: completion code CMD_ABORTED (25). -/
def XHCI_TRB_ERROR_CMD_ABORTED : Nat := 0x19
/-- Modelled from the spec: completion code STOPPED (26). -/
def XHCI_TRB_ERROR_STOPPED : Nat := 0x1A
/-- Modelled from the spec: completion code UNDEFINED (33). -/
def XHCI_TRB_ERROR_UNDEFINED : Nat := 0x21

/-- The source's table `xhci_usb_errors`, one line per designated initialiser, in source
order; an index without an initialiser holds 0. -/
def xhci_usb_errors (e : Nat) : Nat :=
  if e = USB_ERR_NORMAL_COMPLETION then XHCI_TRB_ERROR_SUCCESS
  else if e = USB_ERR_PENDING_REQUESTS then XHCI_TRB_ERROR_RESOURCE
  else if e = USB_ERR_NOT_STARTED then XHCI_TRB_ERROR_ENDP_NOT_ON
  else if e = USB_ERR_INVAL then XHCI_TRB_ERROR_INVALID
  else if e = USB_ERR_NOMEM then XHCI_TRB_ERROR_RESOURCE
  else if e = USB_ERR_CANCELLED then XHCI_TRB_ERROR_STOPPED
  else if e = USB_ERR_BAD_ADDRESS then XHCI_TRB_ERROR_PARAMETER
  else if e = USB_ERR_BAD_BUFSIZE then XHCI_TRB_ERROR_PARAMETER
  else if e = USB_ERR_BAD_FLAG then XHCI_TRB_ERROR_PARAMETER
  else if e = USB_ERR_NO_CALLBACK then XHCI_TRB_ERROR_STALL
  else if e = USB_ERR_IN_USE then XHCI_TRB_ERROR_RESOURCE
  else if e = USB_ERR_NO_ADDR then XHCI_TRB_ERROR_RESOURCE
  else if e = USB_ERR_NO_PIPE then XHCI_TRB_ERROR_RESOURCE
  else if e = USB_ERR_ZERO_NFRAMES then XHCI_TRB_ERROR_UNDEFINED
  else if e = USB_ERR_ZERO_MAXP then XHCI_TRB_ERROR_UNDEFINED
  else if e = USB_ERR_SET_ADDR_FAILED then XHCI_TRB_ERROR_RESOURCE
  else if e = USB_ERR_NO_POWER then XHCI_TRB_ERROR_ENDP_NOT_ON
  else if e = USB_ERR_TOO_DEEP then XHCI_TRB_ERROR_RESOURCE
  else if e = USB_ERR_IOERROR then XHCI_TRB_ERROR_TRB
  else if e = USB_ERR_NOT_CONFIGURED then XHCI_TRB_ERROR_ENDP_NOT_ON
  else if e = USB_ERR_TIMEOUT then XHCI_TRB_ERROR_CMD_ABORTED
  else if e = USB_ERR_SHORT_XFER then XHCI_TRB_ERROR_SHORT_PKT
  else if e = USB_ERR_STALLED then XHCI_TRB_ERROR_STALL
  else if e = USB_ERR_INTERRUPTED then XHCI_TRB_ERROR_CMD_ABORTED
  else if e = USB_ERR_DMA_LOAD_FAILED then XHCI_TRB_ERROR_DATA_BUF
  else if e = USB_ERR_BAD_CONTEXT then XHCI_TRB_ERROR_TRB
  else if e = USB_ERR_NO_ROOT_HUB then XHCI_TRB_ERROR_UNDEFINED
  else if e = USB_ERR_NO_INTR_THREAD then XHCI_TRB_ERROR_UNDEFINED
  else if e = USB_ERR_NOT_LOCKED then XHCI_TRB_ERROR_UNDEFINED
  else 0

/-- The source's macro `USB_TO_XHCI_ERR`. -/
def USB_TO_XHCI_ERR (e : Nat) : Nat :=
  if e < USB_ERR_MAX then xhci_usb_errors e else XHCI_TRB_ERROR_INVALID

/-- The backend statuses that the mapping table of the specification names. -/
def spec_table_statuses : List Nat :=
  [USB_ERR_NORMAL_COMPLETION, USB_ERR_SHORT_XFER, USB_ERR_STALLED, USB_ERR_BAD_BUFSIZE,
    USB_ERR_TIMEOUT, USB_ERR_INTERRUPTED, USB_ERR_IOERROR, USB_ERR_BAD_CONTEXT,
    USB_ERR_DMA_LOAD_FAILED, USB_ERR_NOMEM, USB_ERR_IN_USE, USB_ERR_NO_ADDR, USB_ERR_NO_PIPE,
    USB_ERR_PENDING_REQUESTS, USB_ERR_SET_ADDR_FAILED, USB_ERR_TOO_DEEP, USB_ERR_NOT_STARTED,
    USB_ERR_NO_POWER, USB_ERR_NOT_CONFIGURED, USB_ERR_INVAL, USB_ERR_BAD_ADDRESS,
    USB_ERR_BAD_FLAG, USB_ERR_CANCELLED, USB_ERR_NO_CALLBACK]

/-- The change bits of PORTSC: CSC, PEC, WRC, OCC, PRC, PLC and CEC. -/
def XHCI_PS_CHANGE_BITS : Nat :=
  XHCI_PS_CSC ||| XHCI_PS_PEC ||| XHCI_PS_WRC ||| XHCI_PS_OCC ||| XHCI_PS_PRC ||| XHCI_PS_PLC |||
    XHCI_PS_CEC

/-- The controller with the tablet and a programmed event ring of four entries (`sc_evring 4`)
after the guest has reset port 1, the port of the tablet, by writing PP and PR to its PORTSC
(BAR offset `0x420`): the port has PRC set and the port status change event is in the event
ring. -/
def sc_port1_reset : pci_xhci_softc :=
  (pci_xhci_hostop_write (sc_evring 4) 0x420 (XHCI_PS_PP ||| XHCI_PS_PR)).getD (sc_evring 4)

/-! ## Native ports: host connect and disconnect -/

/-- Modelled from the spec: `usb_dev_path_cmp` of the absent `usb_pmapper.h`; two host device
paths are the same when the bus, the depth and the hub-port chain up to the depth agree. -/
def usb_dev_path_cmp (p1 p2 : usb_devpath) : Bool :=
  p1.bus = p2.bus ∧ p1.depth = p2.depth ∧ p1.path.take p1.depth = p2.path.take p1.depth

/-- Modelled from the spec: the device type `USB_TYPE_EXTHUB` of the absent `usb_pmapper.h`,
an external hub; only equality with it is used. -/
def USB_TYPE_EXTHUB : Nat := 1
/-- Modelled from the spec: the host speed `USB_SPEED_LOW` of the absent `usb_emul.h`. -/
def USB_SPEED_LOW : Nat := 1
/-- Modelled from the spec: the host speed `USB_SPEED_FULL` of the absent `usb_emul.h`. -/
def USB_SPEED_FULL : Nat := 2
/-- Modelled from the spec: the host speed `USB_SPEED_HIGH` of the absent `usb_emul.h`. -/
def USB_SPEED_HIGH : Nat := 3
/-- Modelled from the spec: the host speed `USB_SPEED_SUPER` of the absent `usb_emul.h`. -/
def USB_SPEED_SUPER : Nat := 4
/-- Modelled from the spec: `ROOTHUB_PORT` of the absent `usb_pmapper.h`, the first hop of a
host device path. -/
def ROOTHUB_PORT (p : usb_devpath) : Nat := p.path.headD 0

/-- The source's `pci_xhci_convert_speed`. -/
def pci_xhci_convert_speed (lspeed : Nat) : Nat :=
  if lspeed = USB_SPEED_LOW then 0x2
  else if lspeed = USB_SPEED_FULL then 0x1
  else if lspeed = USB_SPEED_HIGH then 0x3
  else if lspeed = USB_SPEED_SUPER then 0x4
  else 0

/-- The source's `pci_xhci_is_valid_portnum`. -/
def pci_xhci_is_valid_portnum (n : Nat) : Bool := n > 0 ∧ n ≤ XHCI_MAX_DEVS

/-- The source's `pci_xhci_change_port`: the new state and the value returned; `none` when
`portregs` is `NULL` or `pci_xhci_insert_event` does not return. -/
def pci_xhci_change_port (xdev : pci_xhci_softc) (port usb_speed : Nat) (conn need_intr : Bool) :
    Option (pci_xhci_softc × Int) :=
  match xdev.portregs with
  | none => none
  | some pr =>
    let reg := pr port
    let portsc :=
      if conn = false then
        (reg.portsc &&& NOT32 (XHCI_PS_CCS ||| XHCI_PS_PED)) |||
          (XHCI_PS_CSC ||| XHCI_PS_PLS_SET UPS_PORT_LS_RX_DET)
      else
        (XHCI_PS_CCS ||| XHCI_PS_PP ||| XHCI_PS_CSC) |||
          XHCI_PS_SPEED_SET (pci_xhci_convert_speed usb_speed)
    let sc1 : pci_xhci_softc :=
      { xdev with portregs := some (upd pr port { reg with portsc := portsc }) }
    if need_intr = false then some (sc1, 0)
    else if sc1.opregs.usbcmd &&& XHCI_CMD_RS = 0 then some (sc1, 0)
    else
      (pci_xhci_insert_event sc1
        (pci_xhci_set_evtrb port XHCI_TRB_ERROR_SUCCESS XHCI_TRB_EVENT_PORT_STS_CHANGE) true).map
        fun r => (r.1, if r.2 = XHCI_TRB_ERROR_SUCCESS then 0 else -1)

/-- The source's `pci_xhci_connect_port`. -/
def pci_xhci_connect_port (xdev : pci_xhci_softc) (port usb_speed : Nat) (intr : Bool) :
    Option (pci_xhci_softc × Int) :=
  pci_xhci_change_port xdev port usb_speed true intr

/-- The source's `pci_xhci_disconnect_port`. -/
def pci_xhci_disconnect_port (xdev : pci_xhci_softc) (port : Nat) (intr : Bool) :
    Option (pci_xhci_softc × Int) :=
  pci_xhci_change_port xdev port 0 false intr

/-- The source's `pci_xhci_get_native_port_index_by_path`: `none` for `-1`. -/
def pci_xhci_get_native_port_index_by_path (xdev : pci_xhci_softc) (path : usb_devpath) :
    Option Nat :=
  (List.range XHCI_MAX_DEVICES).find? fun i =>
    usb_dev_path_cmp (xdev.native_ports i).info.path path

/-- The source's `pci_xhci_set_native_port_assigned`: the new state and the index, `none` for
`-1`. -/
def pci_xhci_set_native_port_assigned (xdev : pci_xhci_softc) (info : usb_native_devinfo) :
    pci_xhci_softc × Option Nat :=
  match (List.range XHCI_MAX_DEVICES).find? fun i => (xdev.native_ports i).state = VPORT_FREE with
  | some i =>
    ({ xdev with
        native_ports := upd xdev.native_ports i
          { xdev.native_ports i with info := info, state := VPORT_ASSIGNED } }, some i)
  | none => (xdev, none)

/-- The host device path of port `i` of the hub with path `p`, as `pci_xhci_assign_hub_ports`
and `pci_xhci_unassign_hub_ports` build it. -/
def hub_port_path (p : usb_devpath) (i : Nat) : usb_devpath :=
  { bus := p.bus, depth := p.depth + 1, path := p.path.take p.depth ++ [i] }

/-- The loop of `pci_xhci_assign_hub_ports` over the hub ports of the list.  Of the local
`di` the source sets the path only; its other members are indeterminate and are 0 here. -/
def assign_hub_ports_loop (xdev : pci_xhci_softc) (info : usb_native_devinfo) :
    List Nat → pci_xhci_softc × Int
  | [] => (xdev, 0)
  | i :: rest =>
    let di : usb_native_devinfo :=
      { path := hub_port_path info.path i, speed := 0, bcd := 0, type := 0, maxchild := 0 }
    let r := pci_xhci_set_native_port_assigned xdev di
    match r.2 with
    | none => (r.1, -1)
    | some _ => assign_hub_ports_loop r.1 info rest

/-- The source's `pci_xhci_assign_hub_ports`. -/
def pci_xhci_assign_hub_ports (xdev : pci_xhci_softc) (info : usb_native_devinfo) :
    pci_xhci_softc × Int :=
  if info.type ≠ USB_TYPE_EXTHUB then (xdev, -1)
  else
    match pci_xhci_get_native_port_index_by_path xdev info.path with
    | none => (xdev, -1)
    | some index =>
      let sc1 : pci_xhci_softc :=
        { xdev with
          native_ports := upd xdev.native_ports index
            { xdev.native_ports index with info := info } }
      assign_hub_ports_loop sc1 info (List.range' 1 info.maxchild)

/-- The source's `pci_xhci_clr_native_port_assigned`. -/
def pci_xhci_clr_native_port_assigned (xdev : pci_xhci_softc) (info : usb_native_devinfo) :
    pci_xhci_softc :=
  match pci_xhci_get_native_port_index_by_path xdev info.path with
  | some i =>
    { xdev with
      native_ports := upd xdev.native_ports i
        { info := { path := { bus := 0, depth := 0, path := [] }, speed := 0, bcd := 0,
                    type := 0, maxchild := 0 }
          vport := 0, state := VPORT_FREE } }
  | none => xdev

/-- The source's `pci_xhci_unassign_hub_ports`, called with a path that is in the native port
table. -/
def pci_xhci_unassign_hub_ports (xdev : pci_xhci_softc) (info : usb_native_devinfo) :
    pci_xhci_softc × Int :=
  if info.type ≠ USB_TYPE_EXTHUB then (xdev, -1)
  else
    match pci_xhci_get_native_port_index_by_path xdev info.path with
    | none => (xdev, -1)
    | some index =>
      let oldinfo := (xdev.native_ports index).info
      ((List.range' 1 oldinfo.maxchild).foldl
        (fun s i =>
          pci_xhci_clr_native_port_assigned s
            { path := hub_port_path oldinfo.path i, speed := 0, bcd := 0, type := 0,
              maxchild := 0 })
        xdev, 0)

/-- Whether virtual port `i` is taken, as the inner loop of `pci_xhci_get_free_vport` finds:
a native port is mapped to it, or, while a resume is pending (`vbdp_dev_num > 0`), a saved
port in state START holds it. -/
def vport_taken (xdev : pci_xhci_softc) (i : Nat) : Bool :=
  (List.range XHCI_MAX_DEVICES).any fun j =>
    (xdev.native_ports j).vport = i ∨
      (xdev.vbdp_dev_num > 0 ∧ (xdev.vbdp_devs j).state = S3_VBDP_START ∧
        (xdev.vbdp_devs j).vport = i)

/-- The source's `pci_xhci_get_free_vport`: `none` for `-1`.  The outer loop runs
`i = ports .. porte` with `porte = ports + XHCI_MAX_DEVS / 2`, both ends included. -/
def pci_xhci_get_free_vport (xdev : pci_xhci_softc) (di : usb_native_devinfo) : Option Nat :=
  let ports := if di.bcd < 0x300 then xdev.usb2_port_start else xdev.usb3_port_start
  let porte := ports + XHCI_MAX_DEVS / 2
  (List.range' ports (porte + 1 - ports)).find? fun i => ! vport_taken xdev i

/-- The loop of the connect and disconnect callbacks over the saved ports: the first saved
port in state START with the path `path`, while `vbdp_dev_num` is not 0. -/
def vbdp_find_start (xdev : pci_xhci_softc) (path : usb_devpath) : Option Nat :=
  if xdev.vbdp_dev_num = 0 then none
  else
    (List.range XHCI_MAX_DEVICES).find? fun i =>
      (xdev.vbdp_devs i).state = S3_VBDP_START ∧ usb_dev_path_cmp path (xdev.vbdp_devs i).path

/-- The source's `pci_xhci_native_usb_dev_conn_cb`: the new state and the value returned;
`none` when `portregs` is `NULL` or `pci_xhci_insert_event` does not return. -/
def pci_xhci_native_usb_dev_conn_cb (xdev : pci_xhci_softc) (di : usb_native_devinfo) :
    Option (pci_xhci_softc × Int) :=
  match pci_xhci_get_native_port_index_by_path xdev di.path with
  | none => some (xdev, 0)
  | some index =>
    if di.type = USB_TYPE_EXTHUB then some ((pci_xhci_assign_hub_ports xdev di).1, 0)
    else
      let s3 := vbdp_find_start xdev di.path
      let vport0 : Option Nat :=
        match s3 with
        | some i => if (xdev.vbdp_devs i).vport = 0 then none else some (xdev.vbdp_devs i).vport
        | none => none
      let vport? : Option Nat :=
        match vport0 with
        | some v => some v
        | none =>
          match pci_xhci_get_free_vport xdev di with
          | some v => if v = 0 then none else some v
          | none => none
      match vport? with
      | none => some (xdev, -1)
      | some vport =>
        let sc1 : pci_xhci_softc :=
          { xdev with
            native_ports := upd xdev.native_ports index
              { vport := vport, info := di, state := VPORT_CONNECTED } }
        if s3.isSome then some (sc1, 0)
        else
          match pci_xhci_connect_port sc1 vport di.speed true with
          | none => none
          | some r => some (r.1, 0)

/-- The source's `pci_xhci_native_usb_dev_disconn_cb`: the new state and the value returned;
`none` when `portregs` is `NULL` or `pci_xhci_insert_event` does not return.  The search of the slot of the device (`edev`, `slot`),
whose result the source uses in no store, is left out. -/
def pci_xhci_native_usb_dev_disconn_cb (xdev : pci_xhci_softc) (di : usb_native_devinfo) :
    Option (pci_xhci_softc × Int) :=
  if pci_xhci_is_valid_portnum (ROOTHUB_PORT di.path) = false then some (xdev, -1)
  else
    match pci_xhci_get_native_port_index_by_path xdev di.path with
    | none => some (xdev, -1)
    | some index =>
      if di.type = USB_TYPE_EXTHUB then some ((pci_xhci_unassign_hub_ports xdev di).1, 0)
      else
        let state := (xdev.native_ports index).state
        let vport := (xdev.native_ports index).vport
        if state = VPORT_CONNECTED ∧ vport > 0 then
          match pci_xhci_disconnect_port xdev vport false with
          | none => none
          | some r =>
            some ({ r.1 with
                    native_ports := upd r.1.native_ports index
                      { r.1.native_ports index with state := VPORT_ASSIGNED } }, 0)
        else if (vbdp_find_start xdev di.path).isSome then some (xdev, 0)
        else
          let sc1 : pci_xhci_softc :=
            { xdev with
              native_ports := upd xdev.native_ports index
                { xdev.native_ports index with state := VPORT_ASSIGNED, vport := 0 } }
          match pci_xhci_disconnect_port sc1 vport true with
          | none => none
          | some r => if r.2 ≠ 0 then some (r.1, -1) else some (r.1, 0)

/-! ## Concrete controllers with native ports -/

/-- A host USB 2 device (high speed, bcdUSB 2.00) on port `k` of bus 1. -/
def di_usb2 (k : Nat) : usb_native_devinfo :=
  { path := { bus := 1, depth := 1, path := [k] }, speed := USB_SPEED_HIGH, bcd := 0x200
    type := 0, maxchild := 0 }

/-- A host USB 3 device (SuperSpeed, bcdUSB 3.00) on port `k` of bus 2. -/
def di_usb3 (k : Nat) : usb_native_devinfo :=
  { path := { bus := 2, depth := 1, path := [k] }, speed := USB_SPEED_SUPER, bcd := 0x300
    type := 0, maxchild := 0 }

/-- The guest sets up an event ring on `sc`: a segment table at `0x1000` that describes one
segment of `n` entries at `0x2000` (zeroed), and ERSTBA written low dword then high dword. -/
def evring_setup (sc : pci_xhci_softc) (n : Nat) : pci_xhci_softc :=
  let sc1 : pci_xhci_softc :=
    { sc with
      erstmem := fun a =>
        if a = 0x1000 then { qwEvrsTablePtr := 0x2000, dwEvrsTableSize := n }
        else { qwEvrsTablePtr := 0, dwEvrsTableSize := 0 } }
  (guest_write_erstba sc1 0x1000 0).getD sc1

/-- A controller without configured devices after `pci_xhci_init`, with an event ring of `n`
entries, started by the guest (USBCMD written with RS and INTE). -/
def sc_plain_running (n : Nat) : pci_xhci_softc :=
  let s0 := (pci_xhci_init false (fun _ => none) []).getD (softc_zero false fun _ => none)
  let s1 := evring_setup s0 n
  (pci_xhci_hostop_write s1 XHCI_CAPLEN (XHCI_CMD_RS ||| XHCI_CMD_INTE)).getD s1

/-- The host device paths of the list assigned to the controller, in order, as the options
`<bus>-<port>` of the configuration string do through `pci_xhci_set_native_port_assigned`. -/
def assign_paths (sc : pci_xhci_softc) (dis : List usb_native_devinfo) : pci_xhci_softc :=
  dis.foldl (fun s di => (pci_xhci_set_native_port_assigned s di).1) sc

/-- The host reports the connection of the devices of the list, in order. -/
def connect_all (sc : pci_xhci_softc) (dis : List usb_native_devinfo) : pci_xhci_softc :=
  dis.foldl (fun s di => ((pci_xhci_native_usb_dev_conn_cb s di).map fun r => r.1).getD s) sc

/-- Five USB 2 paths are assigned and the host has reported the devices on the first four:
they hold the virtual ports 5, 6, 7 and 8. -/
def sc_usb2_full : pci_xhci_softc :=
  connect_all
    (assign_paths (sc_plain_running 4) [di_usb2 1, di_usb2 2, di_usb2 3, di_usb2 4, di_usb2 5])
    [di_usb2 1, di_usb2 2, di_usb2 3, di_usb2 4]

/-- Five USB 3 paths are assigned and the host has reported the devices on the first four:
they hold the virtual ports 1, 2, 3 and 4. -/
def sc_usb3_full : pci_xhci_softc :=
  connect_all
    (assign_paths (sc_plain_running 4) [di_usb3 1, di_usb3 2, di_usb3 3, di_usb3 4, di_usb3 5])
    [di_usb3 1, di_usb3 2, di_usb3 3, di_usb3 4]

/-- The running controller with the path of `di_stick` assigned, after the host has reported
the device: it is Connected on virtual port 5, the first port of the USB 2 range. -/
def sc_stick_connected : pci_xhci_softc :=
  connect_all
    (assign_paths { sc_plain_running 4 with usb_dev_backend := backend_stick } [di_stick])
    [di_stick]

/-- The controller `sc_stick_connected` after ENABLE_SLOT and ADDRESS_DEVICE for slot 1 with
an input context that names root-hub port 5: the device is Emulated. -/
def sc_stick_emulated : pci_xhci_softc :=
  let s := (pci_xhci_cmd_enable_slot (guest_ctx_setup sc_stick_connected 5) 0).1
  ((pci_xhci_cmd_address_device s 1 (trb_address_device 1)).map fun r => r.1).getD s

/-- The controller `sc_stick_emulated` after the guest has suspended port 5: PORTSC written
with PP, LWS and link state U3 (BAR offset `0x460`). -/
def sc_stick_u3 : pci_xhci_softc :=
  (pci_xhci_hostop_write sc_stick_emulated 0x460
    (XHCI_PS_PP ||| XHCI_PS_LWS ||| XHCI_PS_PLS_SET 3)).getD sc_stick_emulated

/-- A SuperSpeed external hub (bcdUSB 3.00, four ports) on port 2 of bus 2. -/
def di_hub3 : usb_native_devinfo :=
  { path := { bus := 2, depth := 1, path := [2] }, speed := USB_SPEED_SUPER, bcd := 0x300
    type := USB_TYPE_EXTHUB, maxchild := 4 }

/-- The port status change event for `port` as it is stored in the event ring when the
producer cycle state is `pcs`. -/
def port_event_stored (port pcs : Nat) : xhci_trb :=
  { pci_xhci_set_evtrb port XHCI_TRB_ERROR_SUCCESS XHCI_TRB_EVENT_PORT_STS_CHANGE with
    dwTrb3 := (XHCI_TRB_3_TYPE_SET XHCI_TRB_EVENT_PORT_STS_CHANGE &&&
      NOT32 XHCI_TRB_3_CYCLE_BIT) ||| pcs }

/-- The running controller with an event ring of `n` entries and the path of the host device
`di_usb3 2` assigned. -/
def sc_usb3_assigned (n : Nat) : pci_xhci_softc :=
  assign_paths (sc_plain_running n) [di_usb3 2]

/-! ## Transfer completion -/

/-- Modelled from the spec: `USB_BLOCK_FREE` of the absent `usb_emul.h`, the first value of
the block status enumeration. -/
def USB_BLOCK_FREE : Nat := 0
/-- Modelled from the spec: `USB_BLOCK_HANDLING`, the block is with the backend. -/
def USB_BLOCK_HANDLING : Nat := 1
/-- Modelled from the spec: `USB_BLOCK_HANDLED`, the backend is done with the block. -/
def USB_BLOCK_HANDLED : Nat := 2
/-- Modelled from the spec: `USB_DATA_NONE` of the absent `usb_emul.h`, the first value of
the block kind enumeration. -/
def USB_DATA_NONE : Nat := 0
/-- Modelled from the spec: `USB_DATA_PART`, the block is a part of a larger request whose
last part follows. -/
def USB_DATA_PART : Nat := 1
/-- Modelled from the spec: `USB_DATA_FULL`, the block is a whole request or its last part. -/
def USB_DATA_FULL : Nat := 2
/-- Modelled from the spec: `index_inc` of the absent `usb_emul.h`, the next index of a ring
of `max` blocks. -/
def index_inc (i max : Nat) : Nat := (i + 1) % max

/-- Modelled from the spec: `XHCI_TRB_3_ISP_BIT` of the absent `xhci.h`, interrupt on short
packet, bit 2. -/
def XHCI_TRB_3_ISP_BIT : Nat := 0x4
/-- Modelled from the spec: `XHCI_TRB_3_ED_BIT` of the absent `xhci.h`, event data, bit 2 of
a transfer event. -/
def XHCI_TRB_3_ED_BIT : Nat := 0x4
/-- Modelled from the spec: `XHCI_TRB_3_CHAIN_BIT` of the absent `xhci.h`, bit 4. -/
def XHCI_TRB_3_CHAIN_BIT : Nat := 0x10
/-- Modelled from the spec: `XHCI_TRB_3_IOC_BIT` of the absent `xhci.h`, interrupt on
completion, bit 5. -/
def XHCI_TRB_3_IOC_BIT : Nat := 0x20
/-- Modelled from the spec: `XHCI_TRB_3_IDT_BIT` of the absent `xhci.h`, immediate data,
bit 6. -/
def XHCI_TRB_3_IDT_BIT : Nat := 0x40
/-- Modelled from the spec: `XHCI_TRB_3_EP_SET` of the absent `xhci.h`, bits 16..20. -/
def XHCI_TRB_3_EP_SET (x : Nat) : Nat := (x &&& 0x1F) <<< 16
/-- Modelled from the spec: `XHCI_TRB_2_REM_SET` of the absent `xhci.h`, the remainder of a
transfer event, bits 0..23. -/
def XHCI_TRB_2_REM_SET (x : Nat) : Nat := x &&& 0xFFFFFF
/-- Modelled from the spec: `XHCI_TRB_2_REM_GET` of the absent `xhci.h`. -/
def XHCI_TRB_2_REM_GET (x : Nat) : Nat := x &&& 0xFFFFFF
/-- Modelled from the spec: `XHCI_TRB_2_BYTES_GET` of the absent `xhci.h`, the transfer
length of a transfer TRB, bits 0..16. -/
def XHCI_TRB_2_BYTES_GET (x : Nat) : Nat := x &&& 0x1FFFF
/-- Modelled from the spec: `XHCI_TRB_EVENT_TRANSFER` of the absent `xhci.h`. -/
def XHCI_TRB_EVENT_TRANSFER : Nat := 0x20
/-- Modelled from the spec: `XHCI_TRB_TYPE_NORMAL` of the absent `xhci.h`. -/
def XHCI_TRB_TYPE_NORMAL : Nat := 0x01
/-- Modelled from the spec: `XHCI_TRB_TYPE_SETUP_STAGE` of the absent `xhci.h`. -/
def XHCI_TRB_TYPE_SETUP_STAGE : Nat := 0x02
/-- Modelled from the spec: `XHCI_TRB_TYPE_DATA_STAGE` of the absent `xhci.h`. -/
def XHCI_TRB_TYPE_DATA_STAGE : Nat := 0x03
/-- Modelled from the spec: `XHCI_TRB_TYPE_STATUS_STAGE` of the absent `xhci.h`. -/
def XHCI_TRB_TYPE_STATUS_STAGE : Nat := 0x04
/-- Modelled from the spec: `XHCI_TRB_TYPE_ISOCH` of the absent `xhci.h`. -/
def XHCI_TRB_TYPE_ISOCH : Nat := 0x05
/-- Modelled from the spec: `XHCI_TRB_TYPE_EVENT_DATA` of the absent `xhci.h`. -/
def XHCI_TRB_TYPE_EVENT_DATA : Nat := 0x07
/-- Modelled from the spec: `XHCI_TRB_TYPE_NOOP` of the absent `xhci.h`. -/
def XHCI_TRB_TYPE_NOOP : Nat := 0x08

/-- The variables of the loop of `pci_xhci_xfer_complete`: the controller, the chain, the
index `i`, the completion code `err`, the residual `rem_len`, the event data transfer length
`edtla` and `*do_intr`.  `events` is a record that the source does not keep: the event TRBs
handed to `pci_xhci_insert_event`, in the order of the calls, each with the value the call
returned. -/
structure xfer_complete_state where
  xdev : pci_xhci_softc
  xfer : usb_data_xfer
  i : Nat
  err : Nat
  rem_len : Nat
  edtla : Nat
  do_intr : Nat
  events : List (xhci_trb × Nat)

/-- The completion code that the `switch (xfer->status)` of `pci_xhci_xfer_complete` leaves
in `err`. -/
def xfer_status_err (status : Nat) : Nat :=
  if status = USB_ERR_STALLED then XHCI_TRB_ERROR_STALL
  else if status = USB_ERR_SHORT_XFER then XHCI_TRB_ERROR_SHORT_PKT
  else if status = USB_ERR_TIMEOUT ∨ status = USB_ERR_IOERROR then XHCI_TRB_ERROR_XACT
  else if status = USB_ERR_BAD_BUFSIZE then XHCI_TRB_ERROR_BABBLE
  else XHCI_TRB_ERROR_SUCCESS

/-- The chain after the first stores of a pass of the loop of `pci_xhci_xfer_complete`:
`xfer->data[i].stat = USB_BLOCK_FREE`, `xfer->ndata--` (from `n + 1` to `n`) and
`xfer->head = index_inc(xfer->head, xfer->max_blk_cnt)`. -/
def xfer_pass_xfer (n : Nat) (s : xfer_complete_state) : usb_data_xfer :=
  { s.xfer with
    data := upd s.xfer.data s.i { s.xfer.data s.i with stat := USB_BLOCK_FREE }
    ndata := n
    head := index_inc s.xfer.head s.xfer.max_blk_cnt }

/-- The control word of the TRB of the block after the store
`trb->dwTrb3 = (trb->dwTrb3 & ~0x1) | (xfer->data[i].ccs)`. -/
def xfer_pass_flags (s : xfer_complete_state) : Nat :=
  (((s.xdev.trbmem (s.xfer.data s.i).trb_addr).dwTrb3 &&& NOT32 0x1) |||
    (s.xfer.data s.i).ccs) % 2 ^ 32

/-- The controller after the store `trb->dwTrb3 = (trb->dwTrb3 & ~0x1) | (xfer->data[i].ccs)`
of a pass, `trb` being the TRB at `xfer->data[i].trb_addr`. -/
def xfer_pass_xdev (s : xfer_complete_state) : pci_xhci_softc :=
  { s.xdev with
    trbmem := upd s.xdev.trbmem (s.xfer.data s.i).trb_addr
      { s.xdev.trbmem (s.xfer.data s.i).trb_addr with dwTrb3 := xfer_pass_flags s } }

/-- The variable `edtla` after `edtla += xfer->data[i].bdone` (32 bits). -/
def xfer_pass_edtla (s : xfer_complete_state) : Nat :=
  (s.edtla + (s.xfer.data s.i).bdone) % 2 ^ 32

/-- The variable `rem_len` after `rem_len += xfer->data[i].blen`.  `rem_len` is an `int` in
the source; the sum of the block lengths is taken not to overflow it. -/
def xfer_pass_rem (s : xfer_complete_state) : Nat :=
  s.rem_len + (s.xfer.data s.i).blen

/-- The variable `err` after
`if (err == XHCI_TRB_ERROR_SUCCESS && rem_len > 0) err = XHCI_TRB_ERROR_SHORT_PKT`. -/
def xfer_pass_err (s : xfer_complete_state) : Nat :=
  if s.err = XHCI_TRB_ERROR_SUCCESS ∧ xfer_pass_rem s > 0 then XHCI_TRB_ERROR_SHORT_PKT
  else s.err

/-- The test `XHCI_TRB_3_TYPE_GET(trbflags) == XHCI_TRB_TYPE_EVENT_DATA`, `trbflags` being
the control word of the TRB as the pass found it. -/
def xfer_pass_is_ed (s : xfer_complete_state) : Bool :=
  XHCI_TRB_3_TYPE_GET (s.xdev.trbmem (s.xfer.data s.i).trb_addr).dwTrb3 =
    XHCI_TRB_TYPE_EVENT_DATA

/-- The event TRB `evtrb` that a pass builds. -/
def xfer_pass_event (slot epid : Nat) (s : xfer_complete_state) : xhci_trb :=
  let dw3 := XHCI_TRB_3_TYPE_SET XHCI_TRB_EVENT_TRANSFER |||
    XHCI_TRB_3_SLOT_SET slot ||| XHCI_TRB_3_EP_SET epid
  if xfer_pass_is_ed s then
    { qwTrb0 := (s.xdev.trbmem (s.xfer.data s.i).trb_addr).qwTrb0
      dwTrb2 := (xfer_pass_edtla s &&& 0xFFFFF) ||| XHCI_TRB_2_ERROR_SET (xfer_pass_err s)
      dwTrb3 := dw3 ||| XHCI_TRB_3_ED_BIT }
  else
    { qwTrb0 := (s.xfer.data s.i).trb_addr
      dwTrb2 := XHCI_TRB_2_ERROR_SET (xfer_pass_err s) ||| XHCI_TRB_2_REM_SET (xfer_pass_rem s)
      dwTrb3 := dw3 }

/-- The loop of `pci_xhci_xfer_complete` over the blocks of the chain.  The first argument is
`xfer->ndata`, which every pass that does not leave the loop lowers by one and which ends the
loop at 0.  `none` when `pci_xhci_insert_event` does not return. -/
def xfer_complete_loop (slot epid : Nat) :
    Nat → xfer_complete_state → Option xfer_complete_state
  | 0, s => some s
  | n + 1, s =>
    if (s.xfer.data s.i).stat < USB_BLOCK_HANDLED then
      some { s with xfer := { s.xfer with head := s.i } }
    else
      let next := index_inc s.i s.xfer.max_blk_cnt
      if (s.xfer.data s.i).type = USB_DATA_PART then
        xfer_complete_loop slot epid n
          { s with
            xdev := xfer_pass_xdev s, xfer := xfer_pass_xfer n s, i := next
            rem_len := xfer_pass_rem s, edtla := xfer_pass_edtla s }
      else if xfer_pass_flags s &&& XHCI_TRB_3_IOC_BIT = 0 ∧
          ¬ (xfer_pass_err s = XHCI_TRB_ERROR_SHORT_PKT ∧
            xfer_pass_flags s &&& XHCI_TRB_3_ISP_BIT ≠ 0) then
        xfer_complete_loop slot epid n
          { s with
            xdev := xfer_pass_xdev s, xfer := xfer_pass_xfer n s, i := next
            err := xfer_pass_err s, rem_len := xfer_pass_rem s, edtla := xfer_pass_edtla s }
      else
        let evtrb := xfer_pass_event slot epid s
        let edtla2 := if xfer_pass_is_ed s then 0 else xfer_pass_edtla s
        match pci_xhci_insert_event (xfer_pass_xdev s) evtrb false with
        | none => none
        | some r =>
          if r.2 ≠ XHCI_TRB_ERROR_SUCCESS then
            some { xdev := r.1, xfer := xfer_pass_xfer n s, i := s.i, err := r.2
                   rem_len := xfer_pass_rem s, edtla := edtla2, do_intr := 1
                   events := s.events ++ [(evtrb, r.2)] }
          else
            xfer_complete_loop slot epid n
              { xdev := r.1, xfer := xfer_pass_xfer n s, i := next, err := r.2, rem_len := 0
                edtla := edtla2, do_intr := 1, events := s.events ++ [(evtrb, r.2)] }

/-- The source's `pci_xhci_xfer_complete` on the chain `xfer`: the state of its variables
when it returns (`err` is the value returned, `xfer` the chain as it leaves it); `none` when
`pci_xhci_get_dev_ctx` aborts, the assertion `dev_ctx != NULL` fails or
`pci_xhci_insert_event` does not return.  The pointer `devep`,
computed from the unset `dev` and not used, is left out. -/
def pci_xhci_xfer_complete (xdev : pci_xhci_softc) (xfer : usb_data_xfer) (slot epid : Nat) :
    Option xfer_complete_state :=
  match pci_xhci_get_dev_ctx xdev slot with
  | none => none
  | some none => none
  | some (some a) =>
    let ctx := xdev.devctxmem a
    let ep_ctx := ctx.ctx_ep epid
    let xdev1 : pci_xhci_softc :=
      if xfer.status = USB_ERR_STALLED then
        { xdev with
          devctxmem := upd xdev.devctxmem a
            (set_ctx_ep ctx epid
              { ep_ctx with
                dwEpCtx0 := (ep_ctx.dwEpCtx0 &&& NOT32 0x7) ||| XHCI_ST_EPCTX_HALTED }) }
      else xdev
    xfer_complete_loop slot epid xfer.ndata
      { xdev := xdev1, xfer := xfer, i := xfer.head, err := xfer_status_err xfer.status
        rem_len := 0, edtla := 0, do_intr := 0, events := [] }

/-! ## Transfer engine -/

/-- Modelled from the spec: `XHCI_MAX_ENDPOINTS` of the absent `xhci.h`, the number of
endpoint contexts of a device context. -/
def XHCI_MAX_ENDPOINTS : Nat := 32
/-- Modelled from the spec: `USB_XFER_OUT` of the absent `usb_emul.h`. -/
def USB_XFER_OUT : Nat := 0
/-- Modelled from the spec: `USB_XFER_IN` of the absent `usb_emul.h`. -/
def USB_XFER_IN : Nat := 1
/-- Modelled from the spec: `USB_NAK` of the absent `usb_emul.h`. -/
def USB_NAK : Nat := 1
/-- Modelled from the spec: `USB_DATA_GET_ERRCODE` of the absent `usb_emul.h`, the error
code that the backend leaves in the upper bits of `processed`. -/
def USB_DATA_GET_ERRCODE (x : usb_data_xfer_block) : Nat := x.processed >>> 8

/-- Modelled from the spec: `usb_data_xfer_append` of the absent `usb_emul.c`: the block at
`tail` takes the buffer, the length, the guest address of the TRB (`hci_data`) and the cycle
state, with nothing processed or done, and the chain grows by one block.  The result is the
chain and the index of the block; `none` (`NULL`) when the chain is full. -/
def usb_data_xfer_append (xfer : usb_data_xfer) (buf blen hci_data ccs : Nat) :
    Option (usb_data_xfer × Nat) :=
  if xfer.ndata ≥ xfer.max_blk_cnt then none
  else
    let blk : usb_data_xfer_block :=
      { xfer.data xfer.tail with
        buf := buf, blen := blen, trb_addr := hci_data, ccs := ccs, processed := 0
        bdone := 0 }
    some ({ xfer with
            data := upd xfer.data xfer.tail blk
            ndata := xfer.ndata + 1
            tail := index_inc xfer.tail xfer.max_blk_cnt }, xfer.tail)

/-- The source's `pci_xhci_update_ep_ring` on the endpoint `epid` of the device instance `d`
whose device context is at `a`; `none` when the endpoint has streams and the stream context
array or the stream cursors are `NULL`.  No function of the source calls it. -/
def pci_xhci_update_ep_ring (sc : pci_xhci_softc) (d a epid streamid ringaddr ccs : Nat) :
    Option pci_xhci_softc :=
  let dev := sc.devs d
  let devep := dev.eps epid
  let ctx := sc.devctxmem a
  let ep_ctx := ctx.ctx_ep epid
  if XHCI_EPCTX_0_MAXP_STREAMS_GET ep_ctx.dwEpCtx0 ≠ 0 then
    match devep.ep_sctx, devep.ep_sctx_trbs with
    | some sa, some t =>
      some { sc with
        sctxmem := upd sc.sctxmem (sa + 16 * streamid) (MASK_NOT_F ringaddr ||| (ccs &&& 0x1))
        devs := upd sc.devs d (set_devep dev epid
          { devep with
            ep_sctx_trbs := some (upd t streamid
              { ringaddr := MASK_NOT_F ringaddr, ccs := ccs &&& 0x1 }) })
        devctxmem := upd sc.devctxmem a (set_ctx_ep ctx epid
          { ep_ctx with qwEpCtx2 := (ep_ctx.qwEpCtx2 &&& NOT64 0x1) ||| (ccs &&& 0x1) }) }
    | _, _ => none
  else
    some { sc with
      devs := upd sc.devs d (set_devep dev epid
        { devep with
          ep_ringaddr := MASK_NOT_F ringaddr, ep_ccs := ccs &&& 0x1
          ep_tr := MASK_NOT_F ringaddr, ep_sctx_trbs := none })
      devctxmem := upd sc.devctxmem a (set_ctx_ep ctx epid
        { ep_ctx with qwEpCtx2 := MASK_NOT_F ringaddr ||| (ccs &&& 0x1) }) }

/-- The store of the chain `xfer` behind the pointer `devep->ep_xfer` of the endpoint `epid`
of the device instance `d`. -/
def set_ep_xfer (sc : pci_xhci_softc) (d epid : Nat) (xfer : usb_data_xfer) : pci_xhci_softc :=
  { sc with
    devs := upd sc.devs d (set_devep (sc.devs d) epid
      { (sc.devs d).eps epid with ep_xfer := some xfer }) }

/-- The store `ep_ctx->dwEpCtx0 = FIELD_REPLACE(ep_ctx->dwEpCtx0, XHCI_ST_EPCTX_RUNNING, 0x7,
0)` on the endpoint context `epid` of the device context at `a`. -/
def set_ep_running (sc : pci_xhci_softc) (a epid : Nat) : pci_xhci_softc :=
  let ctx := sc.devctxmem a
  let ep_ctx := ctx.ctx_ep epid
  { sc with
    devctxmem := upd sc.devctxmem a (set_ctx_ep ctx epid
      { ep_ctx with dwEpCtx0 := FIELD_REPLACE ep_ctx.dwEpCtx0 XHCI_ST_EPCTX_RUNNING 0x7 0 }) }

/-- The source's `pci_xhci_try_usb_xfer` on the endpoint `epid` of the device instance `d`
whose device context is at `a`: the new state and the value returned; `none` when the chain
pointer is `NULL` or `pci_xhci_xfer_complete` aborts. -/
def pci_xhci_try_usb_xfer (sc : pci_xhci_softc) (d a slot epid : Nat) :
    Option (pci_xhci_softc × Nat) :=
  let sc1 := set_ep_running sc a epid
  let dev := sc1.devs d
  match (dev.eps epid).ep_xfer with
  | none => none
  | some xfer =>
    match dev.dev_ue.ue_data with
    | none => some (sc1, 0)
    | some ue_data =>
      let r := ue_data xfer (if epid &&& 0x1 ≠ 0 then USB_XFER_IN else USB_XFER_OUT) (epid / 2)
      if r.2 = USB_ERR_CANCELLED then
        some (set_ep_xfer sc1 d epid r.1,
          if USB_DATA_GET_ERRCODE (r.1.data r.1.head) = USB_NAK then XHCI_TRB_ERROR_SUCCESS
          else r.2)
      else
        match pci_xhci_xfer_complete sc1 r.1 slot epid with
        | none => none
        | some c =>
          let sc2 :=
            if c.err = XHCI_TRB_ERROR_SUCCESS ∧ c.do_intr ≠ 0 then
              pci_xhci_assert_interrupt c.xdev
            else c.xdev
          some (set_ep_xfer sc2 d epid (USB_DATA_XFER_RESET c.xfer), c.err)

/-- The variables of the loop of `pci_xhci_handle_transfer` over the TRBs: the chain, the
guest address of the current TRB (`trb`), `addr`, `ccs` and whether `setup_trb` is set. -/
structure transfer_walk_state where
  xfer : usb_data_xfer
  trb : Nat
  addr : Nat
  ccs : Nat
  setup_trb : Bool

/-- How the `switch` on the TRB type of `pci_xhci_handle_transfer` ends: with the chain, the
block appended (`xfer_block`, `none` for `NULL`), `ccs` and `setup_trb`; with `goto errout`
(`err` is then `XHCI_TRB_ERROR_TRB`); or with the store `xfer_block->processed = 1` through a
`NULL` pointer. -/
inductive transfer_switch_result where
  | next (xfer : usb_data_xfer) (xfer_block : Option Nat) (ccs : Nat) (setup_trb : Bool)
  | errout
  | aborted

/-- The call of `usb_data_xfer_append` followed by `xfer_block->processed = 1`. -/
def append_processed (xfer : usb_data_xfer) (hci_data ccs : Nat) (setup_trb : Bool) :
    transfer_switch_result :=
  match usb_data_xfer_append xfer 0 0 hci_data ccs with
  | none => transfer_switch_result.aborted
  | some r =>
    transfer_switch_result.next
      { r.1 with data := upd r.1.data r.2 { r.1.data r.2 with processed := 1 } }
      (some r.2) ccs setup_trb

/-- The call of `usb_data_xfer_append` whose result is not dereferenced in the `switch`. -/
def append_plain (xfer : usb_data_xfer) (buf blen hci_data ccs : Nat) (setup_trb : Bool) :
    transfer_switch_result :=
  match usb_data_xfer_append xfer buf blen hci_data ccs with
  | none => transfer_switch_result.next xfer none ccs setup_trb
  | some r => transfer_switch_result.next r.1 (some r.2) ccs setup_trb

/-- The `switch (XHCI_TRB_3_TYPE_GET(trbflags))` of `pci_xhci_handle_transfer` on the TRB
`trb` at the guest address `w.trb`.  The buffer of a data block is the guest address of the
data: the address of the TRB for immediate data, else the parameter of the TRB. -/
def transfer_switch (epid : Nat) (trb : xhci_trb) (w : transfer_walk_state) :
    transfer_switch_result :=
  let trbflags := trb.dwTrb3
  let type := XHCI_TRB_3_TYPE_GET trbflags
  if type = XHCI_TRB_TYPE_LINK then
    let ccs := if trb.dwTrb3 &&& XHCI_TRB_3_TC_BIT ≠ 0 then w.ccs ^^^ 0x1 else w.ccs
    append_processed w.xfer w.addr ccs w.setup_trb
  else if type = XHCI_TRB_TYPE_SETUP_STAGE then
    if trbflags &&& XHCI_TRB_3_IDT_BIT = 0 ∨ XHCI_TRB_2_BYTES_GET trb.dwTrb2 ≠ 8 then
      transfer_switch_result.errout
    else
      append_processed { w.xfer with ureq := some trb.qwTrb0 } w.addr w.ccs true
  else if (type = XHCI_TRB_TYPE_NORMAL ∨ type = XHCI_TRB_TYPE_ISOCH) ∧ w.setup_trb then
    transfer_switch_result.errout
  else if type = XHCI_TRB_TYPE_NORMAL ∨ type = XHCI_TRB_TYPE_ISOCH ∨
      type = XHCI_TRB_TYPE_DATA_STAGE then
    append_plain w.xfer
      (if trbflags &&& XHCI_TRB_3_IDT_BIT ≠ 0 then w.trb else trb.qwTrb0)
      (trb.dwTrb2 &&& 0x1FFFF) w.addr w.ccs w.setup_trb
  else if type = XHCI_TRB_TYPE_STATUS_STAGE then
    append_plain w.xfer 0 0 w.addr w.ccs w.setup_trb
  else if type = XHCI_TRB_TYPE_NOOP then
    append_processed w.xfer w.addr w.ccs w.setup_trb
  else if type = XHCI_TRB_TYPE_EVENT_DATA then
    if epid > 1 ∧ trbflags &&& XHCI_TRB_3_IOC_BIT ≠ 0 then
      append_processed w.xfer w.addr w.ccs w.setup_trb
    else append_plain w.xfer 0 0 w.addr w.ccs w.setup_trb
  else transfer_switch_result.errout

/-- How the `while (1)` loop of `pci_xhci_handle_transfer` ends: by `break` with the
variables and `do_retry`, by `goto errout`, by a store through `NULL`, or not within the
number of passes allowed. -/
inductive transfer_walk_result where
  | stop (w : transfer_walk_state) (do_retry : Bool)
  | errout (w : transfer_walk_state)
  | aborted
  | out_of_fuel

/-- The `while (1)` loop of `pci_xhci_handle_transfer`, for at most `fuel` TRBs. -/
def handle_transfer_walk (sc : pci_xhci_softc) (epid streamid : Nat) :
    Nat → transfer_walk_state → transfer_walk_result
  | 0, _ => transfer_walk_result.out_of_fuel
  | fuel + 1, w =>
    let trb := sc.trbmem w.trb
    let trbflags := trb.dwTrb3
    let type := XHCI_TRB_3_TYPE_GET trbflags
    if type ≠ XHCI_TRB_TYPE_LINK ∧
        trbflags &&& XHCI_TRB_3_CYCLE_BIT ≠ w.ccs &&& XHCI_TRB_3_CYCLE_BIT then
      transfer_walk_result.stop w false
    else
      match transfer_switch epid trb w with
      | transfer_switch_result.aborted => transfer_walk_result.aborted
      | transfer_switch_result.errout => transfer_walk_result.errout w
      | transfer_switch_result.next xfer xfer_block ccs setup_trb =>
        let nx := pci_xhci_trb_next trb w.trb w.addr
        let xfer1 : usb_data_xfer :=
          match xfer_block with
          | none => xfer
          | some b =>
            { xfer with
              data := upd xfer.data b { xfer.data b with trbnext := nx.2, streamid := streamid } }
        let w1 : transfer_walk_state :=
          { xfer := xfer1, trb := nx.1, addr := nx.2, ccs := ccs, setup_trb := setup_trb }
        if ¬ setup_trb ∧ trbflags &&& XHCI_TRB_3_CHAIN_BIT = 0 ∧ type ≠ XHCI_TRB_TYPE_LINK then
          transfer_walk_result.stop w1 false
        else if trbflags &&& XHCI_TRB_3_IOC_BIT ≠ 0 then
          transfer_walk_result.stop w1 (epid = 1)
        else handle_transfer_walk sc epid streamid fuel w1

/-- The statements `err = USB_ERR_NOT_STARTED; if (dev->dev_ue->ue_request != NULL) err =
dev->dev_ue->ue_request(dev->dev_sc, xfer);` of `pci_xhci_handle_transfer`: the chain as the
backend leaves it and `err`. -/
def request_transfer (ue : usb_devemu) (xfer : usb_data_xfer) : usb_data_xfer × Nat :=
  match ue.ue_request with
  | none => (xfer, USB_ERR_NOT_STARTED)
  | some ue_request => ue_request xfer

/-- The result of `pci_xhci_handle_transfer`: the new state and the value returned, an abort
of the emulator, or no return within the number of passes allowed. -/
inductive transfer_result where
  | done (sc : pci_xhci_softc) (err : Nat)
  | aborted
  | out_of_fuel

/-- The body of `pci_xhci_handle_transfer` from the label `retry` on, for the endpoint `epid`
of the device instance `d` whose device context is at `a`; `w` holds the chain and the
position in the ring.  At most as many passes from `retry` as the second number allows, each
over at most `fuel` TRBs. -/
def handle_transfer_retry (slot epid streamid d a : Nat) (fuel : Nat) :
    Nat → pci_xhci_softc → transfer_walk_state → transfer_result
  | 0, _, _ => transfer_result.out_of_fuel
  | n + 1, sc, w =>
    match handle_transfer_walk sc epid streamid fuel { w with setup_trb := false } with
    | transfer_walk_result.out_of_fuel => transfer_result.out_of_fuel
    | transfer_walk_result.aborted => transfer_result.aborted
    | transfer_walk_result.errout w1 =>
      transfer_result.done
        (set_ep_xfer sc d epid (if epid = 1 then USB_DATA_XFER_RESET w1.xfer else w1.xfer))
        XHCI_TRB_ERROR_TRB
    | transfer_walk_result.stop w1 do_retry =>
      if epid = 1 then
        let r := request_transfer (sc.devs d).dev_ue w1.xfer
        let err := USB_TO_XHCI_ERR r.2
        if err = XHCI_TRB_ERROR_SUCCESS ∨ err = XHCI_TRB_ERROR_SHORT_PKT then
          match pci_xhci_xfer_complete sc r.1 slot epid with
          | none => transfer_result.aborted
          | some c =>
            let sc1 := if c.do_intr ≠ 0 then pci_xhci_assert_interrupt c.xdev else c.xdev
            if do_retry ∧ c.err = XHCI_TRB_ERROR_SUCCESS then
              handle_transfer_retry slot epid streamid d a fuel n sc1
                { w1 with xfer := USB_DATA_XFER_RESET c.xfer }
            else
              transfer_result.done (set_ep_xfer sc1 d epid (USB_DATA_XFER_RESET c.xfer)) c.err
        else if do_retry then
          handle_transfer_retry slot epid streamid d a fuel n sc
            { w1 with xfer := USB_DATA_XFER_RESET r.1 }
        else
          transfer_result.done (set_ep_xfer sc d epid (USB_DATA_XFER_RESET r.1)) err
      else
        match pci_xhci_try_usb_xfer (set_ep_xfer sc d epid w1.xfer) d a slot epid with
        | none => transfer_result.aborted
        | some t => transfer_result.done t.1 XHCI_TRB_ERROR_SUCCESS

/-- The source's `pci_xhci_handle_transfer` on the endpoint `epid` of the device instance `d`
whose device context is at `a`, from the TRB at `trb`; `aborted` also when the chain pointer
`devep->ep_xfer` is `NULL`. -/
def pci_xhci_handle_transfer (fuel : Nat) (sc : pci_xhci_softc)
    (d a trb slot epid addr ccs streamid : Nat) : transfer_result :=
  let sc1 := set_ep_running sc a epid
  match ((sc1.devs d).eps epid).ep_xfer with
  | none => transfer_result.aborted
  | some xfer =>
    handle_transfer_retry slot epid streamid d a fuel fuel sc1
      { xfer := xfer, trb := trb, addr := addr, ccs := ccs, setup_trb := false }

/-- The result of a device doorbell as a result of the register write that rang it. -/
def transfer_result.to_cmd_result : transfer_result → cmd_result
  | transfer_result.done sc _ => cmd_result.done sc
  | transfer_result.aborted => cmd_result.aborted
  | transfer_result.out_of_fuel => cmd_result.out_of_fuel

/-- The source's `pci_xhci_device_doorbell`; `aborted` when `pci_xhci_get_dev_ctx` aborts or
a `NULL` pointer (the device instance of the slot, the chain of the endpoint, the stream
cursors) is dereferenced. -/
def pci_xhci_device_doorbell (fuel : Nat) (sc : pci_xhci_softc) (slot epid streamid : Nat) :
    cmd_result :=
  if slot = 0 ∨ slot > sc.ndevices ∨ sc.slot_allocated slot = false then cmd_result.done sc
  else if epid = 0 ∨ epid ≥ XHCI_MAX_ENDPOINTS then cmd_result.done sc
  else
    match pci_xhci_get_dev_ctx sc slot with
    | none => cmd_result.aborted
    | some none => cmd_result.done sc
    | some (some a) =>
      let ep_ctx := (sc.devctxmem a).ctx_ep epid
      if ep_ctx.qwEpCtx2 = 0 then cmd_result.done sc
      else
        match sc.slots slot with
        | none => cmd_result.aborted
        | some d =>
          let devep := (sc.devs d).eps epid
          match devep.ep_xfer with
          | none => cmd_result.aborted
          | some xfer =>
            if xfer.ndata > 0 then
              match pci_xhci_try_usb_xfer sc d a slot epid with
              | none => cmd_result.aborted
              | some r => cmd_result.done r.1
            else if XHCI_EPCTX_0_MAXP_STREAMS_GET ep_ctx.dwEpCtx0 ≠ 0 then
              if streamid = 0 ∨ streamid = 65534 ∨ streamid = 65535 then cmd_result.done sc
              else
                match (pci_xhci_find_stream sc ep_ctx streamid).2 with
                | none => cmd_result.done sc
                | some _ =>
                  match devep.ep_sctx_trbs with
                  | none => cmd_result.aborted
                  | some t =>
                    let ringaddr := (t streamid).ringaddr
                    let trb := MASK_NOT_F ringaddr
                    if XHCI_TRB_3_TYPE_GET (sc.trbmem trb).dwTrb3 = 0 then cmd_result.done sc
                    else
                      (pci_xhci_handle_transfer fuel sc d a trb slot epid ringaddr
                        (t streamid).ccs streamid).to_cmd_result
            else if streamid ≠ 0 then cmd_result.done sc
            else if XHCI_TRB_3_TYPE_GET (sc.trbmem devep.ep_tr).dwTrb3 = 0 then
              cmd_result.done sc
            else
              (pci_xhci_handle_transfer fuel sc d a devep.ep_tr slot epid devep.ep_ringaddr
                devep.ep_ccs streamid).to_cmd_result

/-! ## A control transfer on the tablet -/

/-- A block as a backend leaves it that delivers at most 10 bytes for it: handled, whole,
with `bdone` the bytes delivered and `blen` the bytes left. -/
def block_short (b : usb_data_xfer_block) : usb_data_xfer_block :=
  { b with
    stat := USB_BLOCK_HANDLED, type := USB_DATA_FULL
    bdone := min 10 b.blen, blen := b.blen - min 10 b.blen }

/-- A control transfer backend (`ue_request`) that handles every block of the chain and
delivers at most 10 bytes for each: the status is `USB_ERR_SHORT_XFER` when a block asked
for more, else `USB_ERR_NORMAL_COMPLETION`. -/
def ue_request_short (xfer : usb_data_xfer) : usb_data_xfer × Nat :=
  let idx := (List.range xfer.ndata).map fun k => (xfer.head + k) % xfer.max_blk_cnt
  let status :=
    if idx.any (fun j => decide ((xfer.data j).blen > 10)) then USB_ERR_SHORT_XFER
    else USB_ERR_NORMAL_COMPLETION
  ({ xfer with
     data := fun j => if j ∈ idx then block_short (xfer.data j) else xfer.data j
     status := status }, status)

/-- The emulated tablet with the backend `ue_request_short` for control transfers. -/
def ue_tablet_short : usb_devemu :=
  { ue_tablet with ue_request := some ue_request_short }

/-- The transfer ring of the control endpoint at `0x8000`: a SETUP_STAGE TRB (GET_DESCRIPTOR
of 64 bytes, immediate data) and a DATA_STAGE TRB (IN, 64 bytes to `0x9000`, IOC), both with
the cycle bit 1; the TRB that follows is zero. -/
def ctrl_ring (mem : Nat → xhci_trb) : Nat → xhci_trb :=
  fun a =>
    if a = 0x8000 then
      { qwTrb0 := 0x0040000001000680, dwTrb2 := 8
        dwTrb3 := XHCI_TRB_3_TYPE_SET XHCI_TRB_TYPE_SETUP_STAGE ||| 0x30000 |||
          XHCI_TRB_3_IDT_BIT ||| 1 }
    else if a = 0x8010 then
      { qwTrb0 := 0x9000, dwTrb2 := 64
        dwTrb3 := XHCI_TRB_3_TYPE_SET XHCI_TRB_TYPE_DATA_STAGE ||| 0x10000 |||
          XHCI_TRB_3_IOC_BIT ||| 1 }
    else if a = 0x8020 then { qwTrb0 := 0, dwTrb2 := 0, dwTrb3 := 0 }
    else mem a

/-- The controller with the tablet `ue_tablet_short` and an event ring of 4 entries at
`0x2000`, started by the guest (USBCMD written with RS and INTE, which puts the port status
change event of the tablet into the first entry), after ENABLE_SLOT and ADDRESS_DEVICE for
slot 1 (the control endpoint has its ring at `0x8000` with cycle state 1), and with
`ctrl_ring` queued by the guest. -/
def sc_ctrl_queued : pci_xhci_softc :=
  let s0 := (pci_xhci_init false (fun _ => none) [ue_tablet_short]).getD
    (softc_zero false fun _ => none)
  let s1 := evring_setup s0 4
  let s2 := (pci_xhci_hostop_write s1 XHCI_CAPLEN (XHCI_CMD_RS ||| XHCI_CMD_INTE)).getD s1
  let s3 := (pci_xhci_cmd_enable_slot (guest_ctx_setup s2 1) 0).1
  let s4 := ((pci_xhci_cmd_address_device s3 1 (trb_address_device 1)).map fun r => r.1).getD s3
  { s4 with trbmem := ctrl_ring s4.trbmem }

/-- The guest rings the doorbell of slot 1 for the control endpoint (target 1, stream 0):
a write of 1 to the doorbell register of the slot. -/
def ring_ctrl_doorbell (sc : pci_xhci_softc) : cmd_result :=
  pci_xhci_dbregs_write (pci_xhci_device_doorbell 8) 8 sc (sc.dboff + 4 * 1) 1

/-- The state after the guest has rung the doorbell of the control endpoint of slot 1 on
`sc_ctrl_queued`. -/
def sc_ctrl_rung : pci_xhci_softc :=
  (ring_ctrl_doorbell sc_ctrl_queued).get sc_ctrl_queued

/-- The cached transfer ring of the control endpoint of slot 1 (`ep_ringaddr`, `ep_ccs`,
`ep_tr`) and the TR dequeue pointer of its endpoint context. -/
def ctrl_dequeue (sc : pci_xhci_softc) : Option (Nat × Nat × Nat × Nat) :=
  match sc.slots 1, pci_xhci_get_dev_ctx sc 1 with
  | some d, some (some a) =>
    some (((sc.devs d).eps 1).ep_ringaddr, ((sc.devs d).eps 1).ep_ccs,
      ((sc.devs d).eps 1).ep_tr, ((sc.devctxmem a).ctx_ep 1).qwEpCtx2)
  | _, _ => none


/-! ## The events of a batch, as the specification has them -/

/-- The indices of the `n` blocks of a chain of `max` blocks from the index `i` on, in the
order in which `index_inc` visits them. -/
def batch_indices (i max : Nat) : Nat → List Nat
  | 0 => []
  | n + 1 => i :: batch_indices (index_inc i max) max n

/-- A transfer descriptor of a batch as the specification speaks of it: the guest address
of its TRB, the parameter of the TRB, whether the TRB has IOC, has ISP, is an EVENT_DATA TRB,
whether the descriptor is partial, its residual (the bytes requested and not delivered) and
the bytes delivered. -/
structure transfer_desc where
  trb_addr : Nat
  parameter : Nat
  ioc : Bool
  isp : Bool
  event_data : Bool
  part : Bool
  residual : Nat
  delivered : Nat
deriving DecidableEq, Repr

/-- The descriptor that the block `j` of the array `data` stands for, with the TRBs in
`mem`. -/
def desc_of (mem : Nat → xhci_trb) (data : Nat → usb_data_xfer_block) (j : Nat) :
    transfer_desc :=
  let b := data j
  let trb := mem b.trb_addr
  { trb_addr := b.trb_addr
    parameter := trb.qwTrb0
    ioc := decide (trb.dwTrb3 &&& XHCI_TRB_3_IOC_BIT ≠ 0)
    isp := decide (trb.dwTrb3 &&& XHCI_TRB_3_ISP_BIT ≠ 0)
    event_data := decide (XHCI_TRB_3_TYPE_GET trb.dwTrb3 = XHCI_TRB_TYPE_EVENT_DATA)
    part := decide (b.type = USB_DATA_PART)
    residual := b.blen
    delivered := b.bdone }

/-- The descriptors of the batch in the chain `xfer`, in TRB order. -/
def batch_descs (xdev : pci_xhci_softc) (xfer : usb_data_xfer) : List transfer_desc :=
  (batch_indices xfer.head xfer.max_blk_cnt xfer.ndata).map (desc_of xdev.trbmem xfer.data)

/-- The TRANSFER_EVENT of the specification for a TRB: the guest address of the TRB, the
residual, the slot, the endpoint and the completion code. -/
def transfer_event (slot epid code trb_addr residual : Nat) : xhci_trb :=
  { qwTrb0 := trb_addr
    dwTrb2 := XHCI_TRB_2_ERROR_SET code ||| XHCI_TRB_2_REM_SET residual
    dwTrb3 := XHCI_TRB_3_TYPE_SET XHCI_TRB_EVENT_TRANSFER ||| XHCI_TRB_3_SLOT_SET slot |||
      XHCI_TRB_3_EP_SET epid }

/-- The TRANSFER_EVENT for an EVENT_DATA TRB: the parameter of the TRB, the event data
transfer length (20 bits), the ED flag, the slot, the endpoint and the completion code. -/
def transfer_event_data (slot epid code parameter edtla : Nat) : xhci_trb :=
  { qwTrb0 := parameter
    dwTrb2 := (edtla &&& 0xFFFFF) ||| XHCI_TRB_2_ERROR_SET code
    dwTrb3 := XHCI_TRB_3_TYPE_SET XHCI_TRB_EVENT_TRANSFER ||| XHCI_TRB_3_SLOT_SET slot |||
      XHCI_TRB_3_EP_SET epid ||| XHCI_TRB_3_ED_BIT }

/-- The completion code in effect at a descriptor that is not partial: SHORT_PKT in place of
SUCCESS when the residual accumulated since the previous event is not zero. -/
def code_at (code residual : Nat) : Nat :=
  if code = XHCI_TRB_ERROR_SUCCESS ∧ residual > 0 then XHCI_TRB_ERROR_SHORT_PKT else code

/-- The events of a batch after the words of the specification, for the descriptors in TRB
order: a descriptor that is not partial raises an event exactly when its TRB has IOC, or has
ISP while the completion code in effect is SHORT_PKT; the event of a TRB carries the residual
accumulated since the previous event, the event of an EVENT_DATA TRB the length delivered
since the previous EVENT_DATA event.  `code` is the completion code in effect (that of the
backend status at the start, that of the insertion of the event after an event), `residual`
and `edtla` are the two sums so far. -/
def transfer_events_spec (slot epid : Nat) :
    Nat → Nat → Nat → List transfer_desc → List xhci_trb
  | _, _, _, [] => []
  | code, residual, edtla, d :: ds =>
    let residual1 := residual + d.residual
    let edtla1 := (edtla + d.delivered) % 2 ^ 32
    if d.part then transfer_events_spec slot epid code residual1 edtla1 ds
    else if d.ioc ∨ (d.isp ∧ code_at code residual1 = XHCI_TRB_ERROR_SHORT_PKT) then
      (if d.event_data then
          transfer_event_data slot epid (code_at code residual1) d.parameter edtla1
        else transfer_event slot epid (code_at code residual1) d.trb_addr residual1) ::
        transfer_events_spec slot epid XHCI_TRB_ERROR_SUCCESS 0
          (if d.event_data then 0 else edtla1) ds
    else transfer_events_spec slot epid (code_at code residual1) residual1 edtla1 ds

/-- The residual that no event of the batch reports: the residual accumulated over the
descriptors that follow the last descriptor that raised an event. -/
def transfer_unreported_spec : Nat → Nat → List transfer_desc → Nat
  | _, residual, [] => residual
  | code, residual, d :: ds =>
    let residual1 := residual + d.residual
    if d.part then transfer_unreported_spec code residual1 ds
    else if d.ioc ∨ (d.isp ∧ code_at code residual1 = XHCI_TRB_ERROR_SHORT_PKT) then
      transfer_unreported_spec XHCI_TRB_ERROR_SUCCESS 0 ds
    else transfer_unreported_spec (code_at code residual1) residual1 ds

/-- The event TRBs that `pci_xhci_xfer_complete` hands to `pci_xhci_insert_event`, in order,
each with the result of the insertion; empty when the function aborts. -/
def xfer_complete_events (xdev : pci_xhci_softc) (xfer : usb_data_xfer) (slot epid : Nat) :
    List (xhci_trb × Nat) :=
  match pci_xhci_xfer_complete xdev xfer slot epid with
  | none => []
  | some r => r.events

/-- The chain of the control endpoint for `ctrl_ring` as `pci_xhci_xfer_complete` receives
it: the blocks that the loop of `pci_xhci_handle_transfer` appends for the two TRBs, after
the backend `ue_request_short` (10 of the 64 bytes of the data stage are delivered). -/
def xfer_ctrl_done : usb_data_xfer :=
  match handle_transfer_walk sc_ctrl_queued 1 0 8
      { xfer := usb_data_xfer.zero 128, trb := 0x8000, addr := 0x8000, ccs := 1
        setup_trb := false } with
  | transfer_walk_result.stop w _ => (ue_request_short w.xfer).1
  | _ => usb_data_xfer.zero 128

/-- A transfer ring at `0x8200`: a NORMAL TRB of 64 bytes with the chain bit and an
EVENT_DATA TRB with the parameter `0xABCD0000` and IOC, both with the cycle bit 1. -/
def ed_ring (mem : Nat → xhci_trb) : Nat → xhci_trb :=
  fun a =>
    if a = 0x8200 then
      { qwTrb0 := 0x9000, dwTrb2 := 64
        dwTrb3 := XHCI_TRB_3_TYPE_SET XHCI_TRB_TYPE_NORMAL ||| XHCI_TRB_3_CHAIN_BIT ||| 1 }
    else if a = 0x8210 then
      { qwTrb0 := 0xABCD0000, dwTrb2 := 0
        dwTrb3 := XHCI_TRB_3_TYPE_SET XHCI_TRB_TYPE_EVENT_DATA ||| XHCI_TRB_3_IOC_BIT ||| 1 }
    else mem a

/-- The controller `sc_ctrl_queued` with `ed_ring` in guest memory. -/
def sc_ed_queued : pci_xhci_softc :=
  { sc_ctrl_queued with trbmem := ed_ring sc_ctrl_queued.trbmem }

/-- The chain for `ed_ring` after a backend that has delivered the 64 bytes: two handled
blocks, the status is `USB_ERR_NORMAL_COMPLETION`. -/
def xfer_ed_done : usb_data_xfer :=
  { usb_data_xfer.zero 1024 with
    ndata := 2
    tail := 2
    status := USB_ERR_NORMAL_COMPLETION
    data := fun j =>
      if j = 0 then
        { usb_data_xfer_block.zero with
          buf := 0x9000, blen := 0, bdone := 64, stat := USB_BLOCK_HANDLED
          type := USB_DATA_FULL, trb_addr := 0x8200, ccs := 1, trbnext := 0x8210 }
      else if j = 1 then
        { usb_data_xfer_block.zero with
          stat := USB_BLOCK_HANDLED, type := USB_DATA_FULL, trb_addr := 0x8210, ccs := 1
          trbnext := 0x8220 }
      else usb_data_xfer_block.zero }

/-- A transfer ring at `0x8100`: one NORMAL TRB of 64 bytes without IOC, ISP and chain bit,
with the cycle bit 1. -/
def bulk_ring (mem : Nat → xhci_trb) : Nat → xhci_trb :=
  fun a =>
    if a = 0x8100 then
      { qwTrb0 := 0x9000, dwTrb2 := 64
        dwTrb3 := XHCI_TRB_3_TYPE_SET XHCI_TRB_TYPE_NORMAL ||| 1 }
    else mem a

/-- The controller `sc_ctrl_queued` with `bulk_ring` in guest memory. -/
def sc_bulk_queued : pci_xhci_softc :=
  { sc_ctrl_queued with trbmem := bulk_ring sc_ctrl_queued.trbmem }

/-- The chain for `bulk_ring` after a backend that has delivered 59 of the 64 bytes: one
handled block with the residual 5, the status is `USB_ERR_SHORT_XFER`. -/
def xfer_bulk_done : usb_data_xfer :=
  { usb_data_xfer.zero 1024 with
    ndata := 1
    tail := 1
    status := USB_ERR_SHORT_XFER
    data := fun j =>
      if j = 0 then
        { usb_data_xfer_block.zero with
          buf := 0x9000, blen := 5, bdone := 59, stat := USB_BLOCK_HANDLED
          type := USB_DATA_FULL, trb_addr := 0x8100, ccs := 1, trbnext := 0x8110 }
      else usb_data_xfer_block.zero }

/-- An event as `pci_xhci_insert_event` stores it in the event ring while the producer cycle
state is `pcs`. -/
def event_stored (e : xhci_trb) (pcs : Nat) : xhci_trb :=
  { e with dwTrb3 := (e.dwTrb3 &&& NOT32 XHCI_TRB_3_CYCLE_BIT) ||| pcs }

/-- The state after the guest has rung the doorbell of the control endpoint of slot 1 a
second time, with nothing new queued. -/
def sc_ctrl_rung_twice : pci_xhci_softc :=
  (ring_ctrl_doorbell sc_ctrl_rung).get sc_ctrl_rung

/-- The transfer dequeue of every endpoint is in `sc1` what it is in `sc`: the cached ring
(`ep_ringaddr`, `ep_ccs`, `ep_tr`) of every endpoint of every device instance, and the TR
dequeue pointer of every endpoint context. -/
def dequeue_kept (sc sc1 : pci_xhci_softc) : Prop :=
  (∀ d e, ((sc1.devs d).eps e).ep_ringaddr = ((sc.devs d).eps e).ep_ringaddr ∧
    ((sc1.devs d).eps e).ep_ccs = ((sc.devs d).eps e).ep_ccs ∧
    ((sc1.devs d).eps e).ep_tr = ((sc.devs d).eps e).ep_tr) ∧
  (∀ a e, ((sc1.devctxmem a).ctx_ep e).qwEpCtx2 = ((sc.devctxmem a).ctx_ep e).qwEpCtx2)

/-! ## Slots beyond the device count -/

/-- The controller `sc_eval` (the tablet is its one device, Addressed in slot 1) after one more
ENABLE_SLOT. -/
def sc_eval_second_slot : pci_xhci_softc :=
  (pci_xhci_cmd_enable_slot sc_eval 0).1

/-- The controller `sc_native_enabled backend_stick` (no configured device, the host device
`di_stick` connected on virtual port 2, slot 1 allocated) after two more ENABLE_SLOT
commands. -/
def sc_native_three_slots : pci_xhci_softc :=
  (pci_xhci_cmd_enable_slot
    (pci_xhci_cmd_enable_slot (sc_native_enabled backend_stick) 0).1 0).1

/-! ## A stalled batch with two events -/

/-- A transfer ring at `0x8300`: two NORMAL TRBs of 64 bytes, each a transfer descriptor of
its own with IOC, both with the cycle bit 1. -/
def stall_ring (mem : Nat → xhci_trb) : Nat → xhci_trb :=
  fun a =>
    if a = 0x8300 then
      { qwTrb0 := 0x9000, dwTrb2 := 64
        dwTrb3 := XHCI_TRB_3_TYPE_SET XHCI_TRB_TYPE_NORMAL ||| XHCI_TRB_3_IOC_BIT ||| 1 }
    else if a = 0x8310 then
      { qwTrb0 := 0x9040, dwTrb2 := 64
        dwTrb3 := XHCI_TRB_3_TYPE_SET XHCI_TRB_TYPE_NORMAL ||| XHCI_TRB_3_IOC_BIT ||| 1 }
    else mem a

/-- The controller `sc_ctrl_queued` with `stall_ring` in guest memory. -/
def sc_stall_queued : pci_xhci_softc :=
  { sc_ctrl_queued with trbmem := stall_ring sc_ctrl_queued.trbmem }

/-- The chain for `stall_ring` after a backend that has failed the transfer with the status
`status`: two handled blocks, for each of which `bdone` of the 64 bytes are delivered and the
rest is the residual. -/
def xfer_failed_done (status bdone : Nat) : usb_data_xfer :=
  { usb_data_xfer.zero 1024 with
    ndata := 2
    tail := 2
    status := status
    data := fun j =>
      if j = 0 then
        { usb_data_xfer_block.zero with
          buf := 0x9000, blen := 64 - bdone, bdone := bdone, stat := USB_BLOCK_HANDLED
          type := USB_DATA_FULL, trb_addr := 0x8300, ccs := 1, trbnext := 0x8310 }
      else if j = 1 then
        { usb_data_xfer_block.zero with
          buf := 0x9040, blen := 64 - bdone, bdone := bdone, stat := USB_BLOCK_HANDLED
          type := USB_DATA_FULL, trb_addr := 0x8310, ccs := 1, trbnext := 0x8320 }
      else usb_data_xfer_block.zero }

/-! ## The worker that replays a connect after resume -/

/-- One pass of the loop of the source's `xhci_vbdp_thread`, from the return of `sem_wait` to
the next test of `vbdp_polling`; `none` when `portregs` is `NULL` or `pci_xhci_insert_event`
does not return. -/
def xhci_vbdp_thread_pass (xdev : pci_xhci_softc) : Option pci_xhci_softc :=
  match (List.range XHCI_MAX_DEVICES).find? fun i => (xdev.vbdp_devs i).state = S3_VBDP_END with
  | none => some xdev
  | some i =>
    let xdev1 : pci_xhci_softc :=
      { xdev with
        vbdp_devs := upd xdev.vbdp_devs i { xdev.vbdp_devs i with state := S3_VBDP_NONE } }
    match pci_xhci_get_native_port_index_by_path xdev1 (xdev1.vbdp_devs i).path with
    | none => some xdev1
    | some j =>
      let p := xdev1.native_ports j
      if p.state ≠ VPORT_CONNECTED then some xdev1
      else
        let speed := pci_xhci_convert_speed p.info.speed
        (pci_xhci_connect_port xdev1 p.vport speed true).map fun r => r.1

/-- A host USB 2 device of the speed `speed` on port 4 of bus 1. -/
def di_speed (speed : Nat) : usb_native_devinfo :=
  { path := { bus := 1, depth := 1, path := [4] }, speed := speed, bcd := 0x200
    type := 0, maxchild := 0 }

/-- The running controller with an event ring of 4 entries, a host backend that emulates
every device, and the path of `di_speed speed` assigned. -/
def sc_speed_assigned (speed : Nat) : pci_xhci_softc :=
  assign_paths { sc_plain_running 4 with usb_dev_backend := fun _ => some ue_stick }
    [di_speed speed]

/-- The controller `sc_speed_assigned speed` after the host has reported the device: it is
Connected on virtual port 5. -/
def sc_speed_connected (speed : Nat) : pci_xhci_softc :=
  connect_all (sc_speed_assigned speed) [di_speed speed]

/-- The controller `sc_speed_connected speed` after ENABLE_SLOT and ADDRESS_DEVICE for slot 1
with an input context that names root-hub port 5: the device is Emulated. -/
def sc_speed_emulated (speed : Nat) : pci_xhci_softc :=
  let s := (pci_xhci_cmd_enable_slot (guest_ctx_setup (sc_speed_connected speed) 5) 0).1
  ((pci_xhci_cmd_address_device s 1 (trb_address_device 1)).map fun r => r.1).getD s

/-- The controller `sc_speed_emulated speed` after the guest has written USBCMD with RS, INTE
and CSS: the port is saved for the resume. -/
def sc_speed_saved (speed : Nat) : pci_xhci_softc :=
  (pci_xhci_hostop_write (sc_speed_emulated speed) XHCI_CAPLEN
    (XHCI_CMD_RS ||| XHCI_CMD_INTE ||| XHCI_CMD_CSS)).getD (sc_speed_emulated speed)

/-- The controller `sc_speed_saved speed` after the host has reported the device again. -/
def sc_speed_reconnected (speed : Nat) : pci_xhci_softc :=
  connect_all (sc_speed_saved speed) [di_speed speed]

/-- No saved port is in state END, the state in which `xhci_vbdp_thread` replays a connect. -/
def vbdp_no_end (sc : pci_xhci_softc) : Prop :=
  ∀ i, (sc.vbdp_devs i).state ≠ S3_VBDP_END

/-- One step of the code that reads or stores the saved ports, or runs beside it: a call of
`pci_xhci_usbcmd_write`, of the connect or the disconnect callback, or a pass of
`xhci_vbdp_thread`. -/
def vbdp_step (sc sc1 : pci_xhci_softc) : Prop :=
  (∃ cmd r, pci_xhci_usbcmd_write sc cmd = some r ∧ sc1 = r.1) ∨
  (∃ di r, pci_xhci_native_usb_dev_conn_cb sc di = some r ∧ sc1 = r.1) ∨
  (∃ di r, pci_xhci_native_usb_dev_disconn_cb sc di = some r ∧ sc1 = r.1) ∨
  xhci_vbdp_thread_pass sc = some sc1

/-- The PORTSC register of `port`, 0 when the port registers are not allocated. -/
def portsc_of (sc : pci_xhci_softc) (port : Nat) : Nat :=
  match sc.portregs with
  | none => 0
  | some pr => (pr port).portsc

/-! ## ENABLE_SLOT without its first loop -/

/-- The variant of `pci_xhci_cmd_enable_slot` that the specification compares it with: the
function with its first loop, the one over the slot devices in state Disabled, removed.  What
is left is the initial `cmderr = XHCI_TRB_ERROR_NO_SLOTS`, the scan of `slot_allocated` and
the allocation. -/
def pci_xhci_cmd_enable_slot_without_first_loop (sc : pci_xhci_softc) (slot : Nat) :
    pci_xhci_softc × Nat × Nat :=
  let i := enable_slot_scan sc
  if i < XHCI_MAX_SLOTS then
    ({ sc with slot_allocated := upd sc.slot_allocated i true }, XHCI_TRB_ERROR_SUCCESS, i)
  else (sc, XHCI_TRB_ERROR_NO_SLOTS, slot)

/-- The controller `sc_slots_63` (the slot ids 1..63 are allocated, the tablet in slot 1 is
Enabled) after DISABLE_SLOT for slot 1: the tablet is Disabled. -/
def sc_slots_63_disabled : pci_xhci_softc :=
  (pci_xhci_cmd_disable_slot sc_slots_63 1).1

/-! ## What the commands and the transfers leave alone -/

/-- The operational registers are in `sc1` what they are in `sc`, and every slot id that is
allocated in `sc` is allocated in `sc1`. -/
def regs_frame (sc sc1 : pci_xhci_softc) : Prop :=
  sc1.opregs = sc.opregs ∧ ∀ s, sc.slot_allocated s = true → sc1.slot_allocated s = true

/-- What no command, no transfer and no event insertion changes: USBCMD and the HCH bit of
USBSTS are in `sc1` what they are in `sc`, and every slot id that is allocated in `sc` is
allocated in `sc1`. -/
def run_frame (sc sc1 : pci_xhci_softc) : Prop :=
  sc1.opregs.usbcmd = sc.opregs.usbcmd ∧
  sc1.opregs.usbsts &&& XHCI_STS_HCH = sc.opregs.usbsts &&& XHCI_STS_HCH ∧
  ∀ s, sc.slot_allocated s = true → sc1.slot_allocated s = true

/-! ## Guest writes to the register BAR -/

/-- The source's `pci_xhci_write`, a guest write to BAR 0, with the fuel of the command loop
and of the transfer walk: a write below `XHCI_CAPLEN` or at `regsend` and above changes
nothing; the others go to the operational, the doorbell or the runtime registers. -/
def pci_xhci_write (fuel : Nat) (sc : pci_xhci_softc) (offset value : Nat) : cmd_result :=
  if offset < XHCI_CAPLEN then cmd_result.done sc
  else if offset < sc.dboff then
    match pci_xhci_hostop_write sc offset value with
    | none => cmd_result.aborted
    | some sc1 => cmd_result.done sc1
  else if offset < sc.rtsoff then
    pci_xhci_dbregs_write (pci_xhci_device_doorbell fuel) fuel sc offset value
  else if offset < sc.regsend then
    match pci_xhci_rtsregs_write sc offset value with
    | none => cmd_result.aborted
    | some sc1 => cmd_result.done sc1
  else cmd_result.done sc

/-- The relation between USBSTS and USBCMD: HCH is set exactly when RS is clear. -/
def halted_iff_stopped (sc : pci_xhci_softc) : Prop :=
  sc.opregs.usbsts &&& XHCI_STS_HCH ≠ 0 ↔ sc.opregs.usbcmd &&& XHCI_CMD_RS = 0

/-- One guest write to the register BAR that returns takes `sc` to `sc1`. -/
def guest_write_step (sc sc1 : pci_xhci_softc) : Prop :=
  ∃ fuel offset value, pci_xhci_write fuel sc offset value = cmd_result.done sc1

/-- One step of the controller between which the slot allocation flags are compared: a command
dispatched by the command engine, a call of `pci_xhci_usbcmd_write` (which performs the
controller reset on HCRST), or a whole guest write to the register BAR. -/
def controller_step (sc sc1 : pci_xhci_softc) : Prop :=
  (∃ t ccs r, cmd_dispatch sc t ccs = some r ∧ sc1 = r.1) ∨
  (∃ cmd r, pci_xhci_usbcmd_write sc cmd = some r ∧ sc1 = r.1) ∨
  guest_write_step sc sc1

/-- The fresh controller after ENABLE_SLOT (slot 1 is handed out) and DISABLE_SLOT for
slot 1, both run through the dispatch of the command engine. -/
def sc_slot1_disabled : pci_xhci_softc :=
  ((cmd_dispatch (pci_xhci_cmd_enable_slot sc_fresh 0).1
    (trb_cmd XHCI_TRB_TYPE_DISABLE_SLOT 0 1) 1).getD (sc_fresh, 0, 0, 0)).1

/-- The fresh controller with the tablet after the guest has written 0 to the low dword of
ERSTBA through the register BAR. -/
def sc_fresh_erstba_lo : pci_xhci_softc :=
  (pci_xhci_write 8 sc_fresh (sc_fresh.rtsoff + 0x20 + 0x10) 0).get sc_fresh

/-- After `sc_fresh_erstba_lo`, the guest has written 0 to the high dword of ERSTBA: the
segment table is the one at guest address 0, which is zeroed and so describes no entry. -/
def sc_fresh_erstba : pci_xhci_softc :=
  (pci_xhci_write 8 sc_fresh_erstba_lo (sc_fresh.rtsoff + 0x20 + 0x14) 0).get sc_fresh_erstba_lo

/-- After `sc_fresh_erstba`, the guest has written RS to USBCMD (BAR offset `0x20`). -/
def sc_fresh_started : pci_xhci_softc :=
  (pci_xhci_write 8 sc_fresh_erstba XHCI_CAPLEN XHCI_CMD_RS).get sc_fresh_erstba

/-! ## Endpoint states -/

/-- The state field of the endpoint context `epid` of the device context at `a`. -/
def ep_state (sc : pci_xhci_softc) (a epid : Nat) : Nat :=
  XHCI_EPCTX_0_EPSTATE_GET ((sc.devctxmem a).ctx_ep epid).dwEpCtx0

/-- If the endpoint context `ce` of the device context at `ca` is Running or Halted in `sc`,
it is Running or Halted in `sc1`. -/
def live_kept (ca ce : Nat) (sc sc1 : pci_xhci_softc) : Prop :=
  (ep_state sc ca ce = XHCI_ST_EPCTX_RUNNING ∨ ep_state sc ca ce = XHCI_ST_EPCTX_HALTED) →
  (ep_state sc1 ca ce = XHCI_ST_EPCTX_RUNNING ∨ ep_state sc1 ca ce = XHCI_ST_EPCTX_HALTED)

/-- The controller `sc_stall_queued` after a transfer on the control endpoint of slot 1 has
completed with the backend status `USB_ERR_STALLED`: the endpoint is Halted. -/
def sc_ep1_halted : pci_xhci_softc :=
  ((pci_xhci_xfer_complete sc_stall_queued (xfer_failed_done USB_ERR_STALLED 0) 1 1).map
    fun r => r.xdev).getD sc_stall_queued

/-! ## The save of the native ports on USBCMD.CSS -/

/-- The native port `p` after the save: Assigned, with no virtual port. -/
def native_port_saved (p : pci_xhci_native_port) : pci_xhci_native_port :=
  { p with vport := 0, state := VPORT_ASSIGNED }

/-- The record that the save makes of the native port `p`. -/
def vbdp_record (p : pci_xhci_native_port) : pci_xhci_vbdp_dev_state :=
  { path := p.info.path, vport := p.vport, state := S3_VBDP_START }

/-- The indices of the native port table whose entry is Emulated. -/
def emulated_ports (sc : pci_xhci_softc) : List Nat :=
  (List.range XHCI_MAX_DEVICES).filter fun i => (sc.native_ports i).state = VPORT_EMULATED

/-- The controller `sc_speed_saved USB_SPEED_HIGH` after the host has reported an external
hub on the path of the saved port. -/
def sc_saved_hub : pci_xhci_softc :=
  connect_all (sc_speed_saved USB_SPEED_HIGH)
    [{ di_speed USB_SPEED_HIGH with type := USB_TYPE_EXTHUB, maxchild := 4 }]

/-! ## The states of the native ports -/

theorem testBit_eq_false_of_lt_two_pow (x w i : Nat) (hx : x < 2 ^ w) (hi : w ≤ i) :
    x.testBit i = false := by
  apply Nat.testBit_lt_two_pow
  calc x < 2 ^ w := hx
    _ ≤ 2 ^ i := Nat.pow_le_pow_right (by norm_num) hi

theorem and_FFFFFFFE (x : Nat) (hx : x < 2 ^ 32) : x &&& 0xFFFFFFFE = 2 * (x / 2) := by
  apply Nat.eq_of_testBit_eq
  intro i
  rw [Nat.testBit_and]
  rcases i with _ | i
  · simp [Nat.testBit_zero]
  · have h2 : (2 * (x / 2)) / 2 = x / 2 := by omega
    have e1 : (2 * (x / 2)).testBit (i + 1) = x.testBit (i + 1) := by
      rw [Nat.testBit_succ, Nat.testBit_succ, h2]
    rw [e1]
    by_cases hi : i + 1 < 32
    · have hi2 : i < 31 := by omega
      have : Nat.testBit 0xFFFFFFFE (i+1) = true := by
        interval_cases i <;> decide
      rw [this]; simp
    · rw [testBit_eq_false_of_lt_two_pow x 32 (i+1) hx (by omega)]; simp

theorem two_mul_or_bit (y p : Nat) (hp : p ≤ 1) : (2 * y) ||| p = 2 * y + p := by
  have := Nat.mul_add_lt_is_or (i := 1) (b := p) (by omega) y
  simpa using this.symm

theorem NOT32_CYCLE : NOT32 XHCI_TRB_3_CYCLE_BIT = 0xFFFFFFFE := by decide

theorem xor_one_of_le_one (p : Nat) (hp : p ≤ 1) : p ^^^ 1 = 1 - p := by
  rcases Nat.le_one_iff_eq_zero_or_eq_one.mp hp with h | h <;> subst h <;> decide

theorem upd_same {α : Type} (f : Nat → α) (i : Nat) (v : α) : upd f i v i = v := by
  simp [upd]

theorem upd_other {α : Type} (f : Nat → α) (i j : Nat) (v : α) (h : j ≠ i) :
    upd f i v j = f j := by
  simp [upd, h]

/-! ## Event ring: `pci_xhci_insert_event` -/

/-- The interrupt tail of `pci_xhci_insert_event` leaves the event ring memory alone. -/
theorem assert_interrupt_evmem (sc : pci_xhci_softc) :
    (pci_xhci_assert_interrupt sc).evmem = sc.evmem := by
  unfold pci_xhci_assert_interrupt
  simp only
  split_ifs <;> rfl

/-- The interrupt tail of `pci_xhci_insert_event` leaves the producer state alone. -/
theorem assert_interrupt_rts (sc : pci_xhci_softc) :
    (pci_xhci_assert_interrupt sc).rtsregs.er_enq_idx = sc.rtsregs.er_enq_idx ∧
    (pci_xhci_assert_interrupt sc).rtsregs.er_events_cnt = sc.rtsregs.er_events_cnt ∧
    (pci_xhci_assert_interrupt sc).rtsregs.event_pcs = sc.rtsregs.event_pcs ∧
    (pci_xhci_assert_interrupt sc).rtsregs.erst_p = sc.rtsregs.erst_p ∧
    (pci_xhci_assert_interrupt sc).rtsregs.erstba_p = sc.rtsregs.erstba_p ∧
    (pci_xhci_assert_interrupt sc).erstmem = sc.erstmem := by
  unfold pci_xhci_assert_interrupt
  simp only
  split_ifs <;> simp

theorem insert_event_done_fst (sc : pci_xhci_softc) (b : Bool) (e : Nat) :
    (insert_event_done sc b e).1.evmem = sc.evmem ∧
    (insert_event_done sc b e).1.rtsregs.er_enq_idx = sc.rtsregs.er_enq_idx ∧
    (insert_event_done sc b e).1.rtsregs.er_events_cnt = sc.rtsregs.er_events_cnt ∧
    (insert_event_done sc b e).1.rtsregs.event_pcs = sc.rtsregs.event_pcs ∧
    (insert_event_done sc b e).1.rtsregs.erst_p = sc.rtsregs.erst_p ∧
    (insert_event_done sc b e).1.rtsregs.erstba_p = sc.rtsregs.erstba_p ∧
    (insert_event_done sc b e).1.erstmem = sc.erstmem ∧
    (insert_event_done sc b e).2 = e := by
  unfold insert_event_done
  cases b
  · simp
  · have h1 := assert_interrupt_evmem sc
    have h2 := assert_interrupt_rts sc
    simp [h1, h2]

/-- What the storing path of `pci_xhci_insert_event` does to the event ring. -/
theorem insert_event_store_spec (sc : pci_xhci_softc) (evtrb : xhci_trb) (b : Bool) :
    (insert_event_store sc evtrb b).2 = XHCI_TRB_ERROR_SUCCESS ∧
    (insert_event_store sc evtrb b).1.evmem =
      upd sc.evmem (erst_entry sc sc.rtsregs.er_enq_idx)
        { evtrb with dwTrb3 :=
            (evtrb.dwTrb3 &&& NOT32 XHCI_TRB_3_CYCLE_BIT) ||| sc.rtsregs.event_pcs } ∧
    (insert_event_store sc evtrb b).1.rtsregs.er_enq_idx =
      (sc.rtsregs.er_enq_idx + 1) % evrs_table_size sc ∧
    (insert_event_store sc evtrb b).1.rtsregs.er_events_cnt = sc.rtsregs.er_events_cnt ∧
    (insert_event_store sc evtrb b).1.rtsregs.event_pcs =
      (if (sc.rtsregs.er_enq_idx + 1) % evrs_table_size sc = 0
        then sc.rtsregs.event_pcs ^^^ 1 else sc.rtsregs.event_pcs) ∧
    (insert_event_store sc evtrb b).1.rtsregs.erst_p = sc.rtsregs.erst_p ∧
    (insert_event_store sc evtrb b).1.rtsregs.erstba_p = sc.rtsregs.erstba_p ∧
    (insert_event_store sc evtrb b).1.erstmem = sc.erstmem := by
  unfold insert_event_store
  simp only
  refine ⟨?_, ?_, ?_, ?_, ?_, ?_, ?_, ?_⟩ <;>
    simp [(insert_event_done_fst _ _ _)]

/-- A segment table with a size that is not 0 is one that the guest has programmed. -/
theorem erstba_p_of_size_pos (sc : pci_xhci_softc) (h : 0 < evrs_table_size sc) :
    ∃ p, sc.rtsregs.erstba_p = some p := by
  unfold evrs_table_size at h
  cases hp : sc.rtsregs.erstba_p with
  | none => rw [hp] at h; exact absurd h (Nat.lt_irrefl 0)
  | some p => exact ⟨p, rfl⟩

/-- With `erstba_p` not `NULL`, `pci_xhci_insert_event` returns, with the result of
`insert_event_ring`. -/
theorem insert_event_of_ptr (sc : pci_xhci_softc) (evtrb : xhci_trb) (do_intr : Bool) (p : Nat)
    (hp : sc.rtsregs.erstba_p = some p) :
    pci_xhci_insert_event sc evtrb do_intr = some (insert_event_ring sc evtrb do_intr) := by
  unfold pci_xhci_insert_event
  rw [hp]

theorem insert_event_of_size (sc : pci_xhci_softc) (evtrb : xhci_trb) (do_intr : Bool)
    (h : 0 < evrs_table_size sc) :
    pci_xhci_insert_event sc evtrb do_intr = some (insert_event_ring sc evtrb do_intr) := by
  obtain ⟨p, hp⟩ := erstba_p_of_size_pos sc h
  exact insert_event_of_ptr sc evtrb do_intr p hp

/-- When `pci_xhci_insert_event` returns, `erstba_p` is not `NULL` and the result is that of
`insert_event_ring`. -/
theorem insert_event_eq_some (sc : pci_xhci_softc) (evtrb : xhci_trb) (do_intr : Bool)
    (r : pci_xhci_softc × Nat) (h : pci_xhci_insert_event sc evtrb do_intr = some r) :
    (∃ p, sc.rtsregs.erstba_p = some p) ∧ r = insert_event_ring sc evtrb do_intr := by
  unfold pci_xhci_insert_event at h
  cases hp : sc.rtsregs.erstba_p with
  | none => rw [hp] at h; cases h
  | some p =>
    rw [hp] at h
    simp only [Option.some.injEq] at h
    exact ⟨⟨p, rfl⟩, h.symm⟩

/-- When `pci_xhci_insert_event` returns, the state it leaves is that of
`insert_event_ring`. -/
theorem insert_event_map_fst (sc : pci_xhci_softc) (evtrb : xhci_trb) (do_intr : Bool)
    (sc1 : pci_xhci_softc)
    (h : (pci_xhci_insert_event sc evtrb do_intr).map (fun r => r.1) = some sc1) :
    sc1 = (insert_event_ring sc evtrb do_intr).1 := by
  rw [Option.map_eq_some'] at h
  obtain ⟨x, hx, rfl⟩ := h
  rw [(insert_event_eq_some _ _ _ _ hx).2]

/-- With `erstba_p` `NULL`, `pci_xhci_insert_event` does not return. -/
theorem insert_event_null (sc : pci_xhci_softc) (evtrb : xhci_trb) (do_intr : Bool)
    (hp : sc.rtsregs.erstba_p = none) : pci_xhci_insert_event sc evtrb do_intr = none := by
  unfold pci_xhci_insert_event
  rw [hp]

/-- With fewer than `n - 1` events pending, `insert_event_ring` counts the event and
stores it. -/
theorem insert_event_eq_store_of_room (sc : pci_xhci_softc) (evtrb : xhci_trb) (do_intr : Bool)
    (hsz : evrs_table_size sc < 2 ^ 32)
    (hcnt : sc.rtsregs.er_events_cnt + 1 < evrs_table_size sc) :
    insert_event_ring sc evtrb do_intr =
      insert_event_store
        { sc with rtsregs := { sc.rtsregs with
            er_events_cnt := sc.rtsregs.er_events_cnt + 1 } } evtrb do_intr := by
  have h1 : ¬ sc.rtsregs.er_events_cnt ≥ evrs_table_size sc := by omega
  have h2 : ¬ sc.rtsregs.er_events_cnt = (evrs_table_size sc + 2 ^ 32 - 1) % 2 ^ 32 := by
    have : (evrs_table_size sc + 2 ^ 32 - 1) % 2 ^ 32 = evrs_table_size sc - 1 := by omega
    omega
  unfold insert_event_ring
  simp only [h1, h2, if_false]

theorem and_one_eq_mod_two (x : Nat) : x &&& 0x1 = x % 2 := by
  exact Nat.and_one_is_mod x

/-- With `er_events_cnt = n - 1` and the cycle bit of the ring entry at `er_enq_idx` equal to
`event_pcs`, `insert_event_ring` does not store the caller's event: it stores a
HOST_CONTROLLER event with completion code EV_RING_FULL and cycle bit `event_pcs` at
`er_enq_idx`, returns EV_RING_FULL and leaves `er_events_cnt = n`. -/
theorem insert_event_ring_near_full (sc : pci_xhci_softc) (evtrb : xhci_trb) (do_intr : Bool)
    (hn : 1 ≤ evrs_table_size sc) (hsz : evrs_table_size sc < 2 ^ 32)
    (hcnt : sc.rtsregs.er_events_cnt = evrs_table_size sc - 1)
    (hpcs : sc.rtsregs.event_pcs ≤ 1)
    (hcyc : (sc.evmem (erst_entry sc sc.rtsregs.er_enq_idx)).dwTrb3 % 2 =
      sc.rtsregs.event_pcs) :
    (insert_event_ring sc evtrb do_intr).2 = XHCI_TRB_ERROR_EV_RING_FULL ∧
    (insert_event_ring sc evtrb do_intr).1.evmem (erst_entry sc sc.rtsregs.er_enq_idx) =
      { qwTrb0 := 0
        dwTrb2 := XHCI_TRB_2_ERROR_SET XHCI_TRB_ERROR_EV_RING_FULL
        dwTrb3 := XHCI_TRB_3_TYPE_SET XHCI_TRB_EVENT_HOST_CTRL ||| sc.rtsregs.event_pcs } ∧
    XHCI_TRB_3_TYPE_GET ((insert_event_ring sc evtrb do_intr).1.evmem
      (erst_entry sc sc.rtsregs.er_enq_idx)).dwTrb3 = XHCI_TRB_EVENT_HOST_CTRL ∧
    XHCI_TRB_2_ERROR_GET ((insert_event_ring sc evtrb do_intr).1.evmem
      (erst_entry sc sc.rtsregs.er_enq_idx)).dwTrb2 = XHCI_TRB_ERROR_EV_RING_FULL ∧
    ((insert_event_ring sc evtrb do_intr).1.evmem
      (erst_entry sc sc.rtsregs.er_enq_idx)).dwTrb3 % 2 = sc.rtsregs.event_pcs ∧
    (∀ a, a ≠ erst_entry sc sc.rtsregs.er_enq_idx →
      (insert_event_ring sc evtrb do_intr).1.evmem a = sc.evmem a) ∧
    (insert_event_ring sc evtrb do_intr).1.rtsregs.er_events_cnt = evrs_table_size sc := by
  have h1 : ¬ sc.rtsregs.er_events_cnt ≥ evrs_table_size sc := by omega
  have h2 : sc.rtsregs.er_events_cnt = (evrs_table_size sc + 2 ^ 32 - 1) % 2 ^ 32 := by
    have : (evrs_table_size sc + 2 ^ 32 - 1) % 2 ^ 32 = evrs_table_size sc - 1 := by omega
    omega
  have h3 : (sc.evmem (erst_entry sc sc.rtsregs.er_enq_idx)).dwTrb3 &&& 0x1 =
      sc.rtsregs.event_pcs &&& 0x1 := by
    rw [and_one_eq_mod_two, and_one_eq_mod_two, hcyc]; omega
  have hE : insert_event_ring sc evtrb do_intr =
      insert_event_done
        { sc with
          evmem := upd sc.evmem (erst_entry sc sc.rtsregs.er_enq_idx)
            { qwTrb0 := 0
              dwTrb2 := XHCI_TRB_2_ERROR_SET XHCI_TRB_ERROR_EV_RING_FULL
              dwTrb3 := XHCI_TRB_3_TYPE_SET XHCI_TRB_EVENT_HOST_CTRL ||| sc.rtsregs.event_pcs }
          rtsregs := { sc.rtsregs with
            er_events_cnt := sc.rtsregs.er_events_cnt + 1
            er_enq_idx := (sc.rtsregs.er_enq_idx + 1) % evrs_table_size sc } }
        true XHCI_TRB_ERROR_EV_RING_FULL := by
    unfold insert_event_ring
    simp only [h1, if_false]
    rw [if_pos h2, if_pos h3]
  rw [hE]
  obtain ⟨d1, -, d3, -, -, -, -, d8⟩ := insert_event_done_fst
    { sc with
      evmem := upd sc.evmem (erst_entry sc sc.rtsregs.er_enq_idx)
        { qwTrb0 := 0
          dwTrb2 := XHCI_TRB_2_ERROR_SET XHCI_TRB_ERROR_EV_RING_FULL
          dwTrb3 := XHCI_TRB_3_TYPE_SET XHCI_TRB_EVENT_HOST_CTRL ||| sc.rtsregs.event_pcs }
      rtsregs := { sc.rtsregs with
        er_events_cnt := sc.rtsregs.er_events_cnt + 1
        er_enq_idx := (sc.rtsregs.er_enq_idx + 1) % evrs_table_size sc } }
    true XHCI_TRB_ERROR_EV_RING_FULL
  rw [d1, d3, d8]
  have hp : sc.rtsregs.event_pcs = 0 ∨ sc.rtsregs.event_pcs = 1 := by omega
  refine ⟨rfl, ?_, ?_, ?_, ?_, ?_, ?_⟩
  · simp [upd]
  · rcases hp with h | h <;> simp [upd, h] <;> decide
  · simp [upd]; decide
  · rcases hp with h | h <;> simp [upd, h]; decide
  · intro a ha; simp [upd, ha]
  · simp only; omega

/-- C4, as the code has it: with `er_events_cnt = n - 1` and the cycle bit of the ring entry
at `er_enq_idx` equal to `event_pcs`, `pci_xhci_insert_event` does not store the caller's
event: it stores a HOST_CONTROLLER event with completion code EV_RING_FULL and cycle bit
`event_pcs` at `er_enq_idx`, returns EV_RING_FULL and leaves `er_events_cnt = n`. -/
theorem insert_event_near_full (sc : pci_xhci_softc) (evtrb : xhci_trb) (do_intr : Bool)
    (hn : 1 ≤ evrs_table_size sc) (hsz : evrs_table_size sc < 2 ^ 32)
    (hcnt : sc.rtsregs.er_events_cnt = evrs_table_size sc - 1)
    (hpcs : sc.rtsregs.event_pcs ≤ 1)
    (hcyc : (sc.evmem (erst_entry sc sc.rtsregs.er_enq_idx)).dwTrb3 % 2 =
      sc.rtsregs.event_pcs) :
    ∃ r, pci_xhci_insert_event sc evtrb do_intr = some r ∧
      r.2 = XHCI_TRB_ERROR_EV_RING_FULL ∧
      r.1.evmem (erst_entry sc sc.rtsregs.er_enq_idx) =
        { qwTrb0 := 0
          dwTrb2 := XHCI_TRB_2_ERROR_SET XHCI_TRB_ERROR_EV_RING_FULL
          dwTrb3 := XHCI_TRB_3_TYPE_SET XHCI_TRB_EVENT_HOST_CTRL ||| sc.rtsregs.event_pcs } ∧
      XHCI_TRB_3_TYPE_GET (r.1.evmem (erst_entry sc sc.rtsregs.er_enq_idx)).dwTrb3 =
        XHCI_TRB_EVENT_HOST_CTRL ∧
      XHCI_TRB_2_ERROR_GET (r.1.evmem (erst_entry sc sc.rtsregs.er_enq_idx)).dwTrb2 =
        XHCI_TRB_ERROR_EV_RING_FULL ∧
      (r.1.evmem (erst_entry sc sc.rtsregs.er_enq_idx)).dwTrb3 % 2 = sc.rtsregs.event_pcs ∧
      (∀ a, a ≠ erst_entry sc sc.rtsregs.er_enq_idx → r.1.evmem a = sc.evmem a) ∧
      r.1.rtsregs.er_events_cnt = evrs_table_size sc :=
  ⟨insert_event_ring sc evtrb do_intr, insert_event_of_size sc evtrb do_intr (by omega),
    insert_event_ring_near_full sc evtrb do_intr hn hsz hcnt hpcs hcyc⟩

set_option maxRecDepth 100000 in
/-- Witness of C4 as amended: the fourth insertion into a ring of four entries whose entry 3
holds a stale cycle bit 1 leaves `er_events_cnt = 4`. -/
theorem insert_event_near_full_witness :
    sc_evring_three_stale.rtsregs.er_events_cnt = evrs_table_size sc_evring_three_stale - 1 ∧
    ∃ r, pci_xhci_insert_event sc_evring_three_stale (port_event 4) false = some r ∧
      r.2 = XHCI_TRB_ERROR_EV_RING_FULL ∧ r.1.rtsregs.er_events_cnt = 4 :=
  have h := insert_event_near_full sc_evring_three_stale (port_event 4) false
    (by decide) (by decide) (by decide) (by decide) (by decide)
  ⟨by decide, h.elim fun r hr => ⟨r, hr.1, hr.2.1, hr.2.2.2.2.2.2.2⟩⟩

set_option maxRecDepth 100000 in
/-- C4 fails as stated: on a ring of four entries with `er_events_cnt = 3 = n - 1` whose entry
at `er_enq_idx` is zeroed (cycle bit 0, `event_pcs = 1`), the fourth insertion stores the
caller's event, returns SUCCESS and leaves `er_events_cnt = 3`. -/
theorem insert_event_near_full_counterexample :
    sc_evring_three.rtsregs.er_events_cnt = evrs_table_size sc_evring_three - 1 ∧
    1 ≤ evrs_table_size sc_evring_three ∧
    (pci_xhci_insert_event sc_evring_three (port_event 4) false).map (fun r => r.2) =
      some XHCI_TRB_ERROR_SUCCESS ∧
    XHCI_TRB_ERROR_SUCCESS ≠ XHCI_TRB_ERROR_EV_RING_FULL ∧
    (pci_xhci_insert_event sc_evring_three (port_event 4) false).map
        (fun r => XHCI_TRB_3_TYPE_GET
          (r.1.evmem (erst_entry sc_evring_three sc_evring_three.rtsregs.er_enq_idx)).dwTrb3) =
      some XHCI_TRB_EVENT_PORT_STS_CHANGE ∧
    (pci_xhci_insert_event sc_evring_three (port_event 4) false).map
        (fun r =>
          (r.1.evmem (erst_entry sc_evring_three sc_evring_three.rtsregs.er_enq_idx)).qwTrb0) =
      some (port_event 4).qwTrb0 ∧
    (pci_xhci_insert_event sc_evring_three (port_event 4) false).map
        (fun r => r.1.rtsregs.er_events_cnt) = some 3 ∧
    3 ≠ evrs_table_size sc_evring_three := by
  decide

/-- The event ring pointers and the segment table are left alone by `insert_event_ring`. -/
theorem insert_event_ring_keeps_ptr (sc : pci_xhci_softc) (evtrb : xhci_trb) (do_intr : Bool) :
    (insert_event_ring sc evtrb do_intr).1.rtsregs.erstba_p = sc.rtsregs.erstba_p ∧
    (insert_event_ring sc evtrb do_intr).1.rtsregs.erst_p = sc.rtsregs.erst_p ∧
    (insert_event_ring sc evtrb do_intr).1.erstmem = sc.erstmem := by
  unfold insert_event_ring
  simp only
  split
  · exact ⟨(insert_event_done_fst _ _ _).2.2.2.2.2.1, (insert_event_done_fst _ _ _).2.2.2.2.1,
      (insert_event_done_fst _ _ _).2.2.2.2.2.2.1⟩
  · split
    · split
      · exact ⟨(insert_event_done_fst _ _ _).2.2.2.2.2.1,
          (insert_event_done_fst _ _ _).2.2.2.2.1, (insert_event_done_fst _ _ _).2.2.2.2.2.2.1⟩
      · exact ⟨(insert_event_store_spec _ _ _).2.2.2.2.2.2.1,
          (insert_event_store_spec _ _ _).2.2.2.2.2.1, (insert_event_store_spec _ _ _).2.2.2.2.2.2.2⟩
    · exact ⟨(insert_event_store_spec _ _ _).2.2.2.2.2.2.1,
        (insert_event_store_spec _ _ _).2.2.2.2.2.1, (insert_event_store_spec _ _ _).2.2.2.2.2.2.2⟩

/-- One refused insertion: with `er_events_cnt >= n` the call returns EV_RING_FULL and leaves
the ring memory and the producer state as they were. -/
theorem insert_event_full_step (sc : pci_xhci_softc) (evtrb : xhci_trb) (do_intr : Bool)
    (hfull : evrs_table_size sc ≤ sc.rtsregs.er_events_cnt) :
    (insert_event_ring sc evtrb do_intr).2 = XHCI_TRB_ERROR_EV_RING_FULL ∧
    (insert_event_ring sc evtrb do_intr).1.evmem = sc.evmem ∧
    (insert_event_ring sc evtrb do_intr).1.rtsregs.er_enq_idx = sc.rtsregs.er_enq_idx ∧
    (insert_event_ring sc evtrb do_intr).1.rtsregs.er_events_cnt =
      sc.rtsregs.er_events_cnt ∧
    (insert_event_ring sc evtrb do_intr).1.rtsregs.event_pcs = sc.rtsregs.event_pcs ∧
    evrs_table_size (insert_event_ring sc evtrb do_intr).1 = evrs_table_size sc := by
  have hE : insert_event_ring sc evtrb do_intr =
      insert_event_done sc do_intr XHCI_TRB_ERROR_EV_RING_FULL := by
    unfold insert_event_ring
    simp only
    rw [if_pos hfull]
  rw [hE]
  obtain ⟨d1, d2, d3, d4, -, d6, d7, d8⟩ :=
    insert_event_done_fst sc do_intr XHCI_TRB_ERROR_EV_RING_FULL
  refine ⟨d8, d1, d2, d3, d4, ?_⟩
  simp [evrs_table_size, d6, d7]

/-- C5: on an event ring whose segment table the guest has programmed (`erstba_p` is not
`NULL`), whenever `er_events_cnt >= n` (also for `n = 0`), every call of a sequence of
`pci_xhci_insert_event` calls returns EV_RING_FULL, and the ring memory, `er_enq_idx`,
`er_events_cnt` and `event_pcs` stay as they were; the first call is the sequence of one. -/
theorem insert_event_full (sc : pci_xhci_softc) (evs : List (xhci_trb × Bool)) (p : Nat)
    (hp : sc.rtsregs.erstba_p = some p)
    (hfull : evrs_table_size sc ≤ sc.rtsregs.er_events_cnt) :
    ∃ r, insert_events sc evs = some r ∧
      r.2 = List.replicate evs.length XHCI_TRB_ERROR_EV_RING_FULL ∧
      r.1.evmem = sc.evmem ∧
      r.1.rtsregs.er_enq_idx = sc.rtsregs.er_enq_idx ∧
      r.1.rtsregs.er_events_cnt = sc.rtsregs.er_events_cnt ∧
      r.1.rtsregs.event_pcs = sc.rtsregs.event_pcs := by
  induction evs generalizing sc with
  | nil => exact ⟨(sc, []), by rw [insert_events], rfl, rfl, rfl, rfl, rfl⟩
  | cons ev rest ih =>
    obtain ⟨s1, s2, s3, s4, s5, s6⟩ := insert_event_full_step sc ev.1 ev.2 hfull
    have hfull1 : evrs_table_size (insert_event_ring sc ev.1 ev.2).1 ≤
        (insert_event_ring sc ev.1 ev.2).1.rtsregs.er_events_cnt := by
      rw [s6, s4]; exact hfull
    have hp1 : (insert_event_ring sc ev.1 ev.2).1.rtsregs.erstba_p = some p := by
      rw [(insert_event_ring_keeps_ptr sc ev.1 ev.2).1]; exact hp
    obtain ⟨r, i0, i1, i2, i3, i4, i5⟩ := ih (insert_event_ring sc ev.1 ev.2).1 hp1 hfull1
    refine ⟨(r.1, (insert_event_ring sc ev.1 ev.2).2 :: r.2), ?_, ?_, ?_, ?_, ?_, ?_⟩
    · rw [insert_events, insert_event_of_ptr sc ev.1 ev.2 p hp]
      simp only [i0]
    · simp only [List.length_cons, List.replicate_succ]
      rw [i1, s1]
    · rw [i2, s2]
    · rw [i3, s3]
    · rw [i4, s4]
    · rw [i5, s5]

set_option maxRecDepth 100000 in
/-- Witness of C5: a segment of size 0, where every insertion is refused. -/
theorem insert_event_full_witness :
    evrs_table_size (sc_evring 0) ≤ (sc_evring 0).rtsregs.er_events_cnt ∧
    ∃ r, insert_events (sc_evring 0) [(port_event 1, false), (port_event 2, true)] = some r ∧
      r.2 = [XHCI_TRB_ERROR_EV_RING_FULL, XHCI_TRB_ERROR_EV_RING_FULL] ∧
      r.1.evmem = (sc_evring 0).evmem :=
  have h := insert_event_full (sc_evring 0) [(port_event 1, false), (port_event 2, true)]
    0x1000 (by decide) (by decide)
  ⟨by decide, h.elim fun r hr => ⟨r, hr.1, hr.2.1, hr.2.2.1⟩⟩

set_option maxRecDepth 100000 in
/-- C6 at the failing input: on an empty, zeroed event ring of four entries, five insertions
with no ERDP write in between all return SUCCESS (more than `n - 1 = 3`), and the fifth is
stored in entry 0, over the first event, which was never consumed. -/
theorem insert_event_overwrites_unconsumed :
    (sc_evring 4).rtsregs.er_events_cnt = 0 ∧ evrs_table_size (sc_evring 4) = 4 ∧
    (insert_events (sc_evring 4)
      [(port_event 1, false), (port_event 2, false), (port_event 3, false),
        (port_event 4, false), (port_event 5, false)]).map (fun r => r.2) =
      some [XHCI_TRB_ERROR_SUCCESS, XHCI_TRB_ERROR_SUCCESS, XHCI_TRB_ERROR_SUCCESS,
        XHCI_TRB_ERROR_SUCCESS, XHCI_TRB_ERROR_SUCCESS] ∧
    (insert_events (sc_evring 4) [(port_event 1, false)]).map
        (fun r => (r.1.evmem (erst_entry (sc_evring 4) 0)).qwTrb0) =
      some (port_event 1).qwTrb0 ∧
    (insert_events (sc_evring 4)
      [(port_event 1, false), (port_event 2, false), (port_event 3, false),
        (port_event 4, false), (port_event 5, false)]).map
        (fun r => (r.1.evmem (erst_entry (sc_evring 4) 0)).qwTrb0) =
      some (port_event 5).qwTrb0 ∧
    (port_event 5).qwTrb0 ≠ (port_event 1).qwTrb0 := by
  decide

set_option maxRecDepth 100000 in
/-- C7 at the failing input: on a ring of four entries with `er_enq_idx = 3`,
`er_events_cnt = 3` and a stale cycle bit 1 in entry 3, the insertion takes the ring-full path,
`er_enq_idx` becomes `(3 + 1) mod 4 = 0` and `event_pcs` is not toggled. -/
theorem insert_event_full_path_no_toggle :
    sc_evring_three_stale.rtsregs.er_enq_idx = 3 ∧
    sc_evring_three_stale.rtsregs.event_pcs = 1 ∧
    (pci_xhci_insert_event sc_evring_three_stale (port_event 4) false).map
        (fun r => (r.2, r.1.rtsregs.er_enq_idx, r.1.rtsregs.event_pcs)) =
      some (XHCI_TRB_ERROR_EV_RING_FULL, 0, 1) := by
  decide

/-! ## Runtime registers: ERDP and ERSTBA -/

theorem testBit_FFF0 (i : Nat) :
    Nat.testBit 0xFFFFFFFFFFFFFFF0 i = (decide (4 ≤ i) && decide (i < 64)) := by
  have h : (0xFFFFFFFFFFFFFFF0 : Nat) = (2 ^ 60 - 1) <<< 4 := by decide
  rw [h, Nat.testBit_shiftLeft, Nat.testBit_two_pow_sub_one]
  rw [Bool.eq_iff_iff]; simp; omega

theorem testBit_HI32 (i : Nat) :
    Nat.testBit 0xFFFFFFFF00000000 i = (decide (32 ≤ i) && decide (i < 64)) := by
  have h : (0xFFFFFFFF00000000 : Nat) = (2 ^ 32 - 1) <<< 32 := by decide
  rw [h, Nat.testBit_shiftLeft, Nat.testBit_two_pow_sub_one]
  rw [Bool.eq_iff_iff]; simp; omega

theorem testBit_LO32 (i : Nat) : Nat.testBit 0xFFFFFFFF i = decide (i < 32) := by
  have h : (0xFFFFFFFF : Nat) = 2 ^ 32 - 1 := by decide
  rw [h, Nat.testBit_two_pow_sub_one]

theorem testBit_8 (i : Nat) : Nat.testBit 8 i = decide (i = 3) := by
  have h : (8 : Nat) = 2 ^ 3 := by decide
  rw [h, Nat.testBit_two_pow]
  rw [Bool.eq_iff_iff]; simp; omega

theorem NOT64_BUSY : NOT64 8 = 0xFFFFFFFFFFFFFFF7 := by decide

theorem testBit_FFF7 (i : Nat) :
    Nat.testBit 0xFFFFFFFFFFFFFFF7 i = (decide (i < 64) && !decide (i = 3)) := by
  have h : (0xFFFFFFFFFFFFFFF7 : Nat) = (2 ^ 64 - 1) ^^^ 8 := by decide
  rw [h, Nat.testBit_xor, Nat.testBit_two_pow_sub_one, testBit_8]
  by_cases h1 : i < 64 <;> by_cases h2 : i = 3 <;> simp [h1, h2]

theorem and_FFF0_eq (lo : Nat) (hlo : lo < 2 ^ 64) :
    lo &&& 0xFFFFFFFFFFFFFFF0 = 16 * (lo / 16) := by
  apply Nat.eq_of_testBit_eq
  intro i
  rw [Nat.testBit_and, testBit_FFF0]
  have e : 16 * (lo / 16) = (lo >>> 4) <<< 4 := by
    rw [Nat.shiftLeft_eq, Nat.shiftRight_eq_div_pow]; omega
  rw [e, Nat.testBit_shiftLeft, Nat.testBit_shiftRight]
  by_cases h4 : 4 ≤ i
  · have e4 : 4 + (i - 4) = i := by omega
    by_cases h64 : i < 64
    · simp [h4, h64, e4]
    · have := testBit_eq_false_of_lt_two_pow lo 64 i hlo (by omega)
      simp [h4, h64, e4, this]
  · simp [h4]

/-- The pointer part of ERDP after the guest has written the low dword `lo` and then the high
dword `hi`, whatever the register held before. -/
theorem erdp_pointer_bits (old lo hi : Nat) (busy : Bool) (hlo : lo < 2 ^ 32)
    (hhi : hi < 2 ^ 32) :
    MASK_NOT_F (((hi <<< 32) % 2 ^ 64) |||
      MASK_64_LO (if busy then
          (MASK_64_HI old ||| (old &&& XHCI_ERDP_LO_BUSY) ||| MASK_NOT_F lo) &&&
            NOT64 XHCI_ERDP_LO_BUSY
        else MASK_64_HI old ||| (old &&& XHCI_ERDP_LO_BUSY) ||| MASK_NOT_F lo)) =
      hi * 2 ^ 32 + 16 * (lo / 16) := by
  have hR : hi * 2 ^ 32 + 16 * (lo / 16) = (hi <<< 32) ||| (lo &&& 0xFFFFFFFFFFFFFFF0) := by
    rw [and_FFF0_eq lo (by omega), Nat.shiftLeft_eq]
    have hlt : 16 * (lo / 16) < 2 ^ 32 := by omega
    have := Nat.mul_add_lt_is_or hlt hi
    rw [Nat.mul_comm hi]; exact this
  rw [hR]
  apply Nat.eq_of_testBit_eq
  intro i
  have hlo_hi : 32 ≤ i → lo.testBit i = false :=
    fun h => testBit_eq_false_of_lt_two_pow lo 32 i hlo h
  have hhi_hi : 64 ≤ i → hi.testBit (i - 32) = false :=
    fun h => testBit_eq_false_of_lt_two_pow hi 32 (i - 32) hhi (by omega)
  cases busy <;>
    simp only [MASK_NOT_F, MASK_64_LO, MASK_64_HI, XHCI_ERDP_LO_BUSY, NOT64_BUSY,
      Nat.testBit_and, Nat.testBit_or, testBit_FFF0, testBit_HI32, testBit_LO32, testBit_8,
      testBit_FFF7, Nat.testBit_mod_two_pow, Nat.testBit_shiftLeft, if_true, if_false,
      Bool.false_eq_true] <;>
    by_cases h4 : 4 ≤ i <;> by_cases h32 : 32 ≤ i <;> by_cases h64 : i < 64 <;>
    simp [h4, h32, h64] <;>
    first
      | omega
      | (have hx := hlo_hi h32; simp_all)
      | (have h3 : ¬ i = 3 := by omega
         have h5 : i < 32 := by omega
         simp [h3, h5])

/-- The low-dword ERDP write, unfolded. -/
theorem rtsregs_write_erdp_lo (sc : pci_xhci_softc) (lo : Nat) :
    pci_xhci_rtsregs_write sc (sc.rtsoff + 0x20 + 0x18) lo =
      some { sc with rtsregs := { sc.rtsregs with
          intrreg := { sc.rtsregs.intrreg with
            erdp :=
              if lo &&& XHCI_ERDP_LO_BUSY ≠ 0 then
                (MASK_64_HI sc.rtsregs.intrreg.erdp |||
                  (sc.rtsregs.intrreg.erdp &&& XHCI_ERDP_LO_BUSY) ||| MASK_NOT_F lo) &&&
                  NOT64 XHCI_ERDP_LO_BUSY
              else MASK_64_HI sc.rtsregs.intrreg.erdp |||
                (sc.rtsregs.intrreg.erdp &&& XHCI_ERDP_LO_BUSY) ||| MASK_NOT_F lo
            iman :=
              if lo &&& XHCI_ERDP_LO_BUSY ≠ 0 then
                sc.rtsregs.intrreg.iman &&& NOT32 XHCI_IMAN_INTR_PEND
              else sc.rtsregs.intrreg.iman }
          er_deq_seg := XHCI_ERDP_LO_SINDEX lo } } := by
  have h0 : (sc.rtsoff + 0x20 + 0x18 + 2 ^ 64 - sc.rtsoff) % 2 ^ 64 = 0x38 := by
    norm_num; omega
  unfold pci_xhci_rtsregs_write
  simp only [h0]
  norm_num

/-- The high-dword ERDP write, unfolded, for a ring that is empty or has a segment table. -/
theorem rtsregs_write_erdp_hi (sc : pci_xhci_softc) (off hi : Nat)
    (hoff : off = sc.rtsoff + 0x20 + 0x1C)
    (hret : ¬ (sc.rtsregs.er_events_cnt > 0 ∧ sc.rtsregs.erstba_p.isNone = true)) :
    pci_xhci_rtsregs_write sc off hi =
      some { sc with rtsregs := { sc.rtsregs with
          intrreg := { sc.rtsregs.intrreg with
            erdp := ((hi <<< 32) % 2 ^ 64) ||| MASK_64_LO sc.rtsregs.intrreg.erdp }
          er_events_cnt :=
            if sc.rtsregs.er_events_cnt > 0 then
              if (((MASK_NOT_F (((hi <<< 32) % 2 ^ 64) ||| MASK_64_LO sc.rtsregs.intrreg.erdp)
                    + 2 ^ 64 - evrs_table_ptr sc) % 2 ^ 64) / 16)
                    % 2 ^ 32 ≤ sc.rtsregs.er_enq_idx then
                (sc.rtsregs.er_enq_idx + 2 ^ 32 -
                  (((MASK_NOT_F (((hi <<< 32) % 2 ^ 64) |||
                      MASK_64_LO sc.rtsregs.intrreg.erdp)
                    + 2 ^ 64 - evrs_table_ptr sc) % 2 ^ 64) / 16)
                    % 2 ^ 32) % 2 ^ 32
              else
                (evrs_table_size sc + 2 ^ 32 -
                  ((((MASK_NOT_F (((hi <<< 32) % 2 ^ 64) |||
                      MASK_64_LO sc.rtsregs.intrreg.erdp)
                    + 2 ^ 64 - evrs_table_ptr sc) % 2 ^ 64) / 16)
                    % 2 ^ 32 - sc.rtsregs.er_enq_idx)) % 2 ^ 32
            else sc.rtsregs.er_events_cnt } } := by
  have h0 : (off + 2 ^ 64 - sc.rtsoff) % 2 ^ 64 = 0x3C := by
    subst hoff; norm_num; omega
  unfold pci_xhci_rtsregs_write
  simp only [h0, if_neg hret]
  norm_num

/-- C8, as the code has it: after the guest has written ERDP (low dword, then high dword) with
a value that points at entry `d` of the segment, `er_events_cnt` is `(er_enq_idx - d) mod n`
if it was positive before the write, and stays 0 if it was 0; in either case it is 0 when the
write consumes all events (`d = er_enq_idx`). -/
theorem erdp_write_events_cnt (sc : pci_xhci_softc) (lo hi d : Nat)
    (hlo : lo < 2 ^ 32) (hhi : hi < 2 ^ 32) (hsz : evrs_table_size sc < 2 ^ 32)
    (henq : sc.rtsregs.er_enq_idx < evrs_table_size sc) (hd : d < evrs_table_size sc)
    (hptr : hi * 2 ^ 32 + 16 * (lo / 16) =
      evrs_table_ptr sc + 16 * d) :
    ∃ r, guest_write_erdp sc lo hi = some r ∧
      (0 < sc.rtsregs.er_events_cnt →
        r.rtsregs.er_events_cnt =
          (sc.rtsregs.er_enq_idx + evrs_table_size sc - d) % evrs_table_size sc) ∧
      (sc.rtsregs.er_events_cnt = 0 → r.rtsregs.er_events_cnt = 0) ∧
      (d = sc.rtsregs.er_enq_idx → r.rtsregs.er_events_cnt = 0) ∧
      r.rtsregs.er_enq_idx = sc.rtsregs.er_enq_idx := by
  obtain ⟨p, hp⟩ := erstba_p_of_size_pos sc (by omega)
  have hE : guest_write_erdp sc lo hi =
      (pci_xhci_rtsregs_write sc (sc.rtsoff + 0x20 + 0x18) lo).bind fun s1 =>
        pci_xhci_rtsregs_write s1 (sc.rtsoff + 0x20 + 0x1C) hi :=
    rfl
  rw [hE, rtsregs_write_erdp_lo, Option.some_bind]
  rw [rtsregs_write_erdp_hi _ _ _ rfl (by simp [hp])]
  refine ⟨_, rfl, ?_⟩
  have hb := erdp_pointer_bits sc.rtsregs.intrreg.erdp lo hi
    (decide (lo &&& XHCI_ERDP_LO_BUSY ≠ 0)) hlo hhi
  simp only [decide_eq_true_eq] at hb
  have ep : ∀ (ir : pci_xhci_intrreg) (seg : Nat),
      evrs_table_ptr { sc with rtsregs := { sc.rtsregs with intrreg := ir, er_deq_seg := seg } } =
        evrs_table_ptr sc := fun _ _ => rfl
  have es : ∀ (ir : pci_xhci_intrreg) (seg : Nat),
      evrs_table_size { sc with rtsregs := { sc.rtsregs with intrreg := ir, er_deq_seg := seg } } =
        evrs_table_size sc := fun _ _ => rfl
  simp only [ep, es]
  rw [hb, hptr]
  generalize evrs_table_ptr sc = ptr at *
  generalize evrs_table_size sc = n at *
  generalize sc.rtsregs.er_enq_idx = enq at *
  generalize sc.rtsregs.er_events_cnt = cnt at *
  have hi1 : ((ptr + 16 * d + 2 ^ 64 - ptr) % 2 ^ 64 / 16) % 2 ^ 32 = d := by
    have : ptr + 16 * d + 2 ^ 64 - ptr = 16 * d + 2 ^ 64 := by omega
    rw [this]; omega
  rw [hi1]
  have key : 0 < cnt →
      (if d ≤ enq then (enq + 2 ^ 32 - d) % 2 ^ 32 else (n + 2 ^ 32 - (d - enq)) % 2 ^ 32) =
        (enq + n - d) % n := by
    intro _
    by_cases hle : d ≤ enq
    · rw [if_pos hle]
      have hA : (enq + 2 ^ 32 - d) % 2 ^ 32 = enq - d := by omega
      have hB : (enq + n - d) % n = enq - d := by
        have e1 : enq + n - d = (enq - d) + n := by omega
        have e2 : enq - d < n := by omega
        rw [e1, Nat.add_mod_right, Nat.mod_eq_of_lt e2]
      rw [hA, hB]
    · rw [if_neg hle]
      have hA : (n + 2 ^ 32 - (d - enq)) % 2 ^ 32 = enq + n - d := by omega
      have hB : (enq + n - d) % n = enq + n - d := Nat.mod_eq_of_lt (by omega)
      rw [hA, hB]
  refine ⟨?_, ?_, ?_, trivial⟩
  · intro hpos
    simp only [gt_iff_lt, hpos, if_true]
    exact key hpos
  · intro h0
    simp [h0]
  · intro hde
    by_cases hpos : 0 < cnt
    · simp only [gt_iff_lt, hpos, if_true]
      rw [key hpos, hde]
      have : enq + n - enq = n := by omega
      rw [this, Nat.mod_self]
    · have h0 : cnt = 0 := by omega
      simp [h0]

set_option maxRecDepth 100000 in
/-- Witness of C8 as amended: two events pending in a ring of four entries, the guest writes
ERDP to entry 1, one event is left. -/
theorem erdp_write_events_cnt_witness :
    (0 < sc_evring_two.rtsregs.er_events_cnt ∧ 1 < evrs_table_size sc_evring_two) ∧
    ∃ r, guest_write_erdp sc_evring_two 0x2010 0 = some r ∧
      r.rtsregs.er_events_cnt =
        (sc_evring_two.rtsregs.er_enq_idx + evrs_table_size sc_evring_two - 1) %
          evrs_table_size sc_evring_two :=
  have h := erdp_write_events_cnt sc_evring_two 0x2010 0 1
    (by decide) (by decide) (by decide) (by decide) (by decide) (by decide)
  ⟨by decide, h.elim fun r hr => ⟨r, hr.1, hr.2.1 (by decide)⟩⟩

set_option maxRecDepth 100000 in
/-- C8 fails as stated: on an empty ring of four entries (`er_events_cnt = 0`,
`er_enq_idx = 0`) an ERDP write that points at entry 1 leaves `er_events_cnt = 0`, whereas
`(er_enq_idx - 1) mod 4 = 3`. -/
theorem erdp_write_events_cnt_counterexample :
    (0 * 2 ^ 32 + 16 * (0x2010 / 16) = evrs_table_ptr (sc_evring 4) + 16 * 1 ∧
      1 < evrs_table_size (sc_evring 4)) ∧
    (guest_write_erdp (sc_evring 4) 0x2010 0).map (fun r => r.rtsregs.er_events_cnt) =
      some 0 ∧
    ((sc_evring 4).rtsregs.er_enq_idx + evrs_table_size (sc_evring 4) - 1) %
      evrs_table_size (sc_evring 4) = 3 ∧
    0 ≠ ((sc_evring 4).rtsregs.er_enq_idx + evrs_table_size (sc_evring 4) - 1) %
        evrs_table_size (sc_evring 4) := by
  decide

/-- The ERSTBA write (low dword, then high dword) returns, resets `er_enq_idx` and
`er_events_cnt` and leaves `event_pcs` as it was. -/
theorem erstba_write_producer_state (sc : pci_xhci_softc) (lo hi : Nat) :
    ∃ r, guest_write_erstba sc lo hi = some r ∧
      r.rtsregs.er_enq_idx = 0 ∧
      r.rtsregs.er_events_cnt = 0 ∧
      r.rtsregs.event_pcs = sc.rtsregs.event_pcs := by
  have h0 : (sc.rtsoff + 0x20 + 0x10 + 2 ^ 64 - sc.rtsoff) % 2 ^ 64 = 0x30 := by
    norm_num; omega
  have h1 : (sc.rtsoff + 0x20 + 0x14 + 2 ^ 64 - sc.rtsoff) % 2 ^ 64 = 0x34 := by
    norm_num; omega
  have e1 : pci_xhci_rtsregs_write sc (sc.rtsoff + 0x20 + 0x10) lo =
      some { sc with rtsregs := { sc.rtsregs with intrreg := { sc.rtsregs.intrreg with
          erstba := MASK_64_HI sc.rtsregs.intrreg.erstba ||| (lo &&& 0xFFFFFFFFFFFFFFC0) } } } := by
    unfold pci_xhci_rtsregs_write
    simp only [h0]
    norm_num
  unfold guest_write_erstba
  rw [e1, Option.some_bind]
  unfold pci_xhci_rtsregs_write
  simp only [h1]
  norm_num

set_option maxRecDepth 100000 in
/-- C9 at the failing input: an event ring of two entries has wrapped once, so `event_pcs` is
0; the guest writes ERSTBA; afterwards `er_enq_idx = 0` and `er_events_cnt = 0` but
`event_pcs` is still 0, not 1. -/
theorem erstba_write_keeps_pcs :
    sc_evring_wrapped.rtsregs.event_pcs = 0 ∧
    (guest_write_erstba sc_evring_wrapped 0x1000 0).map
        (fun r => (r.rtsregs.er_enq_idx, r.rtsregs.er_events_cnt, r.rtsregs.event_pcs)) =
      some (0, 0, 0) ∧
    (0 : Nat) ≠ 1 := by
  decide

/-! ## Controller reset -/

/-- The loop of `pci_xhci_reset` over a list of slot ids: only slot states change, every
device bound to a listed slot ends Disabled, and a Disabled device stays Disabled. -/
theorem reset_slots_foldl (l : List Nat) (sc : pci_xhci_softc) :
    (l.foldl pci_xhci_reset_slot sc).slots = sc.slots ∧
    (l.foldl pci_xhci_reset_slot sc).rtsregs = sc.rtsregs ∧
    (l.foldl pci_xhci_reset_slot sc).opregs = sc.opregs ∧
    (l.foldl pci_xhci_reset_slot sc).portregs = sc.portregs ∧
    (l.foldl pci_xhci_reset_slot sc).slot_allocated = sc.slot_allocated ∧
    (∀ d, (sc.devs d).dev_slotstate = XHCI_ST_DISABLED →
      ((l.foldl pci_xhci_reset_slot sc).devs d).dev_slotstate = XHCI_ST_DISABLED) ∧
    (∀ s ∈ l, ∀ d, sc.slots s = some d →
      ((l.foldl pci_xhci_reset_slot sc).devs d).dev_slotstate = XHCI_ST_DISABLED) := by
  induction l generalizing sc with
  | nil => simp
  | cons a l ih =>
    obtain ⟨i1, i2, i3, i4, i5, i6, i7⟩ := ih (pci_xhci_reset_slot sc a)
    have hs : (pci_xhci_reset_slot sc a).slots = sc.slots := by
      unfold pci_xhci_reset_slot; split <;> rfl
    have hr : (pci_xhci_reset_slot sc a).rtsregs = sc.rtsregs := by
      unfold pci_xhci_reset_slot; split <;> rfl
    have ho : (pci_xhci_reset_slot sc a).opregs = sc.opregs := by
      unfold pci_xhci_reset_slot; split <;> rfl
    have hp : (pci_xhci_reset_slot sc a).portregs = sc.portregs := by
      unfold pci_xhci_reset_slot; split <;> rfl
    have ha : (pci_xhci_reset_slot sc a).slot_allocated = sc.slot_allocated := by
      unfold pci_xhci_reset_slot; split <;> rfl
    have hkeep : ∀ d, (sc.devs d).dev_slotstate = XHCI_ST_DISABLED →
        ((pci_xhci_reset_slot sc a).devs d).dev_slotstate = XHCI_ST_DISABLED := by
      intro d hd
      unfold pci_xhci_reset_slot
      split
      · exact hd
      · rename_i d' _
        by_cases hdd : d = d'
        · subst hdd; simp [upd]
        · simp [upd, hdd, hd]
    have hset : ∀ d, sc.slots a = some d →
        ((pci_xhci_reset_slot sc a).devs d).dev_slotstate = XHCI_ST_DISABLED := by
      intro d hd
      unfold pci_xhci_reset_slot
      rw [hd]
      simp [upd]
    simp only [List.foldl_cons]
    refine ⟨by rw [i1, hs], by rw [i2, hr], by rw [i3, ho], by rw [i4, hp], by rw [i5, ha],
      ?_, ?_⟩
    · intro d hd
      exact i6 d (hkeep d hd)
    · intro s hsmem d hd
      rcases List.mem_cons.mp hsmem with h | h
      · subst h
        exact i6 d (hset d hd)
      · exact i7 s h d (by rw [hs]; exact hd)

theorem or_one_and_mask_halted (x : Nat) :
    ((x ||| XHCI_STS_HCH) &&& NOT32 XHCI_STS_PCD) &&& XHCI_STS_HCH ≠ 0 := by
  have h1 : NOT32 XHCI_STS_PCD &&& XHCI_STS_HCH = 1 := by decide
  rw [Nat.and_assoc, h1]
  show (x ||| 1) &&& 1 ≠ 0
  rw [Nat.and_one_is_mod]
  have h : (x ||| 1).testBit 0 = true := by
    rw [Nat.testBit_or]; simp
  have : (x ||| 1) % 2 = 1 := by
    rw [Nat.testBit_zero] at h
    exact of_decide_eq_true h
  omega

theorem and_not_rs_and_rs (x : Nat) : (x &&& NOT32 XHCI_CMD_RS) &&& XHCI_CMD_RS = 0 := by
  have h1 : NOT32 XHCI_CMD_RS &&& XHCI_CMD_RS = 0 := by decide
  rw [Nat.and_assoc, h1, Nat.and_zero]

/-- The USBCMD write of `HCRST` with RS clear, unfolded: the controller is halted and reset,
the value stored in USBCMD is 0. -/
theorem usbcmd_write_hcrst (sc : pci_xhci_softc) :
    pci_xhci_usbcmd_write sc 0x02 =
      some (pci_xhci_reset
        { sc with opregs := { sc.opregs with
            usbcmd := sc.opregs.usbcmd &&& NOT32 XHCI_CMD_RS
            usbsts := (sc.opregs.usbsts ||| XHCI_STS_HCH) &&& NOT32 XHCI_STS_PCD } }, 0) := by
  have hrs : ¬ (0x02 &&& XHCI_CMD_RS ≠ 0) := by decide
  unfold pci_xhci_usbcmd_write
  simp only [hrs, if_false, false_and, decide_False, Bool.false_eq_true]
  rw [and_not_rs_and_rs]
  have h2 : ((2 ||| 0) &&& XHCI_CMD_HCRST ≠ 0) = True := eq_true (by decide)
  have h3 : (((2 ||| 0) &&& NOT32 XHCI_CMD_HCRST) &&& XHCI_CMD_CSS ≠ 0) = False :=
    eq_false (by decide)
  have h4 : ((2 ||| 0) &&& NOT32 XHCI_CMD_HCRST) &&& NOT32 (XHCI_CMD_CSS ||| XHCI_CMD_CRS)
      = 0 := by decide
  simp only [h2, h3, h4, if_true, if_false]

/-- C10, as the code has it: a guest write of `0x02` (HCRST, RS clear) to USBCMD, in every
state, returns with USBSTS.HCH set, HCRST and RS clear in the stored USBCMD, the event ring
producer state `er_enq_idx = 0`, `er_events_cnt = 0`, `event_pcs = 1` and every slot's device
Disabled; the port registers are left as they were: every PORTSC reads what it read before the
write. -/
theorem usbcmd_hcrst_write (sc : pci_xhci_softc) :
    ∃ sc1, pci_xhci_hostop_write sc XHCI_CAPLEN 0x02 = some sc1 ∧
      XHCI_HALTED sc1 = true ∧
      sc1.opregs.usbcmd &&& XHCI_CMD_HCRST = 0 ∧
      sc1.opregs.usbcmd &&& XHCI_CMD_RS = 0 ∧
      sc1.rtsregs.er_enq_idx = 0 ∧
      sc1.rtsregs.er_events_cnt = 0 ∧
      sc1.rtsregs.event_pcs = 1 ∧
      (∀ s d, 1 ≤ s → s ≤ XHCI_MAX_SLOTS → sc1.slots s = some d →
        (sc1.devs d).dev_slotstate = XHCI_ST_DISABLED) ∧
      sc1.portregs = sc.portregs ∧
      (∀ off, pci_xhci_portregs_read sc1 off = pci_xhci_portregs_read sc off) := by
  have hoff : (XHCI_CAPLEN + 2 ^ 64 - XHCI_CAPLEN) % 2 ^ 64 = 0 := by decide
  have hv : (0x02 &&& 0x3F0F : Nat) = 0x02 := by decide
  have hw : pci_xhci_hostop_write sc XHCI_CAPLEN 0x02 =
      some { pci_xhci_reset
        { sc with opregs := { sc.opregs with
            usbcmd := sc.opregs.usbcmd &&& NOT32 XHCI_CMD_RS
            usbsts := (sc.opregs.usbsts ||| XHCI_STS_HCH) &&& NOT32 XHCI_STS_PCD } } with
        opregs := { (pci_xhci_reset
          { sc with opregs := { sc.opregs with
              usbcmd := sc.opregs.usbcmd &&& NOT32 XHCI_CMD_RS
              usbsts := (sc.opregs.usbsts ||| XHCI_STS_HCH) &&& NOT32 XHCI_STS_PCD } }).opregs
          with usbcmd := 0 } } := by
    unfold pci_xhci_hostop_write
    simp only [hoff, if_true, hv]
    rw [usbcmd_write_hcrst]
  refine ⟨_, hw, ?_⟩
  obtain ⟨r1, r2, r3, r4, -, -, r7⟩ := reset_slots_foldl (List.range' 1 XHCI_MAX_SLOTS)
    { sc with
      opregs := { sc.opregs with
        usbcmd := sc.opregs.usbcmd &&& NOT32 XHCI_CMD_RS
        usbsts := (sc.opregs.usbsts ||| XHCI_STS_HCH) &&& NOT32 XHCI_STS_PCD }
      rtsregs := { sc.rtsregs with er_enq_idx := 0, er_events_cnt := 0, event_pcs := 1 } }
  have hp : (pci_xhci_reset
      { sc with opregs := { sc.opregs with
          usbcmd := sc.opregs.usbcmd &&& NOT32 XHCI_CMD_RS
          usbsts := (sc.opregs.usbsts ||| XHCI_STS_HCH) &&& NOT32 XHCI_STS_PCD } }).portregs =
      sc.portregs := by
    unfold pci_xhci_reset
    exact r4
  refine ⟨?_, ?_, ?_, ?_, ?_, ?_, ?_, ?_, ?_⟩
  · unfold XHCI_HALTED pci_xhci_reset
    simp only [r3]
    simpa using or_one_and_mask_halted sc.opregs.usbsts
  · simp
  · simp
  · unfold pci_xhci_reset
    simp only [r2]
  · unfold pci_xhci_reset
    simp only [r2]
  · unfold pci_xhci_reset
    simp only [r2]
  · intro s d h1 h2 hs
    unfold pci_xhci_reset at hs ⊢
    simp only at hs ⊢
    rw [r1] at hs
    exact r7 s (by rw [List.mem_range']; exact ⟨s - 1, by omega, by omega⟩) d hs
  · exact hp
  · intro off
    unfold pci_xhci_portregs_read
    simp only [hp]

set_option maxRecDepth 100000 in
/-- C10 fails as stated: from the fresh controller the guest writes 0 to PORTSC of the empty
port 2 (which clears PP) and then `0x02` to USBCMD; port 2 has no attached device and its
PORTSC reads `0x00A0`, not `0x02A0`. -/
theorem usbcmd_hcrst_ports_counterexample :
    sc_port2_unpowered.devices 2 = none ∧
    (pci_xhci_hostop_write sc_port2_unpowered XHCI_CAPLEN 0x02).map
      (fun s => (s.devices 2, pci_xhci_portregs_read s 0x410)) = some (none, 0x00A0) ∧
    (0x00A0 : Nat) ≠ 0x02A0 := by
  decide

/-! ## Slot allocation -/

set_option maxRecDepth 100000 in
/-- C1 at the failing input: after 63 ENABLE_SLOT commands on the fresh controller the slot
ids 1..63 are allocated and slot id 64 is free, yet ENABLE_SLOT returns NO_SLOTS and leaves
slot 64 unallocated.  On the fresh controller it returns SUCCESS with slot id 1. -/
theorem enable_slot_never_allocates_64 :
    (∀ i < 64, 1 ≤ i → sc_slots_63.slot_allocated i = true) ∧
    sc_slots_63.slot_allocated 64 = false ∧
    (pci_xhci_cmd_enable_slot sc_slots_63 0).2 = (XHCI_TRB_ERROR_NO_SLOTS, 0) ∧
    (pci_xhci_cmd_enable_slot sc_slots_63 0).1.slot_allocated 64 = false ∧
    (pci_xhci_cmd_enable_slot sc_fresh 0).2 = (XHCI_TRB_ERROR_SUCCESS, 1) := by
  decide

/-! ## Command engine: what the handlers leave alone -/

theorem ring_frame_refl (sc : pci_xhci_softc) : ring_frame sc sc := ⟨rfl, rfl, rfl, rfl⟩

theorem ring_frame_trans {a b c : pci_xhci_softc} (h1 : ring_frame a b) (h2 : ring_frame b c) :
    ring_frame a c :=
  ⟨h2.1.trans h1.1, h2.2.1.trans h1.2.1, h2.2.2.1.trans h1.2.2.1, h2.2.2.2.trans h1.2.2.2⟩

theorem reset_slot_frame (sc : pci_xhci_softc) (slot : Nat) :
    ring_frame sc (pci_xhci_reset_slot sc slot) := by
  unfold pci_xhci_reset_slot
  split <;> exact ⟨rfl, rfl, rfl, rfl⟩

theorem enable_slot_frame (sc : pci_xhci_softc) (slot : Nat) :
    ring_frame sc (pci_xhci_cmd_enable_slot sc slot).1 := by
  unfold pci_xhci_cmd_enable_slot
  simp only
  split <;> split <;> (try split) <;> exact ⟨rfl, rfl, rfl, rfl⟩

theorem disable_slot_frame (sc : pci_xhci_softc) (slot : Nat) :
    ring_frame sc (pci_xhci_cmd_disable_slot sc slot).1 := by
  unfold pci_xhci_cmd_disable_slot
  split
  · exact ⟨rfl, rfl, rfl, rfl⟩
  · split
    · exact ⟨rfl, rfl, rfl, rfl⟩
    · split
      · split <;> exact ⟨rfl, rfl, rfl, rfl⟩
      · exact ⟨rfl, rfl, rfl, rfl⟩

theorem reset_device_frame (sc : pci_xhci_softc) (slot : Nat) (r : pci_xhci_softc × Nat)
    (h : pci_xhci_cmd_reset_device sc slot = some r) : ring_frame sc r.1 := by
  unfold pci_xhci_cmd_reset_device at h
  split at h
  · cases h; exact ring_frame_refl sc
  · split at h
    · cases h; exact reset_slot_frame sc slot
    · split at h
      · cases h; exact reset_slot_frame sc slot
      · simp only at h
        split at h
        · cases h
          exact ring_frame_trans ⟨rfl, rfl, rfl, rfl⟩ (reset_slot_frame _ slot)
        · cases h

theorem init_ep_frame (sc : pci_xhci_softc) (d a epid : Nat) (r : pci_xhci_softc)
    (h : pci_xhci_init_ep sc d a epid = some r) : ring_frame sc r := by
  unfold pci_xhci_init_ep at h
  simp only at h
  split at h
  · cases h
  · cases h; exact ⟨rfl, rfl, rfl, rfl⟩

theorem disable_ep_frame (sc : pci_xhci_softc) (d epid : Nat) (r : pci_xhci_softc)
    (h : pci_xhci_disable_ep sc d epid = some r) : ring_frame sc r := by
  unfold pci_xhci_disable_ep at h
  simp only at h
  split at h
  · cases h
  · split at h
    · cases h
    · cases h; exact ⟨rfl, rfl, rfl, rfl⟩

theorem disable_eps_frame (l : List Nat) (sc : pci_xhci_softc) (d : Nat) (r : pci_xhci_softc)
    (h : disable_eps sc d l = some r) : ring_frame sc r := by
  induction l generalizing sc with
  | nil =>
    unfold disable_eps at h
    cases h; exact ring_frame_refl _
  | cons i rest ih =>
    unfold disable_eps at h
    split at h
    · cases h
    · rename_i sc1 h1
      exact ring_frame_trans (disable_ep_frame sc d i sc1 h1) (ih sc1 h)

theorem config_ep_loop_frame (ic : xhci_input_dev_ctx) (d a : Nat) (l : List Nat)
    (sc : pci_xhci_softc) (r : pci_xhci_softc)
    (h : config_ep_loop ic d a sc l = some r) : ring_frame sc r := by
  induction l generalizing sc with
  | nil =>
    unfold config_ep_loop at h
    cases h; exact ring_frame_refl _
  | cons i rest ih =>
    unfold config_ep_loop at h
    simp only at h
    split at h
    · cases h
    · rename_i sc1 h1
      have f1 : ring_frame sc sc1 := by
        split at h1
        · exact disable_ep_frame sc d i sc1 h1
        · cases h1; exact ring_frame_refl _
      split at h
      · split at h
        · cases h
        · rename_i sc3 h3
          have f3 := init_ep_frame _ d a i sc3 h3
          have f4 := ih _ h
          exact ring_frame_trans f1
            (ring_frame_trans (ring_frame_trans ⟨rfl, rfl, rfl, rfl⟩ f3)
              (ring_frame_trans ⟨rfl, rfl, rfl, rfl⟩ f4))
      · exact ring_frame_trans f1 (ih sc1 h)

theorem address_device_frame (sc : pci_xhci_softc) (slot : Nat) (trb : xhci_trb)
    (r : pci_xhci_softc × Nat) (h : pci_xhci_cmd_address_device sc slot trb = some r) :
    ring_frame sc r.1 := by
  unfold pci_xhci_cmd_address_device at h
  simp only at h
  split at h
  · cases h; exact ring_frame_refl _
  · split at h
    · cases h; exact ring_frame_refl _
    · split at h
      · cases h; exact ring_frame_refl _
      · rename_i sc1 hb
        have f1 : ring_frame sc sc1 := by
          split at hb
          · cases hb; exact ring_frame_refl _
          · split at hb
            · cases hb
            · split at hb
              · cases hb
              · cases hb; exact ⟨rfl, rfl, rfl, rfl⟩
        split at h
        · cases h
        · cases h; exact f1
        · split at h
          · cases h
          · split at h
            · cases h; exact ring_frame_trans f1 ⟨rfl, rfl, rfl, rfl⟩
            · split at h
              · cases h
              · rename_i sc4 h4
                cases h
                have f4 := init_ep_frame _ _ _ _ sc4 h4
                exact ring_frame_trans f1
                  (ring_frame_trans (ring_frame_trans ⟨rfl, rfl, rfl, rfl⟩ f4)
                    ⟨rfl, rfl, rfl, rfl⟩)

theorem config_ep_frame (sc : pci_xhci_softc) (slot : Nat) (trb : xhci_trb)
    (r : pci_xhci_softc × Nat) (h : pci_xhci_cmd_config_ep sc slot trb = some r) :
    ring_frame sc r.1 := by
  unfold pci_xhci_cmd_config_ep at h
  split at h
  · cases h
  · simp only at h
    split at h
    · split at h
      · split at h
        · cases h
        · rename_i sc3 h3
          cases h
          have f3 := disable_eps_frame _ _ _ sc3 h3
          exact ring_frame_trans ⟨rfl, rfl, rfl, rfl⟩ f3
      · cases h
    · split at h
      · cases h; exact ring_frame_refl _
      · split at h
        · cases h
        · split at h
          · cases h
          · rename_i sc1 h1
            cases h
            exact ring_frame_trans (config_ep_loop_frame _ _ _ _ _ sc1 h1) ⟨rfl, rfl, rfl, rfl⟩

theorem reset_ep_frame (sc : pci_xhci_softc) (slot : Nat) (trb : xhci_trb)
    (r : pci_xhci_softc × Nat) (h : pci_xhci_cmd_reset_ep sc slot trb = some r) :
    ring_frame sc r.1 := by
  unfold pci_xhci_cmd_reset_ep at h
  simp only at h
  split at h
  · cases h
  · split at h
    · cases h; exact ring_frame_refl _
    · split at h
      · cases h
      · split at h <;> (cases h; exact ⟨rfl, rfl, rfl, rfl⟩)

theorem set_tr_frame (sc : pci_xhci_softc) (slot : Nat) (trb : xhci_trb)
    (r : pci_xhci_softc × Nat) (h : pci_xhci_cmd_set_tr sc slot trb = some r) :
    ring_frame sc r.1 := by
  unfold pci_xhci_cmd_set_tr at h
  split at h
  · cases h
  · simp only at h
    split at h
    · cases h; exact ring_frame_refl _
    · split at h
      · cases h
      · split at h
        · cases h; exact ring_frame_refl _
        · split at h
          · split at h
            · cases h
            · rename_i sc1 h1
              cases h
              have f1 : ring_frame sc sc1 := by
                split at h1
                · cases h1; exact ring_frame_refl _
                · split at h1
                  · cases h1; exact ⟨rfl, rfl, rfl, rfl⟩
                  · cases h1
              exact ring_frame_trans f1 ⟨rfl, rfl, rfl, rfl⟩
          · cases h; exact ⟨rfl, rfl, rfl, rfl⟩

theorem eval_ctx_frame (sc : pci_xhci_softc) (slot : Nat) (trb : xhci_trb)
    (r : pci_xhci_softc × Nat) (h : pci_xhci_cmd_eval_ctx sc slot trb = some r) :
    ring_frame sc r.1 := by
  unfold pci_xhci_cmd_eval_ctx at h
  simp only at h
  split at h
  · cases h; exact ring_frame_refl _
  · split at h
    · cases h; exact ⟨rfl, rfl, rfl, rfl⟩
    · cases h

/-- A command leaves the rings, the runtime registers and the event ring alone, and only a LINK
TRB with TC set changes the consumer cycle state. -/
theorem cmd_dispatch_frame (sc : pci_xhci_softc) (t : xhci_trb) (ccs : Nat)
    (r : pci_xhci_softc × Nat × Nat × Nat) (h : cmd_dispatch sc t ccs = some r) :
    ring_frame sc r.1 ∧
    r.2.2.2 =
      (if ((XHCI_TRB_3_TYPE_GET t.dwTrb3 = XHCI_TRB_TYPE_LINK : Bool) = true) ∧
          t.dwTrb3 &&& XHCI_TRB_3_TC_BIT ≠ 0
        then ccs ^^^ XHCI_CRCR_LO_RCS else ccs) := by
  unfold cmd_dispatch at h
  simp only at h
  split at h
  · rename_i hl
    cases h
    exact ⟨ring_frame_refl _, by simp [hl]⟩
  · rename_i hl
    have hc : (if ((XHCI_TRB_3_TYPE_GET t.dwTrb3 = XHCI_TRB_TYPE_LINK : Bool) = true) ∧
          t.dwTrb3 &&& XHCI_TRB_3_TC_BIT ≠ 0
        then ccs ^^^ XHCI_CRCR_LO_RCS else ccs) = ccs := by simp [hl]
    rw [hc]
    split at h
    · cases h; exact ⟨enable_slot_frame sc 0, rfl⟩
    split at h
    · cases h; exact ⟨disable_slot_frame sc _, rfl⟩
    split at h
    · rw [Option.map_eq_some'] at h
      obtain ⟨x, hx, rfl⟩ := h
      exact ⟨address_device_frame _ _ _ x hx, rfl⟩
    split at h
    · rw [Option.map_eq_some'] at h
      obtain ⟨x, hx, rfl⟩ := h
      exact ⟨config_ep_frame _ _ _ x hx, rfl⟩
    split at h
    · rw [Option.map_eq_some'] at h
      obtain ⟨x, hx, rfl⟩ := h
      exact ⟨eval_ctx_frame _ _ _ x hx, rfl⟩
    split at h
    · rw [Option.map_eq_some'] at h
      obtain ⟨x, hx, rfl⟩ := h
      exact ⟨reset_ep_frame _ _ _ x hx, rfl⟩
    split at h
    · rw [Option.map_eq_some'] at h
      obtain ⟨x, hx, rfl⟩ := h
      exact ⟨reset_ep_frame _ _ _ x hx, rfl⟩
    split at h
    · rw [Option.map_eq_some'] at h
      obtain ⟨x, hx, rfl⟩ := h
      exact ⟨set_tr_frame _ _ _ x hx, rfl⟩
    split at h
    · rw [Option.map_eq_some'] at h
      obtain ⟨x, hx, rfl⟩ := h
      exact ⟨reset_device_frame _ _ x hx, rfl⟩
    · cases h; exact ⟨ring_frame_refl _, rfl⟩

/-- The fields of a stored command completion event: the parameter, the type, the slot id in
`dwTrb3[24..31]` and the completion code in `dwTrb2[24..31]`. -/
theorem cmd_completion_stored (crcr ccs cmderr slot pcs : Nat) (hpcs : pcs ≤ 1) :
    is_cmd_completion
      { cmd_completion_event crcr ccs cmderr slot with
        dwTrb3 := ((cmd_completion_event crcr ccs cmderr slot).dwTrb3 &&&
          NOT32 XHCI_TRB_3_CYCLE_BIT) ||| pcs }
      crcr cmderr slot := by
  have hc : ccs &&& XHCI_TRB_3_CYCLE_BIT ≤ 1 := by
    show ccs &&& 1 ≤ 1
    rw [Nat.and_one_is_mod]; omega
  have hT : XHCI_TRB_3_TYPE_SET XHCI_TRB_EVENT_CMD_COMPLETE = 2 ^ 10 * 33 := by decide
  have hS : XHCI_TRB_3_SLOT_SET slot = 2 ^ 24 * (slot % 256) := by
    unfold XHCI_TRB_3_SLOT_SET
    rw [Nat.shiftLeft_eq, show (0xFF : Nat) = 2 ^ 8 - 1 from rfl,
      Nat.and_pow_two_sub_one_eq_mod, Nat.mul_comm]
  have hE : XHCI_TRB_2_ERROR_SET cmderr = 2 ^ 24 * (cmderr % 256) := by
    unfold XHCI_TRB_2_ERROR_SET
    rw [Nat.shiftLeft_eq, show (0xFF : Nat) = 2 ^ 8 - 1 from rfl,
      Nat.and_pow_two_sub_one_eq_mod, Nat.mul_comm]
  have h1 : (ccs &&& XHCI_TRB_3_CYCLE_BIT) ||| XHCI_TRB_3_TYPE_SET XHCI_TRB_EVENT_CMD_COMPLETE =
      2 ^ 10 * 33 + (ccs &&& XHCI_TRB_3_CYCLE_BIT) := by
    rw [hT, Nat.or_comm]
    exact (Nat.mul_add_lt_is_or (by omega) 33).symm
  have h2 : ((ccs &&& XHCI_TRB_3_CYCLE_BIT) |||
      XHCI_TRB_3_TYPE_SET XHCI_TRB_EVENT_CMD_COMPLETE) ||| XHCI_TRB_3_SLOT_SET slot =
      2 ^ 24 * (slot % 256) + (2 ^ 10 * 33 + (ccs &&& XHCI_TRB_3_CYCLE_BIT)) := by
    rw [h1, hS, Nat.or_comm]
    exact (Nat.mul_add_lt_is_or (by omega) _).symm
  have hX : (cmd_completion_event crcr ccs cmderr slot).dwTrb3 < 2 ^ 32 := by
    show ((ccs &&& XHCI_TRB_3_CYCLE_BIT) |||
      XHCI_TRB_3_TYPE_SET XHCI_TRB_EVENT_CMD_COMPLETE) ||| XHCI_TRB_3_SLOT_SET slot < 2 ^ 32
    rw [h2]; omega
  have hY : ((cmd_completion_event crcr ccs cmderr slot).dwTrb3 &&&
      NOT32 XHCI_TRB_3_CYCLE_BIT) ||| pcs =
      2 * ((2 ^ 24 * (slot % 256) + (2 ^ 10 * 33 + (ccs &&& XHCI_TRB_3_CYCLE_BIT))) / 2) + pcs := by
    rw [NOT32_CYCLE, and_FFFFFFFE _ hX, two_mul_or_bit _ _ hpcs]
    show 2 * ((((ccs &&& XHCI_TRB_3_CYCLE_BIT) |||
      XHCI_TRB_3_TYPE_SET XHCI_TRB_EVENT_CMD_COMPLETE) ||| XHCI_TRB_3_SLOT_SET slot) / 2) + pcs = _
    rw [h2]
  unfold is_cmd_completion
  refine ⟨rfl, ?_, ?_, ?_⟩
  · show XHCI_TRB_3_TYPE_GET (((cmd_completion_event crcr ccs cmderr slot).dwTrb3 &&&
      NOT32 XHCI_TRB_3_CYCLE_BIT) ||| pcs) = XHCI_TRB_EVENT_CMD_COMPLETE
    rw [hY]
    unfold XHCI_TRB_3_TYPE_GET XHCI_TRB_EVENT_CMD_COMPLETE
    rw [Nat.shiftRight_eq_div_pow, show (0x3F : Nat) = 2 ^ 6 - 1 from rfl,
      Nat.and_pow_two_sub_one_eq_mod]
    omega
  · show XHCI_TRB_3_SLOT_GET (((cmd_completion_event crcr ccs cmderr slot).dwTrb3 &&&
      NOT32 XHCI_TRB_3_CYCLE_BIT) ||| pcs) = slot % 256
    rw [hY]
    unfold XHCI_TRB_3_SLOT_GET
    rw [Nat.shiftRight_eq_div_pow, show (0xFF : Nat) = 2 ^ 8 - 1 from rfl,
      Nat.and_pow_two_sub_one_eq_mod]
    omega
  · show XHCI_TRB_2_ERROR_GET (0 ||| XHCI_TRB_2_ERROR_SET cmderr) = cmderr % 256
    rw [Nat.zero_or, hE]
    unfold XHCI_TRB_2_ERROR_GET
    rw [Nat.shiftRight_eq_div_pow, show (0xFF : Nat) = 2 ^ 8 - 1 from rfl,
      Nat.and_pow_two_sub_one_eq_mod]
    omega

/-! ## Command engine: the loop -/

theorem mod_add_ne_self (n a d : Nat) (ha : a < n) (hd0 : 0 < d) (hd : d < n) :
    (a + d) % n ≠ a := by
  by_cases h : a + d < n
  · rw [Nat.mod_eq_of_lt h]; omega
  · have h1 : (a + d) % n = a + d - n := by
      rw [Nat.mod_eq_sub_mod (by omega), Nat.mod_eq_of_lt (by omega)]
    rw [h1]; omega

theorem insert_event_done_trbmem (sc : pci_xhci_softc) (b : Bool) (e : Nat) :
    (insert_event_done sc b e).1.trbmem = sc.trbmem := by
  unfold insert_event_done pci_xhci_assert_interrupt
  cases b
  · simp
  · simp only [if_true]
    split_ifs <;> rfl

theorem insert_event_store_trbmem (sc : pci_xhci_softc) (evtrb : xhci_trb) (b : Bool) :
    (insert_event_store sc evtrb b).1.trbmem = sc.trbmem := by
  unfold insert_event_store
  simp only [insert_event_done_trbmem]

/-- The state in which the loop dispatches the command at `trb`. -/
theorem loop_step_mismatch (fuel : Nat) (sc : pci_xhci_softc) (trb crcr ccs : Nat)
    (h : (sc.trbmem trb).dwTrb3 &&& XHCI_TRB_3_CYCLE_BIT ≠ ccs &&& XHCI_TRB_3_CYCLE_BIT) :
    complete_commands_loop (fuel + 1) sc trb crcr ccs =
      cmd_result.done
        { sc with opregs := { sc.opregs with
            cr_p := trb
            crcr := (crcr ||| (sc.opregs.crcr &&& XHCI_CRCR_LO_CA) ||| ccs) &&&
              NOT64 XHCI_CRCR_LO_CRR } } ∧
    complete_commands_log (fuel + 1) sc trb crcr ccs = [] := by
  constructor
  · rw [complete_commands_loop]
    simp only [h, ne_eq, not_false_eq_true, if_true]
  · rw [complete_commands_log]
    simp only [h, ne_eq, not_false_eq_true, if_true]

theorem loop_step_abort (fuel : Nat) (sc : pci_xhci_softc) (trb crcr ccs : Nat)
    (h : ¬ (sc.trbmem trb).dwTrb3 &&& XHCI_TRB_3_CYCLE_BIT ≠ ccs &&& XHCI_TRB_3_CYCLE_BIT)
    (hd : cmd_dispatch { sc with opregs := { sc.opregs with cr_p := trb } }
      (sc.trbmem trb) ccs = none) :
    complete_commands_loop (fuel + 1) sc trb crcr ccs = cmd_result.aborted := by
  rw [complete_commands_loop]
  simp only [h, if_false, hd]

theorem loop_step_link (fuel : Nat) (sc : pci_xhci_softc) (trb crcr ccs : Nat)
    (r : pci_xhci_softc × Nat × Nat × Nat)
    (h : ¬ (sc.trbmem trb).dwTrb3 &&& XHCI_TRB_3_CYCLE_BIT ≠ ccs &&& XHCI_TRB_3_CYCLE_BIT)
    (hd : cmd_dispatch { sc with opregs := { sc.opregs with cr_p := trb } }
      (sc.trbmem trb) ccs = some r)
    (hl : XHCI_TRB_3_TYPE_GET (sc.trbmem trb).dwTrb3 = XHCI_TRB_TYPE_LINK) :
    complete_commands_loop (fuel + 1) sc trb crcr ccs =
      complete_commands_loop fuel r.1 (MASK_NOT_F (sc.trbmem trb).qwTrb0)
        (MASK_NOT_F (sc.trbmem trb).qwTrb0) r.2.2.2 ∧
    complete_commands_log (fuel + 1) sc trb crcr ccs =
      complete_commands_log fuel r.1 (MASK_NOT_F (sc.trbmem trb).qwTrb0)
        (MASK_NOT_F (sc.trbmem trb).qwTrb0) r.2.2.2 := by
  obtain ⟨s1, e, sl, c1⟩ := r
  constructor
  · rw [complete_commands_loop]
    simp only [h, if_false, hd, hl, ne_eq, not_true_eq_false, pci_xhci_trb_next, if_true]
  · rw [complete_commands_log]
    simp only [h, if_false, hd, hl, ne_eq, not_true_eq_false, pci_xhci_trb_next, if_true]

theorem loop_step_cmd (fuel : Nat) (sc : pci_xhci_softc) (trb crcr ccs : Nat)
    (r : pci_xhci_softc × Nat × Nat × Nat)
    (h : ¬ (sc.trbmem trb).dwTrb3 &&& XHCI_TRB_3_CYCLE_BIT ≠ ccs &&& XHCI_TRB_3_CYCLE_BIT)
    (hd : cmd_dispatch { sc with opregs := { sc.opregs with cr_p := trb } }
      (sc.trbmem trb) ccs = some r)
    (hl : ¬ XHCI_TRB_3_TYPE_GET (sc.trbmem trb).dwTrb3 = XHCI_TRB_TYPE_LINK)
    (hsz : 0 < evrs_table_size r.1) :
    complete_commands_loop (fuel + 1) sc trb crcr ccs =
      complete_commands_loop fuel
        (insert_event_ring r.1 (cmd_completion_event crcr ccs r.2.1 r.2.2.1) true).1
        (trb + 16) ((crcr + 16) % 2 ^ 64) r.2.2.2 ∧
    complete_commands_log (fuel + 1) sc trb crcr ccs =
      (trb, r.2.1, r.2.2.1) ::
        complete_commands_log fuel
          (insert_event_ring r.1 (cmd_completion_event crcr ccs r.2.1 r.2.2.1) true).1
          (trb + 16) ((crcr + 16) % 2 ^ 64) r.2.2.2 := by
  obtain ⟨s1, e, sl, c1⟩ := r
  constructor
  · rw [complete_commands_loop]
    simp only [h, if_false, hd, hl, ne_eq, not_false_eq_true, pci_xhci_trb_next, if_true,
      insert_event_of_size _ _ _ hsz, Option.map_some']
  · rw [complete_commands_log]
    simp only [h, if_false, hd, hl, ne_eq, not_false_eq_true, pci_xhci_trb_next, if_true,
      insert_event_of_size _ _ _ hsz, Option.map_some']

/-- A command whose completion event cannot be inserted, because the event ring segment table
was never programmed, aborts the run. -/
theorem loop_step_cmd_null (fuel : Nat) (sc : pci_xhci_softc) (trb crcr ccs : Nat)
    (r : pci_xhci_softc × Nat × Nat × Nat)
    (h : ¬ (sc.trbmem trb).dwTrb3 &&& XHCI_TRB_3_CYCLE_BIT ≠ ccs &&& XHCI_TRB_3_CYCLE_BIT)
    (hd : cmd_dispatch { sc with opregs := { sc.opregs with cr_p := trb } }
      (sc.trbmem trb) ccs = some r)
    (hl : ¬ XHCI_TRB_3_TYPE_GET (sc.trbmem trb).dwTrb3 = XHCI_TRB_TYPE_LINK)
    (hp : r.1.rtsregs.erstba_p = none) :
    complete_commands_loop (fuel + 1) sc trb crcr ccs = cmd_result.aborted := by
  obtain ⟨s1, e, sl, c1⟩ := r
  rw [complete_commands_loop]
  simp only [h, if_false, hd, hl, ne_eq, not_false_eq_true, if_true,
    insert_event_null _ _ _ hp, Option.map_none']

theorem walk_step_match (mem : Nat → xhci_trb) (fuel addr ccs : Nat)
    (ring : List (Nat × xhci_trb))
    (h : ¬ (mem addr).dwTrb3 &&& XHCI_TRB_3_CYCLE_BIT ≠ ccs &&& XHCI_TRB_3_CYCLE_BIT)
    (hw : cmd_ring_walk mem (fuel + 1) addr ccs = some ring) :
    ∃ rest, ring = (addr, mem addr) :: rest ∧
      cmd_ring_walk mem fuel
        (if XHCI_TRB_3_TYPE_GET (mem addr).dwTrb3 = XHCI_TRB_TYPE_LINK
          then MASK_NOT_F (mem addr).qwTrb0 else addr + 16)
        (if ((XHCI_TRB_3_TYPE_GET (mem addr).dwTrb3 = XHCI_TRB_TYPE_LINK : Bool) = true) ∧
            (mem addr).dwTrb3 &&& XHCI_TRB_3_TC_BIT ≠ 0
          then ccs ^^^ XHCI_CRCR_LO_RCS else ccs) = some rest := by
  rw [cmd_ring_walk] at hw
  simp only [h, if_false, Option.map_eq_some', decide_eq_true_eq] at hw
  obtain ⟨rest, hr, rfl⟩ := hw
  refine ⟨rest, rfl, ?_⟩
  simpa using hr

theorem cmd_dispatch_without_assert (sc : pci_xhci_softc) (t : xhci_trb) (ccs : Nat)
    (h : cmd_without_assert t = true) : cmd_dispatch sc t ccs ≠ none := by
  simp only [cmd_without_assert, ne_eq, Bool.decide_and, Bool.and_eq_true, decide_eq_true_eq,
    decide_not, Bool.not_eq_true', decide_eq_false_iff_not] at h
  obtain ⟨h1, h2, h3, h4, h5, h6, h7⟩ := h
  unfold cmd_dispatch
  simp only [h1, h2, h3, h4, h5, h6, h7, if_false]
  split_ifs <;> simp

/-- The loop of `pci_xhci_complete_commands` on a ring that the walk of the spec describes:
if no command aborts, the loop ends, and every command that is not a LINK TRB has its
completion event in the event ring, in ring order, from `er_enq_idx` on. -/
theorem complete_commands_loop_events :
    ∀ (fuel : Nat) (sc : pci_xhci_softc) (trb ccs : Nat) (ring : List (Nat × xhci_trb)),
      cmd_ring_walk sc.trbmem fuel trb ccs = some ring →
      (complete_commands_loop fuel sc trb trb ccs ≠ cmd_result.aborted ∨
        ∀ p ∈ ring, cmd_without_assert p.2 = true) →
      (∀ p ∈ ring, p.1 + 16 < 2 ^ 64) →
      evrs_table_size sc < 2 ^ 32 →
      sc.rtsregs.er_events_cnt + (ring_cmds ring).length < evrs_table_size sc →
      sc.rtsregs.er_enq_idx < evrs_table_size sc →
      sc.rtsregs.event_pcs ≤ 1 →
      ∃ sc1, complete_commands_loop fuel sc trb trb ccs = cmd_result.done sc1 ∧
        (complete_commands_log fuel sc trb trb ccs).map (fun x => x.1) =
          (ring_cmds ring).map (fun p => p.1) ∧
        sc1.rtsregs.er_events_cnt =
          sc.rtsregs.er_events_cnt + (complete_commands_log fuel sc trb trb ccs).length ∧
        sc1.rtsregs.er_enq_idx =
          (sc.rtsregs.er_enq_idx + (complete_commands_log fuel sc trb trb ccs).length) %
            evrs_table_size sc ∧
        (∀ j x, (complete_commands_log fuel sc trb trb ccs)[j]? = some x →
          is_cmd_completion
            (sc1.evmem (erst_entry sc ((sc.rtsregs.er_enq_idx + j) % evrs_table_size sc)))
            x.1 x.2.1 x.2.2) ∧
        (∀ a, (∀ j, j < (complete_commands_log fuel sc trb trb ccs).length →
            a ≠ erst_entry sc ((sc.rtsregs.er_enq_idx + j) % evrs_table_size sc)) →
          sc1.evmem a = sc.evmem a) := by
  intro fuel
  induction fuel with
  | zero =>
    intro sc trb ccs ring hw
    simp [cmd_ring_walk] at hw
  | succ fuel ih =>
    intro sc trb ccs ring hw hok haddr hsz hroom henq hpcs
    by_cases hcyc : (sc.trbmem trb).dwTrb3 &&& XHCI_TRB_3_CYCLE_BIT ≠
        ccs &&& XHCI_TRB_3_CYCLE_BIT
    · -- the ring is empty
      obtain ⟨e1, e2⟩ := loop_step_mismatch fuel sc trb trb ccs hcyc
      have hring : ring = [] := by
        rw [cmd_ring_walk] at hw
        simp only [hcyc, ne_eq, not_false_eq_true, if_true] at hw
        exact (Option.some.inj hw).symm
      subst hring
      refine ⟨_, e1, ?_⟩
      rw [e2]
      refine ⟨by simp [ring_cmds], by simp, ?_, by simp, ?_⟩
      · simp only [List.length_nil, Nat.add_zero]
        exact (Nat.mod_eq_of_lt henq).symm
      · intro a _; rfl
    · obtain ⟨rest, hring, hwalk⟩ := walk_step_match sc.trbmem fuel trb ccs ring hcyc hw
      subst hring
      cases hd : cmd_dispatch { sc with opregs := { sc.opregs with cr_p := trb } }
          (sc.trbmem trb) ccs with
      | none =>
        rcases hok with hok | hsafe
        · exact absurd (loop_step_abort fuel sc trb trb ccs hcyc hd) hok
        · exact absurd hd (cmd_dispatch_without_assert _ _ _
            (hsafe (trb, sc.trbmem trb) (List.mem_cons_self _ _)))
      | some r =>
        obtain ⟨hfr, hccs⟩ := cmd_dispatch_frame _ _ _ r hd
        obtain ⟨f1, f2, f3, f4⟩ := hfr
        simp only at f1 f2 f3 f4
        have hn1 : evrs_table_size r.1 = evrs_table_size sc := by
          simp only [evrs_table_size, f2, f4]
        by_cases hl : XHCI_TRB_3_TYPE_GET (sc.trbmem trb).dwTrb3 = XHCI_TRB_TYPE_LINK
        · -- a LINK TRB: no event
          obtain ⟨e1, e2⟩ := loop_step_link fuel sc trb trb ccs r hcyc hd hl
          have hlen : (ring_cmds ((trb, sc.trbmem trb) :: rest)).length =
              (ring_cmds rest).length := by
            simp [ring_cmds, hl]
          rw [hlen] at hroom
          rw [← hccs] at hwalk
          simp only [hl, if_true] at hwalk
          have hok1 : complete_commands_loop fuel r.1 (MASK_NOT_F (sc.trbmem trb).qwTrb0)
              (MASK_NOT_F (sc.trbmem trb).qwTrb0) r.2.2.2 ≠ cmd_result.aborted ∨
              ∀ p ∈ rest, cmd_without_assert p.2 = true :=
            hok.imp (fun h => by rw [← e1]; exact h)
              (fun h p hp => h p (List.mem_cons_of_mem _ hp))
          obtain ⟨sc1, i1, i2, i3, i4, i5, i6⟩ := ih r.1 (MASK_NOT_F (sc.trbmem trb).qwTrb0)
            r.2.2.2 rest (by rw [f1]; exact hwalk) hok1
            (fun p hp => haddr p (List.mem_cons_of_mem _ hp))
            (by rw [hn1]; exact hsz) (by rw [hn1, f2]; omega) (by rw [hn1, f2]; exact henq)
            (by rw [f2]; exact hpcs)
          refine ⟨sc1, by rw [e1]; exact i1, ?_⟩
          rw [e2]
          have hE : ∀ i, erst_entry r.1 i = erst_entry sc i := by
            intro i; simp only [erst_entry, f2]
          simp only [hn1, f2, f3, hE] at i3 i4 i5 i6
          refine ⟨?_, i3, i4, i5, i6⟩
          rw [i2]
          simp [ring_cmds, hl]
        · -- a command: one completion event
          obtain ⟨e1, e2⟩ := loop_step_cmd fuel sc trb trb ccs r hcyc hd hl (by rw [hn1]; omega)
          have hlen : (ring_cmds ((trb, sc.trbmem trb) :: rest)).length =
              (ring_cmds rest).length + 1 := by
            simp [ring_cmds, hl]
          rw [hlen] at hroom
          have hb : trb + 16 < 2 ^ 64 := haddr (trb, sc.trbmem trb) (List.mem_cons_self _ _)
          have hnx : (trb + 16) % 2 ^ 64 = trb + 16 := Nat.mod_eq_of_lt hb
          rw [hnx] at e1 e2
          have hc1 : r.2.2.2 = ccs := by
            rw [hccs]; simp [hl]
          rw [← hccs, hc1] at hwalk
          simp only [hl, if_false] at hwalk
          have hst := insert_event_eq_store_of_room r.1
            (cmd_completion_event trb ccs r.2.1 r.2.2.1) true (by rw [hn1]; exact hsz)
            (by rw [hn1, f2]; omega)
          obtain ⟨-, s2, s3, s4, s5, s6, s7, s8⟩ := insert_event_store_spec
            { r.1 with rtsregs := { r.1.rtsregs with
                er_events_cnt := r.1.rtsregs.er_events_cnt + 1 } }
            (cmd_completion_event trb ccs r.2.1 r.2.2.1) true
          have st := insert_event_store_trbmem
            { r.1 with rtsregs := { r.1.rtsregs with
                er_events_cnt := r.1.rtsregs.er_events_cnt + 1 } }
            (cmd_completion_event trb ccs r.2.1 r.2.2.1) true
          rw [← hst] at s2 s3 s4 s5 s6 s7 s8 st
          simp only [evrs_table_size, erst_entry] at s2 s3 s4 s5 s6 s7 s8 st
          generalize hsc2 : (insert_event_ring r.1
            (cmd_completion_event trb ccs r.2.1 r.2.2.1) true).1 = sc2 at *
          have hn2 : evrs_table_size sc2 = evrs_table_size sc := by
            simp only [evrs_table_size, s7, s8, f2, f4]
          have hE : ∀ i, erst_entry sc2 i = erst_entry sc i := by
            intro i; simp only [erst_entry, s6, f2]
          have hnpos : 0 < evrs_table_size sc := by omega
          have hpcs2 : sc2.rtsregs.event_pcs ≤ 1 := by
            rw [s5]
            split
            · rw [xor_one_of_le_one _ (by rw [f2]; exact hpcs)]; omega
            · rw [f2]; exact hpcs
          have henq2 : sc2.rtsregs.er_enq_idx < evrs_table_size sc := by
            rw [s3]
            simp only [f2, f4]
            exact Nat.mod_lt _ hnpos
          have hok1 : complete_commands_loop fuel sc2 (trb + 16) (trb + 16) r.2.2.2 ≠
              cmd_result.aborted ∨ ∀ p ∈ rest, cmd_without_assert p.2 = true :=
            hok.imp (fun h => by rw [← e1]; exact h)
              (fun h p hp => h p (List.mem_cons_of_mem _ hp))
          obtain ⟨sc1, i1, i2, i3, i4, i5, i6⟩ := ih sc2 (trb + 16) r.2.2.2 rest
            (by rw [st, f1, hc1]; exact hwalk) hok1
            (fun p hp => haddr p (List.mem_cons_of_mem _ hp))
            (by rw [hn2]; exact hsz) (by rw [hn2, s4, f2]; omega) (by rw [hn2]; exact henq2)
            hpcs2
          refine ⟨sc1, by rw [e1]; exact i1, ?_⟩
          rw [e2]
          simp only [hn2, hE] at i3 i4 i5 i6
          have henq2v : sc2.rtsregs.er_enq_idx =
              (sc.rtsregs.er_enq_idx + 1) % evrs_table_size sc := by
            rw [s3]; simp only [evrs_table_size, f2, f4]
          have hidx : ∀ j, (sc2.rtsregs.er_enq_idx + j) % evrs_table_size sc =
              (sc.rtsregs.er_enq_idx + (j + 1)) % evrs_table_size sc := by
            intro j
            rw [henq2v, Nat.mod_add_mod]
            congr 1; omega
          simp only [hidx] at i4 i5 i6
          have hLlen : (complete_commands_log fuel sc2 (trb + 16) (trb + 16) r.2.2.2).length =
              (ring_cmds rest).length := by
            have := congrArg List.length i2
            simpa only [List.length_map] using this
          -- the first event is not overwritten by the later ones
          have hfirst : sc1.evmem (erst_entry sc sc.rtsregs.er_enq_idx) =
              sc2.evmem (erst_entry sc sc.rtsregs.er_enq_idx) := by
            apply i6
            intro j hj
            have hne := mod_add_ne_self (evrs_table_size sc) sc.rtsregs.er_enq_idx (j + 1)
              henq (by omega) (by omega)
            simp only [erst_entry]
            omega
          refine ⟨?_, ?_, ?_, ?_, ?_⟩
          · simp only [List.map_cons, ring_cmds, List.filter_cons]
            simp only [hl, ne_eq, not_false_eq_true, decide_True, if_true, List.map_cons]
            rw [i2]; rfl
          · rw [i3, s4, f2]; simp only [List.length_cons]; omega
          · rw [i4]; simp only [List.length_cons]
          · intro j x hx
            rcases j with _ | j
            · simp only [List.getElem?_cons_zero, Option.some.injEq] at hx
              subst hx
              simp only [Nat.add_zero, Nat.mod_eq_of_lt henq]
              rw [hfirst, s2]
              simp only [f2, upd, erst_entry, if_true]
              exact cmd_completion_stored trb ccs r.2.1 r.2.2.1 sc.rtsregs.event_pcs hpcs
            · simp only [List.getElem?_cons_succ] at hx
              exact i5 j x hx
          · intro a ha
            have h0 := ha 0 (by simp)
            simp only [Nat.add_zero, Nat.mod_eq_of_lt henq] at h0
            rw [i6 a (fun j hj => ha (j + 1) (by simp only [List.length_cons]; omega))]
            rw [s2]
            simp only [f2, f3, upd]
            rw [if_neg]
            simpa [erst_entry] using h0

theorem mask_not_f_or_crr (x : Nat) :
    MASK_NOT_F (x ||| XHCI_CRCR_LO_CRR) = MASK_NOT_F x := by
  unfold MASK_NOT_F XHCI_CRCR_LO_CRR
  apply Nat.eq_of_testBit_eq
  intro i
  rw [Nat.testBit_and, Nat.testBit_and, Nat.testBit_or, testBit_FFF0, testBit_8]
  by_cases h4 : 4 ≤ i
  · have h3 : ¬ i = 3 := by omega
    simp [h3]
  · simp [h4]

theorem or_crr_and_rcs (x : Nat) :
    (x ||| XHCI_CRCR_LO_CRR) &&& XHCI_CRCR_LO_RCS = x &&& XHCI_CRCR_LO_RCS := by
  unfold XHCI_CRCR_LO_CRR XHCI_CRCR_LO_RCS
  rw [Nat.and_distrib_right]
  have h : (8 : Nat) &&& 1 = 0 := by decide
  rw [h, Nat.or_zero]

theorem dbregs_write_doorbell_zero
    (device_doorbell : pci_xhci_softc → Nat → Nat → Nat → cmd_result)
    (fuel : Nat) (sc : pci_xhci_softc) (value : Nat)
    (hrun : XHCI_HALTED sc = false)
    (hcrp : sc.opregs.cr_p = MASK_NOT_F sc.opregs.crcr) :
    pci_xhci_dbregs_write device_doorbell fuel sc sc.dboff value =
      complete_commands_loop fuel
        { sc with opregs := { sc.opregs with crcr := sc.opregs.crcr ||| XHCI_CRCR_LO_CRR } }
        sc.opregs.cr_p sc.opregs.cr_p (sc.opregs.crcr &&& XHCI_CRCR_LO_RCS) ∧
    pci_xhci_complete_commands_log fuel sc =
      complete_commands_log fuel
        { sc with opregs := { sc.opregs with crcr := sc.opregs.crcr ||| XHCI_CRCR_LO_CRR } }
        sc.opregs.cr_p sc.opregs.cr_p (sc.opregs.crcr &&& XHCI_CRCR_LO_RCS) := by
  have hoff : (sc.dboff + 2 ^ 64 - sc.dboff) % 2 ^ 64 / 4 = 0 := by
    have e : sc.dboff + 2 ^ 64 - sc.dboff = 2 ^ 64 := by omega
    rw [e]; decide
  constructor
  · unfold pci_xhci_dbregs_write pci_xhci_complete_commands
    simp only [hrun, hoff, if_true, Bool.false_eq_true, if_false, mask_not_f_or_crr,
      or_crr_and_rcs, ← hcrp]
  · unfold pci_xhci_complete_commands_log
    simp only [mask_not_f_or_crr, or_crr_and_rcs, ← hcrp]

theorem eq_done_of_is_done (r : cmd_result) (d : pci_xhci_softc) (h : r.is_done = true) :
    r = cmd_result.done (r.get d) := by
  cases r <;> simp [cmd_result.is_done, cmd_result.get] at h ⊢

theorem eq_aborted_of_is_aborted (r : cmd_result) (h : r.is_aborted = true) :
    r = cmd_result.aborted := by
  cases r <;> simp [cmd_result.is_aborted] at h ⊢

theorem ne_aborted_of_is_done (r : cmd_result) (h : r.is_done = true) :
    r ≠ cmd_result.aborted := by
  cases r <;> simp [cmd_result.is_done] at h ⊢

/-- The write to doorbell 0 does not abort the emulator when every TRB of the command ring is
one whose case of the `switch` reaches no `assert`. -/
theorem doorbell_zero_without_assert
    (device_doorbell : pci_xhci_softc → Nat → Nat → Nat → cmd_result)
    (fuel : Nat) (sc : pci_xhci_softc) (value : Nat) (ring : List (Nat × xhci_trb))
    (hrun : XHCI_HALTED sc = false)
    (hcrp : sc.opregs.cr_p = MASK_NOT_F sc.opregs.crcr)
    (hwalk : cmd_ring_walk sc.trbmem fuel sc.opregs.cr_p
      (sc.opregs.crcr &&& XHCI_CRCR_LO_RCS) = some ring)
    (hsafe : ∀ p ∈ ring, cmd_without_assert p.2 = true)
    (haddr : ∀ p ∈ ring, p.1 + 16 < 2 ^ 64)
    (hsz : evrs_table_size sc < 2 ^ 32)
    (hroom : sc.rtsregs.er_events_cnt + (ring_cmds ring).length < evrs_table_size sc)
    (henq : sc.rtsregs.er_enq_idx < evrs_table_size sc)
    (hpcs : sc.rtsregs.event_pcs ≤ 1) :
    pci_xhci_dbregs_write device_doorbell fuel sc sc.dboff value ≠ cmd_result.aborted := by
  obtain ⟨e1, -⟩ := dbregs_write_doorbell_zero device_doorbell fuel sc value hrun hcrp
  obtain ⟨sc1, h1, -⟩ := complete_commands_loop_events fuel
    { sc with opregs := { sc.opregs with crcr := sc.opregs.crcr ||| XHCI_CRCR_LO_CRR } }
    sc.opregs.cr_p (sc.opregs.crcr &&& XHCI_CRCR_LO_RCS) ring hwalk (Or.inr hsafe) haddr hsz
    hroom henq hpcs
  rw [e1, h1]
  exact fun h => cmd_result.noConfusion h

/-- C2, as the code has it: on a running (not halted) controller whose command ring holds, from
the dequeue pointer on, the TRBs `ring` with cycle bit equal to CRCR.RCS followed by a TRB
whose cycle bit differs (`cmd_ring_walk`), and whose event ring has room for one event per
command (`er_events_cnt + m < n`, with `m` the number of TRBs of `ring` that are not LINK
TRBs), a write to doorbell 0 during which no command handler aborts the emulator returns, and
appends exactly one event per TRB that is not a LINK TRB and none for a LINK TRB, in ring
order: the commands completed (`pci_xhci_complete_commands_log`) are the non-LINK TRBs of the
ring in their order, `er_events_cnt` grows by `m`, `er_enq_idx` advances by `m` modulo `n`,
the `j`-th entry of the event ring from the old `er_enq_idx` on is a CMD_COMPLETION event
whose parameter is the guest address of the `j`-th command and which carries the slot id and
the completion code that the handler of that command produced, and every other entry of the
event ring is as it was. -/
theorem doorbell_zero_completion_events
    (device_doorbell : pci_xhci_softc → Nat → Nat → Nat → cmd_result)
    (fuel : Nat) (sc : pci_xhci_softc) (value : Nat) (ring : List (Nat × xhci_trb))
    (hrun : XHCI_HALTED sc = false)
    (hcrp : sc.opregs.cr_p = MASK_NOT_F sc.opregs.crcr)
    (hwalk : cmd_ring_walk sc.trbmem fuel sc.opregs.cr_p
      (sc.opregs.crcr &&& XHCI_CRCR_LO_RCS) = some ring)
    (hok : pci_xhci_dbregs_write device_doorbell fuel sc sc.dboff value ≠ cmd_result.aborted)
    (haddr : ∀ p ∈ ring, p.1 + 16 < 2 ^ 64)
    (hsz : evrs_table_size sc < 2 ^ 32)
    (hroom : sc.rtsregs.er_events_cnt + (ring_cmds ring).length < evrs_table_size sc)
    (henq : sc.rtsregs.er_enq_idx < evrs_table_size sc)
    (hpcs : sc.rtsregs.event_pcs ≤ 1) :
    ∃ sc1, pci_xhci_dbregs_write device_doorbell fuel sc sc.dboff value = cmd_result.done sc1 ∧
      (pci_xhci_complete_commands_log fuel sc).map (fun x => x.1) =
        (ring_cmds ring).map (fun p => p.1) ∧
      sc1.rtsregs.er_events_cnt = sc.rtsregs.er_events_cnt + (ring_cmds ring).length ∧
      sc1.rtsregs.er_enq_idx =
        (sc.rtsregs.er_enq_idx + (ring_cmds ring).length) % evrs_table_size sc ∧
      (∀ j x, (pci_xhci_complete_commands_log fuel sc)[j]? = some x →
        is_cmd_completion
          (sc1.evmem (erst_entry sc ((sc.rtsregs.er_enq_idx + j) % evrs_table_size sc)))
          x.1 x.2.1 x.2.2) ∧
      (∀ a, (∀ j, j < (ring_cmds ring).length →
          a ≠ erst_entry sc ((sc.rtsregs.er_enq_idx + j) % evrs_table_size sc)) →
        sc1.evmem a = sc.evmem a) := by
  obtain ⟨e1, e2⟩ := dbregs_write_doorbell_zero device_doorbell fuel sc value hrun hcrp
  rw [e1] at hok
  obtain ⟨sc1, h1, h2, h3, h4, h5, h6⟩ := complete_commands_loop_events fuel
    { sc with opregs := { sc.opregs with crcr := sc.opregs.crcr ||| XHCI_CRCR_LO_CRR } }
    sc.opregs.cr_p (sc.opregs.crcr &&& XHCI_CRCR_LO_RCS) ring hwalk (Or.inl hok) haddr hsz
    hroom henq hpcs
  rw [← e2] at h2 h3 h4 h5 h6
  have hlen : (pci_xhci_complete_commands_log fuel sc).length = (ring_cmds ring).length := by
    have := congrArg List.length h2
    simpa only [List.length_map] using this
  rw [hlen] at h3 h4 h6
  exact ⟨sc1, by rw [e1]; exact h1, h2, h3, h4, h5, h6⟩

set_option maxRecDepth 100000 in
/-- C2, witness: the scenario "Enable slot" of the spec.  The command ring holds one
ENABLE_SLOT TRB at `0x3000`; the write to doorbell 0 returns, `er_events_cnt` goes from 1 to 2
and the entry 1 of the event ring (at `er_enq_idx`) is a CMD_COMPLETION event with parameter
`0x3000`, SUCCESS and slot id 1. -/
theorem doorbell_zero_completion_events_witness :
    ∃ sc1, pci_xhci_dbregs_write no_device_doorbell 2 sc_cmd_enable_slot
        sc_cmd_enable_slot.dboff 0 = cmd_result.done sc1 ∧
      sc1.rtsregs.er_events_cnt = 2 ∧ sc1.rtsregs.er_enq_idx = 2 ∧
      is_cmd_completion (sc1.evmem (0x2000 + 16 * 1)) 0x3000 XHCI_TRB_ERROR_SUCCESS 1 := by
  obtain ⟨sc1, h1, -, h3, h4, h5, -⟩ := doorbell_zero_completion_events no_device_doorbell 2
    sc_cmd_enable_slot 0
    [(0x3000, sc_cmd_enable_slot.trbmem 0x3000)]
    (by decide) (by decide) (by decide) (ne_aborted_of_is_done _ (by decide)) (by decide)
    (by decide) (by decide) (by decide) (by decide)
  have e3 : sc_cmd_enable_slot.rtsregs.er_events_cnt +
      (ring_cmds [(0x3000, sc_cmd_enable_slot.trbmem 0x3000)]).length =
      2 := by decide
  have e4 : (sc_cmd_enable_slot.rtsregs.er_enq_idx +
      (ring_cmds [(0x3000, sc_cmd_enable_slot.trbmem 0x3000)]).length) %
      evrs_table_size sc_cmd_enable_slot = 2 := by decide
  have e5 : erst_entry sc_cmd_enable_slot
      ((sc_cmd_enable_slot.rtsregs.er_enq_idx + 0) % evrs_table_size sc_cmd_enable_slot) =
      0x2000 + 16 * 1 := by decide
  have h50 := h5 0 (0x3000, XHCI_TRB_ERROR_SUCCESS, 1) (by decide)
  rw [e3] at h3
  rw [e4] at h4
  rw [e5] at h50
  exact ⟨sc1, h1, h3, h4, h50⟩

set_option maxRecDepth 100000 in
/-- C2, counterexample.  (1) After a guest write of `0x5001` to the low dword of CRCR alone, the
command engine still consumes the ring at `cr_p = 0x3000`, which holds one ENABLE_SLOT TRB,
while CRCR addresses `0x5000`, where the ring is empty: the write to doorbell 0 executes the
command at `0x3000` (slot 1 is allocated) and appends one event whose parameter is `0x5000`,
not the guest address of the command TRB.  (2) The command ring holds one CONFIGURE_EP TRB
for slot 5, to which no device is bound, on a running controller whose event ring of four
entries holds one event: the write to doorbell 0 aborts the emulator
(`assert(dev != NULL)` in `pci_xhci_cmd_config_ep`) and appends no event. -/
theorem doorbell_zero_completion_events_counterexample :
    (XHCI_HALTED sc_cmd_crcr_lo_only = false ∧
      sc_cmd_crcr_lo_only.opregs.cr_p = 0x3000 ∧
      sc_cmd_crcr_lo_only.opregs.crcr = 0x5001 ∧
      cmd_ring_walk sc_cmd_crcr_lo_only.trbmem 2 0x3000
        (sc_cmd_crcr_lo_only.opregs.crcr &&& XHCI_CRCR_LO_RCS) =
        some [(0x3000, sc_cmd_crcr_lo_only.trbmem 0x3000)] ∧
      XHCI_TRB_3_TYPE_GET (sc_cmd_crcr_lo_only.trbmem 0x3000).dwTrb3 =
        XHCI_TRB_TYPE_ENABLE_SLOT ∧
      cmd_ring_walk sc_cmd_crcr_lo_only.trbmem 2 0x5000
        (sc_cmd_crcr_lo_only.opregs.crcr &&& XHCI_CRCR_LO_RCS) = some [] ∧
      sc_cmd_crcr_lo_only.rtsregs.er_events_cnt = 1 ∧
      sc_cmd_crcr_lo_only.rtsregs.er_enq_idx = 1 ∧
      evrs_table_size sc_cmd_crcr_lo_only = 4 ∧
      ∃ sc1, pci_xhci_dbregs_write no_device_doorbell 2 sc_cmd_crcr_lo_only
          sc_cmd_crcr_lo_only.dboff 0 = cmd_result.done sc1 ∧
        sc1.rtsregs.er_events_cnt = 2 ∧
        sc1.slot_allocated 1 = true ∧
        (sc1.evmem (0x2000 + 16 * 1)).qwTrb0 = 0x5000 ∧
        ¬ is_cmd_completion (sc1.evmem (0x2000 + 16 * 1)) 0x3000 XHCI_TRB_ERROR_SUCCESS 1) ∧
    (XHCI_HALTED sc_cmd_config_ep_no_dev = false ∧
      sc_cmd_config_ep_no_dev.opregs.cr_p = MASK_NOT_F sc_cmd_config_ep_no_dev.opregs.crcr ∧
      cmd_ring_walk sc_cmd_config_ep_no_dev.trbmem 2 sc_cmd_config_ep_no_dev.opregs.cr_p
        (sc_cmd_config_ep_no_dev.opregs.crcr &&& XHCI_CRCR_LO_RCS) =
        some [(0x3000, sc_cmd_config_ep_no_dev.trbmem 0x3000)] ∧
      XHCI_TRB_3_TYPE_GET (sc_cmd_config_ep_no_dev.trbmem 0x3000).dwTrb3 =
        XHCI_TRB_TYPE_CONFIGURE_EP ∧
      XHCI_TRB_3_SLOT_GET (sc_cmd_config_ep_no_dev.trbmem 0x3000).dwTrb3 = 5 ∧
      sc_cmd_config_ep_no_dev.slots 5 = none ∧
      sc_cmd_config_ep_no_dev.rtsregs.er_events_cnt = 1 ∧
      evrs_table_size sc_cmd_config_ep_no_dev = 4 ∧
      pci_xhci_dbregs_write no_device_doorbell 2 sc_cmd_config_ep_no_dev
        sc_cmd_config_ep_no_dev.dboff 0 = cmd_result.aborted) := by
  refine ⟨⟨by decide, by decide, by decide, by decide, by decide, by decide, by decide,
    by decide, by decide, ?_⟩,
    by decide, by decide, by decide, by decide, by decide, by decide, by decide, by decide,
    eq_aborted_of_is_aborted _ (by decide)⟩
  refine ⟨_, eq_done_of_is_done _ sc_cmd_crcr_lo_only (by decide), ?_⟩
  decide

/-! ## The interrupter -/

theorem or_pend_and_ena (x : Nat) :
    (x ||| XHCI_IMAN_INTR_PEND) &&& XHCI_IMAN_INTR_ENA = x &&& XHCI_IMAN_INTR_ENA := by
  unfold XHCI_IMAN_INTR_PEND XHCI_IMAN_INTR_ENA
  rw [Nat.and_distrib_right]
  have h : (1 : Nat) &&& 2 = 0 := by decide
  rw [h, Nat.or_zero]

/-- With `do_intr` set, every path of `insert_event_ring` ends in
`pci_xhci_assert_interrupt`, on a state whose operational registers, interrupter registers
and PCI state are those before the call. -/
theorem insert_event_ends_in_assert (sc : pci_xhci_softc) (evtrb : xhci_trb) :
    ∃ sc0, (insert_event_ring sc evtrb true).1 = pci_xhci_assert_interrupt sc0 ∧
      sc0.opregs = sc.opregs ∧ sc0.rtsregs.intrreg = sc.rtsregs.intrreg ∧
      sc0.xsc_pi = sc.xsc_pi := by
  unfold insert_event_ring insert_event_store insert_event_done
  simp only [if_true]
  split_ifs <;> exact ⟨_, rfl, rfl, rfl, rfl⟩

/-- What `pci_xhci_assert_interrupt` does to the registers and to the PCI layer. -/
theorem assert_interrupt_spec (sc : pci_xhci_softc) :
    (pci_xhci_assert_interrupt sc).opregs.usbsts = sc.opregs.usbsts ||| XHCI_STS_EINT ∧
    (pci_xhci_assert_interrupt sc).opregs.usbcmd = sc.opregs.usbcmd ∧
    (pci_xhci_assert_interrupt sc).rtsregs.intrreg.iman =
      sc.rtsregs.intrreg.iman ||| XHCI_IMAN_INTR_PEND ∧
    (pci_xhci_assert_interrupt sc).rtsregs.intrreg.erdp =
      sc.rtsregs.intrreg.erdp ||| XHCI_ERDP_LO_BUSY ∧
    (pci_xhci_assert_interrupt sc).xsc_pi =
      (if sc.opregs.usbcmd &&& XHCI_CMD_INTE ≠ 0 ∧
          sc.rtsregs.intrreg.iman &&& XHCI_IMAN_INTR_ENA ≠ 0 then
        (if sc.xsc_pi.msi_enabled then
          { sc.xsc_pi with msi_generated := sc.xsc_pi.msi_generated + 1 }
        else { sc.xsc_pi with lintr_asserted := sc.xsc_pi.lintr_asserted + 1 })
      else sc.xsc_pi) := by
  unfold pci_xhci_assert_interrupt
  simp only [or_pend_and_ena]
  split_ifs <;> simp_all

/-- C11, as the code has it: on an event ring whose segment table the guest has programmed,
`pci_xhci_insert_event` called with `do_intr` set returns and, on every one of its paths,
sets USBSTS.EINT, IMAN.pend and ERDP.busy, and delivers one interrupt to the PCI layer (an MSI
if MSI is enabled, else the legacy line) if and only if USBCMD.INTE and IMAN.enable are both
set; USBCMD.RS is not consulted. -/
theorem insert_event_interrupt (sc : pci_xhci_softc) (evtrb : xhci_trb) (p : Nat)
    (hp : sc.rtsregs.erstba_p = some p) :
    ∃ r, pci_xhci_insert_event sc evtrb true = some r ∧
      r.1.opregs.usbsts = sc.opregs.usbsts ||| XHCI_STS_EINT ∧
      r.1.rtsregs.intrreg.iman = sc.rtsregs.intrreg.iman ||| XHCI_IMAN_INTR_PEND ∧
      r.1.rtsregs.intrreg.erdp = sc.rtsregs.intrreg.erdp ||| XHCI_ERDP_LO_BUSY ∧
      r.1.xsc_pi =
        (if sc.opregs.usbcmd &&& XHCI_CMD_INTE ≠ 0 ∧
            sc.rtsregs.intrreg.iman &&& XHCI_IMAN_INTR_ENA ≠ 0 then
          (if sc.xsc_pi.msi_enabled then
            { sc.xsc_pi with msi_generated := sc.xsc_pi.msi_generated + 1 }
          else { sc.xsc_pi with lintr_asserted := sc.xsc_pi.lintr_asserted + 1 })
        else sc.xsc_pi) ∧
      (r.1.xsc_pi.msi_generated + r.1.xsc_pi.lintr_asserted =
          sc.xsc_pi.msi_generated + sc.xsc_pi.lintr_asserted + 1 ↔
        sc.opregs.usbcmd &&& XHCI_CMD_INTE ≠ 0 ∧
          sc.rtsregs.intrreg.iman &&& XHCI_IMAN_INTR_ENA ≠ 0) := by
  refine ⟨insert_event_ring sc evtrb true, insert_event_of_ptr sc evtrb true p hp, ?_⟩
  obtain ⟨sc0, h0, h1, h2, h3⟩ := insert_event_ends_in_assert sc evtrb
  obtain ⟨a1, -, a3, a4, a5⟩ := assert_interrupt_spec sc0
  rw [h0, a1, a3, a4, a5, h1, h2, h3]
  refine ⟨rfl, rfl, rfl, rfl, ?_⟩
  split_ifs with hc hm
  · simp only [hc, iff_true]; omega
  · simp only [hc, iff_true]; omega
  · simp only [hc, iff_false]; omega

set_option maxRecDepth 100000 in
/-- Witness of C11 as amended: on the stopped controller with an event ring of four entries,
USBCMD.INTE and IMAN.enable set, an insertion with `do_intr` set returns and sets
USBSTS.EINT. -/
theorem insert_event_interrupt_witness :
    sc_inte_no_rs.rtsregs.erstba_p = some 0x1000 ∧
    ∃ r, pci_xhci_insert_event sc_inte_no_rs (port_event 1) true = some r ∧
      r.1.opregs.usbsts = sc_inte_no_rs.opregs.usbsts ||| XHCI_STS_EINT :=
  have h := insert_event_interrupt sc_inte_no_rs (port_event 1) 0x1000 (by decide)
  ⟨by decide, h.elim fun r hr => ⟨r, hr.1, hr.2.1⟩⟩

set_option maxRecDepth 100000 in
/-- C11 fails as stated: on a stopped controller (USBCMD.RS clear) with USBCMD.INTE and
IMAN.enable set, an insertion with `do_intr` set asserts the legacy interrupt line. -/
theorem insert_event_interrupt_counterexample :
    sc_inte_no_rs.opregs.usbcmd &&& XHCI_CMD_RS = 0 ∧
    sc_inte_no_rs.opregs.usbcmd &&& XHCI_CMD_INTE ≠ 0 ∧
    sc_inte_no_rs.rtsregs.intrreg.iman &&& XHCI_IMAN_INTR_ENA ≠ 0 ∧
    sc_inte_no_rs.xsc_pi.msi_enabled = false ∧
    sc_inte_no_rs.xsc_pi.lintr_asserted = 0 ∧
    (pci_xhci_insert_event sc_inte_no_rs (port_event 1) true).map
      (fun r => r.1.xsc_pi.lintr_asserted) = some 1 := by
  decide

/-! ## The slot and context commands -/

/-- C12: ADDRESS_DEVICE returns the TRB error whenever the input control context has a
non-zero drop mask or add-mask bits 0..1 different from `0b11`, whatever the slot id, and
SLOT_NOT_ON whenever the input control context is well-formed and the slot id is 0, greater
than 64 or not allocated; in both cases the state is returned as it was. -/
theorem address_device_rejects (sc : pci_xhci_softc) (slot : Nat) (trb : xhci_trb) :
    ((sc.inctxmem (MASK_NOT_F trb.qwTrb0)).ctx_input.dwInCtx0 ≠ 0 ∨
        (sc.inctxmem (MASK_NOT_F trb.qwTrb0)).ctx_input.dwInCtx1 &&& 0x03 ≠ 0x03 →
      pci_xhci_cmd_address_device sc slot trb = some (sc, XHCI_TRB_ERROR_TRB)) ∧
    ((sc.inctxmem (MASK_NOT_F trb.qwTrb0)).ctx_input.dwInCtx0 = 0 →
      (sc.inctxmem (MASK_NOT_F trb.qwTrb0)).ctx_input.dwInCtx1 &&& 0x03 = 0x03 →
      slot = 0 ∨ slot > XHCI_MAX_SLOTS ∨ sc.slot_allocated slot = false →
      pci_xhci_cmd_address_device sc slot trb = some (sc, XHCI_TRB_ERROR_SLOT_NOT_ON)) := by
  constructor
  · intro h
    unfold pci_xhci_cmd_address_device
    simp only [h, if_true]
  · intro h0 h1 h2
    unfold pci_xhci_cmd_address_device
    have hn : ¬ ((sc.inctxmem (MASK_NOT_F trb.qwTrb0)).ctx_input.dwInCtx0 ≠ 0 ∨
        (sc.inctxmem (MASK_NOT_F trb.qwTrb0)).ctx_input.dwInCtx1 &&& 0x03 ≠ 0x03) := by
      rw [h0, h1]; simp
    simp only [hn, if_false, h2, if_true]

set_option maxRecDepth 100000 in
/-- Witness of C12: on the controller with the tablet, an ADDRESS_DEVICE whose input context
(at `0x5000`, zeroed) has add mask 0 returns the TRB error, and an ADDRESS_DEVICE with the
well-formed input context at `0x4000` for slot 0 returns SLOT_NOT_ON. -/
theorem address_device_rejects_witness :
    pci_xhci_cmd_address_device sc_tablet_enabled 1 { trb_address_device 1 with qwTrb0 := 0x5000 }
      = some (sc_tablet_enabled, XHCI_TRB_ERROR_TRB) ∧
    pci_xhci_cmd_address_device sc_tablet_enabled 0 (trb_address_device 0) =
      some (sc_tablet_enabled, XHCI_TRB_ERROR_SLOT_NOT_ON) :=
  ⟨(address_device_rejects sc_tablet_enabled 1
      { trb_address_device 1 with qwTrb0 := 0x5000 }).1 (Or.inr (by decide)),
    (address_device_rejects sc_tablet_enabled 0 (trb_address_device 0)).2 (by decide)
      (by decide) (Or.inl rfl)⟩

theorem init_ep_keeps (sc : pci_xhci_softc) (d a epid : Nat) (r : pci_xhci_softc)
    (h : pci_xhci_init_ep sc d a epid = some r) :
    r.devctxmem = sc.devctxmem ∧ r.slots = sc.slots ∧ r.native_ports = sc.native_ports ∧
    r.ndevices = sc.ndevices ∧ r.opregs = sc.opregs ∧ r.slot_allocated = sc.slot_allocated ∧
    r.dcbaamem = sc.dcbaamem ∧ r.inctxmem = sc.inctxmem ∧ r.portregs = sc.portregs ∧
    r.devices = sc.devices ∧
    (r.devs d).dev_ctx = (sc.devs d).dev_ctx ∧
    (r.devs d).dev_slotstate = (sc.devs d).dev_slotstate ∧
    (r.devs d).hci_address = (sc.devs d).hci_address ∧
    (r.devs d).dev_ue = (sc.devs d).dev_ue ∧
    (∀ e, e ≠ d → r.devs e = sc.devs e) ∧
    (∀ j, j ≠ epid → (r.devs d).eps j = (sc.devs d).eps j) := by
  unfold pci_xhci_init_ep at h
  simp only at h
  split at h
  · cases h
  · cases h
    refine ⟨rfl, rfl, rfl, rfl, rfl, rfl, rfl, rfl, rfl, rfl, ?_, ?_, ?_, ?_, ?_, ?_⟩
    · simp [upd]
    · simp [upd]
    · simp [upd]
    · simp [upd]
    · intro e he; simp [upd, he]
    · intro j hj; simp [upd, hj]

/-- C13 as amended: whenever ADDRESS_DEVICE completes with SUCCESS, on a controller on which
`pci_xhci_dev_create` does not fail for the native port that has the root-hub port of the
input slot context as its virtual port when no device is bound to the slot, a device is bound
to the slot afterwards, that device is in state Addressed, its device context is the output
device context of the slot, the output slot context is the input slot context except that
dword 3 holds slot state Addressed and device address `slot`, the output EP0 context is the
input EP0 context with endpoint state Running, and, if no device was bound to the slot before
the command, the native port that has the root-hub port of the input slot context as its
virtual port is Emulated. -/
theorem address_device_success (sc sc1 : pci_xhci_softc) (slot : Nat) (trb : xhci_trb)
    (ictx : xhci_input_dev_ctx) (hi : ictx = sc.inctxmem (MASK_NOT_F trb.qwTrb0))
    (hcreate : sc.slots slot = none →
      ∀ index, pci_xhci_get_native_port_index_by_vport sc
          (XHCI_SCTX_1_RH_PORT_GET ictx.ctx_slot.dwSctx1) = some index →
        (pci_xhci_dev_create sc (sc.native_ports index).info).isSome = true)
    (h : pci_xhci_cmd_address_device sc slot trb = some (sc1, XHCI_TRB_ERROR_SUCCESS)) :
    ∃ d, sc1.slots slot = some d ∧
    (sc1.devs d).dev_slotstate = XHCI_ST_ADDRESSED ∧
    ∃ a, pci_xhci_get_dev_ctx sc1 slot = some (some a) ∧
      (sc1.devs d).dev_ctx = some a ∧
      (sc1.devctxmem a).ctx_slot =
        { ictx.ctx_slot with
          dwSctx3 := XHCI_SCTX_3_SLOT_STATE_SET XHCI_ST_SLCTX_ADDRESSED ||| slot } ∧
      (sc1.devctxmem a).ctx_ep 1 =
        { ictx.ctx_ep 1 with
          dwEpCtx0 := ((ictx.ctx_ep 1).dwEpCtx0 &&& NOT32 0x7) ||| XHCI_ST_EPCTX_RUNNING } ∧
      (sc.slots slot = none →
        ∃ index, pci_xhci_get_native_port_index_by_vport sc
            (XHCI_SCTX_1_RH_PORT_GET ictx.ctx_slot.dwSctx1) = some index ∧
          (sc1.native_ports index).state = VPORT_EMULATED) := by
  subst hi
  unfold pci_xhci_cmd_address_device at h
  simp only at h
  split at h
  · exact absurd (Prod.mk.inj (Option.some.inj h)).2 (by decide)
  · split at h
    · exact absurd (Prod.mk.inj (Option.some.inj h)).2 (by decide)
    · rename_i hslot
      have hs64 : slot ≤ 64 := by
        simp only [XHCI_MAX_SLOTS] at hslot; omega
      have haddr : XHCI_SCTX_3_DEV_ADDR_SET slot = slot := by
        unfold XHCI_SCTX_3_DEV_ADDR_SET
        have e : (0xFF : Nat) = 2 ^ 8 - 1 := by decide
        rw [e, Nat.and_pow_two_sub_one_eq_mod]
        exact Nat.mod_eq_of_lt (by omega)
      split at h
      · -- no device was bound: the completion code is not SUCCESS
        rename_i err hb
        obtain ⟨-, e2⟩ := Prod.mk.inj (Option.some.inj h)
        subst e2
        cases hs : sc.slots slot with
        | some d0 => simp only [hs] at hb; cases hb
        | none =>
          simp only [hs] at hb
          split at hb
          · exact absurd (Sum.inr.inj hb) (by decide)
          · rename_i index hidx
            have hc := hcreate hs index hidx
            split at hb
            · rename_i hnone
              rw [hnone] at hc
              cases hc
            · cases hb
      · rename_i s hb
        have hnat : sc.slots slot = none →
            ∃ index, pci_xhci_get_native_port_index_by_vport sc
                (XHCI_SCTX_1_RH_PORT_GET
                  (sc.inctxmem (MASK_NOT_F trb.qwTrb0)).ctx_slot.dwSctx1) = some index ∧
              (s.native_ports index).state = VPORT_EMULATED := by
          intro hnone
          simp only [hnone] at hb
          split at hb
          · cases hb
          · rename_i index hidx
            split at hb
            · cases hb
            · cases hb
              exact ⟨index, hidx, by simp [upd]⟩
        split at h
        · cases h
        · exact absurd (Prod.mk.inj (Option.some.inj h)).2 (by decide)
        · rename_i a ha
          split at h
          · cases h
          · rename_i d0 hd0
            split at h
            · exact absurd (Prod.mk.inj (Option.some.inj h)).2 (by decide)
            · split at h
              · cases h
              · rename_i sc4 h4
                obtain ⟨k1, k2, k3, k4, k5, k6, k7, k8, k9, k10, k11, k12, k13, k14, k15, k16⟩ :=
                  init_ep_keeps _ _ _ _ sc4 h4
                obtain ⟨e1, -⟩ := Prod.mk.inj (Option.some.inj h)
                subst e1
                refine ⟨d0, ?_, by simp [upd], a, ?_, ?_, ?_, ?_, ?_⟩
                · simp only [k2]
                  exact hd0
                · unfold pci_xhci_get_dev_ctx at ha ⊢
                  simp only [k4, k5, k6, k7]
                  exact ha
                · simp only [upd, if_true, k11]
                · simp only [k1, upd, if_true, haddr]
                · simp only [k1, upd, if_true]
                  rfl
                · intro hnone
                  obtain ⟨index, i1, i2⟩ := hnat hnone
                  exact ⟨index, i1, by simp only [k3]; exact i2⟩

theorem option_pair_eta {α β : Type} (r : Option (α × β)) (d : α) (e : β)
    (h : r.map (fun x => x.2) = some e) : r = some ((r.map fun x => x.1).getD d, e) := by
  cases r with
  | none => simp at h
  | some x =>
    simp only [Option.map_some', Option.some.injEq] at h
    simp [← h]

set_option maxRecDepth 100000 in
/-- Witness of C13 as amended: on a controller without configured devices, with a host device
connected on virtual port 2 that the backend emulates, ADDRESS_DEVICE for the allocated
slot 1 completes with SUCCESS, binds a device to the slot and leaves it Addressed. -/
theorem address_device_success_witness :
    (sc_native_enabled backend_stick).slots 1 = none ∧
    (pci_xhci_cmd_address_device (sc_native_enabled backend_stick) 1
      (trb_address_device 1)).map (fun r => r.2) = some XHCI_TRB_ERROR_SUCCESS ∧
    ∃ d, sc_native_addressed.slots 1 = some d ∧
      (sc_native_addressed.devs d).dev_slotstate = XHCI_ST_ADDRESSED :=
  ⟨by decide, by decide,
    (address_device_success (sc_native_enabled backend_stick) sc_native_addressed 1
      (trb_address_device 1)
      ((sc_native_enabled backend_stick).inctxmem (MASK_NOT_F (trb_address_device 1).qwTrb0))
      rfl
      (fun _ index hidx => by
        have h0 : pci_xhci_get_native_port_index_by_vport (sc_native_enabled backend_stick)
            (XHCI_SCTX_1_RH_PORT_GET
              ((sc_native_enabled backend_stick).inctxmem
                (MASK_NOT_F (trb_address_device 1).qwTrb0)).ctx_slot.dwSctx1) = some 0 := by
          decide
        rw [h0] at hidx
        cases hidx
        decide)
      (option_pair_eta _ _ _ (by decide))).elim
      fun d hd => ⟨d, hd.1, hd.2.1⟩⟩

set_option maxRecDepth 100000 in
/-- C13 fails as stated.  (1) The tablet is bound to slot 1 by the configuration and a host
device is connected on virtual port 2: ADDRESS_DEVICE for slot 1 with an input slot context
that names root-hub port 2 completes with SUCCESS and leaves the tablet Addressed, and the
native port with virtual port 2 is still Connected, not Emulated.  (2) No device is bound to
the allocated slot 1 and the host backend fails to create the device of the native port:
ADDRESS_DEVICE completes with SUCCESS, and no device is bound to the slot. -/
theorem address_device_success_counterexample :
    ((pci_xhci_cmd_address_device sc_tablet_and_native 1 (trb_address_device 1)).map
        (fun r => (r.2, r.1.slots 1, (r.1.devs 0).dev_slotstate)) =
        some (XHCI_TRB_ERROR_SUCCESS, some 0, XHCI_ST_ADDRESSED) ∧
      XHCI_SCTX_1_RH_PORT_GET
        (sc_tablet_and_native.inctxmem (MASK_NOT_F (trb_address_device 1).qwTrb0)).ctx_slot.dwSctx1
        = 2 ∧
      pci_xhci_get_native_port_index_by_vport sc_tablet_and_native 2 = some 0 ∧
      (pci_xhci_cmd_address_device sc_tablet_and_native 1 (trb_address_device 1)).map
        (fun r => (r.1.native_ports 0).state) = some VPORT_CONNECTED) ∧
    ((sc_native_enabled fun _ => none).slot_allocated 1 = true ∧
      (pci_xhci_cmd_address_device (sc_native_enabled fun _ => none) 1
        (trb_address_device 1)).map (fun r => (r.2, r.1.slots 1)) =
        some (XHCI_TRB_ERROR_SUCCESS, none)) := by
  decide

/-- What `pci_xhci_cmd_disable_slot` does on a controller whose port registers are
allocated, case by case. -/
theorem disable_slot_cases (sc : pci_xhci_softc) (slot : Nat) (hp : sc.portregs.isSome) :
    (slot > sc.ndevices →
      pci_xhci_cmd_disable_slot sc slot = (sc, XHCI_TRB_ERROR_SLOT_NOT_ON)) ∧
    (slot ≤ sc.ndevices → sc.slots slot = none →
      pci_xhci_cmd_disable_slot sc slot = (sc, XHCI_TRB_ERROR_NO_SLOTS)) ∧
    (∀ d, slot ≤ sc.ndevices → sc.slots slot = some d →
      (sc.devs d).dev_slotstate = XHCI_ST_DISABLED →
      pci_xhci_cmd_disable_slot sc slot = (sc, XHCI_TRB_ERROR_SLOT_NOT_ON)) ∧
    (∀ d, slot ≤ sc.ndevices → sc.slots slot = some d →
      (sc.devs d).dev_slotstate ≠ XHCI_ST_DISABLED →
      pci_xhci_cmd_disable_slot sc slot =
        ({ sc with devs := upd sc.devs d { sc.devs d with dev_slotstate := XHCI_ST_DISABLED } },
          XHCI_TRB_ERROR_SUCCESS)) := by
  have hp1 : sc.portregs.isNone = false := by
    cases h : sc.portregs with
    | none => simp [h] at hp
    | some _ => rfl
  refine ⟨?_, ?_, ?_, ?_⟩
  · intro h
    unfold pci_xhci_cmd_disable_slot
    simp only [hp1, Bool.false_eq_true, if_false, h, if_true]
  · intro h hs
    unfold pci_xhci_cmd_disable_slot
    have h1 : ¬ slot > sc.ndevices := by omega
    simp only [hp1, Bool.false_eq_true, if_false, h1, hs]
  · intro d h hs hst
    unfold pci_xhci_cmd_disable_slot
    have h1 : ¬ slot > sc.ndevices := by omega
    simp only [hp1, Bool.false_eq_true, if_false, h1, hs, hst, if_true]
  · intro d h hs hst
    unfold pci_xhci_cmd_disable_slot
    have h1 : ¬ slot > sc.ndevices := by omega
    simp only [hp1, Bool.false_eq_true, if_false, h1, hs, hst]

set_option maxRecDepth 100000 in
/-- C14 at the failing input: on a controller without configured devices (`ndevices = 1`,
port registers allocated) slot 1 is allocated by ENABLE_SLOT and no device is bound to it;
DISABLE_SLOT for slot 1 returns NO_SLOTS, not SLOT_NOT_ON. -/
theorem disable_slot_no_device :
    (sc_native_enabled fun _ => none).portregs.isSome = true ∧
    (sc_native_enabled fun _ => none).ndevices = 1 ∧
    (sc_native_enabled fun _ => none).slots 1 = none ∧
    (pci_xhci_cmd_disable_slot (sc_native_enabled fun _ => none) 1).2 =
      XHCI_TRB_ERROR_NO_SLOTS ∧
    XHCI_TRB_ERROR_NO_SLOTS ≠ XHCI_TRB_ERROR_SLOT_NOT_ON := by
  decide

/-- C15: on a controller whose port registers are allocated, DISABLE_SLOT for a slot whose
device is already Disabled returns SLOT_NOT_ON and returns the state as it was; for a slot
whose device is not Disabled it returns SUCCESS, and a second DISABLE_SLOT then returns
SLOT_NOT_ON and leaves the state of the first. -/
theorem disable_slot_idempotent (sc : pci_xhci_softc) (slot d : Nat)
    (hp : sc.portregs.isSome) (hd : sc.slots slot = some d) :
    ((sc.devs d).dev_slotstate = XHCI_ST_DISABLED →
      pci_xhci_cmd_disable_slot sc slot = (sc, XHCI_TRB_ERROR_SLOT_NOT_ON)) ∧
    (slot ≤ sc.ndevices → (sc.devs d).dev_slotstate ≠ XHCI_ST_DISABLED →
      (pci_xhci_cmd_disable_slot sc slot).2 = XHCI_TRB_ERROR_SUCCESS ∧
      (((pci_xhci_cmd_disable_slot sc slot).1.devs d).dev_slotstate = XHCI_ST_DISABLED) ∧
      pci_xhci_cmd_disable_slot (pci_xhci_cmd_disable_slot sc slot).1 slot =
        ((pci_xhci_cmd_disable_slot sc slot).1, XHCI_TRB_ERROR_SLOT_NOT_ON)) := by
  obtain ⟨c1, -, c3, c4⟩ := disable_slot_cases sc slot hp
  constructor
  · intro hst
    by_cases h : slot ≤ sc.ndevices
    · exact c3 d h hd hst
    · exact c1 (by omega)
  · intro h hst
    rw [c4 d h hd hst]
    refine ⟨rfl, by simp [upd], ?_⟩
    obtain ⟨-, -, c3', -⟩ := disable_slot_cases
      { sc with devs := upd sc.devs d { sc.devs d with dev_slotstate := XHCI_ST_DISABLED } }
      slot hp
    exact c3' d h hd (by simp [upd])

set_option maxRecDepth 100000 in
/-- Witness of C15: the tablet in slot 1, Enabled by ENABLE_SLOT: the first DISABLE_SLOT
returns SUCCESS, the second SLOT_NOT_ON with the state of the first. -/
theorem disable_slot_idempotent_witness :
    (sc_tablet_enabled.devs 0).dev_slotstate ≠ XHCI_ST_DISABLED ∧
    (pci_xhci_cmd_disable_slot sc_tablet_enabled 1).2 = XHCI_TRB_ERROR_SUCCESS ∧
    (((pci_xhci_cmd_disable_slot sc_tablet_enabled 1).1.devs 0).dev_slotstate =
      XHCI_ST_DISABLED) ∧
    pci_xhci_cmd_disable_slot (pci_xhci_cmd_disable_slot sc_tablet_enabled 1).1 1 =
      ((pci_xhci_cmd_disable_slot sc_tablet_enabled 1).1, XHCI_TRB_ERROR_SLOT_NOT_ON) :=
  ⟨by decide,
    (disable_slot_idempotent sc_tablet_enabled 1 0 (by decide) (by decide)).2 (by decide)
      (by decide)⟩

/-! ## CONFIGURE_EP -/

/-- Setting the endpoint state to Disabled leaves MaxPStreams as it was. -/
theorem maxp_streams_and_not7 (x : Nat) :
    XHCI_EPCTX_0_MAXP_STREAMS_GET ((x &&& NOT32 0x7) ||| XHCI_ST_EPCTX_DISABLED) =
      XHCI_EPCTX_0_MAXP_STREAMS_GET x := by
  have e0 : NOT32 0x7 = 0xFFFFFFF8 := by decide
  have e1 : XHCI_ST_EPCTX_DISABLED = 0 := rfl
  unfold XHCI_EPCTX_0_MAXP_STREAMS_GET
  rw [e0, e1, Nat.or_zero]
  apply Nat.eq_of_testBit_eq
  intro i
  simp only [Nat.testBit_and, Nat.testBit_shiftRight]
  by_cases hi : i < 5
  · have h1 : Nat.testBit 0xFFFFFFF8 (10 + i) = true := by
      interval_cases i <;> decide
    rw [h1, Bool.and_true]
  · have h2 : Nat.testBit 0x1F i = false :=
      testBit_eq_false_of_lt_two_pow 0x1F 5 i (by decide) (by omega)
    rw [h2, Bool.and_false, Bool.and_false]

/-- The drop phase of one iteration of the loop of `pci_xhci_cmd_config_ep`, for an endpoint
whose ring storage the function can free (it holds stream cursors, or nothing, whenever the
endpoint context has primary streams). -/
theorem config_ep_drop_phase (ic : xhci_input_dev_ctx) (d a i : Nat) (sc : pci_xhci_softc)
    (hctx : (sc.devs d).dev_ctx = some a)
    (hfree : ic.ctx_input.dwInCtx0 &&& (1 <<< i) ≠ 0 →
      XHCI_EPCTX_0_MAXP_STREAMS_GET ((sc.devctxmem a).ctx_ep i).dwEpCtx0 > 0 →
      ((sc.devs d).eps i).ep_sctx_trbs.isSome = true ∨ ((sc.devs d).eps i).ep_ringaddr = 0) :
    ∃ sc1, (if ic.ctx_input.dwInCtx0 &&& (1 <<< i) ≠ 0 then pci_xhci_disable_ep sc d i
        else some sc) = some sc1 ∧
      (sc1.devs d).dev_ctx = some a ∧
      (sc1.devctxmem a).ctx_slot = (sc.devctxmem a).ctx_slot ∧
      (sc1.devctxmem a).ctx_ep i =
        (if ic.ctx_input.dwInCtx0 &&& (1 <<< i) ≠ 0 then
          { (sc.devctxmem a).ctx_ep i with
            dwEpCtx0 := (((sc.devctxmem a).ctx_ep i).dwEpCtx0 &&& NOT32 0x7) |||
              XHCI_ST_EPCTX_DISABLED }
        else (sc.devctxmem a).ctx_ep i) ∧
      (∀ j, j ≠ i → (sc1.devctxmem a).ctx_ep j = (sc.devctxmem a).ctx_ep j) ∧
      (∀ j, j ≠ i → (sc1.devs d).eps j = (sc.devs d).eps j) ∧
      ((sc1.devs d).eps i =
        if ic.ctx_input.dwInCtx0 &&& (1 <<< i) ≠ 0 then pci_xhci_dev_ep.zero
        else (sc.devs d).eps i) ∧
      (∀ e, (sc1.devs e).dev_slotstate = (sc.devs e).dev_slotstate) ∧
      (∀ e, (sc1.devs e).dev_ctx = (sc.devs e).dev_ctx) ∧
      (∀ e, e ≠ d → sc1.devs e = sc.devs e) ∧
      (∀ b, b ≠ a → sc1.devctxmem b = sc.devctxmem b) ∧
      sc1.slots = sc.slots ∧ sc1.inctxmem = sc.inctxmem := by
  by_cases hdrop : ic.ctx_input.dwInCtx0 &&& (1 <<< i) ≠ 0
  · have hno : ¬ (XHCI_EPCTX_0_MAXP_STREAMS_GET
          ((((sc.devctxmem a).ctx_ep i).dwEpCtx0 &&& NOT32 0x7) ||| XHCI_ST_EPCTX_DISABLED) > 0 ∧
        ((sc.devs d).eps i).ep_sctx_trbs.isNone = true ∧
          ((sc.devs d).eps i).ep_ringaddr ≠ 0) := by
      rw [maxp_streams_and_not7]
      rintro ⟨h1, h2, h3⟩
      rcases hfree hdrop h1 with h4 | h4
      · rw [Option.isNone_iff_eq_none] at h2
        rw [h2] at h4
        exact absurd h4 (by decide)
      · exact h3 h4
    simp only [if_pos hdrop, pci_xhci_disable_ep, hctx, if_neg hno]
    refine ⟨_, rfl, ?_, ?_, ?_, ?_, ?_, ?_, ?_, ?_, ?_, ?_, rfl, rfl⟩
    · simp [upd, hctx]
    · simp [upd]
    · simp [upd]
    · intro j hj; simp [upd, hj]
    · intro j hj; simp [upd, hj]
    · simp [upd]
    · intro e; by_cases he : e = d <;> simp [upd, he]
    · intro e; by_cases he : e = d <;> simp [upd, he, hctx]
    · intro e he; simp [upd, he]
    · intro b hb; simp [upd, hb]
  · simp only [if_neg hdrop]
    exact ⟨sc, rfl, hctx, rfl, rfl, fun _ _ => rfl, fun _ _ => rfl, rfl, fun _ => rfl,
      fun _ => rfl, fun _ _ => rfl, fun _ _ => rfl, rfl, rfl⟩

/-- `pci_xhci_init_ep` returns unless the endpoint context has primary streams and the
storage of the stream rings is not `NULL` (the assertion of the source). -/
theorem init_ep_total (sc : pci_xhci_softc) (d a epid : Nat)
    (h : XHCI_EPCTX_0_MAXP_STREAMS_GET ((sc.devctxmem a).ctx_ep epid).dwEpCtx0 > 0 →
      ((sc.devs d).eps epid).ep_sctx_trbs = none ∧ ((sc.devs d).eps epid).ep_ringaddr = 0) :
    ∃ r, pci_xhci_init_ep sc d a epid = some r := by
  unfold pci_xhci_init_ep
  simp only
  by_cases hp : XHCI_EPCTX_0_MAXP_STREAMS_GET ((sc.devctxmem a).ctx_ep epid).dwEpCtx0 > 0
  · simp only [if_pos hp, (h hp).1, (h hp).2, Option.isSome_none, Bool.false_eq_true,
      ne_eq, not_true_eq_false, or_self, if_false]
    exact ⟨_, rfl⟩
  · simp only [if_neg hp]
    exact ⟨_, rfl⟩

/-- One iteration of the loop of `pci_xhci_cmd_config_ep`, for the endpoint id `i`: it
returns unless endpoint `i` is added with primary streams, not dropped, and has stream rings
or a non-zero cached ring address, or is dropped with primary streams in its output context
while its ring storage holds a ring address; the endpoint context `i` becomes what the spec
describes, and nothing else of the device context changes. -/
theorem config_ep_step (ic : xhci_input_dev_ctx) (d a i : Nat) (sc : pci_xhci_softc)
    (hctx : (sc.devs d).dev_ctx = some a)
    (hpre : ic.ctx_input.dwInCtx1 &&& (1 <<< i) ≠ 0 →
      XHCI_EPCTX_0_MAXP_STREAMS_GET (ic.ctx_ep i).dwEpCtx0 > 0 →
      ic.ctx_input.dwInCtx0 &&& (1 <<< i) ≠ 0 ∨
        (((sc.devs d).eps i).ep_sctx_trbs = none ∧ ((sc.devs d).eps i).ep_ringaddr = 0))
    (hfree : ic.ctx_input.dwInCtx0 &&& (1 <<< i) ≠ 0 →
      XHCI_EPCTX_0_MAXP_STREAMS_GET ((sc.devctxmem a).ctx_ep i).dwEpCtx0 > 0 →
      ((sc.devs d).eps i).ep_sctx_trbs.isSome = true ∨ ((sc.devs d).eps i).ep_ringaddr = 0) :
    ∃ s, (∀ rest, config_ep_loop ic d a sc (i :: rest) = config_ep_loop ic d a s rest) ∧
      (s.devs d).dev_ctx = some a ∧
      (s.devctxmem a).ctx_slot = (sc.devctxmem a).ctx_slot ∧
      (s.devctxmem a).ctx_ep i = config_ep_ctx_spec ic ((sc.devctxmem a).ctx_ep i) i ∧
      (∀ j, j ≠ i → (s.devctxmem a).ctx_ep j = (sc.devctxmem a).ctx_ep j) ∧
      (∀ j, j ≠ i → (s.devs d).eps j = (sc.devs d).eps j) ∧
      (∀ e, (s.devs e).dev_slotstate = (sc.devs e).dev_slotstate) ∧
      (∀ e, (s.devs e).dev_ctx = (sc.devs e).dev_ctx) ∧
      (∀ b, b ≠ a → s.devctxmem b = sc.devctxmem b) ∧
      s.slots = sc.slots ∧ s.inctxmem = sc.inctxmem := by
  obtain ⟨sc1, h1, p1, p2, p3, p4, p5, p6, p7, p8, p9, p10, p11, p12⟩ :=
    config_ep_drop_phase ic d a i sc hctx hfree
  by_cases hadd : ic.ctx_input.dwInCtx1 &&& (1 <<< i) ≠ 0
  · have hc2 : (upd sc1.devctxmem a (set_ctx_ep (sc1.devctxmem a) i (ic.ctx_ep i)) a).ctx_ep i =
        ic.ctx_ep i := by
      simp [upd, set_ctx_ep]
    obtain ⟨sc3, h3⟩ := init_ep_total
      { sc1 with devctxmem := upd sc1.devctxmem a (set_ctx_ep (sc1.devctxmem a) i (ic.ctx_ep i)) }
      d a i (by
        intro hp
        simp only at hp ⊢
        rw [hc2] at hp
        rw [p6]
        rcases hpre hadd hp with hdrop | hnone
        · rw [if_pos hdrop]; exact ⟨rfl, rfl⟩
        · by_cases hdrop : ic.ctx_input.dwInCtx0 &&& (1 <<< i) ≠ 0
          · rw [if_pos hdrop]; exact ⟨rfl, rfl⟩
          · rw [if_neg hdrop]; exact hnone)
    obtain ⟨k1, k2, k3, k4, k5, k6, k7, k8, k9, k10, k11, k12, k13, k14, k15, k16⟩ :=
      init_ep_keeps _ d a i sc3 h3
    simp only at k1 k2 k8 k11 k12 k15 k16
    refine ⟨{ sc3 with
        devctxmem := upd sc3.devctxmem a
          (set_ctx_ep (sc3.devctxmem a) i
            { (sc3.devctxmem a).ctx_ep i with
              dwEpCtx0 :=
                FIELD_REPLACE ((sc3.devctxmem a).ctx_ep i).dwEpCtx0 XHCI_ST_EPCTX_RUNNING 0x7 0 }) },
      ?_, ?_, ?_, ?_, ?_, ?_, ?_, ?_, ?_, ?_, ?_⟩
    · intro rest
      rw [config_ep_loop]
      simp only [h1, if_pos hadd, h3]
    · simp only; rw [k11]; exact p1
    · simp only [upd, if_true, set_ctx_ep, k1]
      exact p2
    · simp only [upd, if_true, set_ctx_ep, k1, config_ep_ctx_spec, if_pos hadd]
    · intro j hj
      simp only [upd, if_true, set_ctx_ep, k1, if_neg hj]
      exact p4 j hj
    · intro j hj
      simp only
      rw [k16 j hj]
      exact p5 j hj
    · intro e
      simp only
      by_cases he : e = d
      · subst he; rw [k12]; exact p7 e
      · rw [k15 e he]; exact p7 e
    · intro e
      simp only
      by_cases he : e = d
      · subst he; rw [k11]; exact p8 e
      · rw [k15 e he]; exact p8 e
    · intro b hb
      simp only [upd, if_neg hb, k1]
      exact p10 b hb
    · simp only; rw [k2]; exact p11
    · simp only; rw [k8]; exact p12
  · refine ⟨sc1, ?_, p1, p2, ?_, p4, p5, p7, p8, p10, p11, p12⟩
    · intro rest
      rw [config_ep_loop]
      simp only [h1, if_neg hadd]
    · rw [p3]
      simp only [config_ep_ctx_spec, if_neg hadd]

/-- The loop of `pci_xhci_cmd_config_ep` over a list of distinct endpoint ids. -/
theorem config_ep_loop_spec (ic : xhci_input_dev_ctx) (d a : Nat) :
    ∀ (l : List Nat) (sc : pci_xhci_softc), l.Nodup →
      (sc.devs d).dev_ctx = some a →
      (∀ i ∈ l, ic.ctx_input.dwInCtx1 &&& (1 <<< i) ≠ 0 →
        XHCI_EPCTX_0_MAXP_STREAMS_GET (ic.ctx_ep i).dwEpCtx0 > 0 →
        ic.ctx_input.dwInCtx0 &&& (1 <<< i) ≠ 0 ∨
          (((sc.devs d).eps i).ep_sctx_trbs = none ∧ ((sc.devs d).eps i).ep_ringaddr = 0)) →
      (∀ i ∈ l, ic.ctx_input.dwInCtx0 &&& (1 <<< i) ≠ 0 →
        XHCI_EPCTX_0_MAXP_STREAMS_GET ((sc.devctxmem a).ctx_ep i).dwEpCtx0 > 0 →
        ((sc.devs d).eps i).ep_sctx_trbs.isSome = true ∨ ((sc.devs d).eps i).ep_ringaddr = 0) →
      ∃ r, config_ep_loop ic d a sc l = some r ∧
        (r.devs d).dev_ctx = some a ∧
        (r.devctxmem a).ctx_slot = (sc.devctxmem a).ctx_slot ∧
        (∀ i ∈ l, (r.devctxmem a).ctx_ep i =
          config_ep_ctx_spec ic ((sc.devctxmem a).ctx_ep i) i) ∧
        (∀ j, j ∉ l → (r.devctxmem a).ctx_ep j = (sc.devctxmem a).ctx_ep j) ∧
        (∀ j, j ∉ l → (r.devs d).eps j = (sc.devs d).eps j) ∧
        (∀ e, (r.devs e).dev_slotstate = (sc.devs e).dev_slotstate) ∧
        (∀ e, (r.devs e).dev_ctx = (sc.devs e).dev_ctx) ∧
        (∀ b, b ≠ a → r.devctxmem b = sc.devctxmem b) ∧
        r.slots = sc.slots ∧ r.inctxmem = sc.inctxmem := by
  intro l
  induction l with
  | nil =>
    intro sc _ hctx _ _
    exact ⟨sc, by rw [config_ep_loop], hctx, rfl, by simp, fun _ _ => rfl, fun _ _ => rfl,
      fun _ => rfl, fun _ => rfl, fun _ _ => rfl, rfl, rfl⟩
  | cons i rest ih =>
    intro sc hnd hctx hpre hfree
    obtain ⟨hi, hnd1⟩ := List.nodup_cons.mp hnd
    obtain ⟨s, q0, q1, q2, q3, q4, q5, q6, q7, q8, q9, q10⟩ :=
      config_ep_step ic d a i sc hctx (hpre i (List.mem_cons_self _ _))
        (hfree i (List.mem_cons_self _ _))
    obtain ⟨r, r0, r1, r2, r3, r4, r5, r6, r7, r8, r9, r10⟩ := ih s hnd1 q1 (by
      intro j hj hadd hp
      have hji : j ≠ i := fun e => hi (e ▸ hj)
      rw [q5 j hji]
      exact hpre j (List.mem_cons_of_mem _ hj) hadd hp) (by
      intro j hj hdrop hp
      have hji : j ≠ i := fun e => hi (e ▸ hj)
      rw [q4 j hji] at hp
      rw [q5 j hji]
      exact hfree j (List.mem_cons_of_mem _ hj) hdrop hp)
    refine ⟨r, by rw [q0 rest]; exact r0, r1, by rw [r2, q2], ?_, ?_, ?_, ?_, ?_, ?_,
      by rw [r9, q9], by rw [r10, q10]⟩
    · intro j hj
      rcases List.mem_cons.mp hj with rfl | hj
      · rw [r4 j hi, q3]
      · have hji : j ≠ i := fun e => hi (e ▸ hj)
        rw [r3 j hj, q4 j hji]
    · intro j hj
      have hji : j ≠ i := fun e => hj (e ▸ List.mem_cons_self _ _)
      have hjr : j ∉ rest := fun e => hj (List.mem_cons_of_mem _ e)
      rw [r4 j hjr, q4 j hji]
    · intro j hj
      have hji : j ≠ i := fun e => hj (e ▸ List.mem_cons_self _ _)
      have hjr : j ∉ rest := fun e => hj (List.mem_cons_of_mem _ e)
      rw [r5 j hjr, q5 j hji]
    · intro e; rw [r6, q6]
    · intro e; rw [r7, q7]
    · intro b hb; rw [r8 b hb, q8 b hb]

theorem field_replace_epstate (x s : Nat) (hs : s ≤ 7) :
    XHCI_EPCTX_0_EPSTATE_GET (FIELD_REPLACE x s 0x7 0) = s := by
  unfold XHCI_EPCTX_0_EPSTATE_GET FIELD_REPLACE
  have e1 : NOT32 (0x7 <<< 0) = 0xFFFFFFF8 := by decide
  have e7 : (0x7 : Nat) = 2 ^ 3 - 1 := by decide
  have e2 : ((s &&& 0x7) <<< 0) % 2 ^ 32 = s := by
    rw [Nat.shiftLeft_zero, e7, Nat.and_pow_two_sub_one_eq_mod]
    omega
  rw [e1, e2, Nat.and_distrib_right, Nat.and_assoc]
  have e3 : (0xFFFFFFF8 : Nat) &&& 7 = 0 := by decide
  rw [e3, Nat.and_zero, Nat.zero_or, e7, Nat.and_pow_two_sub_one_eq_mod]
  omega

theorem and_not7_or_epstate (x s : Nat) (hs : s ≤ 7) :
    XHCI_EPCTX_0_EPSTATE_GET ((x &&& NOT32 0x7) ||| s) = s := by
  have h := field_replace_epstate x s hs
  unfold XHCI_EPCTX_0_EPSTATE_GET FIELD_REPLACE at h
  unfold XHCI_EPCTX_0_EPSTATE_GET
  have e7 : (0x7 : Nat) = 2 ^ 3 - 1 := by decide
  have e2 : ((s &&& 0x7) <<< 0) % 2 ^ 32 = s := by
    rw [Nat.shiftLeft_zero, e7, Nat.and_pow_two_sub_one_eq_mod]
    omega
  rw [e2, Nat.shiftLeft_zero] at h
  exact h

theorem field_replace_slot_state (x s : Nat) (hs : s ≤ 31) :
    ((FIELD_REPLACE x s 0x1F 27) >>> 27) &&& 0x1F = s := by
  unfold FIELD_REPLACE
  have e1 : NOT32 (0x1F <<< 27) = 2 ^ 27 - 1 := by decide
  have e31 : (0x1F : Nat) = 2 ^ 5 - 1 := by decide
  have e2 : ((s &&& 0x1F) <<< 27) % 2 ^ 32 = 2 ^ 27 * s := by
    rw [e31, Nat.and_pow_two_sub_one_eq_mod, Nat.shiftLeft_eq]
    have : s % 2 ^ 5 = s := Nat.mod_eq_of_lt (by omega)
    rw [this]
    omega
  rw [e1, e2, Nat.and_pow_two_sub_one_eq_mod, Nat.or_comm,
    ← Nat.mul_add_lt_is_or (Nat.mod_lt _ (by decide)), Nat.shiftRight_eq_div_pow, e31,
    Nat.and_pow_two_sub_one_eq_mod]
  have h1 : x % 2 ^ 27 < 2 ^ 27 := Nat.mod_lt _ (by decide)
  omega

/-- C16, as the code has it: CONFIGURE_EP without the DCEP bit, on a slot with a bound device.
Below Addressed it returns SLOT_NOT_ON and the state as it was.  In state Addressed or above,
with the device context of the device at `a`, provided no endpoint is added with primary
streams, without being dropped, while it has stream rings or a non-zero cached ring address
(the source asserts this in `pci_xhci_init_ep`), and provided no endpoint is dropped with
primary streams in its output context while its ring storage holds a ring address and not
stream cursors (`pci_xhci_disable_ep` would pass that address to `free`), it returns SUCCESS
and, for every endpoint id `i` in 2..31: with the add flag set the output endpoint context is the input endpoint
context `i` with endpoint state Running; else with the drop flag set its endpoint state is
Disabled; else it is unchanged.  The EP0 context is unchanged, and the slot state is
Configured in the controller and in the output slot context. -/
theorem config_ep_configures (sc : pci_xhci_softc) (slot d : Nat) (trb : xhci_trb)
    (ic : xhci_input_dev_ctx) (hic : ic = sc.inctxmem (MASK_NOT_F trb.qwTrb0))
    (hs : sc.slots slot = some d)
    (hdcep : trb.dwTrb3 &&& XHCI_TRB_3_DCEP_BIT = 0) :
    ((sc.devs d).dev_slotstate < XHCI_ST_ADDRESSED →
      pci_xhci_cmd_config_ep sc slot trb = some (sc, XHCI_TRB_ERROR_SLOT_NOT_ON)) ∧
    (∀ a, XHCI_ST_ADDRESSED ≤ (sc.devs d).dev_slotstate →
      (sc.devs d).dev_ctx = some a →
      (∀ i, 2 ≤ i → i ≤ 31 → ic.ctx_input.dwInCtx1 &&& (1 <<< i) ≠ 0 →
        XHCI_EPCTX_0_MAXP_STREAMS_GET (ic.ctx_ep i).dwEpCtx0 > 0 →
        ic.ctx_input.dwInCtx0 &&& (1 <<< i) ≠ 0 ∨
          (((sc.devs d).eps i).ep_sctx_trbs = none ∧ ((sc.devs d).eps i).ep_ringaddr = 0)) →
      (∀ i, 2 ≤ i → i ≤ 31 → ic.ctx_input.dwInCtx0 &&& (1 <<< i) ≠ 0 →
        XHCI_EPCTX_0_MAXP_STREAMS_GET ((sc.devctxmem a).ctx_ep i).dwEpCtx0 > 0 →
        ((sc.devs d).eps i).ep_sctx_trbs.isSome = true ∨ ((sc.devs d).eps i).ep_ringaddr = 0) →
      ∃ sc1, pci_xhci_cmd_config_ep sc slot trb = some (sc1, XHCI_TRB_ERROR_SUCCESS) ∧
        (∀ i, 2 ≤ i → i ≤ 31 → (sc1.devctxmem a).ctx_ep i =
          config_ep_ctx_spec ic ((sc.devctxmem a).ctx_ep i) i) ∧
        (∀ i, 2 ≤ i → i ≤ 31 → ic.ctx_input.dwInCtx1 &&& (1 <<< i) ≠ 0 →
          XHCI_EPCTX_0_EPSTATE_GET ((sc1.devctxmem a).ctx_ep i).dwEpCtx0 =
            XHCI_ST_EPCTX_RUNNING) ∧
        (∀ i, 2 ≤ i → i ≤ 31 → ic.ctx_input.dwInCtx1 &&& (1 <<< i) = 0 →
          ic.ctx_input.dwInCtx0 &&& (1 <<< i) ≠ 0 →
          XHCI_EPCTX_0_EPSTATE_GET ((sc1.devctxmem a).ctx_ep i).dwEpCtx0 =
            XHCI_ST_EPCTX_DISABLED) ∧
        (sc1.devctxmem a).ctx_ep 1 = (sc.devctxmem a).ctx_ep 1 ∧
        (sc1.devs d).dev_slotstate = XHCI_ST_CONFIGURED ∧
        ((sc1.devctxmem a).ctx_slot.dwSctx3 >>> 27) &&& 0x1F = XHCI_ST_SLCTX_CONFIGURED) := by
  subst hic
  have hd0 : ¬ trb.dwTrb3 &&& XHCI_TRB_3_DCEP_BIT ≠ 0 := by simp [hdcep]
  constructor
  · intro hlt
    unfold pci_xhci_cmd_config_ep
    simp only [hs, if_neg hd0, if_pos hlt]
  · intro a hge hctx hpre hfree
    have hlt : ¬ (sc.devs d).dev_slotstate < XHCI_ST_ADDRESSED := by omega
    have hmem : ∀ i, i ∈ List.range' 2 30 ↔ 2 ≤ i ∧ i ≤ 31 := by
      intro i
      rw [List.mem_range'_1]
      omega
    obtain ⟨r, r0, r1, r2, r3, r4, r5, r6, r7, r8, r9, r10⟩ :=
      config_ep_loop_spec (sc.inctxmem (MASK_NOT_F trb.qwTrb0)) d a (List.range' 2 30) sc
        (List.nodup_range' 2 30) hctx
        (fun i hi => hpre i ((hmem i).mp hi).1 ((hmem i).mp hi).2)
        (fun i hi => hfree i ((hmem i).mp hi).1 ((hmem i).mp hi).2)
    have hspec : ∀ i, 2 ≤ i → i ≤ 31 → (r.devctxmem a).ctx_ep i =
        config_ep_ctx_spec (sc.inctxmem (MASK_NOT_F trb.qwTrb0))
          ((sc.devctxmem a).ctx_ep i) i :=
      fun i h2 h31 => r3 i ((hmem i).mpr ⟨h2, h31⟩)
    refine ⟨{ r with
        devctxmem := upd r.devctxmem a
          { r.devctxmem a with
            ctx_slot := { (r.devctxmem a).ctx_slot with
              dwSctx3 :=
                FIELD_REPLACE (r.devctxmem a).ctx_slot.dwSctx3 XHCI_ST_SLCTX_CONFIGURED 0x1F 27
              dwSctx0 :=
                FIELD_COPY (r.devctxmem a).ctx_slot.dwSctx0
                  (sc.inctxmem (MASK_NOT_F trb.qwTrb0)).ctx_slot.dwSctx0 0x1F 27 } }
        devs := upd r.devs d { r.devs d with dev_slotstate := XHCI_ST_CONFIGURED } },
      ?_, ?_, ?_, ?_, ?_, ?_, ?_⟩
    · unfold pci_xhci_cmd_config_ep
      simp only [hs, if_neg hd0, if_neg hlt, hctx, r0]
    · intro i h2 h31
      simp only [upd, if_true]
      exact hspec i h2 h31
    · intro i h2 h31 hadd
      simp only [upd, if_true]
      rw [hspec i h2 h31]
      simp only [config_ep_ctx_spec, if_pos hadd]
      exact field_replace_epstate _ _ (by decide)
    · intro i h2 h31 hadd hdrop
      simp only [upd, if_true]
      rw [hspec i h2 h31]
      have hadd0 : ¬ (sc.inctxmem (MASK_NOT_F trb.qwTrb0)).ctx_input.dwInCtx1 &&& (1 <<< i) ≠ 0 := by
        simp [hadd]
      simp only [config_ep_ctx_spec, if_neg hadd0, if_pos hdrop]
      exact and_not7_or_epstate _ _ (by decide)
    · simp only [upd, if_true]
      exact r4 1 (by rw [hmem]; omega)
    · simp [upd]
    · simp only [upd, if_true]
      exact field_replace_slot_state _ _ (by decide)

set_option maxRecDepth 100000 in
/-- Witness of C16 as amended: the Addressed tablet in slot 1; CONFIGURE_EP with the input
context at `0x4800` (endpoint 2 added, no streams) returns SUCCESS, leaves the slot
Configured and endpoint 2 Running. -/
theorem config_ep_configures_witness :
    ∃ sc1, pci_xhci_cmd_config_ep sc_cfg 1 (trb_configure_ep 0x4800 1) =
        some (sc1, XHCI_TRB_ERROR_SUCCESS) ∧
      (sc1.devs 0).dev_slotstate = XHCI_ST_CONFIGURED ∧
      XHCI_EPCTX_0_EPSTATE_GET ((sc1.devctxmem 0x7000).ctx_ep 2).dwEpCtx0 =
        XHCI_ST_EPCTX_RUNNING := by
  obtain ⟨sc1, h1, -, h3, -, -, h6, -⟩ :=
    (config_ep_configures sc_cfg 1 0 (trb_configure_ep 0x4800 1) _ rfl (by decide)
      (by decide)).2 0x7000 (by decide) (by decide)
      (fun i h2 h31 _ hp => by interval_cases i <;> exact absurd hp (by decide))
      (fun i h2 h31 hdrop _ => by interval_cases i <;> exact absurd hdrop (by decide))
  exact ⟨sc1, h1, h6, h3 2 (by decide) (by decide) (by decide)⟩

set_option maxRecDepth 100000 in
/-- C16 fails as stated.  (1) The tablet in slot 1 is Configured and its endpoint 2 has stream
rings (after a CONFIGURE_EP that added endpoint 2 with MaxPStreams 1); a second CONFIGURE_EP
without DCEP that adds endpoint 2 with MaxPStreams 1 again, without dropping it, trips the
assertion of `pci_xhci_init_ep` and aborts the emulator instead of returning SUCCESS.
(2) The tablet in slot 1 is Configured, its endpoint 2 was added without streams (its ring
storage holds the ring address `0x9000`) and the guest has set MaxPStreams to 1 in the output
context of endpoint 2; a CONFIGURE_EP without DCEP that drops endpoint 2 passes the ring
address to `free` and does not return SUCCESS. -/
theorem config_ep_configures_counterexample :
    ((pci_xhci_cmd_config_ep sc_cfg 1 (trb_configure_ep 0x4900 1)).map (fun r => r.2) =
        some XHCI_TRB_ERROR_SUCCESS ∧
      sc_cfg_streams.slots 1 = some 0 ∧
      (sc_cfg_streams.devs 0).dev_slotstate = XHCI_ST_CONFIGURED ∧
      (trb_configure_ep 0x4900 1).dwTrb3 &&& XHCI_TRB_3_DCEP_BIT = 0 ∧
      (sc_cfg_streams.inctxmem 0x4900).ctx_input.dwInCtx1 &&& (1 <<< 2) ≠ 0 ∧
      (sc_cfg_streams.inctxmem 0x4900).ctx_input.dwInCtx0 = 0 ∧
      XHCI_EPCTX_0_MAXP_STREAMS_GET ((sc_cfg_streams.inctxmem 0x4900).ctx_ep 2).dwEpCtx0 = 1 ∧
      ((sc_cfg_streams.devs 0).eps 2).ep_sctx_trbs.isSome = true ∧
      (pci_xhci_cmd_config_ep sc_cfg_streams 1 (trb_configure_ep 0x4900 1)).isNone = true) ∧
    (sc_cfg_ring_as_streams.slots 1 = some 0 ∧
      (sc_cfg_ring_as_streams.devs 0).dev_slotstate = XHCI_ST_CONFIGURED ∧
      (sc_cfg_ring_as_streams.devs 0).dev_ctx = some 0x7000 ∧
      (trb_configure_ep 0x4B00 1).dwTrb3 &&& XHCI_TRB_3_DCEP_BIT = 0 ∧
      (sc_cfg_ring_as_streams.inctxmem 0x4B00).ctx_input.dwInCtx0 = 1 <<< 2 ∧
      (sc_cfg_ring_as_streams.inctxmem 0x4B00).ctx_input.dwInCtx1 = 1 ∧
      XHCI_EPCTX_0_MAXP_STREAMS_GET
        ((sc_cfg_ring_as_streams.devctxmem 0x7000).ctx_ep 2).dwEpCtx0 = 1 ∧
      ((sc_cfg_ring_as_streams.devs 0).eps 2).ep_sctx_trbs.isNone = true ∧
      ((sc_cfg_ring_as_streams.devs 0).eps 2).ep_ringaddr = 0x9000 ∧
      (pci_xhci_cmd_config_ep sc_cfg_ring_as_streams 1 (trb_configure_ep 0x4B00 1)).isNone =
        true) := by
  decide

/-! ## Slot states -/

theorem slot_frame_refl (sc : pci_xhci_softc) : slot_frame sc sc := ⟨rfl, rfl, fun _ => rfl⟩

theorem slot_frame_trans {a b c : pci_xhci_softc} (h1 : slot_frame a b) (h2 : slot_frame b c) :
    slot_frame a c :=
  ⟨h2.1.trans h1.1, h2.2.1.trans h1.2.1, fun e => (h2.2.2 e).trans (h1.2.2 e)⟩

/-- A store to a device instance that keeps its slot state. -/
theorem slot_frame_upd_dev (sc r : pci_xhci_softc) (d : Nat) (dev : pci_xhci_dev_emu)
    (hd : r.devs = upd sc.devs d dev) (hs : r.slots = sc.slots)
    (hn : r.devs_next = sc.devs_next)
    (h : dev.dev_slotstate = (sc.devs d).dev_slotstate) : slot_frame sc r := by
  refine ⟨hs, hn, fun e => ?_⟩
  rw [hd]
  by_cases he : e = d
  · subst he; simp [upd, h]
  · simp [upd, he]

theorem init_ep_slot_frame (sc : pci_xhci_softc) (d a epid : Nat) (r : pci_xhci_softc)
    (h : pci_xhci_init_ep sc d a epid = some r) : slot_frame sc r := by
  obtain ⟨-, k2, -, -, -, -, -, -, -, -, -, k12, -, -, k15, -⟩ := init_ep_keeps sc d a epid r h
  refine ⟨k2, ?_, fun e => ?_⟩
  · unfold pci_xhci_init_ep at h
    simp only at h
    split at h
    · cases h
    · cases h; rfl
  · by_cases he : e = d
    · subst he; exact k12
    · rw [k15 e he]

theorem disable_ep_slot_frame (sc : pci_xhci_softc) (d epid : Nat) (r : pci_xhci_softc)
    (h : pci_xhci_disable_ep sc d epid = some r) : slot_frame sc r := by
  unfold pci_xhci_disable_ep at h
  simp only at h
  split at h
  · cases h
  · split at h
    · cases h
    · cases h
      exact slot_frame_upd_dev sc _ _ _ rfl rfl rfl rfl

theorem disable_eps_slot_frame (l : List Nat) (sc : pci_xhci_softc) (d : Nat)
    (r : pci_xhci_softc) (h : disable_eps sc d l = some r) : slot_frame sc r := by
  induction l generalizing sc with
  | nil =>
    unfold disable_eps at h
    cases h; exact slot_frame_refl _
  | cons i rest ih =>
    unfold disable_eps at h
    split at h
    · cases h
    · rename_i sc1 h1
      exact slot_frame_trans (disable_ep_slot_frame sc d i sc1 h1) (ih sc1 h)

theorem config_ep_loop_slot_frame (ic : xhci_input_dev_ctx) (d a : Nat) (l : List Nat)
    (sc : pci_xhci_softc) (r : pci_xhci_softc)
    (h : config_ep_loop ic d a sc l = some r) : slot_frame sc r := by
  induction l generalizing sc with
  | nil =>
    unfold config_ep_loop at h
    cases h; exact slot_frame_refl _
  | cons i rest ih =>
    unfold config_ep_loop at h
    simp only at h
    split at h
    · cases h
    · rename_i sc1 h1
      have f1 : slot_frame sc sc1 := by
        split at h1
        · exact disable_ep_slot_frame sc d i sc1 h1
        · cases h1; exact slot_frame_refl _
      split at h
      · split at h
        · cases h
        · rename_i sc3 h3
          have f3 := init_ep_slot_frame _ d a i sc3 h3
          have f4 := ih _ h
          exact slot_frame_trans f1
            (slot_frame_trans (slot_frame_trans ⟨rfl, rfl, fun _ => rfl⟩ f3)
              (slot_frame_trans ⟨rfl, rfl, fun _ => rfl⟩ f4))
      · exact slot_frame_trans f1 (ih sc1 h)

theorem reset_ep_slot_frame (sc : pci_xhci_softc) (slot : Nat) (trb : xhci_trb)
    (r : pci_xhci_softc × Nat) (h : pci_xhci_cmd_reset_ep sc slot trb = some r) :
    slot_frame sc r.1 := by
  unfold pci_xhci_cmd_reset_ep at h
  simp only at h
  split at h
  · cases h
  · split at h
    · cases h; exact slot_frame_refl _
    · split at h
      · cases h
      · split at h <;>
          (cases h; exact slot_frame_upd_dev sc _ _ _ rfl rfl rfl rfl)

theorem set_tr_slot_frame (sc : pci_xhci_softc) (slot : Nat) (trb : xhci_trb)
    (r : pci_xhci_softc × Nat) (h : pci_xhci_cmd_set_tr sc slot trb = some r) :
    slot_frame sc r.1 := by
  unfold pci_xhci_cmd_set_tr at h
  split at h
  · cases h
  · simp only at h
    split at h
    · cases h; exact slot_frame_refl _
    · split at h
      · cases h
      · split at h
        · cases h; exact slot_frame_refl _
        · split at h
          · split at h
            · cases h
            · rename_i sc1 h1
              cases h
              have f1 : slot_frame sc sc1 := by
                split at h1
                · cases h1; exact slot_frame_refl _
                · split at h1
                  · cases h1; exact slot_frame_upd_dev sc _ _ _ rfl rfl rfl rfl
                  · cases h1
              exact slot_frame_trans f1 ⟨rfl, rfl, fun _ => rfl⟩
          · cases h; exact slot_frame_upd_dev sc _ _ _ rfl rfl rfl rfl

theorem eval_ctx_slot_frame (sc : pci_xhci_softc) (slot : Nat) (trb : xhci_trb)
    (r : pci_xhci_softc × Nat) (h : pci_xhci_cmd_eval_ctx sc slot trb = some r) :
    slot_frame sc r.1 := by
  unfold pci_xhci_cmd_eval_ctx at h
  simp only at h
  split at h
  · cases h; exact slot_frame_refl _
  · split at h
    · cases h; exact ⟨rfl, rfl, fun _ => rfl⟩
    · cases h

theorem enable_slot_find_dev_disabled (sc : pci_xhci_softc) (l : List Nat) (i d : Nat)
    (h : enable_slot_find_dev sc l = some (i, d)) :
    (sc.devs d).dev_slotstate = XHCI_ST_DISABLED := by
  induction l with
  | nil => simp [enable_slot_find_dev] at h
  | cons j rest ih =>
    unfold enable_slot_find_dev at h
    split at h
    · rename_i d0 hd0
      split at h
      · rename_i hst
        cases h
        exact hst
      · exact ih h
    · exact ih h

theorem option_eta {α : Type} (o : Option α) (d : α) (h : o.isSome = true) :
    o = some (o.getD d) := by
  cases o with
  | none => simp at h
  | some x => rfl

/-- Whenever RESET_DEVICE completes with SUCCESS, the trailing `pci_xhci_reset_slot` has left
the device of the slot in state Disabled. -/
theorem reset_device_ends_disabled (sc : pci_xhci_softc) (slot d : Nat)
    (r : pci_xhci_softc × Nat) (h : pci_xhci_cmd_reset_device sc slot = some r)
    (hok : r.2 = XHCI_TRB_ERROR_SUCCESS) (hd : sc.slots slot = some d) :
    (r.1.devs d).dev_slotstate = XHCI_ST_DISABLED := by
  unfold pci_xhci_cmd_reset_device at h
  split at h
  · cases h; simp only at hok; exact absurd hok (by decide)
  · simp only [hd] at h
    split at h
    · cases h; simp only at hok; exact absurd hok (by decide)
    · split at h
      · cases h
        simp only [pci_xhci_reset_slot, hd, upd, if_true]
      · cases h

set_option maxRecDepth 100000 in
/-- C18 at the failing input: the tablet in slot 1 is Addressed; RESET_DEVICE for slot 1
returns SUCCESS, the output slot context holds slot state Default and the device address of
the controller is 0, but the per-slot state `dev_slotstate` is Disabled, not Default. -/
theorem reset_device_slotstate_disabled :
    sc_tablet_addressed.slots 1 = some 0 ∧
    (sc_tablet_addressed.devs 0).dev_slotstate = XHCI_ST_ADDRESSED ∧
    (pci_xhci_cmd_reset_device sc_tablet_addressed 1).map
        (fun r => (r.2, (r.1.devs 0).dev_slotstate, (r.1.devs 0).hci_address,
          ((r.1.devctxmem 0x7000).ctx_slot.dwSctx3 >>> 27) &&& 0x1F)) =
      some (XHCI_TRB_ERROR_SUCCESS, XHCI_ST_DISABLED, 0, XHCI_ST_SLCTX_DEFAULT) ∧
    XHCI_ST_DISABLED ≠ XHCI_ST_DEFAULT := by
  decide

/-! ## EVALUATE_CTX -/

theorem testBit_NOT32 (m i : Nat) :
    (NOT32 m).testBit i = (decide (i < 32) && !m.testBit i) := by
  unfold NOT32
  have e : (0xFFFFFFFF : Nat) = 2 ^ 32 - 1 := by decide
  rw [Nat.testBit_xor, Nat.testBit_and, e, Nat.testBit_two_pow_sub_one]
  by_cases h : i < 32 <;> simp [h]

/-- `FIELD_COPY(a,b,m,s)` bit by bit, for a 32-bit `a`: inside the field `m << s` (as a 32-bit
mask) the bits are those of `b`, outside they are those of `a`. -/
theorem field_copy_testBit (a b m s i : Nat) (ha : a < 2 ^ 32) :
    (FIELD_COPY a b m s).testBit i =
      if ((m <<< s) % 2 ^ 32).testBit i then b.testBit i else a.testBit i := by
  unfold FIELD_COPY
  rw [Nat.testBit_or, Nat.testBit_and, Nat.testBit_and, testBit_NOT32, Nat.testBit_mod_two_pow]
  by_cases h : i < 32
  · cases hm : (m <<< s).testBit i <;> simp [h, hm]
  · have h0 := testBit_eq_false_of_lt_two_pow a 32 i ha (by omega)
    simp [h, h0]

theorem testBit_field_FFFF_0 (i : Nat) :
    ((0xFFFF <<< 0) % 2 ^ 32).testBit i = decide (i < 16) := by
  have e : ((0xFFFF <<< 0) % 2 ^ 32 : Nat) = 2 ^ 16 - 1 := by decide
  rw [e, Nat.testBit_two_pow_sub_one]

theorem testBit_field_3FF_22 (i : Nat) :
    ((0x3FF <<< 22) % 2 ^ 32).testBit i = (decide (22 ≤ i) && decide (i < 32)) := by
  have e : ((0x3FF <<< 22) % 2 ^ 32 : Nat) = (2 ^ 10 - 1) <<< 22 := by decide
  rw [e, Nat.testBit_shiftLeft, Nat.testBit_two_pow_sub_one]
  rw [Bool.eq_iff_iff]; simp; omega

theorem testBit_field_FFFF_16 (i : Nat) :
    ((0xFFFF <<< 16) % 2 ^ 32).testBit i = (decide (16 ≤ i) && decide (i < 32)) := by
  have e : ((0xFFFF <<< 16) % 2 ^ 32 : Nat) = (2 ^ 16 - 1) <<< 16 := by decide
  rw [e, Nat.testBit_shiftLeft, Nat.testBit_two_pow_sub_one]
  rw [Bool.eq_iff_iff]; simp; omega

/-- C19, as the code has it: EVALUATE_CTX returns the TRB error and the state as it was when
the drop mask of the input context is non-zero or add-mask bits 0..1 are both clear.
Otherwise, for a slot of which `pci_xhci_get_dev_ctx` yields the output device context (at
`a`, with 32-bit dwords), it returns SUCCESS, nothing but the guest memory of device contexts
changes, and there only the context at `a`: of the slot context only dwords 1 and 2, of the
endpoint contexts only dword 1 of EP0; bit by bit, slot-context dword 1 bits 0..15 and dword 2
bits 22..31 are those of the input slot context when add bit 0 is set, EP0-context dword 1
bits 16..31 are those of the input EP0 context when add bit 1 is set, and every other bit is
as it was. -/
theorem eval_ctx_frame_effect (sc : pci_xhci_softc) (slot : Nat) (trb : xhci_trb)
    (ic : xhci_input_dev_ctx) (hic : ic = sc.inctxmem (MASK_NOT_F trb.qwTrb0)) :
    (ic.ctx_input.dwInCtx0 ≠ 0 ∨ ic.ctx_input.dwInCtx1 &&& 0x03 = 0 →
      pci_xhci_cmd_eval_ctx sc slot trb = some (sc, XHCI_TRB_ERROR_TRB)) ∧
    (∀ a, ic.ctx_input.dwInCtx0 = 0 → ic.ctx_input.dwInCtx1 &&& 0x03 ≠ 0 →
      pci_xhci_get_dev_ctx sc slot = some (some a) →
      (sc.devctxmem a).ctx_slot.dwSctx1 < 2 ^ 32 →
      (sc.devctxmem a).ctx_slot.dwSctx2 < 2 ^ 32 →
      ((sc.devctxmem a).ctx_ep 1).dwEpCtx1 < 2 ^ 32 →
      ∃ sc1, pci_xhci_cmd_eval_ctx sc slot trb = some (sc1, XHCI_TRB_ERROR_SUCCESS) ∧
        sc1 = { sc with devctxmem := sc1.devctxmem } ∧
        (∀ b, b ≠ a → sc1.devctxmem b = sc.devctxmem b) ∧
        (∀ i, i ≠ 1 → (sc1.devctxmem a).ctx_ep i = (sc.devctxmem a).ctx_ep i) ∧
        (sc1.devctxmem a).ctx_slot =
          { (sc.devctxmem a).ctx_slot with
            dwSctx1 := (sc1.devctxmem a).ctx_slot.dwSctx1
            dwSctx2 := (sc1.devctxmem a).ctx_slot.dwSctx2 } ∧
        (sc1.devctxmem a).ctx_ep 1 =
          { (sc.devctxmem a).ctx_ep 1 with
            dwEpCtx1 := ((sc1.devctxmem a).ctx_ep 1).dwEpCtx1 } ∧
        (∀ i, (sc1.devctxmem a).ctx_slot.dwSctx1.testBit i =
          if ic.ctx_input.dwInCtx1 &&& 0x01 ≠ 0 ∧ i < 16 then ic.ctx_slot.dwSctx1.testBit i
          else (sc.devctxmem a).ctx_slot.dwSctx1.testBit i) ∧
        (∀ i, (sc1.devctxmem a).ctx_slot.dwSctx2.testBit i =
          if ic.ctx_input.dwInCtx1 &&& 0x01 ≠ 0 ∧ 22 ≤ i ∧ i < 32 then
            ic.ctx_slot.dwSctx2.testBit i
          else (sc.devctxmem a).ctx_slot.dwSctx2.testBit i) ∧
        (∀ i, ((sc1.devctxmem a).ctx_ep 1).dwEpCtx1.testBit i =
          if ic.ctx_input.dwInCtx1 &&& 0x02 ≠ 0 ∧ 16 ≤ i ∧ i < 32 then
            (ic.ctx_ep 1).dwEpCtx1.testBit i
          else ((sc.devctxmem a).ctx_ep 1).dwEpCtx1.testBit i)) := by
  subst hic
  constructor
  · intro h
    unfold pci_xhci_cmd_eval_ctx
    simp only [h, if_true]
  · intro a h0 h1 hg b1 b2 b3
    have hn : ¬ ((sc.inctxmem (MASK_NOT_F trb.qwTrb0)).ctx_input.dwInCtx0 ≠ 0 ∨
        (sc.inctxmem (MASK_NOT_F trb.qwTrb0)).ctx_input.dwInCtx1 &&& 0x03 = 0) := by
      rw [h0]; simp [h1]
    unfold pci_xhci_cmd_eval_ctx
    simp only [if_neg hn, hg]
    refine ⟨_, rfl, rfl, ?_, ?_, ?_, ?_, ?_, ?_, ?_⟩
    · intro b hb
      simp only [upd, if_neg hb]
    · intro i hi
      simp only [upd, if_true, if_neg hi]
    · simp only [upd, if_true]
      split <;> rfl
    · simp only [upd, if_true]
      split <;> rfl
    · intro i
      simp only [upd, if_true]
      by_cases hadd : (sc.inctxmem (MASK_NOT_F trb.qwTrb0)).ctx_input.dwInCtx1 &&& 0x01 ≠ 0
      · rw [if_pos hadd]
        simp only [field_copy_testBit _ _ _ _ _ b1, testBit_field_FFFF_0, hadd, true_and,
          decide_eq_true_eq, ne_eq, not_false_eq_true]
      · rw [if_neg hadd]
        simp only [hadd, false_and, if_false]
    · intro i
      simp only [upd, if_true]
      by_cases hadd : (sc.inctxmem (MASK_NOT_F trb.qwTrb0)).ctx_input.dwInCtx1 &&& 0x01 ≠ 0
      · rw [if_pos hadd]
        simp only [field_copy_testBit _ _ _ _ _ b2, testBit_field_3FF_22, hadd, true_and,
          Bool.and_eq_true, decide_eq_true_eq, ne_eq, not_false_eq_true]
      · rw [if_neg hadd]
        simp only [hadd, false_and, if_false]
    · intro i
      simp only [upd, if_true]
      by_cases hadd : (sc.inctxmem (MASK_NOT_F trb.qwTrb0)).ctx_input.dwInCtx1 &&& 0x02 ≠ 0
      · rw [if_pos hadd]
        simp only [field_copy_testBit _ _ _ _ _ b3, testBit_field_FFFF_16, hadd, true_and,
          Bool.and_eq_true, decide_eq_true_eq, ne_eq, not_false_eq_true]
      · rw [if_neg hadd]
        simp only [hadd, false_and, if_false]

set_option maxRecDepth 100000 in
/-- Witness of C19 as amended: the Addressed tablet in slot 1; EVALUATE_CTX with the input
context at `0x4A00` returns SUCCESS, the low 16 bits of slot-context dword 1 are those of the
input (`0x1234`) and bit 16 of it is as it was. -/
theorem eval_ctx_frame_effect_witness :
    ∃ sc1, pci_xhci_cmd_eval_ctx sc_eval 1 (trb_cmd XHCI_TRB_TYPE_EVALUATE_CTX 0x4A00 1) =
        some (sc1, XHCI_TRB_ERROR_SUCCESS) ∧
      (∀ i, i < 16 → (sc1.devctxmem 0x7000).ctx_slot.dwSctx1.testBit i =
        (0x1234).testBit i) ∧
      (sc1.devctxmem 0x7000).ctx_slot.dwSctx1.testBit 16 = true ∧
      (sc1.devctxmem 0x7000).ctx_slot.dwSctx1.testBit 17 = false := by
  obtain ⟨sc1, h1, -, -, -, -, -, h7, -, -⟩ :=
    (eval_ctx_frame_effect sc_eval 1 (trb_cmd XHCI_TRB_TYPE_EVALUATE_CTX 0x4A00 1) _ rfl).2
      0x7000 (by decide) (by decide) (by decide) (by decide) (by decide) (by decide)
  refine ⟨sc1, h1, ?_, ?_, ?_⟩
  · intro i hi
    rw [h7 i, if_pos ⟨by decide, hi⟩]
    interval_cases i <;> decide
  · rw [h7 16, if_neg (by decide)]; decide
  · rw [h7 17, if_neg (by decide)]; decide

set_option maxRecDepth 100000 in
/-- C19 fails as stated: EVALUATE_CTX for slot 0 with a well-formed input context (drop mask
0, add bits 0 and 1 set) does not return SUCCESS: slot 0 is outside the range that
`pci_xhci_get_dev_ctx` asserts (`slot > 0 && slot <= sc->ndevices`), and the emulator
aborts. -/
theorem eval_ctx_frame_effect_counterexample :
    (sc_eval.inctxmem 0x4A00).ctx_input.dwInCtx0 = 0 ∧
    (sc_eval.inctxmem 0x4A00).ctx_input.dwInCtx1 &&& 0x03 = 0x03 ∧
    MASK_NOT_F (trb_cmd XHCI_TRB_TYPE_EVALUATE_CTX 0x4A00 0).qwTrb0 = 0x4A00 ∧
    pci_xhci_get_dev_ctx sc_eval 0 = none ∧
    pci_xhci_cmd_eval_ctx sc_eval 0 (trb_cmd XHCI_TRB_TYPE_EVALUATE_CTX 0x4A00 0) = none := by
  refine ⟨by decide, by decide, by decide, by decide, ?_⟩
  have h : (pci_xhci_cmd_eval_ctx sc_eval 0
      (trb_cmd XHCI_TRB_TYPE_EVALUATE_CTX 0x4A00 0)).isNone = true := by
    decide
  exact Option.isNone_iff_eq_none.mp h

/-! ## RESET_EP and STOP_EP -/

theorem testBit_7 (i : Nat) : Nat.testBit 7 i = decide (i < 3) := by
  have h : (7 : Nat) = 2 ^ 3 - 1 := by decide
  rw [h, Nat.testBit_two_pow_sub_one]

theorem testBit_3 (i : Nat) : Nat.testBit 3 i = decide (i < 2) := by
  have h : (3 : Nat) = 2 ^ 2 - 1 := by decide
  rw [h, Nat.testBit_two_pow_sub_one]

theorem testBit_1 (i : Nat) : Nat.testBit 1 i = decide (i = 0) := by
  have h : (1 : Nat) = 2 ^ 1 - 1 := by decide
  rw [h, Nat.testBit_two_pow_sub_one]
  rw [Bool.eq_iff_iff]; simp

/-- Writing the endpoint state Stopped into dword 0 of an endpoint context leaves its
MaxPStreams field as it was. -/
theorem maxp_streams_stopped (x : Nat) :
    XHCI_EPCTX_0_MAXP_STREAMS_GET ((x &&& NOT32 0x7) ||| XHCI_ST_EPCTX_STOPPED) =
      XHCI_EPCTX_0_MAXP_STREAMS_GET x := by
  unfold XHCI_EPCTX_0_MAXP_STREAMS_GET XHCI_ST_EPCTX_STOPPED
  apply Nat.eq_of_testBit_eq
  intro i
  have e : (0x1F : Nat) = 2 ^ 5 - 1 := by decide
  rw [Nat.testBit_and, Nat.testBit_and, Nat.testBit_shiftRight, Nat.testBit_shiftRight,
    Nat.testBit_or, Nat.testBit_and, testBit_NOT32, testBit_7, testBit_3, e,
    Nat.testBit_two_pow_sub_one]
  by_cases h : i < 5
  · have h1 : 10 + i < 32 := by omega
    have h2 : ¬ 10 + i < 3 := by omega
    have h3 : ¬ 10 + i < 2 := by omega
    simp [h, h1, h2, h3]
  · simp [h]

theorem mask_not_f_or_bit (r c : Nat) :
    MASK_NOT_F (MASK_NOT_F r ||| (c &&& 1)) = MASK_NOT_F r := by
  unfold MASK_NOT_F
  apply Nat.eq_of_testBit_eq
  intro i
  rw [Nat.testBit_and, Nat.testBit_or, Nat.testBit_and, Nat.testBit_and, testBit_FFF0,
    testBit_1]
  by_cases h4 : 4 ≤ i
  · have h0 : ¬ i = 0 := by omega
    simp [h0]
  · simp [h4]

theorem dcs_or_bit (r c : Nat) :
    XHCI_EPCTX_2_DCS_GET (MASK_NOT_F r ||| (c &&& 1)) = c &&& 1 := by
  unfold XHCI_EPCTX_2_DCS_GET MASK_NOT_F
  apply Nat.eq_of_testBit_eq
  intro i
  rw [Nat.testBit_and, Nat.testBit_or, Nat.testBit_and, Nat.testBit_and, testBit_FFF0,
    testBit_1]
  by_cases h0 : i = 0
  · subst h0; simp
  · simp [h0]

theorem mask_not_f_idem (p : Nat) : MASK_NOT_F (MASK_NOT_F p) = MASK_NOT_F p := by
  unfold MASK_NOT_F
  rw [Nat.and_assoc, Nat.and_self]

/-- RESET_EP and STOP_EP for a slot with a bound device and an endpoint id outside 1..31
return the TRB error and the state as it was. -/
theorem reset_ep_bad_epid (sc : pci_xhci_softc) (slot d : Nat) (trb : xhci_trb)
    (hs : sc.slots slot = some d)
    (he : XHCI_TRB_3_EP_GET trb.dwTrb3 < 1 ∨ XHCI_TRB_3_EP_GET trb.dwTrb3 > 31) :
    pci_xhci_cmd_reset_ep sc slot trb = some (sc, XHCI_TRB_ERROR_TRB) := by
  unfold pci_xhci_cmd_reset_ep
  simp only [hs, if_pos he]

/-- RESET_EP and STOP_EP for a slot with a bound device that has its device context at `a`,
with an endpoint id in 1..31 whose context has MaxPStreams 0: the command returns (with
SUCCESS or, when the reset callback of the device fails, ENDP_NOT_ON), the endpoint state is
Stopped, and the TR dequeue field of the endpoint context is the cached ring address and
cycle state; the slot table, the device context pointer and the cached ring are as before. -/
theorem reset_ep_stops (sc : pci_xhci_softc) (slot d a : Nat) (trb : xhci_trb)
    (hs : sc.slots slot = some d) (hc : (sc.devs d).dev_ctx = some a)
    (h1 : 1 ≤ XHCI_TRB_3_EP_GET trb.dwTrb3) (h31 : XHCI_TRB_3_EP_GET trb.dwTrb3 ≤ 31)
    (hm : XHCI_EPCTX_0_MAXP_STREAMS_GET
      ((sc.devctxmem a).ctx_ep (XHCI_TRB_3_EP_GET trb.dwTrb3)).dwEpCtx0 = 0) :
    ∃ sc1 err, pci_xhci_cmd_reset_ep sc slot trb = some (sc1, err) ∧
      (err = XHCI_TRB_ERROR_SUCCESS ∨ err = XHCI_TRB_ERROR_ENDP_NOT_ON) ∧
      XHCI_EPCTX_0_EPSTATE_GET
        ((sc1.devctxmem a).ctx_ep (XHCI_TRB_3_EP_GET trb.dwTrb3)).dwEpCtx0 =
          XHCI_ST_EPCTX_STOPPED ∧
      ((sc1.devctxmem a).ctx_ep (XHCI_TRB_3_EP_GET trb.dwTrb3)).qwEpCtx2 =
        ((sc.devs d).eps (XHCI_TRB_3_EP_GET trb.dwTrb3)).ep_ringaddr |||
          ((sc.devs d).eps (XHCI_TRB_3_EP_GET trb.dwTrb3)).ep_ccs ∧
      sc1.slots = sc.slots ∧ (sc1.devs d).dev_ctx = some a ∧
      ((sc1.devs d).eps (XHCI_TRB_3_EP_GET trb.dwTrb3)).ep_ringaddr =
        ((sc.devs d).eps (XHCI_TRB_3_EP_GET trb.dwTrb3)).ep_ringaddr ∧
      ((sc1.devs d).eps (XHCI_TRB_3_EP_GET trb.dwTrb3)).ep_ccs =
        ((sc.devs d).eps (XHCI_TRB_3_EP_GET trb.dwTrb3)).ep_ccs := by
  have hbad : ¬ (XHCI_TRB_3_EP_GET trb.dwTrb3 < 1 ∨ XHCI_TRB_3_EP_GET trb.dwTrb3 > 31) := by
    omega
  have hst : XHCI_ST_EPCTX_STOPPED ≤ 7 := by decide
  unfold pci_xhci_cmd_reset_ep
  simp only [hs, hc, if_neg hbad, maxp_streams_stopped, hm, if_true]
  split
  · refine ⟨_, _, rfl, Or.inr rfl, ?_, ?_, rfl, ?_, ?_, ?_⟩
    · simp only [upd, set_ctx_ep, if_true]
      exact and_not7_or_epstate _ _ hst
    · simp only [upd, set_ctx_ep, if_true]
    · simp only [upd, set_devep, if_true, hc]
    · simp only [upd, set_devep, if_true]
    · simp only [upd, set_devep, if_true]
  · refine ⟨_, _, rfl, Or.inl rfl, ?_, ?_, rfl, ?_, ?_, ?_⟩
    · simp only [upd, set_ctx_ep, if_true]
      exact and_not7_or_epstate _ _ hst
    · simp only [upd, set_ctx_ep, if_true]
    · simp only [upd, set_devep, if_true, hc]
    · simp only [upd, set_devep, if_true]
    · simp only [upd, set_devep, if_true]

/-- A SET_TR_DEQUEUE that completes with SUCCESS on an endpoint whose context has MaxPStreams
0: the endpoint id is in 1..31, the cached ring address is the parameter with its low four
bits cleared, the cached cycle state is bit 0 of the parameter, and the endpoint context
keeps MaxPStreams 0. -/
theorem set_tr_no_streams (sc sc1 : pci_xhci_softc) (slot d a : Nat) (trb : xhci_trb)
    (hs : sc.slots slot = some d) (hc : (sc.devs d).dev_ctx = some a)
    (hm : XHCI_EPCTX_0_MAXP_STREAMS_GET
      ((sc.devctxmem a).ctx_ep (XHCI_TRB_3_EP_GET trb.dwTrb3)).dwEpCtx0 = 0)
    (h : pci_xhci_cmd_set_tr sc slot trb = some (sc1, XHCI_TRB_ERROR_SUCCESS)) :
    1 ≤ XHCI_TRB_3_EP_GET trb.dwTrb3 ∧ XHCI_TRB_3_EP_GET trb.dwTrb3 ≤ 31 ∧
    sc1.slots = sc.slots ∧ (sc1.devs d).dev_ctx = some a ∧
    ((sc1.devs d).eps (XHCI_TRB_3_EP_GET trb.dwTrb3)).ep_ringaddr = MASK_NOT_F trb.qwTrb0 ∧
    ((sc1.devs d).eps (XHCI_TRB_3_EP_GET trb.dwTrb3)).ep_ccs = trb.qwTrb0 &&& 1 ∧
    XHCI_EPCTX_0_MAXP_STREAMS_GET
      ((sc1.devctxmem a).ctx_ep (XHCI_TRB_3_EP_GET trb.dwTrb3)).dwEpCtx0 = 0 ∧
    ((sc1.devctxmem a).ctx_ep (XHCI_TRB_3_EP_GET trb.dwTrb3)).qwEpCtx2 =
      MASK_NOT_F trb.qwTrb0 := by
  have hm0 : ¬ XHCI_EPCTX_0_MAXP_STREAMS_GET
      ((sc.devctxmem a).ctx_ep (XHCI_TRB_3_EP_GET trb.dwTrb3)).dwEpCtx0 > 0 := by omega
  unfold pci_xhci_cmd_set_tr at h
  simp only [hs, hc] at h
  split at h
  · simp only [Option.some.injEq, Prod.mk.injEq] at h
    exact absurd h.2 (by decide)
  · rename_i hep
    split at h
    · simp only [Option.some.injEq, Prod.mk.injEq] at h
      exact absurd h.2 (by decide)
    · simp only [if_neg hm0, Option.some.injEq, Prod.mk.injEq, and_true] at h
      subst h
      refine ⟨by omega, by omega, rfl, ?_, ?_, ?_, ?_, ?_⟩
      · simp only [upd, set_devep, if_true, hc]
      · simp only [upd, set_devep, if_true]
        exact mask_not_f_idem _
      · simp only [upd, set_devep, if_true]
      · simp only [upd, set_ctx_ep, if_true, maxp_streams_stopped]
        exact hm
      · simp only [upd, set_ctx_ep, if_true]

/-- SET_TR_DEQUEUE followed by RESET_EP or STOP_EP: after a SET_TR_DEQUEUE with parameter `p`
that completes with SUCCESS on an endpoint whose context has MaxPStreams 0, RESET_EP or
STOP_EP for the same endpoint returns and leaves in the endpoint context the dequeue pointer
`p & ~0xF` with DCS bit 0 of `p`, and the endpoint state Stopped. -/
theorem set_tr_then_reset_ep (sc sc1 : pci_xhci_softc) (slot d a : Nat) (trb_s trb : xhci_trb)
    (hs : sc.slots slot = some d) (hc : (sc.devs d).dev_ctx = some a)
    (he : XHCI_TRB_3_EP_GET trb.dwTrb3 = XHCI_TRB_3_EP_GET trb_s.dwTrb3)
    (hm : XHCI_EPCTX_0_MAXP_STREAMS_GET
      ((sc.devctxmem a).ctx_ep (XHCI_TRB_3_EP_GET trb_s.dwTrb3)).dwEpCtx0 = 0)
    (h : pci_xhci_cmd_set_tr sc slot trb_s = some (sc1, XHCI_TRB_ERROR_SUCCESS)) :
    ∃ sc2 err, pci_xhci_cmd_reset_ep sc1 slot trb = some (sc2, err) ∧
      XHCI_EPCTX_0_EPSTATE_GET
        ((sc2.devctxmem a).ctx_ep (XHCI_TRB_3_EP_GET trb.dwTrb3)).dwEpCtx0 =
          XHCI_ST_EPCTX_STOPPED ∧
      MASK_NOT_F ((sc2.devctxmem a).ctx_ep (XHCI_TRB_3_EP_GET trb.dwTrb3)).qwEpCtx2 =
        MASK_NOT_F trb_s.qwTrb0 ∧
      XHCI_EPCTX_2_DCS_GET ((sc2.devctxmem a).ctx_ep (XHCI_TRB_3_EP_GET trb.dwTrb3)).qwEpCtx2 =
        trb_s.qwTrb0 &&& 1 := by
  obtain ⟨e1, e31, s1, s2, s3, s4, s5, -⟩ := set_tr_no_streams sc sc1 slot d a trb_s hs hc hm h
  rw [← he] at e1 e31 s3 s4 s5
  obtain ⟨sc2, err, r1, -, r3, r4, -⟩ :=
    reset_ep_stops sc1 slot d a trb (by rw [s1]; exact hs) s2 e1 e31 s5
  refine ⟨sc2, err, r1, r3, ?_, ?_⟩
  · rw [r4, s3, s4]
    exact mask_not_f_or_bit _ _
  · rw [r4, s3, s4]
    exact dcs_or_bit _ _

/-- Endpoint initialisation followed by RESET_EP or STOP_EP: after `pci_xhci_init_ep` of an
endpoint whose context has MaxPStreams 0, RESET_EP or STOP_EP for that endpoint returns and
leaves in the endpoint context the dequeue pointer and the DCS that the context had when the
endpoint was initialised, and the endpoint state Stopped. -/
theorem init_ep_then_reset_ep (sc sc1 : pci_xhci_softc) (slot d a : Nat) (trb : xhci_trb)
    (hs : sc.slots slot = some d) (hc : (sc.devs d).dev_ctx = some a)
    (h1 : 1 ≤ XHCI_TRB_3_EP_GET trb.dwTrb3) (h31 : XHCI_TRB_3_EP_GET trb.dwTrb3 ≤ 31)
    (hm : XHCI_EPCTX_0_MAXP_STREAMS_GET
      ((sc.devctxmem a).ctx_ep (XHCI_TRB_3_EP_GET trb.dwTrb3)).dwEpCtx0 = 0)
    (h : pci_xhci_init_ep sc d a (XHCI_TRB_3_EP_GET trb.dwTrb3) = some sc1) :
    ∃ sc2 err, pci_xhci_cmd_reset_ep sc1 slot trb = some (sc2, err) ∧
      XHCI_EPCTX_0_EPSTATE_GET
        ((sc2.devctxmem a).ctx_ep (XHCI_TRB_3_EP_GET trb.dwTrb3)).dwEpCtx0 =
          XHCI_ST_EPCTX_STOPPED ∧
      MASK_NOT_F ((sc2.devctxmem a).ctx_ep (XHCI_TRB_3_EP_GET trb.dwTrb3)).qwEpCtx2 =
        MASK_NOT_F ((sc.devctxmem a).ctx_ep (XHCI_TRB_3_EP_GET trb.dwTrb3)).qwEpCtx2 ∧
      XHCI_EPCTX_2_DCS_GET ((sc2.devctxmem a).ctx_ep (XHCI_TRB_3_EP_GET trb.dwTrb3)).qwEpCtx2 =
        XHCI_EPCTX_2_DCS_GET
          ((sc.devctxmem a).ctx_ep (XHCI_TRB_3_EP_GET trb.dwTrb3)).qwEpCtx2 := by
  have hm0 : ¬ XHCI_EPCTX_0_MAXP_STREAMS_GET
      ((sc.devctxmem a).ctx_ep (XHCI_TRB_3_EP_GET trb.dwTrb3)).dwEpCtx0 > 0 := by omega
  have hsc1 : sc1.slots = sc.slots ∧ sc1.devctxmem = sc.devctxmem ∧
      (sc1.devs d).dev_ctx = some a ∧
      ((sc1.devs d).eps (XHCI_TRB_3_EP_GET trb.dwTrb3)).ep_ringaddr =
        MASK_NOT_F ((sc.devctxmem a).ctx_ep (XHCI_TRB_3_EP_GET trb.dwTrb3)).qwEpCtx2 ∧
      ((sc1.devs d).eps (XHCI_TRB_3_EP_GET trb.dwTrb3)).ep_ccs =
        XHCI_EPCTX_2_DCS_GET
          ((sc.devctxmem a).ctx_ep (XHCI_TRB_3_EP_GET trb.dwTrb3)).qwEpCtx2 := by
    unfold pci_xhci_init_ep at h
    simp only [if_neg hm0, Option.some.injEq] at h
    subst h
    refine ⟨rfl, rfl, ?_, ?_, ?_⟩
    · simp only [upd, if_true, hc]
    · simp only [upd, if_true]
      split <;> rfl
    · simp only [upd, if_true]
      split <;> rfl
  obtain ⟨s1, s2, s3, s4, s5⟩ := hsc1
  obtain ⟨sc2, err, r1, -, r3, r4, -⟩ :=
    reset_ep_stops sc1 slot d a trb (by rw [s1]; exact hs) s3 h1 h31 (by rw [s2]; exact hm)
  refine ⟨sc2, err, r1, r3, ?_, ?_⟩
  · rw [r4, s4, s5]
    unfold XHCI_EPCTX_2_DCS_GET
    exact mask_not_f_or_bit _ _
  · rw [r4, s4, s5]
    unfold XHCI_EPCTX_2_DCS_GET
    exact dcs_or_bit _ _ |>.trans rfl

/-- C20, as the code has it: RESET_EP and STOP_EP for a slot with a bound device.  With
endpoint id 0 the command returns the TRB error and the state as it was.  With an endpoint id
in 1..31, for a device that has its device context at `a`, on an endpoint whose context has
MaxPStreams 0, the command returns, the endpoint state is Stopped and the TR dequeue field of
the endpoint context is the cached ring address and cycle state.  Hence, when the state is
that left by a SET_TR_DEQUEUE with parameter `p` that completed with SUCCESS for this
endpoint, the context holds the dequeue pointer `p & ~0xF` with DCS bit 0 of `p`; and when
the state is that left by `pci_xhci_init_ep` of this endpoint, the context holds the dequeue
pointer and DCS of the context the endpoint was initialised from. -/
theorem reset_ep_dequeue (sc : pci_xhci_softc) (slot d : Nat) (trb : xhci_trb)
    (hs : sc.slots slot = some d) :
    (XHCI_TRB_3_EP_GET trb.dwTrb3 = 0 →
      pci_xhci_cmd_reset_ep sc slot trb = some (sc, XHCI_TRB_ERROR_TRB)) ∧
    (∀ a, (sc.devs d).dev_ctx = some a →
      1 ≤ XHCI_TRB_3_EP_GET trb.dwTrb3 → XHCI_TRB_3_EP_GET trb.dwTrb3 ≤ 31 →
      XHCI_EPCTX_0_MAXP_STREAMS_GET
        ((sc.devctxmem a).ctx_ep (XHCI_TRB_3_EP_GET trb.dwTrb3)).dwEpCtx0 = 0 →
      ∃ sc1 err, pci_xhci_cmd_reset_ep sc slot trb = some (sc1, err) ∧
        (err = XHCI_TRB_ERROR_SUCCESS ∨ err = XHCI_TRB_ERROR_ENDP_NOT_ON) ∧
        XHCI_EPCTX_0_EPSTATE_GET
          ((sc1.devctxmem a).ctx_ep (XHCI_TRB_3_EP_GET trb.dwTrb3)).dwEpCtx0 =
            XHCI_ST_EPCTX_STOPPED ∧
        ((sc1.devctxmem a).ctx_ep (XHCI_TRB_3_EP_GET trb.dwTrb3)).qwEpCtx2 =
          ((sc.devs d).eps (XHCI_TRB_3_EP_GET trb.dwTrb3)).ep_ringaddr |||
            ((sc.devs d).eps (XHCI_TRB_3_EP_GET trb.dwTrb3)).ep_ccs) ∧
    (∀ a sc0 trb_s, sc0.slots slot = some d → (sc0.devs d).dev_ctx = some a →
      XHCI_TRB_3_EP_GET trb.dwTrb3 = XHCI_TRB_3_EP_GET trb_s.dwTrb3 →
      XHCI_EPCTX_0_MAXP_STREAMS_GET
        ((sc0.devctxmem a).ctx_ep (XHCI_TRB_3_EP_GET trb_s.dwTrb3)).dwEpCtx0 = 0 →
      pci_xhci_cmd_set_tr sc0 slot trb_s = some (sc, XHCI_TRB_ERROR_SUCCESS) →
      ∃ sc2 err, pci_xhci_cmd_reset_ep sc slot trb = some (sc2, err) ∧
        XHCI_EPCTX_0_EPSTATE_GET
          ((sc2.devctxmem a).ctx_ep (XHCI_TRB_3_EP_GET trb.dwTrb3)).dwEpCtx0 =
            XHCI_ST_EPCTX_STOPPED ∧
        MASK_NOT_F ((sc2.devctxmem a).ctx_ep (XHCI_TRB_3_EP_GET trb.dwTrb3)).qwEpCtx2 =
          MASK_NOT_F trb_s.qwTrb0 ∧
        XHCI_EPCTX_2_DCS_GET
          ((sc2.devctxmem a).ctx_ep (XHCI_TRB_3_EP_GET trb.dwTrb3)).qwEpCtx2 =
            trb_s.qwTrb0 &&& 1) ∧
    (∀ a sc0, sc0.slots slot = some d → (sc0.devs d).dev_ctx = some a →
      1 ≤ XHCI_TRB_3_EP_GET trb.dwTrb3 → XHCI_TRB_3_EP_GET trb.dwTrb3 ≤ 31 →
      XHCI_EPCTX_0_MAXP_STREAMS_GET
        ((sc0.devctxmem a).ctx_ep (XHCI_TRB_3_EP_GET trb.dwTrb3)).dwEpCtx0 = 0 →
      pci_xhci_init_ep sc0 d a (XHCI_TRB_3_EP_GET trb.dwTrb3) = some sc →
      ∃ sc2 err, pci_xhci_cmd_reset_ep sc slot trb = some (sc2, err) ∧
        XHCI_EPCTX_0_EPSTATE_GET
          ((sc2.devctxmem a).ctx_ep (XHCI_TRB_3_EP_GET trb.dwTrb3)).dwEpCtx0 =
            XHCI_ST_EPCTX_STOPPED ∧
        MASK_NOT_F ((sc2.devctxmem a).ctx_ep (XHCI_TRB_3_EP_GET trb.dwTrb3)).qwEpCtx2 =
          MASK_NOT_F ((sc0.devctxmem a).ctx_ep (XHCI_TRB_3_EP_GET trb.dwTrb3)).qwEpCtx2 ∧
        XHCI_EPCTX_2_DCS_GET
          ((sc2.devctxmem a).ctx_ep (XHCI_TRB_3_EP_GET trb.dwTrb3)).qwEpCtx2 =
            XHCI_EPCTX_2_DCS_GET
              ((sc0.devctxmem a).ctx_ep (XHCI_TRB_3_EP_GET trb.dwTrb3)).qwEpCtx2) := by
  refine ⟨fun h0 => reset_ep_bad_epid sc slot d trb hs (Or.inl (by omega)), ?_, ?_, ?_⟩
  · intro a hc h1 h31 hm
    obtain ⟨sc1, err, r1, r2, r3, r4, -⟩ := reset_ep_stops sc slot d a trb hs hc h1 h31 hm
    exact ⟨sc1, err, r1, r2, r3, r4⟩
  · intro a sc0 trb_s hs0 hc0 he hm h
    exact set_tr_then_reset_ep sc0 sc slot d a trb_s trb hs0 hc0 he hm h
  · intro a sc0 hs0 hc0 h1 h31 hm h
    exact init_ep_then_reset_ep sc0 sc slot d a trb hs0 hc0 h1 h31 hm h

set_option maxRecDepth 100000 in
/-- Witness of C20 as amended: endpoint 1 of the Addressed tablet in slot 1 is stopped by
STOP_EP and given the dequeue pointer `0x9010` with DCS 1 by SET_TR_DEQUEUE; RESET_EP for it
then returns and the endpoint context holds the dequeue pointer `0x9010` with DCS 1. -/
theorem reset_ep_dequeue_witness :
    ∃ sc2 err, pci_xhci_cmd_reset_ep sc_ep0_set_tr 1
        (trb_ep_cmd XHCI_TRB_TYPE_RESET_EP 0 1 1) = some (sc2, err) ∧
      MASK_NOT_F ((sc2.devctxmem 0x7000).ctx_ep 1).qwEpCtx2 = 0x9010 ∧
      XHCI_EPCTX_2_DCS_GET ((sc2.devctxmem 0x7000).ctx_ep 1).qwEpCtx2 = 1 := by
  obtain ⟨sc2, err, h1, -, h3, h4⟩ :=
    (reset_ep_dequeue sc_ep0_set_tr 1 0 (trb_ep_cmd XHCI_TRB_TYPE_RESET_EP 0 1 1)
      (by decide)).2.2.1 0x7000 sc_ep0_stopped
      (trb_ep_cmd XHCI_TRB_TYPE_SET_TR_DEQUEUE 0x9015 1 1) (by decide) (by decide) (by decide)
      (by decide) (option_pair_eta _ _ _ (by decide))
  exact ⟨sc2, err, h1, h3.trans (by decide), h4.trans (by decide)⟩

set_option maxRecDepth 100000 in
/-- C20 fails as stated: on a controller without configured devices slot 1 is allocated by
ENABLE_SLOT and no device is bound to it; RESET_EP and STOP_EP for slot 1 with endpoint id 0
do not return the TRB error: the assertion `dev != NULL` comes before the check of the
endpoint id, and the emulator aborts. -/
theorem reset_ep_dequeue_counterexample :
    (sc_native_enabled fun _ => none).slot_allocated 1 = true ∧
    (sc_native_enabled fun _ => none).slots 1 = none ∧
    XHCI_TRB_3_EP_GET (trb_ep_cmd XHCI_TRB_TYPE_RESET_EP 0 1 0).dwTrb3 = 0 ∧
    XHCI_TRB_3_EP_GET (trb_ep_cmd XHCI_TRB_TYPE_STOP_EP 0 1 0).dwTrb3 = 0 ∧
    pci_xhci_cmd_reset_ep (sc_native_enabled fun _ => none) 1
      (trb_ep_cmd XHCI_TRB_TYPE_RESET_EP 0 1 0) = none ∧
    pci_xhci_cmd_reset_ep (sc_native_enabled fun _ => none) 1
      (trb_ep_cmd XHCI_TRB_TYPE_STOP_EP 0 1 0) = none := by
  refine ⟨by decide, by decide, by decide, by decide, ?_, ?_⟩
  · have h : (pci_xhci_cmd_reset_ep (sc_native_enabled fun _ => none) 1
        (trb_ep_cmd XHCI_TRB_TYPE_RESET_EP 0 1 0)).isNone = true := by
      decide
    exact Option.isNone_iff_eq_none.mp h
  · have h : (pci_xhci_cmd_reset_ep (sc_native_enabled fun _ => none) 1
        (trb_ep_cmd XHCI_TRB_TYPE_STOP_EP 0 1 0)).isNone = true := by
      decide
    exact Option.isNone_iff_eq_none.mp h

/-! ## The bound devices stay in the device heap -/

theorem slots_in_heap_of_frame (sc r : pci_xhci_softc)
    (hw : ∀ sl dd, sc.slots sl = some dd → dd < sc.devs_next) (f : slot_frame sc r) :
    ∀ sl dd, r.slots sl = some dd → dd < r.devs_next := by
  intro sl dd hh
  rw [f.1] at hh
  rw [f.2.1]
  exact hw sl dd hh

theorem reset_slot_slot_table (sc : pci_xhci_softc) (slot : Nat) :
    (pci_xhci_reset_slot sc slot).slots = sc.slots ∧
      (pci_xhci_reset_slot sc slot).devs_next = sc.devs_next := by
  unfold pci_xhci_reset_slot
  split <;> exact ⟨rfl, rfl⟩

theorem enable_slot_slot_table (sc : pci_xhci_softc) (slot : Nat) :
    (pci_xhci_cmd_enable_slot sc slot).1.slots = sc.slots ∧
      (pci_xhci_cmd_enable_slot sc slot).1.devs_next = sc.devs_next := by
  unfold pci_xhci_cmd_enable_slot
  simp only
  split <;> split <;> (try split) <;> exact ⟨rfl, rfl⟩

theorem disable_slot_slot_table (sc : pci_xhci_softc) (slot : Nat) :
    (pci_xhci_cmd_disable_slot sc slot).1.slots = sc.slots ∧
      (pci_xhci_cmd_disable_slot sc slot).1.devs_next = sc.devs_next := by
  unfold pci_xhci_cmd_disable_slot
  split
  · exact ⟨rfl, rfl⟩
  · split
    · exact ⟨rfl, rfl⟩
    · split
      · split <;> exact ⟨rfl, rfl⟩
      · exact ⟨rfl, rfl⟩

theorem reset_device_slot_table (sc : pci_xhci_softc) (slot : Nat) (r : pci_xhci_softc × Nat)
    (h : pci_xhci_cmd_reset_device sc slot = some r) :
    r.1.slots = sc.slots ∧ r.1.devs_next = sc.devs_next := by
  unfold pci_xhci_cmd_reset_device at h
  split at h
  · cases h; exact ⟨rfl, rfl⟩
  · split at h
    · cases h; exact reset_slot_slot_table sc slot
    · split at h
      · cases h; exact reset_slot_slot_table sc slot
      · simp only at h
        split at h
        · cases h
          exact reset_slot_slot_table _ slot
        · cases h

theorem config_ep_slot_table (sc : pci_xhci_softc) (slot : Nat) (trb : xhci_trb)
    (r : pci_xhci_softc × Nat) (h : pci_xhci_cmd_config_ep sc slot trb = some r) :
    r.1.slots = sc.slots ∧ r.1.devs_next = sc.devs_next := by
  unfold pci_xhci_cmd_config_ep at h
  split at h
  · cases h
  · simp only at h
    split at h
    · split at h
      · split at h
        · cases h
        · rename_i sc3 h3
          cases h
          have f3 := disable_eps_slot_frame _ _ _ sc3 h3
          exact ⟨f3.1, f3.2.1⟩
      · cases h
    · split at h
      · cases h; exact ⟨rfl, rfl⟩
      · split at h
        · cases h
        · split at h
          · cases h
          · rename_i sc1 h1
            cases h
            have f1 := config_ep_loop_slot_frame _ _ _ _ _ sc1 h1
            exact ⟨f1.1, f1.2.1⟩

theorem address_device_slots_in_heap (sc : pci_xhci_softc) (slot : Nat) (trb : xhci_trb)
    (r : pci_xhci_softc × Nat)
    (hw : ∀ sl dd, sc.slots sl = some dd → dd < sc.devs_next)
    (h : pci_xhci_cmd_address_device sc slot trb = some r) :
    ∀ sl dd, r.1.slots sl = some dd → dd < r.1.devs_next := by
  unfold pci_xhci_cmd_address_device at h
  simp only at h
  split at h
  · cases h; exact hw
  · split at h
    · cases h; exact hw
    · split at h
      · cases h; exact hw
      · rename_i sc1 hb
        have f1 : ∀ sl dd, sc1.slots sl = some dd → dd < sc1.devs_next := by
          split at hb
          · cases hb; exact hw
          · split at hb
            · cases hb
            · split at hb
              · cases hb
              · cases hb
                intro sl dd hh
                simp only [upd] at hh
                simp only
                split at hh
                · cases hh; omega
                · have h2 := hw sl dd hh
                  omega
        split at h
        · cases h
        · cases h; exact f1
        · split at h
          · cases h
          · split at h
            · cases h; exact f1
            · split at h
              · cases h
              · rename_i sc4 h4
                cases h
                have f4 := init_ep_slot_frame _ _ _ _ sc4 h4
                intro sl dd hh
                simp only at hh ⊢
                rw [f4.1] at hh
                rw [f4.2.1]
                exact f1 sl dd hh

/-- Every command that the command engine dispatches without aborting keeps the devices bound
to the slots inside the device heap, so the slot-state steps of single commands compose along
a sequence of commands. -/
theorem cmd_dispatch_slots_in_heap (sc : pci_xhci_softc) (t : xhci_trb) (ccs : Nat)
    (r : pci_xhci_softc × Nat × Nat × Nat)
    (hw : ∀ sl dd, sc.slots sl = some dd → dd < sc.devs_next)
    (h : cmd_dispatch sc t ccs = some r) :
    ∀ sl dd, r.1.slots sl = some dd → dd < r.1.devs_next := by
  have htab : ∀ s : pci_xhci_softc, s.slots = sc.slots ∧ s.devs_next = sc.devs_next →
      ∀ sl dd, s.slots sl = some dd → dd < s.devs_next := by
    intro s f sl dd hh
    rw [f.1] at hh
    rw [f.2]
    exact hw sl dd hh
  unfold cmd_dispatch at h
  simp only at h
  split at h
  · cases h; exact hw
  split at h
  · cases h; exact htab _ (enable_slot_slot_table sc 0)
  split at h
  · cases h; exact htab _ (disable_slot_slot_table sc _)
  split at h
  · rw [Option.map_eq_some'] at h
    obtain ⟨x, hx, rfl⟩ := h
    exact address_device_slots_in_heap _ _ _ x hw hx
  split at h
  · rw [Option.map_eq_some'] at h
    obtain ⟨x, hx, rfl⟩ := h
    exact htab _ (config_ep_slot_table _ _ _ x hx)
  split at h
  · rw [Option.map_eq_some'] at h
    obtain ⟨x, hx, rfl⟩ := h
    exact slots_in_heap_of_frame _ _ hw (eval_ctx_slot_frame _ _ _ x hx)
  split at h
  · rw [Option.map_eq_some'] at h
    obtain ⟨x, hx, rfl⟩ := h
    exact slots_in_heap_of_frame _ _ hw (reset_ep_slot_frame _ _ _ x hx)
  split at h
  · rw [Option.map_eq_some'] at h
    obtain ⟨x, hx, rfl⟩ := h
    exact slots_in_heap_of_frame _ _ hw (reset_ep_slot_frame _ _ _ x hx)
  split at h
  · rw [Option.map_eq_some'] at h
    obtain ⟨x, hx, rfl⟩ := h
    exact slots_in_heap_of_frame _ _ hw (set_tr_slot_frame _ _ _ x hx)
  split at h
  · rw [Option.map_eq_some'] at h
    obtain ⟨x, hx, rfl⟩ := h
    exact htab _ (reset_device_slot_table _ _ x hx)
  · cases h; exact hw

/-! ## SET_TR_DEQUEUE -/

/-- C21, as the code has it: SET_TR_DEQUEUE for a slot with a bound device.  With endpoint id
0 it returns the TRB error and the state as it was.  With an endpoint id in 1..31, for a
device that has its device context at `a`: on an endpoint whose state is neither Stopped nor
Error it returns CONTEXT_STATE and the state as it was (endpoint context and cached ring
included); on a Stopped or Error endpoint whose context has MaxPStreams 0 it returns SUCCESS,
the cached ring address is `qwTrb0 & ~0xF`, the cached cycle state is bit 0 of `qwTrb0`, and
the endpoint state is Stopped. -/
theorem set_tr_dequeue_cases (sc : pci_xhci_softc) (slot d : Nat) (trb : xhci_trb)
    (hs : sc.slots slot = some d) :
    (XHCI_TRB_3_EP_GET trb.dwTrb3 = 0 →
      pci_xhci_cmd_set_tr sc slot trb = some (sc, XHCI_TRB_ERROR_TRB)) ∧
    (∀ a, (sc.devs d).dev_ctx = some a →
      1 ≤ XHCI_TRB_3_EP_GET trb.dwTrb3 → XHCI_TRB_3_EP_GET trb.dwTrb3 ≤ 31 →
      ¬ (XHCI_EPCTX_0_EPSTATE_GET
          ((sc.devctxmem a).ctx_ep (XHCI_TRB_3_EP_GET trb.dwTrb3)).dwEpCtx0 =
            XHCI_ST_EPCTX_STOPPED ∨
        XHCI_EPCTX_0_EPSTATE_GET
          ((sc.devctxmem a).ctx_ep (XHCI_TRB_3_EP_GET trb.dwTrb3)).dwEpCtx0 =
            XHCI_ST_EPCTX_ERROR) →
      pci_xhci_cmd_set_tr sc slot trb = some (sc, XHCI_TRB_ERROR_CONTEXT_STATE)) ∧
    (∀ a, (sc.devs d).dev_ctx = some a →
      1 ≤ XHCI_TRB_3_EP_GET trb.dwTrb3 → XHCI_TRB_3_EP_GET trb.dwTrb3 ≤ 31 →
      (XHCI_EPCTX_0_EPSTATE_GET
          ((sc.devctxmem a).ctx_ep (XHCI_TRB_3_EP_GET trb.dwTrb3)).dwEpCtx0 =
            XHCI_ST_EPCTX_STOPPED ∨
        XHCI_EPCTX_0_EPSTATE_GET
          ((sc.devctxmem a).ctx_ep (XHCI_TRB_3_EP_GET trb.dwTrb3)).dwEpCtx0 =
            XHCI_ST_EPCTX_ERROR) →
      XHCI_EPCTX_0_MAXP_STREAMS_GET
        ((sc.devctxmem a).ctx_ep (XHCI_TRB_3_EP_GET trb.dwTrb3)).dwEpCtx0 = 0 →
      ∃ sc1, pci_xhci_cmd_set_tr sc slot trb = some (sc1, XHCI_TRB_ERROR_SUCCESS) ∧
        ((sc1.devs d).eps (XHCI_TRB_3_EP_GET trb.dwTrb3)).ep_ringaddr =
          MASK_NOT_F trb.qwTrb0 ∧
        ((sc1.devs d).eps (XHCI_TRB_3_EP_GET trb.dwTrb3)).ep_ccs = trb.qwTrb0 &&& 1 ∧
        XHCI_EPCTX_0_EPSTATE_GET
          ((sc1.devctxmem a).ctx_ep (XHCI_TRB_3_EP_GET trb.dwTrb3)).dwEpCtx0 =
            XHCI_ST_EPCTX_STOPPED) := by
  refine ⟨?_, ?_, ?_⟩
  · intro h0
    have hbad : XHCI_TRB_3_EP_GET trb.dwTrb3 < 1 ∨ XHCI_TRB_3_EP_GET trb.dwTrb3 > 31 :=
      Or.inl (by omega)
    unfold pci_xhci_cmd_set_tr
    simp only [hs, if_pos hbad]
  · intro a hc h1 h31 hst
    have hbad : ¬ (XHCI_TRB_3_EP_GET trb.dwTrb3 < 1 ∨ XHCI_TRB_3_EP_GET trb.dwTrb3 > 31) := by
      omega
    unfold pci_xhci_cmd_set_tr
    simp only [hs, hc, if_neg hbad, if_pos hst]
  · intro a hc h1 h31 hst hm
    have hbad : ¬ (XHCI_TRB_3_EP_GET trb.dwTrb3 < 1 ∨ XHCI_TRB_3_EP_GET trb.dwTrb3 > 31) := by
      omega
    have hm0 : ¬ XHCI_EPCTX_0_MAXP_STREAMS_GET
        ((sc.devctxmem a).ctx_ep (XHCI_TRB_3_EP_GET trb.dwTrb3)).dwEpCtx0 > 0 := by omega
    have hst2 : ¬ ¬ (XHCI_EPCTX_0_EPSTATE_GET
          ((sc.devctxmem a).ctx_ep (XHCI_TRB_3_EP_GET trb.dwTrb3)).dwEpCtx0 =
            XHCI_ST_EPCTX_STOPPED ∨
        XHCI_EPCTX_0_EPSTATE_GET
          ((sc.devctxmem a).ctx_ep (XHCI_TRB_3_EP_GET trb.dwTrb3)).dwEpCtx0 =
            XHCI_ST_EPCTX_ERROR) := not_not.mpr hst
    have hstop : XHCI_ST_EPCTX_STOPPED ≤ 7 := by decide
    unfold pci_xhci_cmd_set_tr
    simp only [hs, hc, if_neg hbad, if_neg hst2, if_neg hm0]
    refine ⟨_, rfl, ?_, ?_, ?_⟩
    · simp only [upd, set_devep, if_true]
      exact mask_not_f_idem _
    · simp only [upd, set_devep, if_true]
    · simp only [upd, set_ctx_ep, if_true]
      exact and_not7_or_epstate _ _ hstop

set_option maxRecDepth 100000 in
/-- Witness of C21 as amended: endpoint 1 of the Addressed tablet in slot 1, stopped by
STOP_EP; SET_TR_DEQUEUE with parameter `0x9015` returns SUCCESS and caches the ring address
`0x9010` with cycle state 1. -/
theorem set_tr_dequeue_cases_witness :
    ∃ sc1, pci_xhci_cmd_set_tr sc_ep0_stopped 1
        (trb_ep_cmd XHCI_TRB_TYPE_SET_TR_DEQUEUE 0x9015 1 1) =
          some (sc1, XHCI_TRB_ERROR_SUCCESS) ∧
      ((sc1.devs 0).eps 1).ep_ringaddr = 0x9010 ∧ ((sc1.devs 0).eps 1).ep_ccs = 1 := by
  obtain ⟨sc1, h1, h2, h3, -⟩ :=
    (set_tr_dequeue_cases sc_ep0_stopped 1 0
      (trb_ep_cmd XHCI_TRB_TYPE_SET_TR_DEQUEUE 0x9015 1 1) (by decide)).2.2 0x7000
      (by decide) (by decide) (by decide) (by decide) (by decide)
  exact ⟨sc1, h1, h2.trans (by decide), h3.trans (by decide)⟩

set_option maxRecDepth 100000 in
/-- C21 fails as stated: on a controller without configured devices slot 1 is allocated by
ENABLE_SLOT and no device is bound to it; SET_TR_DEQUEUE for slot 1 with endpoint id 0 does
not return the TRB error: the assertion `dev != NULL` comes first, and the emulator aborts. -/
theorem set_tr_dequeue_cases_counterexample :
    (sc_native_enabled fun _ => none).slot_allocated 1 = true ∧
    (sc_native_enabled fun _ => none).slots 1 = none ∧
    XHCI_TRB_3_EP_GET (trb_ep_cmd XHCI_TRB_TYPE_SET_TR_DEQUEUE 0 1 0).dwTrb3 = 0 ∧
    pci_xhci_cmd_set_tr (sc_native_enabled fun _ => none) 1
      (trb_ep_cmd XHCI_TRB_TYPE_SET_TR_DEQUEUE 0 1 0) = none := by
  refine ⟨by decide, by decide, by decide, ?_⟩
  have h : (pci_xhci_cmd_set_tr (sc_native_enabled fun _ => none) 1
      (trb_ep_cmd XHCI_TRB_TYPE_SET_TR_DEQUEUE 0 1 0)).isNone = true := by
    decide
  exact Option.isNone_iff_eq_none.mp h

/-! ## Backend statuses -/

/-- C22: `USB_TO_XHCI_ERR` maps NORMAL_COMPLETION to SUCCESS; SHORT_XFER to SHORT_PKT; STALLED
to STALL; TIMEOUT and INTERRUPTED to CMD_ABORTED; IOERROR and BAD_CONTEXT to TRB;
DMA_LOAD_FAILED to DATA_BUF; NOMEM, IN_USE, NO_ADDR, NO_PIPE, PENDING_REQUESTS,
SET_ADDR_FAILED and TOO_DEEP to RESOURCE; NOT_STARTED, NO_POWER and NOT_CONFIGURED to
ENDP_NOT_ON; CANCELLED to STOPPED; NO_CALLBACK to STALL. -/
theorem usb_to_xhci_err_rows :
    USB_TO_XHCI_ERR USB_ERR_NORMAL_COMPLETION = XHCI_TRB_ERROR_SUCCESS ∧
    USB_TO_XHCI_ERR USB_ERR_SHORT_XFER = XHCI_TRB_ERROR_SHORT_PKT ∧
    USB_TO_XHCI_ERR USB_ERR_STALLED = XHCI_TRB_ERROR_STALL ∧
    USB_TO_XHCI_ERR USB_ERR_TIMEOUT = XHCI_TRB_ERROR_CMD_ABORTED ∧
    USB_TO_XHCI_ERR USB_ERR_INTERRUPTED = XHCI_TRB_ERROR_CMD_ABORTED ∧
    USB_TO_XHCI_ERR USB_ERR_IOERROR = XHCI_TRB_ERROR_TRB ∧
    USB_TO_XHCI_ERR USB_ERR_BAD_CONTEXT = XHCI_TRB_ERROR_TRB ∧
    USB_TO_XHCI_ERR USB_ERR_DMA_LOAD_FAILED = XHCI_TRB_ERROR_DATA_BUF ∧
    USB_TO_XHCI_ERR USB_ERR_NOMEM = XHCI_TRB_ERROR_RESOURCE ∧
    USB_TO_XHCI_ERR USB_ERR_IN_USE = XHCI_TRB_ERROR_RESOURCE ∧
    USB_TO_XHCI_ERR USB_ERR_NO_ADDR = XHCI_TRB_ERROR_RESOURCE ∧
    USB_TO_XHCI_ERR USB_ERR_NO_PIPE = XHCI_TRB_ERROR_RESOURCE ∧
    USB_TO_XHCI_ERR USB_ERR_PENDING_REQUESTS = XHCI_TRB_ERROR_RESOURCE ∧
    USB_TO_XHCI_ERR USB_ERR_SET_ADDR_FAILED = XHCI_TRB_ERROR_RESOURCE ∧
    USB_TO_XHCI_ERR USB_ERR_TOO_DEEP = XHCI_TRB_ERROR_RESOURCE ∧
    USB_TO_XHCI_ERR USB_ERR_NOT_STARTED = XHCI_TRB_ERROR_ENDP_NOT_ON ∧
    USB_TO_XHCI_ERR USB_ERR_NO_POWER = XHCI_TRB_ERROR_ENDP_NOT_ON ∧
    USB_TO_XHCI_ERR USB_ERR_NOT_CONFIGURED = XHCI_TRB_ERROR_ENDP_NOT_ON ∧
    USB_TO_XHCI_ERR USB_ERR_CANCELLED = XHCI_TRB_ERROR_STOPPED ∧
    USB_TO_XHCI_ERR USB_ERR_NO_CALLBACK = XHCI_TRB_ERROR_STALL := by
  decide

/-- C23, as the code has it: `USB_TO_XHCI_ERR` maps BAD_BUFSIZE, BAD_ADDRESS and BAD_FLAG to
PARAMETER and INVAL to INVALID; every backend status below `USB_ERR_MAX` that the table of
the specification does not name is mapped to UNDEFINED, and every value from `USB_ERR_MAX` on
is mapped to INVALID. -/
theorem usb_to_xhci_err_rest :
    USB_TO_XHCI_ERR USB_ERR_BAD_BUFSIZE = XHCI_TRB_ERROR_PARAMETER ∧
    USB_TO_XHCI_ERR USB_ERR_BAD_ADDRESS = XHCI_TRB_ERROR_PARAMETER ∧
    USB_TO_XHCI_ERR USB_ERR_BAD_FLAG = XHCI_TRB_ERROR_PARAMETER ∧
    USB_TO_XHCI_ERR USB_ERR_INVAL = XHCI_TRB_ERROR_INVALID ∧
    (∀ e, e < USB_ERR_MAX → e ∉ spec_table_statuses →
      USB_TO_XHCI_ERR e = XHCI_TRB_ERROR_UNDEFINED) ∧
    (∀ e, USB_ERR_MAX ≤ e → USB_TO_XHCI_ERR e = XHCI_TRB_ERROR_INVALID) := by
  refine ⟨by decide, by decide, by decide, by decide, ?_, ?_⟩
  · intro e he hn
    have hmax : USB_ERR_MAX = 29 := rfl
    rw [hmax] at he
    interval_cases e <;> first | exact absurd (by decide) hn | decide
  · intro e he
    unfold USB_TO_XHCI_ERR
    rw [if_neg (by omega)]

/-- Witness of C23 as amended: ZERO_MAXP is below `USB_ERR_MAX` and not named in the table
of the specification, and is mapped to UNDEFINED; the value `USB_ERR_MAX + 1` is mapped to
INVALID. -/
theorem usb_to_xhci_err_rest_witness :
    USB_TO_XHCI_ERR USB_ERR_ZERO_MAXP = XHCI_TRB_ERROR_UNDEFINED ∧
    USB_TO_XHCI_ERR (USB_ERR_MAX + 1) = XHCI_TRB_ERROR_INVALID :=
  ⟨usb_to_xhci_err_rest.2.2.2.2.1 USB_ERR_ZERO_MAXP (by decide) (by decide),
    usb_to_xhci_err_rest.2.2.2.2.2 (USB_ERR_MAX + 1) (by decide)⟩

/-- C23 fails as stated: BAD_BUFSIZE is mapped to PARAMETER, not BABBLE; INVAL is mapped to
INVALID, not PARAMETER; and the value `USB_ERR_MAX`, which is no status of the table, is
mapped to INVALID, not UNDEFINED. -/
theorem usb_to_xhci_err_rest_counterexample :
    USB_TO_XHCI_ERR USB_ERR_BAD_BUFSIZE = XHCI_TRB_ERROR_PARAMETER ∧
    XHCI_TRB_ERROR_PARAMETER ≠ XHCI_TRB_ERROR_BABBLE ∧
    USB_TO_XHCI_ERR USB_ERR_INVAL = XHCI_TRB_ERROR_INVALID ∧
    XHCI_TRB_ERROR_INVALID ≠ XHCI_TRB_ERROR_PARAMETER ∧
    USB_TO_XHCI_ERR USB_ERR_MAX = XHCI_TRB_ERROR_INVALID ∧
    XHCI_TRB_ERROR_INVALID ≠ XHCI_TRB_ERROR_UNDEFINED := by
  decide

/-! ## PORTSC writes -/

theorem testBit_change_bits (i : Nat) :
    XHCI_PS_CHANGE_BITS.testBit i = (decide (17 ≤ i) && decide (i < 24)) := by
  have e : XHCI_PS_CHANGE_BITS = (2 ^ 7 - 1) <<< 17 := by decide
  rw [e, Nat.testBit_shiftLeft, Nat.testBit_two_pow_sub_one]
  rw [Bool.eq_iff_iff]; simp; omega

/-- A PORTSC write to a powered port that requests neither a port reset nor a link-state
write leaves every change bit clear, whatever the bit was before and whatever is written. -/
theorem portsc_write_drops_change_bits (sc : pci_xhci_softc) (pr : Nat → pci_xhci_portregs)
    (port value : Nat) (hp : sc.portregs = some pr) (hport : port ≤ XHCI_MAX_DEVS)
    (hpp : (pr port).portsc &&& XHCI_PS_PP ≠ 0)
    (hv : value &&& (XHCI_PS_PR ||| XHCI_PS_WPR) = 0) (hl : value &&& XHCI_PS_LWS = 0) :
    ∃ sc1 pr1, pci_xhci_portregs_write sc (0x3F0 + 0x10 * port) value = some sc1 ∧
      sc1.portregs = some pr1 ∧ (pr1 port).portsc &&& XHCI_PS_CHANGE_BITS = 0 := by
  have e1 : (0x3F0 + 0x10 * port - 0x3F0) / 0x10 = port := by omega
  have e2 : (0x3F0 + 0x10 * port - 0x3F0) % 0x10 = 0 := by omega
  have h1 : ¬ port > XHCI_MAX_DEVS := by omega
  have h2 : ¬ value &&& (XHCI_PS_PR ||| XHCI_PS_WPR) ≠ 0 := by simp [hv]
  have h3 : ¬ (pr port).portsc &&& XHCI_PS_PP = 0 := hpp
  have key : ∀ v0 : Nat, v0 &&& XHCI_PS_CHANGE_BITS = 0 →
      ((v0 ||| ((value &&& NOT32
          (XHCI_PS_OCA ||| XHCI_PS_PR ||| XHCI_PS_PED ||| XHCI_PS_PLS_MASK |||
            XHCI_PS_SPEED_MASK ||| XHCI_PS_PIC_MASK ||| XHCI_PS_LWS ||| XHCI_PS_DR |||
            XHCI_PS_WPR)) % 2 ^ 32)) &&& NOT32 (value &&&
          (XHCI_PS_CSC ||| XHCI_PS_PEC ||| XHCI_PS_WRC ||| XHCI_PS_OCC ||| XHCI_PS_PRC |||
            XHCI_PS_PLC ||| XHCI_PS_CEC ||| XHCI_PS_CAS))) &&& XHCI_PS_CHANGE_BITS = 0 := by
    intro v0 hv0
    apply Nat.eq_of_testBit_eq
    intro i
    have hv0i := congrArg (fun x => Nat.testBit x i) hv0
    simp only [Nat.testBit_and, testBit_change_bits, Nat.zero_testBit] at hv0i
    rw [Nat.testBit_and, Nat.testBit_and, Nat.testBit_or, Nat.testBit_mod_two_pow,
      Nat.testBit_and, testBit_NOT32, testBit_NOT32, Nat.testBit_and, testBit_change_bits,
      Nat.zero_testBit]
    by_cases hi : 17 ≤ i ∧ i < 24
    · obtain ⟨hi1, hi2⟩ := hi
      have hc : (XHCI_PS_CSC ||| XHCI_PS_PEC ||| XHCI_PS_WRC ||| XHCI_PS_OCC ||| XHCI_PS_PRC |||
          XHCI_PS_PLC ||| XHCI_PS_CEC ||| XHCI_PS_CAS).testBit i = true := by
        interval_cases i <;> decide
      have hv0f : v0.testBit i = false := by
        simpa [hi1, hi2] using hv0i
      rw [hc, hv0f]
      cases value.testBit i <;> simp
    · have : (decide (17 ≤ i) && decide (i < 24)) = false := by
        simp only [Bool.and_eq_false_imp, decide_eq_true_eq, decide_eq_false_iff_not]
        intro h17; omega
      rw [this, Bool.and_false]
  have hmask : ∀ x : Nat, (x &&&
      (XHCI_PS_PED ||| XHCI_PS_PLS_MASK ||| XHCI_PS_SPEED_MASK ||| XHCI_PS_PIC_MASK)) &&&
        XHCI_PS_CHANGE_BITS = 0 := by
    intro x
    rw [Nat.and_assoc]
    have e : (XHCI_PS_PED ||| XHCI_PS_PLS_MASK ||| XHCI_PS_SPEED_MASK ||| XHCI_PS_PIC_MASK) &&&
        XHCI_PS_CHANGE_BITS = 0 := by decide
    rw [e, Nat.and_zero]
  have hmask2 : ∀ x : Nat, ((x &&&
      (XHCI_PS_PED ||| XHCI_PS_PLS_MASK ||| XHCI_PS_SPEED_MASK ||| XHCI_PS_PIC_MASK)) |||
        XHCI_PS_CCS) &&& XHCI_PS_CHANGE_BITS = 0 := by
    intro x
    rw [Nat.and_distrib_right, hmask x]
    decide
  unfold pci_xhci_portregs_write
  simp only [hp, e1, e2, if_neg h1, if_true, if_neg h2, if_neg h3, hl]
  refine ⟨_, _, rfl, rfl, ?_⟩
  simp only [upd, if_true]
  split
  · exact key _ (hmask2 _)
  · exact key _ (hmask _)

set_option maxRecDepth 100000 in
/-- C27 at the failing input: on the controller with the tablet and a programmed event ring,
the guest resets port 1, the port of the tablet (the write returns and queues the port status
change event); the port is then powered and has PRC set; the guest writes PP alone to its
PORTSC, a value that requests no reset and no link-state write and has 0 in the position of
PRC; afterwards PRC is clear. -/
theorem portsc_write_loses_change_bit :
    (sc_evring 4).rtsregs.erstba_p = some 0x1000 ∧ evrs_table_size (sc_evring 4) = 4 ∧
    ((pci_xhci_hostop_write (sc_evring 4) 0x420 (XHCI_PS_PP ||| XHCI_PS_PR)).map
      fun s => s.rtsregs.er_events_cnt) = some 1 ∧
    (sc_port1_reset.portregs.map fun pr => (pr 1).portsc &&& XHCI_PS_PP) = some XHCI_PS_PP ∧
    (sc_port1_reset.portregs.map fun pr => (pr 1).portsc &&& XHCI_PS_PRC) =
      some XHCI_PS_PRC ∧
    XHCI_PS_PP &&& (XHCI_PS_PR ||| XHCI_PS_WPR ||| XHCI_PS_LWS ||| XHCI_PS_PRC) = 0 ∧
    ((pci_xhci_hostop_write sc_port1_reset 0x420 XHCI_PS_PP).bind fun s =>
        s.portregs.map fun pr => (pr 1).portsc &&& XHCI_PS_PRC) = some 0 := by
  decide

/-! ## Free virtual ports -/

theorem vport_taken_false (xdev : pci_xhci_softc) (i : Nat) (h : vport_taken xdev i = false) :
    ∀ j, j < XHCI_MAX_DEVICES → (xdev.native_ports j).vport ≠ i := by
  intro j hj hv
  unfold vport_taken at h
  rw [List.any_eq_false] at h
  have h1 := h j (List.mem_range.mpr hj)
  simp [hv] at h1

/-- What `pci_xhci_get_free_vport` returns: a port `p` of `ports .. ports + 4` (five ports,
`ports` being the start of the range of the protocol) that is not taken, all ports of the
range below `p` being taken; and `-1` exactly when all five are taken. -/
theorem get_free_vport_range (xdev : pci_xhci_softc) (di : usb_native_devinfo) (ports : Nat)
    (hports : ports = if di.bcd < 0x300 then xdev.usb2_port_start else xdev.usb3_port_start) :
    (∀ p, pci_xhci_get_free_vport xdev di = some p →
      ports ≤ p ∧ p ≤ ports + 4 ∧ (∀ j, j < XHCI_MAX_DEVICES → (xdev.native_ports j).vport ≠ p) ∧
        ∀ q, ports ≤ q → q < p → vport_taken xdev q = true) ∧
    (pci_xhci_get_free_vport xdev di = none ↔
      ∀ q, ports ≤ q → q ≤ ports + 4 → vport_taken xdev q = true) := by
  have hlen : ports + XHCI_MAX_DEVS / 2 + 1 - ports = 5 := by
    have : XHCI_MAX_DEVS / 2 = 4 := by decide
    omega
  unfold pci_xhci_get_free_vport
  simp only [← hports, hlen]
  constructor
  · intro p hp
    rw [List.find?_range'_eq_some] at hp
    obtain ⟨hpr, hmem, hbelow⟩ := hp
    rw [List.mem_range'_1] at hmem
    have hnt : vport_taken xdev p = false := by simpa using hpr
    refine ⟨hmem.1, by omega, vport_taken_false xdev p hnt, ?_⟩
    intro q hq1 hq2
    have := hbelow q hq1 hq2
    simpa using this
  · rw [List.find?_range'_eq_none]
    constructor
    · intro h q hq1 hq2
      have := h q hq1 (by omega)
      simpa using this
    · intro h q hq1 hq2
      have := h q hq1 (by omega)
      simp [this]

set_option maxRecDepth 1000000 in
/-- C30 at the failing inputs.  (1) The native ports hold the virtual ports 5, 6, 7 and 8:
for a further USB 2 device (bcdUSB 2.00) `pci_xhci_get_free_vport` returns 9, which is no
valid port number, although all four ports of the USB 2 range are taken.  (2) The native
ports hold the virtual ports 1, 2, 3 and 4: for a further USB 3 device (bcdUSB 3.00) it
returns 5, a port of the USB 2 range. -/
theorem get_free_vport_beyond_range :
    sc_usb2_full.usb2_port_start = 5 ∧ sc_usb2_full.usb3_port_start = 1 ∧
    ((List.range 4).map fun j => (sc_usb2_full.native_ports j).vport) = [5, 6, 7, 8] ∧
    pci_xhci_get_free_vport sc_usb2_full (di_usb2 5) = some 9 ∧
    pci_xhci_is_valid_portnum 9 = false ∧
    ((List.range 4).map fun j => (sc_usb3_full.native_ports j).vport) = [1, 2, 3, 4] ∧
    pci_xhci_get_free_vport sc_usb3_full (di_usb3 5) = some 5 := by
  decide

/-! ## Host disconnect -/

theorem assert_interrupt_keeps (sc : pci_xhci_softc) :
    (pci_xhci_assert_interrupt sc).portregs = sc.portregs ∧
    (pci_xhci_assert_interrupt sc).slots = sc.slots ∧
    (pci_xhci_assert_interrupt sc).devices = sc.devices ∧
    (pci_xhci_assert_interrupt sc).devs = sc.devs ∧
    (pci_xhci_assert_interrupt sc).slot_allocated = sc.slot_allocated ∧
    (pci_xhci_assert_interrupt sc).native_ports = sc.native_ports := by
  unfold pci_xhci_assert_interrupt
  simp only
  split
  · split <;> exact ⟨rfl, rfl, rfl, rfl, rfl, rfl⟩
  · exact ⟨rfl, rfl, rfl, rfl, rfl, rfl⟩

/-- An event insertion leaves the port registers, the slots, the devices and the native port
table as they are. -/
theorem insert_event_keeps (sc : pci_xhci_softc) (ev : xhci_trb) (b : Bool) :
    (insert_event_ring sc ev b).1.portregs = sc.portregs ∧
    (insert_event_ring sc ev b).1.slots = sc.slots ∧
    (insert_event_ring sc ev b).1.devices = sc.devices ∧
    (insert_event_ring sc ev b).1.devs = sc.devs ∧
    (insert_event_ring sc ev b).1.slot_allocated = sc.slot_allocated ∧
    (insert_event_ring sc ev b).1.native_ports = sc.native_ports := by
  have hd : ∀ (s : pci_xhci_softc) (c : Bool) (e : Nat),
      (insert_event_done s c e).1.portregs = s.portregs ∧
      (insert_event_done s c e).1.slots = s.slots ∧
      (insert_event_done s c e).1.devices = s.devices ∧
      (insert_event_done s c e).1.devs = s.devs ∧
      (insert_event_done s c e).1.slot_allocated = s.slot_allocated ∧
      (insert_event_done s c e).1.native_ports = s.native_ports := by
    intro s c e
    unfold insert_event_done
    cases c
    · exact ⟨rfl, rfl, rfl, rfl, rfl, rfl⟩
    · exact assert_interrupt_keeps s
  have hs : ∀ (s : pci_xhci_softc) (c : Bool),
      (insert_event_store s ev c).1.portregs = s.portregs ∧
      (insert_event_store s ev c).1.slots = s.slots ∧
      (insert_event_store s ev c).1.devices = s.devices ∧
      (insert_event_store s ev c).1.devs = s.devs ∧
      (insert_event_store s ev c).1.slot_allocated = s.slot_allocated ∧
      (insert_event_store s ev c).1.native_ports = s.native_ports := by
    intro s c
    unfold insert_event_store
    exact hd _ _ _
  unfold insert_event_ring
  simp only
  split
  · exact hd _ _ _
  · split
    · split
      · exact hd _ _ _
      · exact hs _ _
    · exact hs _ _

/-- The link state after `portsc &= ~(CCS | PED); portsc |= CSC | PLS_SET(RX_DET)`: the bits
of RxDetect are set on top of the bits of the previous link state. -/
theorem pls_after_disconnect (x : Nat) :
    XHCI_PS_PLS_GET ((x &&& NOT32 (XHCI_PS_CCS ||| XHCI_PS_PED)) |||
        (XHCI_PS_CSC ||| XHCI_PS_PLS_SET UPS_PORT_LS_RX_DET)) =
      XHCI_PS_PLS_GET x ||| UPS_PORT_LS_RX_DET := by
  unfold XHCI_PS_PLS_GET
  have e1 : XHCI_PS_CCS ||| XHCI_PS_PED = 3 := by decide
  have e2 : XHCI_PS_CSC ||| XHCI_PS_PLS_SET UPS_PORT_LS_RX_DET = 0x200A0 := by decide
  have e3 : UPS_PORT_LS_RX_DET = 5 := by decide
  have eF : (0xF : Nat) = 2 ^ 4 - 1 := by decide
  rw [e1, e2, e3]
  apply Nat.eq_of_testBit_eq
  intro i
  rw [Nat.testBit_and, Nat.testBit_shiftRight, Nat.testBit_or, Nat.testBit_and, testBit_NOT32,
    testBit_3, Nat.testBit_or, Nat.testBit_and, Nat.testBit_shiftRight, eF,
    Nat.testBit_two_pow_sub_one]
  by_cases h : i < 4
  · have h1 : 5 + i < 32 := by omega
    have h2 : ¬ 5 + i < 2 := by omega
    have h3 : (0x200A0 : Nat).testBit (5 + i) = (5 : Nat).testBit i := by
      interval_cases i <;> decide
    rw [h3]
    simp [h, h1, h2]
  · have h5 : (5 : Nat).testBit i = false := by
      apply testBit_eq_false_of_lt_two_pow 5 4 i (by decide) (by omega)
    simp [h, h5]

/-- What `pci_xhci_disconnect_port` does to PORTSC: CCS is clear, CSC is set, and the link
state is the previous link state with the bits of RxDetect set on top; every port register
set but that of `port` is as it was; the slots and the devices are as they were. -/
theorem disconnect_port_portsc (xdev : pci_xhci_softc) (pr : Nat → pci_xhci_portregs)
    (port : Nat) (intr : Bool) (hp : xdev.portregs = some pr) (p : Nat)
    (hptr : xdev.rtsregs.erstba_p = some p) :
    ∃ r pr1, pci_xhci_disconnect_port xdev port intr = some r ∧ r.1.portregs = some pr1 ∧
      (pr1 port).portsc &&& XHCI_PS_CCS = 0 ∧
      (pr1 port).portsc &&& XHCI_PS_CSC = XHCI_PS_CSC ∧
      XHCI_PS_PLS_GET (pr1 port).portsc =
        XHCI_PS_PLS_GET (pr port).portsc ||| UPS_PORT_LS_RX_DET ∧
      (∀ q, q ≠ port → pr1 q = pr q) ∧
      r.1.slots = xdev.slots ∧ r.1.devices = xdev.devices ∧ r.1.devs = xdev.devs ∧
      r.1.slot_allocated = xdev.slot_allocated := by
  have hccs : ∀ x : Nat, ((x &&& NOT32 (XHCI_PS_CCS ||| XHCI_PS_PED)) |||
      (XHCI_PS_CSC ||| XHCI_PS_PLS_SET UPS_PORT_LS_RX_DET)) &&& XHCI_PS_CCS = 0 := by
    intro x
    rw [Nat.and_distrib_right, Nat.and_assoc]
    have e1 : NOT32 (XHCI_PS_CCS ||| XHCI_PS_PED) &&& XHCI_PS_CCS = 0 := by decide
    have e2 : (XHCI_PS_CSC ||| XHCI_PS_PLS_SET UPS_PORT_LS_RX_DET) &&& XHCI_PS_CCS = 0 := by
      decide
    rw [e1, e2, Nat.and_zero]
    rfl
  have hcsc : ∀ x : Nat, ((x &&& NOT32 (XHCI_PS_CCS ||| XHCI_PS_PED)) |||
      (XHCI_PS_CSC ||| XHCI_PS_PLS_SET UPS_PORT_LS_RX_DET)) &&& XHCI_PS_CSC = XHCI_PS_CSC := by
    intro x
    apply Nat.eq_of_testBit_eq
    intro i
    have e : XHCI_PS_CSC = 2 ^ 17 := by decide
    have e2 : XHCI_PS_CSC ||| XHCI_PS_PLS_SET UPS_PORT_LS_RX_DET = 0x200A0 := by decide
    rw [e2, e, Nat.testBit_and, Nat.testBit_or, Nat.testBit_two_pow]
    by_cases h : 17 = i
    · subst h
      have : (0x200A0 : Nat).testBit 17 = true := by decide
      simp [this]
    · simp [h]
  unfold pci_xhci_disconnect_port pci_xhci_change_port
  simp only [hp, if_true]
  split
  · refine ⟨_, _, rfl, rfl, ?_, ?_, ?_, ?_, rfl, rfl, rfl, rfl⟩
    · simp only [upd, if_true]; exact hccs _
    · simp only [upd, if_true]; exact hcsc _
    · simp only [upd, if_true]; exact pls_after_disconnect _
    · intro q hq; simp only [upd, if_neg hq]
  · split
    · refine ⟨_, _, rfl, rfl, ?_, ?_, ?_, ?_, rfl, rfl, rfl, rfl⟩
      · simp only [upd, if_true]; exact hccs _
      · simp only [upd, if_true]; exact hcsc _
      · simp only [upd, if_true]; exact pls_after_disconnect _
      · intro q hq; simp only [upd, if_neg hq]
    · have k := insert_event_keeps
        { xdev with portregs := some (upd pr port { pr port with
            portsc := ((pr port).portsc &&& NOT32 (XHCI_PS_CCS ||| XHCI_PS_PED)) |||
              (XHCI_PS_CSC ||| XHCI_PS_PLS_SET UPS_PORT_LS_RX_DET) }) }
        (pci_xhci_set_evtrb port XHCI_TRB_ERROR_SUCCESS XHCI_TRB_EVENT_PORT_STS_CHANGE) true
      simp only [pci_xhci_insert_event, hptr, Option.map_some']
      refine ⟨_, _, rfl, k.1, ?_, ?_, ?_, ?_, k.2.1, k.2.2.1, k.2.2.2.1, k.2.2.2.2.1⟩
      · simp only [upd, if_true]; exact hccs _
      · simp only [upd, if_true]; exact hcsc _
      · simp only [upd, if_true]; exact pls_after_disconnect _
      · intro q hq; simp only [upd, if_neg hq]

set_option maxRecDepth 1000000 in
/-- C29 at the failing input: the host device `di_stick` is Emulated on virtual port 5 of
the running controller and the guest has suspended the port (link state U3).  The host
reports the disconnection: the callback returns 0, PORTSC of port 5 has CCS clear and CSC
set, one PORT_STATUS_CHANGE event for port 5 is inserted and the slot and the device stay
bound, but the link state is 7 (the bits of RxDetect on top of those of U3), not RxDetect. -/
theorem disconnect_link_state_not_rxdetect :
    (sc_stick_u3.native_ports 0).vport = 5 ∧
    (sc_stick_u3.native_ports 0).state = VPORT_EMULATED ∧
    sc_stick_u3.opregs.usbcmd &&& XHCI_CMD_RS ≠ 0 ∧
    (sc_stick_u3.portregs.map fun pr => XHCI_PS_PLS_GET (pr 5).portsc) = some 3 ∧
    sc_stick_u3.rtsregs.er_events_cnt = 1 ∧
    ((pci_xhci_native_usb_dev_disconn_cb sc_stick_u3 di_stick).map fun r => r.2) = some 0 ∧
    ((pci_xhci_native_usb_dev_disconn_cb sc_stick_u3 di_stick).bind fun r =>
      r.1.portregs.map fun pr =>
        ((pr 5).portsc &&& XHCI_PS_CCS, (pr 5).portsc &&& XHCI_PS_CSC,
          XHCI_PS_PLS_GET (pr 5).portsc)) = some (0, XHCI_PS_CSC, 7) ∧
    ((pci_xhci_native_usb_dev_disconn_cb sc_stick_u3 di_stick).map fun r =>
      (r.1.rtsregs.er_events_cnt, (r.1.evmem (0x2000 + 16 * 1)).qwTrb0 >>> 24,
        XHCI_TRB_3_TYPE_GET (r.1.evmem (0x2000 + 16 * 1)).dwTrb3)) =
      some (2, 5, XHCI_TRB_EVENT_PORT_STS_CHANGE) ∧
    ((pci_xhci_native_usb_dev_disconn_cb sc_stick_u3 di_stick).map fun r =>
      (r.1.slots 1, r.1.devices 5)) = some (some 0, some 0) ∧
    UPS_PORT_LS_RX_DET = 5 := by
  decide

/-! ## Host connect -/

theorem get_free_vport_first (xdev : pci_xhci_softc) (di : usb_native_devinfo)
    (hbcd : 0x300 ≤ di.bcd) (hfree : vport_taken xdev xdev.usb3_port_start = false) :
    pci_xhci_get_free_vport xdev di = some xdev.usb3_port_start := by
  have hlen : xdev.usb3_port_start + XHCI_MAX_DEVS / 2 + 1 - xdev.usb3_port_start = 5 := by
    have : XHCI_MAX_DEVS / 2 = 4 := by decide
    omega
  have hb : ¬ di.bcd < 0x300 := by omega
  unfold pci_xhci_get_free_vport
  simp only [if_neg hb, hlen]
  rw [List.find?_range'_eq_some]
  refine ⟨by simp [hfree], by simp [List.mem_range'_1], ?_⟩
  intro j h1 h2
  omega

/-- An event insertion with room, on a state that has the event ring of `xdev`: the event is
stored at the enqueue index of `xdev` with the producer cycle state as its cycle bit, and one
event more is counted. -/
theorem insert_event_room_of_eq (s xdev : pci_xhci_softc) (ev : xhci_trb) (b : Bool)
    (h1 : s.rtsregs = xdev.rtsregs) (h2 : s.erstmem = xdev.erstmem) (h3 : s.evmem = xdev.evmem)
    (hsz : evrs_table_size xdev < 2 ^ 32)
    (hroom : xdev.rtsregs.er_events_cnt + 1 < evrs_table_size xdev) :
    (insert_event_ring s ev b).2 = XHCI_TRB_ERROR_SUCCESS ∧
    (insert_event_ring s ev b).1.evmem =
      upd xdev.evmem (erst_entry xdev xdev.rtsregs.er_enq_idx)
        { ev with dwTrb3 :=
            (ev.dwTrb3 &&& NOT32 XHCI_TRB_3_CYCLE_BIT) ||| xdev.rtsregs.event_pcs } ∧
    (insert_event_ring s ev b).1.rtsregs.er_events_cnt =
      xdev.rtsregs.er_events_cnt + 1 := by
  have e1 : evrs_table_size s = evrs_table_size xdev := by
    unfold evrs_table_size; rw [h1, h2]
  rw [insert_event_eq_store_of_room s ev b (by rw [e1]; exact hsz) (by rw [e1, h1]; exact hroom)]
  obtain ⟨s1, s2, -, s4, -, -, -, -⟩ := insert_event_store_spec
    { s with rtsregs := { s.rtsregs with er_events_cnt := s.rtsregs.er_events_cnt + 1 } } ev b
  refine ⟨s1, ?_, ?_⟩
  · rw [s2]
    simp only [erst_entry, h1, h3]
  · rw [s4]
    simp only [h1]

/-- C28, as the code has it: the host reports the connection of a device that is no external
hub, on an assigned path, with bcdUSB >= 0x300 and SuperSpeed, while no resume is pending for
the path, virtual port 1 (the start of the USB 3 range) is not taken, the controller is
running and the event ring has room.  The callback returns 0, the native port of the path is
mapped to virtual port 1 with state Connected, PORTSC of port 1 is CCS | PP | CSC | Speed(4),
in which PED is clear and the link state is U0, and one PORT_STATUS_CHANGE event for port 1
is stored at the enqueue index of the event ring, which counts one event more. -/
theorem conn_cb_connects (xdev : pci_xhci_softc) (pr : Nat → pci_xhci_portregs)
    (di : usb_native_devinfo) (index : Nat)
    (hp : xdev.portregs = some pr)
    (hidx : pci_xhci_get_native_port_index_by_path xdev di.path = some index)
    (hhub : di.type ≠ USB_TYPE_EXTHUB)
    (hvbdp : vbdp_find_start xdev di.path = none)
    (hbcd : 0x300 ≤ di.bcd) (hspeed : di.speed = USB_SPEED_SUPER)
    (hstart : xdev.usb3_port_start = 1)
    (hfree : vport_taken xdev 1 = false)
    (hrun : xdev.opregs.usbcmd &&& XHCI_CMD_RS ≠ 0)
    (hsz : evrs_table_size xdev < 2 ^ 32)
    (hroom : xdev.rtsregs.er_events_cnt + 1 < evrs_table_size xdev) :
    ∃ sc1 pr1, pci_xhci_native_usb_dev_conn_cb xdev di = some (sc1, 0) ∧
      sc1.native_ports index = { vport := 1, info := di, state := VPORT_CONNECTED } ∧
      (∀ j, j ≠ index → sc1.native_ports j = xdev.native_ports j) ∧
      sc1.portregs = some pr1 ∧
      (pr1 1).portsc = XHCI_PS_CCS ||| XHCI_PS_PP ||| XHCI_PS_CSC ||| XHCI_PS_SPEED_SET 4 ∧
      (pr1 1).portsc &&& XHCI_PS_PED = 0 ∧
      XHCI_PS_PLS_GET (pr1 1).portsc = UPS_PORT_LS_U0 ∧
      sc1.evmem = upd xdev.evmem (erst_entry xdev xdev.rtsregs.er_enq_idx)
        (port_event_stored 1 xdev.rtsregs.event_pcs) ∧
      sc1.rtsregs.er_events_cnt = xdev.rtsregs.er_events_cnt + 1 := by
  have hfv : pci_xhci_get_free_vport xdev di = some 1 := by
    have := get_free_vport_first xdev di hbcd (by rw [hstart]; exact hfree)
    rw [hstart] at this
    exact this
  have h10 : ¬ (1 : Nat) = 0 := by decide
  have hrs : ¬ xdev.opregs.usbcmd &&& XHCI_CMD_RS = 0 := hrun
  have hcs : pci_xhci_convert_speed USB_SPEED_SUPER = 4 := by decide
  unfold pci_xhci_native_usb_dev_conn_cb
  simp only [hidx, if_neg hhub, hvbdp, hfv, if_neg h10, Option.isSome_none, Bool.false_eq_true,
    if_false]
  obtain ⟨p0, hp0⟩ := erstba_p_of_size_pos xdev (by omega)
  unfold pci_xhci_connect_port pci_xhci_change_port
  simp only [hp, Bool.true_eq_false, if_false, if_neg hrs, hspeed, hcs, pci_xhci_insert_event,
    hp0, Option.map_some']
  have hI := insert_event_room_of_eq
    { ({ xdev with
          native_ports := upd xdev.native_ports index
            { vport := 1, info := di, state := VPORT_CONNECTED } } : pci_xhci_softc) with
        portregs := some (upd pr 1 { pr 1 with
          portsc := (XHCI_PS_CCS ||| XHCI_PS_PP ||| XHCI_PS_CSC) ||| XHCI_PS_SPEED_SET 4 }) }
    xdev (pci_xhci_set_evtrb 1 XHCI_TRB_ERROR_SUCCESS XHCI_TRB_EVENT_PORT_STS_CHANGE) true
    rfl rfl rfl hsz hroom
  have hk := insert_event_keeps
    { ({ xdev with
          native_ports := upd xdev.native_ports index
            { vport := 1, info := di, state := VPORT_CONNECTED } } : pci_xhci_softc) with
        portregs := some (upd pr 1 { pr 1 with
          portsc := (XHCI_PS_CCS ||| XHCI_PS_PP ||| XHCI_PS_CSC) ||| XHCI_PS_SPEED_SET 4 }) }
    (pci_xhci_set_evtrb 1 XHCI_TRB_ERROR_SUCCESS XHCI_TRB_EVENT_PORT_STS_CHANGE) true
  refine ⟨_, _, rfl, ?_, ?_, hk.1, ?_, ?_, ?_, hI.2.1, hI.2.2⟩
  · rw [hk.2.2.2.2.2]
    simp only [upd, if_true]
  · intro j hj
    rw [hk.2.2.2.2.2]
    simp only [upd, if_neg hj]
  · simp only [upd, if_true]
  · simp only [upd, if_true]
    decide
  · simp only [upd, if_true]
    decide

set_option maxRecDepth 1000000 in
/-- Witness of C28 as amended: the path of the SuperSpeed device `di_usb3 2` is assigned, the
controller runs with an empty event ring of four entries; the host reports the device: it is
mapped to virtual port 1 and one event is counted. -/
theorem conn_cb_connects_witness :
    ∃ sc1, pci_xhci_native_usb_dev_conn_cb (sc_usb3_assigned 4) (di_usb3 2) = some (sc1, 0) ∧
      (sc1.native_ports 0).vport = 1 ∧ (sc1.native_ports 0).state = VPORT_CONNECTED ∧
      sc1.rtsregs.er_events_cnt = 1 := by
  obtain ⟨sc1, pr1, h1, h2, -, -, -, -, -, -, h9⟩ :=
    conn_cb_connects (sc_usb3_assigned 4)
      ((sc_usb3_assigned 4).portregs.getD fun _ => ⟨0, 0, 0, 0⟩) (di_usb3 2) 0
      (option_eta _ _ (by decide)) (by decide) (by decide) (by decide) (by decide) (by decide)
      (by decide) (by decide) (by decide) (by decide) (by decide)
  refine ⟨sc1, h1, ?_, ?_, h9⟩
  · rw [h2]
  · rw [h2]

set_option maxRecDepth 1000000 in
/-- C28 fails as stated.  (1) The host reports the SuperSpeed device on the assigned path
while virtual port 1 is free and the controller is running: PORTSC of port 1 becomes
CCS | PP | CSC | Speed(4), without PED.  (2) The device reported on the assigned path is an
external hub: the callback returns 0, no virtual port is mapped and no event is inserted.
(3) The guest has started the controller without an event ring segment: the device is
mapped to virtual port 1 and no event is stored. -/
theorem conn_cb_connects_counterexample :
    ((pci_xhci_native_usb_dev_conn_cb (sc_usb3_assigned 4) (di_usb3 2)).bind fun r =>
        r.1.portregs.map fun pr => (pr 1).portsc) =
      some (XHCI_PS_CCS ||| XHCI_PS_PP ||| XHCI_PS_CSC ||| XHCI_PS_SPEED_SET 4) ∧
    XHCI_PS_CCS ||| XHCI_PS_PP ||| XHCI_PS_CSC ||| XHCI_PS_SPEED_SET 4 ≠
      XHCI_PS_CCS ||| XHCI_PS_PP ||| XHCI_PS_CSC ||| XHCI_PS_PLS_SET UPS_PORT_LS_U0 |||
        XHCI_PS_PED ||| XHCI_PS_SPEED_SET 4 ∧
    pci_xhci_get_native_port_index_by_path (sc_usb3_assigned 4) di_hub3.path = some 0 ∧
    ((pci_xhci_native_usb_dev_conn_cb (sc_usb3_assigned 4) di_hub3).map fun r =>
        (r.2, (r.1.native_ports 0).vport, (r.1.native_ports 0).state,
          r.1.rtsregs.er_events_cnt)) = some (0, 0, VPORT_ASSIGNED, 0) ∧
    (sc_usb3_assigned 0).opregs.usbcmd &&& XHCI_CMD_RS ≠ 0 ∧
    ((pci_xhci_native_usb_dev_conn_cb (sc_usb3_assigned 0) (di_usb3 2)).map fun r =>
        (r.2, (r.1.native_ports 0).vport, r.1.rtsregs.er_events_cnt,
          r.1.rtsregs.er_enq_idx)) = some (0, 1, 0, 0) := by
  decide


/-! ## Transfer completion and the transfer engine -/

/-- The store of the cycle state into the control word of a TRB leaves the other 31 bits as
they are. -/
theorem flags_after_cycle_write (x c : Nat) (hc : c ≤ 1) :
    (((x &&& NOT32 0x1) ||| c) % 2 ^ 32) &&& NOT32 0x1 = x &&& NOT32 0x1 := by
  apply Nat.eq_of_testBit_eq
  intro i
  have hc1 : c = 0 ∨ c = 1 := by omega
  rw [Nat.testBit_and, Nat.testBit_mod_two_pow, Nat.testBit_or, Nat.testBit_and,
    testBit_NOT32, testBit_1]
  rcases hc1 with h | h <;> subst h
  · by_cases h32 : i < 32 <;> by_cases h0 : i = 0 <;> simp [h32, h0]
  · rw [testBit_1]
    by_cases h32 : i < 32 <;> by_cases h0 : i = 0 <;> simp [h32, h0]

/-- A flag of the control word that is not the cycle bit is read from the 31 other bits. -/
theorem flag_of_kept (x y m : Nat) (h : x &&& NOT32 0x1 = y &&& NOT32 0x1)
    (hm : NOT32 0x1 &&& m = m) : x &&& m = y &&& m := by
  rw [← hm, ← Nat.and_assoc, ← Nat.and_assoc, h]

/-- The TRB type is read from the bits other than the cycle bit. -/
theorem type_of_kept (x y : Nat) (h : x &&& NOT32 0x1 = y &&& NOT32 0x1) :
    XHCI_TRB_3_TYPE_GET x = XHCI_TRB_3_TYPE_GET y := by
  have key : ∀ z : Nat, XHCI_TRB_3_TYPE_GET z = XHCI_TRB_3_TYPE_GET (z &&& NOT32 0x1) := by
    intro z
    unfold XHCI_TRB_3_TYPE_GET
    apply Nat.eq_of_testBit_eq
    intro i
    have e : (0x3F : Nat) = 2 ^ 6 - 1 := by decide
    rw [Nat.testBit_and, Nat.testBit_and, Nat.testBit_shiftRight, Nat.testBit_shiftRight,
      Nat.testBit_and, testBit_NOT32, testBit_1, e, Nat.testBit_two_pow_sub_one]
    by_cases h6 : i < 6
    · have h32 : 10 + i < 32 := by omega
      have h0 : ¬ (10 + i = 0) := by omega
      simp [h6, h32, h0]
    · simp [h6]
  rw [key x, key y, h]

/-- An event insertion leaves the TRBs of the transfer rings and the device contexts as they
are. -/
theorem insert_event_mem_keeps (sc : pci_xhci_softc) (ev : xhci_trb) (b : Bool) :
    (insert_event_ring sc ev b).1.trbmem = sc.trbmem ∧
    (insert_event_ring sc ev b).1.devctxmem = sc.devctxmem := by
  have hd : ∀ (s : pci_xhci_softc) (c : Bool) (e : Nat),
      (insert_event_done s c e).1.trbmem = s.trbmem ∧
      (insert_event_done s c e).1.devctxmem = s.devctxmem := by
    intro s c e
    unfold insert_event_done pci_xhci_assert_interrupt
    cases c
    · exact ⟨rfl, rfl⟩
    · simp only [if_true]
      split_ifs <;> exact ⟨rfl, rfl⟩
  have hs : ∀ (s : pci_xhci_softc) (c : Bool),
      (insert_event_store s ev c).1.trbmem = s.trbmem ∧
      (insert_event_store s ev c).1.devctxmem = s.devctxmem := by
    intro s c
    unfold insert_event_store
    exact hd _ _ _
  unfold insert_event_ring
  simp only
  split_ifs
  · exact hd _ _ _
  · exact hd _ _ _
  · exact hs _ _
  · exact hs _ _

theorem batch_indices_succ (i max n : Nat) :
    batch_indices i max (n + 1) = i :: batch_indices (index_inc i max) max n := rfl

/-- The descriptor of the block of a pass, read from the block and from its TRB as the loop
finds them when only cycle bits have been stored since the start. -/
theorem desc_of_pass (mem0 : Nat → xhci_trb) (data0 : Nat → usb_data_xfer_block)
    (s : xfer_complete_state) (hblk : s.xfer.data s.i = data0 s.i)
    (hc : (data0 s.i).ccs ≤ 1)
    (hk : ∀ a, (s.xdev.trbmem a).qwTrb0 = (mem0 a).qwTrb0 ∧
      (s.xdev.trbmem a).dwTrb3 &&& NOT32 0x1 = (mem0 a).dwTrb3 &&& NOT32 0x1) :
    (s.xdev.trbmem (s.xfer.data s.i).trb_addr).qwTrb0 = (desc_of mem0 data0 s.i).parameter ∧
    decide (xfer_pass_flags s &&& XHCI_TRB_3_IOC_BIT ≠ 0) = (desc_of mem0 data0 s.i).ioc ∧
    decide (xfer_pass_flags s &&& XHCI_TRB_3_ISP_BIT ≠ 0) = (desc_of mem0 data0 s.i).isp ∧
    xfer_pass_is_ed s = (desc_of mem0 data0 s.i).event_data ∧
    (∀ a, ((xfer_pass_xdev s).trbmem a).qwTrb0 = (mem0 a).qwTrb0 ∧
      ((xfer_pass_xdev s).trbmem a).dwTrb3 &&& NOT32 0x1 = (mem0 a).dwTrb3 &&& NOT32 0x1) := by
  unfold xfer_pass_flags xfer_pass_is_ed xfer_pass_xdev xfer_pass_flags
  rw [hblk]
  obtain ⟨h0, h3⟩ := hk (data0 s.i).trb_addr
  have hw := flags_after_cycle_write (s.xdev.trbmem (data0 s.i).trb_addr).dwTrb3 _ hc
  have hw3 := hw.trans h3
  refine ⟨h0, ?_, ?_, ?_, ?_⟩
  · show _ = decide _
    rw [flag_of_kept _ _ XHCI_TRB_3_IOC_BIT hw3 (by decide)]
  · show _ = decide _
    rw [flag_of_kept _ _ XHCI_TRB_3_ISP_BIT hw3 (by decide)]
  · show decide _ = decide _
    rw [type_of_kept _ _ h3]
  · intro a
    by_cases ha : a = (data0 s.i).trb_addr
    · subst ha
      simp only [upd, if_true]
      exact ⟨h0, hw3⟩
    · simp only [upd, if_neg ha]
      exact hk a

/-- The loop of `pci_xhci_xfer_complete` against the specification: when the event ring
segment table is programmed, the blocks of the batch are distinct blocks that are handled and
carry a cycle state of one bit, and every insertion succeeds, the loop returns, the events
handed to the event ring are those of the specification, the residual left in `rem_len` is
the unreported residual, and the chain is consumed. -/
theorem xfer_complete_loop_events (slot epid : Nat) (mem0 : Nat → xhci_trb)
    (data0 : Nat → usb_data_xfer_block) (max p : Nat) :
    ∀ (n : Nat) (s : xfer_complete_state),
      s.xdev.rtsregs.erstba_p = some p →
      s.xfer.max_blk_cnt = max →
      (batch_indices s.i max n).Nodup →
      (∀ j ∈ batch_indices s.i max n, s.xfer.data j = data0 j) →
      (∀ j ∈ batch_indices s.i max n,
        USB_BLOCK_HANDLED ≤ (data0 j).stat ∧ (data0 j).ccs ≤ 1) →
      (∀ a, (s.xdev.trbmem a).qwTrb0 = (mem0 a).qwTrb0 ∧
        (s.xdev.trbmem a).dwTrb3 &&& NOT32 0x1 = (mem0 a).dwTrb3 &&& NOT32 0x1) →
      (∀ r, xfer_complete_loop slot epid n s = some r →
        ∀ e ∈ r.events, e.2 = XHCI_TRB_ERROR_SUCCESS) →
      ∃ r, xfer_complete_loop slot epid n s = some r ∧
        r.events.map Prod.fst =
          s.events.map Prod.fst ++
            transfer_events_spec slot epid s.err s.rem_len s.edtla
              ((batch_indices s.i max n).map (desc_of mem0 data0)) ∧
        r.rem_len =
          transfer_unreported_spec s.err s.rem_len
            ((batch_indices s.i max n).map (desc_of mem0 data0)) := by
  intro n
  induction n with
  | zero =>
    intro s _ _ _ _ _ _ _
    refine ⟨s, by rw [xfer_complete_loop], ?_, ?_⟩
    · simp [batch_indices, transfer_events_spec]
    · simp [batch_indices, transfer_unreported_spec]
  | succ n ih =>
    intro s hptr hmax hnodup hdata hh hkeep hins
    rw [batch_indices_succ] at hnodup hdata hh ⊢
    have hblk : s.xfer.data s.i = data0 s.i := hdata s.i (List.mem_cons_self _ _)
    obtain ⟨hst, hccs⟩ := hh s.i (List.mem_cons_self _ _)
    obtain ⟨hni, hnodup1⟩ := List.nodup_cons.mp hnodup
    obtain ⟨hq, hioc, hisp, hed, hkeep1⟩ := desc_of_pass mem0 data0 s hblk hccs hkeep
    have hptrx : (xfer_pass_xdev s).rtsregs.erstba_p = some p := hptr
    have hdata1 : ∀ j ∈ batch_indices (index_inc s.i max) max n,
        (xfer_pass_xfer n s).data j = data0 j := by
      intro j hj
      have hne : j ≠ s.i := fun e => hni (e ▸ hj)
      simp only [xfer_pass_xfer, upd, if_neg hne]
      exact hdata j (List.mem_cons_of_mem _ hj)
    have hh1 : ∀ j ∈ batch_indices (index_inc s.i max) max n,
        USB_BLOCK_HANDLED ≤ (data0 j).stat ∧ (data0 j).ccs ≤ 1 :=
      fun j hj => hh j (List.mem_cons_of_mem _ hj)
    have hres : (desc_of mem0 data0 s.i).residual = (s.xfer.data s.i).blen := by
      rw [hblk]; rfl
    have hdel : (desc_of mem0 data0 s.i).delivered = (s.xfer.data s.i).bdone := by
      rw [hblk]; rfl
    have hpart : (desc_of mem0 data0 s.i).part = decide ((s.xfer.data s.i).type = USB_DATA_PART) := by
      rw [hblk]; rfl
    have haddr : (desc_of mem0 data0 s.i).trb_addr = (s.xfer.data s.i).trb_addr := by
      rw [hblk]; rfl
    have hcode : code_at s.err (s.rem_len + (s.xfer.data s.i).blen) = xfer_pass_err s := rfl
    rw [xfer_complete_loop] at hins ⊢
    have hst1 : ¬ (s.xfer.data s.i).stat < USB_BLOCK_HANDLED := by
      rw [hblk]; exact Nat.not_lt.mpr hst
    rw [if_neg hst1] at hins ⊢
    simp only [List.map_cons, transfer_events_spec, transfer_unreported_spec, hres, hdel, hpart,
      haddr, ← hioc, ← hisp, ← hed, ← hq, hcode, hmax] at hins ⊢
    by_cases hp : (s.xfer.data s.i).type = USB_DATA_PART
    · simp only [hp, if_true, decide_True] at hins ⊢
      exact ih _ hptrx (by exact hmax) hnodup1 hdata1 hh1 hkeep1 hins
    · simp only [hp, if_false, decide_False, Bool.false_eq_true] at hins ⊢
      have hev : xfer_pass_event slot epid s =
          if xfer_pass_is_ed s = true then
            transfer_event_data slot epid (xfer_pass_err s)
              (s.xdev.trbmem (s.xfer.data s.i).trb_addr).qwTrb0
              ((s.edtla + (s.xfer.data s.i).bdone) % 2 ^ 32)
          else
            transfer_event slot epid (xfer_pass_err s) (s.xfer.data s.i).trb_addr
              (s.rem_len + (s.xfer.data s.i).blen) := by
        unfold xfer_pass_event transfer_event_data transfer_event xfer_pass_edtla xfer_pass_rem
        split <;> rfl
      by_cases hqt : xfer_pass_flags s &&& XHCI_TRB_3_IOC_BIT = 0 ∧
          ¬ (xfer_pass_err s = XHCI_TRB_ERROR_SHORT_PKT ∧
            xfer_pass_flags s &&& XHCI_TRB_3_ISP_BIT ≠ 0)
      · have hspec : ¬ (decide (xfer_pass_flags s &&& XHCI_TRB_3_IOC_BIT ≠ 0) = true ∨
            decide (xfer_pass_flags s &&& XHCI_TRB_3_ISP_BIT ≠ 0) = true ∧
              xfer_pass_err s = XHCI_TRB_ERROR_SHORT_PKT) := by
          rintro (h | ⟨h1, h2⟩)
          · exact (of_decide_eq_true h) hqt.1
          · exact hqt.2 ⟨h2, of_decide_eq_true h1⟩
        rw [if_pos hqt] at hins ⊢
        simp only [if_neg hspec]
        exact ih _ hptrx (by exact hmax) hnodup1 hdata1 hh1 hkeep1 hins
      · have hspec : decide (xfer_pass_flags s &&& XHCI_TRB_3_IOC_BIT ≠ 0) = true ∨
            decide (xfer_pass_flags s &&& XHCI_TRB_3_ISP_BIT ≠ 0) = true ∧
              xfer_pass_err s = XHCI_TRB_ERROR_SHORT_PKT := by
          by_cases h1 : xfer_pass_flags s &&& XHCI_TRB_3_IOC_BIT = 0
          · right
            have h2 : xfer_pass_err s = XHCI_TRB_ERROR_SHORT_PKT ∧
                xfer_pass_flags s &&& XHCI_TRB_3_ISP_BIT ≠ 0 := by
              by_contra hc
              exact hqt ⟨h1, hc⟩
            exact ⟨decide_eq_true h2.2, h2.1⟩
          · left
            exact decide_eq_true h1
        rw [if_neg hqt] at hins ⊢
        simp only [if_pos hspec]
        rw [insert_event_of_ptr (xfer_pass_xdev s) (xfer_pass_event slot epid s) false p hptrx]
          at hins ⊢
        simp only at hins ⊢
        by_cases hr : (insert_event_ring (xfer_pass_xdev s) (xfer_pass_event slot epid s)
            false).2 ≠ XHCI_TRB_ERROR_SUCCESS
        · rw [if_pos hr] at hins
          exact absurd (hins _ rfl _ (List.mem_append_right _ (List.mem_singleton_self _))) hr
        · rw [if_neg hr] at hins ⊢
          have hr1 := not_not.mp hr
          have hkeep2 : ∀ a,
              (((insert_event_ring (xfer_pass_xdev s) (xfer_pass_event slot epid s)
                false).1.trbmem a).qwTrb0 = (mem0 a).qwTrb0 ∧
              ((insert_event_ring (xfer_pass_xdev s) (xfer_pass_event slot epid s)
                false).1.trbmem a).dwTrb3 &&& NOT32 0x1 = (mem0 a).dwTrb3 &&& NOT32 0x1) := by
            rw [(insert_event_mem_keeps _ _ _).1]
            exact hkeep1
          have hptr2 : (insert_event_ring (xfer_pass_xdev s) (xfer_pass_event slot epid s)
              false).1.rtsregs.erstba_p = some p := by
            rw [(insert_event_ring_keeps_ptr _ _ _).1]; exact hptrx
          obtain ⟨r, e0, e1, e2⟩ := ih _ hptr2 (by exact hmax) hnodup1 hdata1 hh1 hkeep2 hins
          refine ⟨r, e0, ?_, ?_⟩
          · rw [e1]
            simp only [hr1]
            simp only [List.map_append, List.map_cons, List.map_nil, List.append_assoc,
              List.singleton_append, hev]
            rfl
          · rw [e2]
            simp only [hr1]

/-- A reflexive and transitive relation between controller states that every pass of the
loop of `pci_xhci_xfer_complete` and every event insertion respect holds between the state
the loop starts in and the state it returns. -/
theorem xfer_complete_loop_rel (R : pci_xhci_softc → pci_xhci_softc → Prop)
    (hrefl : ∀ a, R a a) (htrans : ∀ a b c, R a b → R b c → R a c)
    (hpass : ∀ s : xfer_complete_state, R s.xdev (xfer_pass_xdev s))
    (hins : ∀ sc ev b, R sc (insert_event_ring sc ev b).1) (slot epid : Nat) :
    ∀ (n : Nat) (s r : xfer_complete_state), xfer_complete_loop slot epid n s = some r →
      R s.xdev r.xdev := by
  intro n
  induction n with
  | zero =>
    intro s r h
    rw [xfer_complete_loop] at h
    cases h; exact hrefl _
  | succ n ih =>
    intro s r h
    rw [xfer_complete_loop] at h
    split at h
    · cases h; exact hrefl _
    · simp only at h
      split at h
      · exact htrans _ _ _ (hpass s) (ih _ _ h)
      · split at h
        · exact htrans _ _ _ (hpass s) (ih _ _ h)
        · split at h
          · cases h
          · rename_i x hx
            obtain ⟨-, rfl⟩ := insert_event_eq_some _ _ _ _ hx
            split at h
            · cases h
              exact htrans _ _ _ (hpass s) (hins _ _ _)
            · exact htrans _ _ _ (htrans _ _ _ (hpass s) (hins _ _ _)) (ih _ _ h)

/-- The loop of `pci_xhci_xfer_complete` leaves the device contexts as they are. -/
theorem xfer_complete_loop_devctx (slot epid : Nat) :
    ∀ (n : Nat) (s r : xfer_complete_state), xfer_complete_loop slot epid n s = some r →
      r.xdev.devctxmem = s.xdev.devctxmem := by
  intro n
  induction n with
  | zero =>
    intro s r h
    rw [xfer_complete_loop] at h
    cases h; rfl
  | succ n ih =>
    intro s r h
    rw [xfer_complete_loop] at h
    split at h
    · cases h; rfl
    · simp only at h
      split at h
      · rw [ih _ _ h]; rfl
      · split at h
        · rw [ih _ _ h]; rfl
        · split at h
          · cases h
          · rename_i x hx
            obtain ⟨-, rfl⟩ := insert_event_eq_some _ _ _ _ hx
            split at h
            · cases h
              exact (insert_event_mem_keeps _ _ _).2
            · rw [ih _ _ h]
              exact (insert_event_mem_keeps _ _ _).2

/-- The endpoint state after the store of Halted over the three state bits. -/
theorem epstate_halted (x : Nat) :
    XHCI_EPCTX_0_EPSTATE_GET ((x &&& NOT32 0x7) ||| XHCI_ST_EPCTX_HALTED) =
      XHCI_ST_EPCTX_HALTED := by
  unfold XHCI_EPCTX_0_EPSTATE_GET
  rw [Nat.and_distrib_right, Nat.and_assoc]
  have e3 : NOT32 0x7 &&& 7 = 0 := by decide
  rw [e3, Nat.and_zero, Nat.zero_or]
  decide

/-- `pci_xhci_xfer_complete` against the specification, for a chain whose blocks are
distinct, handled and carry a cycle state of one bit, on a slot with a device context, when
every insertion succeeds: the function returns, the events it hands to the event ring are
those of the specification for the descriptors in TRB order, the residual left in `rem_len`
is the unreported residual, and a backend status STALLED leaves the endpoint Halted. -/
theorem xfer_complete_spec (xdev : pci_xhci_softc) (xfer : usb_data_xfer) (slot epid a : Nat)
    (hctx : pci_xhci_get_dev_ctx xdev slot = some (some a))
    (hnodup : (batch_indices xfer.head xfer.max_blk_cnt xfer.ndata).Nodup)
    (hh : ∀ j ∈ batch_indices xfer.head xfer.max_blk_cnt xfer.ndata,
      USB_BLOCK_HANDLED ≤ (xfer.data j).stat ∧ (xfer.data j).ccs ≤ 1)
    (p : Nat) (hptr : xdev.rtsregs.erstba_p = some p)
    (hins : ∀ e ∈ xfer_complete_events xdev xfer slot epid, e.2 = XHCI_TRB_ERROR_SUCCESS) :
    ∃ r, pci_xhci_xfer_complete xdev xfer slot epid = some r ∧
      r.events.map Prod.fst =
        transfer_events_spec slot epid (xfer_status_err xfer.status) 0 0
          (batch_descs xdev xfer) ∧
      r.rem_len =
        transfer_unreported_spec (xfer_status_err xfer.status) 0 (batch_descs xdev xfer) ∧
      (xfer.status = USB_ERR_STALLED →
        XHCI_EPCTX_0_EPSTATE_GET ((r.xdev.devctxmem a).ctx_ep epid).dwEpCtx0 =
          XHCI_ST_EPCTX_HALTED) := by
  unfold xfer_complete_events at hins
  unfold pci_xhci_xfer_complete at hins ⊢
  rw [hctx] at hins ⊢
  simp only at hins ⊢
  have hmem : ∀ a1,
      (((if xfer.status = USB_ERR_STALLED then
          { xdev with
            devctxmem := upd xdev.devctxmem a
              (set_ctx_ep (xdev.devctxmem a) epid
                { (xdev.devctxmem a).ctx_ep epid with
                  dwEpCtx0 := (((xdev.devctxmem a).ctx_ep epid).dwEpCtx0 &&& NOT32 0x7) |||
                    XHCI_ST_EPCTX_HALTED }) }
        else xdev).trbmem a1).qwTrb0 = (xdev.trbmem a1).qwTrb0 ∧
      ((if xfer.status = USB_ERR_STALLED then
          { xdev with
            devctxmem := upd xdev.devctxmem a
              (set_ctx_ep (xdev.devctxmem a) epid
                { (xdev.devctxmem a).ctx_ep epid with
                  dwEpCtx0 := (((xdev.devctxmem a).ctx_ep epid).dwEpCtx0 &&& NOT32 0x7) |||
                    XHCI_ST_EPCTX_HALTED }) }
        else xdev).trbmem a1).dwTrb3 &&& NOT32 0x1 = (xdev.trbmem a1).dwTrb3 &&& NOT32 0x1) := by
    intro a1
    split <;> exact ⟨rfl, rfl⟩
  have hptr1 : (if xfer.status = USB_ERR_STALLED then
          { xdev with
            devctxmem := upd xdev.devctxmem a
              (set_ctx_ep (xdev.devctxmem a) epid
                { (xdev.devctxmem a).ctx_ep epid with
                  dwEpCtx0 := (((xdev.devctxmem a).ctx_ep epid).dwEpCtx0 &&& NOT32 0x7) |||
                    XHCI_ST_EPCTX_HALTED }) }
        else xdev).rtsregs.erstba_p = some p := by
    split <;> exact hptr
  obtain ⟨r, e0, e1, e2⟩ := xfer_complete_loop_events slot epid xdev.trbmem xfer.data
    xfer.max_blk_cnt p xfer.ndata
    { xdev := if xfer.status = USB_ERR_STALLED then
          { xdev with
            devctxmem := upd xdev.devctxmem a
              (set_ctx_ep (xdev.devctxmem a) epid
                { (xdev.devctxmem a).ctx_ep epid with
                  dwEpCtx0 := (((xdev.devctxmem a).ctx_ep epid).dwEpCtx0 &&& NOT32 0x7) |||
                    XHCI_ST_EPCTX_HALTED }) }
        else xdev
      xfer := xfer, i := xfer.head, err := xfer_status_err xfer.status
      rem_len := 0, edtla := 0, do_intr := 0, events := [] }
    hptr1 (by exact rfl) hnodup (fun _ _ => rfl) hh hmem
    (by
      intro r hr
      rw [hr] at hins
      exact hins)
  refine ⟨r, e0, ?_, ?_, ?_⟩
  · rw [e1]; rfl
  · rw [e2]; rfl
  · intro hst
    rw [xfer_complete_loop_devctx _ _ _ _ _ e0]
    simp only [hst, if_true, upd, set_ctx_ep]
    exact epstate_halted _

/-- The remainder field of the TRANSFER_EVENT of a TRB is the residual, for a residual of 24
bits. -/
theorem rem_get_transfer_event (slot epid code trb_addr residual : Nat)
    (h : residual < 2 ^ 24) :
    XHCI_TRB_2_REM_GET (transfer_event slot epid code trb_addr residual).dwTrb2 = residual := by
  unfold transfer_event XHCI_TRB_2_REM_GET XHCI_TRB_2_ERROR_SET XHCI_TRB_2_REM_SET
  show ((code &&& 0xFF) <<< 24 ||| residual &&& 0xFFFFFF) &&& 0xFFFFFF = residual
  have e : (0xFFFFFF : Nat) = 2 ^ 24 - 1 := by decide
  apply Nat.eq_of_testBit_eq
  intro i
  rw [Nat.testBit_and, Nat.testBit_or, Nat.testBit_and, Nat.testBit_shiftLeft, e,
    Nat.testBit_two_pow_sub_one]
  by_cases hi : i < 24
  · have h1 : ¬ (i ≥ 24) := by omega
    simp [hi, h1]
  · have h2 : residual.testBit i = false :=
      testBit_eq_false_of_lt_two_pow residual 24 i h (by omega)
    simp [hi, h2]

/-- The remainders of the events of the specification and the unreported residual add up to
the residual of the batch, for a batch without EVENT_DATA TRBs whose residual has 24 bits. -/
theorem transfer_events_spec_sum (slot epid : Nat) :
    ∀ (ds : List transfer_desc) (code residual edtla : Nat),
      (∀ d ∈ ds, d.event_data = false) →
      residual + (ds.map transfer_desc.residual).sum < 2 ^ 24 →
      ((transfer_events_spec slot epid code residual edtla ds).map
          fun e => XHCI_TRB_2_REM_GET e.dwTrb2).sum +
        transfer_unreported_spec code residual ds =
        residual + (ds.map transfer_desc.residual).sum := by
  intro ds
  induction ds with
  | nil =>
    intro code residual edtla _ _
    simp [transfer_events_spec, transfer_unreported_spec]
  | cons d ds ih =>
    intro code residual edtla hned hb
    have hd : d.event_data = false := hned d (List.mem_cons_self _ _)
    have hned1 : ∀ x ∈ ds, x.event_data = false := fun x hx => hned x (List.mem_cons_of_mem _ hx)
    simp only [List.map_cons, List.sum_cons] at hb ⊢
    simp only [transfer_events_spec, transfer_unreported_spec, hd, Bool.false_eq_true, if_false]
    by_cases hp : d.part = true
    · simp only [hp, if_true]
      rw [ih code (residual + d.residual) _ hned1 (by omega)]
      omega
    · have hp1 : d.part = false := by simpa using hp
      simp only [hp1, Bool.false_eq_true, if_false]
      by_cases hc : d.ioc = true ∨
          d.isp = true ∧ code_at code (residual + d.residual) = XHCI_TRB_ERROR_SHORT_PKT
      · simp only [if_pos hc, List.map_cons, List.sum_cons]
        rw [rem_get_transfer_event _ _ _ _ _ (by omega)]
        have h0 := ih XHCI_TRB_ERROR_SUCCESS 0
          ((edtla + d.delivered) % 2 ^ 32) hned1 (by omega)
        omega
      · simp only [if_neg hc]
        rw [ih _ (residual + d.residual) _ hned1 (by omega)]
        omega

/-- C24 as amended: for a chain whose blocks are distinct, handled and carry a cycle state of
one bit, on a slot with a device context, with the event ring segment table programmed, and
when every event insertion succeeds, `pci_xhci_xfer_complete` returns and the events it hands to the event ring are, in TRB
order, those of `transfer_events_spec`: a descriptor that is not partial raises an event
exactly when its TRB has IOC, or has ISP while the completion code in effect is SHORT_PKT;
the event of a TRB carries the guest address of the TRB and the residual accumulated since
the previous event, the event of an EVENT_DATA TRB the parameter of the TRB and the length
delivered; each carries the slot, the endpoint and the completion code in effect, which
starts as the code of the backend status.  A backend status STALLED leaves the endpoint
Halted. -/
theorem xfer_complete_emits (xdev : pci_xhci_softc) (xfer : usb_data_xfer) (slot epid a : Nat)
    (hctx : pci_xhci_get_dev_ctx xdev slot = some (some a))
    (hnodup : (batch_indices xfer.head xfer.max_blk_cnt xfer.ndata).Nodup)
    (hh : ∀ j ∈ batch_indices xfer.head xfer.max_blk_cnt xfer.ndata,
      USB_BLOCK_HANDLED ≤ (xfer.data j).stat ∧ (xfer.data j).ccs ≤ 1)
    (p : Nat) (hptr : xdev.rtsregs.erstba_p = some p)
    (hins : ∀ e ∈ xfer_complete_events xdev xfer slot epid, e.2 = XHCI_TRB_ERROR_SUCCESS) :
    ∃ r, pci_xhci_xfer_complete xdev xfer slot epid = some r ∧
      r.events.map Prod.fst =
        transfer_events_spec slot epid (xfer_status_err xfer.status) 0 0
          (batch_descs xdev xfer) ∧
      (xfer.status = USB_ERR_STALLED →
        XHCI_EPCTX_0_EPSTATE_GET ((r.xdev.devctxmem a).ctx_ep epid).dwEpCtx0 =
          XHCI_ST_EPCTX_HALTED) := by
  obtain ⟨r, h1, h2, -, h4⟩ :=
    xfer_complete_spec xdev xfer slot epid a hctx hnodup hh p hptr hins
  exact ⟨r, h1, h2, h4⟩

set_option maxRecDepth 1000000 in
/-- Witness of C24 as amended: the control transfer of `ctrl_ring` (SETUP_STAGE, then a
DATA_STAGE TRB of 64 bytes with IOC at `0x8010`) of which the backend has delivered 10 bytes
yields exactly one event, for the TRB at `0x8010`, with SHORT_PKT and the remainder 54. -/
theorem xfer_complete_emits_witness :
    (batch_descs sc_ctrl_queued xfer_ctrl_done).map
        (fun d => (d.trb_addr, d.ioc, d.residual, d.delivered)) =
      [(0x8000, false, 0, 0), (0x8010, true, 54, 10)] ∧
    ∃ r, pci_xhci_xfer_complete sc_ctrl_queued xfer_ctrl_done 1 1 = some r ∧
      r.events.map Prod.fst = [transfer_event 1 1 XHCI_TRB_ERROR_SHORT_PKT 0x8010 54] ∧
      XHCI_TRB_2_ERROR_GET (transfer_event 1 1 XHCI_TRB_ERROR_SHORT_PKT 0x8010 54).dwTrb2 =
        XHCI_TRB_ERROR_SHORT_PKT ∧
      XHCI_TRB_2_REM_GET (transfer_event 1 1 XHCI_TRB_ERROR_SHORT_PKT 0x8010 54).dwTrb2 = 54 := by
  refine ⟨by decide, ?_⟩
  obtain ⟨r, h1, h2, -⟩ :=
    xfer_complete_emits sc_ctrl_queued xfer_ctrl_done 1 1 0x7000 (by decide) (by decide)
      (by decide) 0x1000 (by decide) (by decide)
  refine ⟨r, h1, ?_, by decide, by decide⟩
  rw [h2]
  decide

set_option maxRecDepth 1000000 in
/-- C24 fails as stated for an EVENT_DATA TRB.  The batch of `ed_ring` (a NORMAL TRB of 64
bytes, all delivered, chained to an EVENT_DATA TRB with IOC at `0x8210`) yields one event,
raised for the EVENT_DATA TRB: it carries the parameter `0xABCD0000` of the TRB, not its
guest address `0x8210`, and the 64 bytes delivered, not the residual 0. -/
theorem xfer_complete_emits_counterexample :
    (batch_descs sc_ed_queued xfer_ed_done).map
        (fun d => (d.trb_addr, d.ioc, d.event_data, d.part, d.residual)) =
      [(0x8200, false, false, false, 0), (0x8210, true, true, false, 0)] ∧
    xfer_complete_events sc_ed_queued xfer_ed_done 1 2 =
      [(transfer_event_data 1 2 XHCI_TRB_ERROR_SUCCESS 0xABCD0000 64, XHCI_TRB_ERROR_SUCCESS)] ∧
    (transfer_event_data 1 2 XHCI_TRB_ERROR_SUCCESS 0xABCD0000 64).qwTrb0 = 0xABCD0000 ∧
    XHCI_TRB_2_REM_GET (transfer_event_data 1 2 XHCI_TRB_ERROR_SUCCESS 0xABCD0000 64).dwTrb2 =
      64 := by
  refine ⟨by decide, by decide, by decide, by decide⟩

/-- C26 as amended: for a chain without EVENT_DATA TRBs whose blocks are distinct, handled
and carry a cycle state of one bit, whose residuals add up to less than `2 ^ 24`, on a slot
with a device context, with the event ring segment table programmed, and when every event
insertion succeeds, `pci_xhci_xfer_complete` returns, and the remainder fields of the events it emits, together with the residual of the
descriptors that follow the last descriptor that raised an event, add up to the sum of the
residuals of all descriptors of the batch. -/
theorem xfer_complete_remainders (xdev : pci_xhci_softc) (xfer : usb_data_xfer)
    (slot epid a : Nat)
    (hctx : pci_xhci_get_dev_ctx xdev slot = some (some a))
    (hnodup : (batch_indices xfer.head xfer.max_blk_cnt xfer.ndata).Nodup)
    (hh : ∀ j ∈ batch_indices xfer.head xfer.max_blk_cnt xfer.ndata,
      USB_BLOCK_HANDLED ≤ (xfer.data j).stat ∧ (xfer.data j).ccs ≤ 1)
    (p : Nat) (hptr : xdev.rtsregs.erstba_p = some p)
    (hins : ∀ e ∈ xfer_complete_events xdev xfer slot epid, e.2 = XHCI_TRB_ERROR_SUCCESS)
    (hned : ∀ d ∈ batch_descs xdev xfer, d.event_data = false)
    (hsum : ((batch_descs xdev xfer).map transfer_desc.residual).sum < 2 ^ 24) :
    ∃ r, pci_xhci_xfer_complete xdev xfer slot epid = some r ∧
      (r.events.map fun e => XHCI_TRB_2_REM_GET e.1.dwTrb2).sum +
          transfer_unreported_spec (xfer_status_err xfer.status) 0 (batch_descs xdev xfer) =
        ((batch_descs xdev xfer).map transfer_desc.residual).sum := by
  obtain ⟨r, h1, h2, -, -⟩ :=
    xfer_complete_spec xdev xfer slot epid a hctx hnodup hh p hptr hins
  refine ⟨r, h1, ?_⟩
  have hs := transfer_events_spec_sum slot epid (batch_descs xdev xfer)
    (xfer_status_err xfer.status) 0 0 hned (by omega)
  rw [← h2, List.map_map] at hs
  rw [Nat.zero_add] at hs
  exact hs

set_option maxRecDepth 1000000 in
/-- Witness of C26 as amended: for the control transfer of `ctrl_ring` of which the backend
has delivered 10 of 64 bytes, the remainders of the events add up to 54, the residual of the
batch; the last descriptor raised the event, so that no residual is unreported. -/
theorem xfer_complete_remainders_witness :
    ((batch_descs sc_ctrl_queued xfer_ctrl_done).map transfer_desc.residual).sum = 54 ∧
    transfer_unreported_spec (xfer_status_err xfer_ctrl_done.status) 0
      (batch_descs sc_ctrl_queued xfer_ctrl_done) = 0 ∧
    ∃ r, pci_xhci_xfer_complete sc_ctrl_queued xfer_ctrl_done 1 1 = some r ∧
      (r.events.map fun e => XHCI_TRB_2_REM_GET e.1.dwTrb2).sum = 54 := by
  have h0 : transfer_unreported_spec (xfer_status_err xfer_ctrl_done.status) 0
      (batch_descs sc_ctrl_queued xfer_ctrl_done) = 0 := by decide
  have h54 : ((batch_descs sc_ctrl_queued xfer_ctrl_done).map transfer_desc.residual).sum =
      54 := by decide
  refine ⟨h54, h0, ?_⟩
  obtain ⟨r, h1, h2⟩ :=
    xfer_complete_remainders sc_ctrl_queued xfer_ctrl_done 1 1 0x7000 (by decide) (by decide)
      (by decide) 0x1000 (by decide) (by decide) (by decide) (by decide)
  refine ⟨r, h1, ?_⟩
  rw [h0, h54] at h2
  exact h2

set_option maxRecDepth 1000000 in
/-- C26 fails as stated.  The batch of `bulk_ring` is one NORMAL TRB of 64 bytes without IOC
and ISP of which the backend has delivered 59 bytes: the block is handled and its residual
is 5, `pci_xhci_xfer_complete` emits no event, so that the remainders add up to 0. -/
theorem xfer_complete_remainders_counterexample :
    batch_descs sc_bulk_queued xfer_bulk_done =
      [⟨0x8100, 0x9000, false, false, false, false, 5, 59⟩] ∧
    (∀ j ∈ batch_indices xfer_bulk_done.head xfer_bulk_done.max_blk_cnt xfer_bulk_done.ndata,
      USB_BLOCK_HANDLED ≤ (xfer_bulk_done.data j).stat) ∧
    (pci_xhci_xfer_complete sc_bulk_queued xfer_bulk_done 1 2).isSome = true ∧
    xfer_complete_events sc_bulk_queued xfer_bulk_done 1 2 = [] ∧
    ((xfer_complete_events sc_bulk_queued xfer_bulk_done 1 2).map
      fun e => XHCI_TRB_2_REM_GET e.1.dwTrb2).sum = 0 ∧
    ((batch_descs sc_bulk_queued xfer_bulk_done).map transfer_desc.residual).sum = 5 := by
  refine ⟨by decide, by decide, by decide, by decide, by decide, by decide⟩

set_option maxRecDepth 1000000 in
/-- C25 fails in the code.  The guest has queued the control transfer of `ctrl_ring` (the
SETUP_STAGE TRB at `0x8000`, the DATA_STAGE TRB of 64 bytes with IOC at `0x8010`) and rings
the doorbell of the control endpoint of slot 1; the backend delivers 10 bytes.  The write
returns, the batch is completed (the event for the TRB at `0x8010` with SHORT_PKT and the
remainder 54 is in the event ring, the chain of the endpoint is empty), and the transfer
dequeue of the endpoint is where it was: `ep_ringaddr` and `ep_tr` are `0x8000`, the TR
dequeue pointer of the endpoint context is `0x8001`, and the TRBs are as queued.  A second
doorbell with nothing new queued processes the same TRBs again: the same event is stored a
second time.  `pci_xhci_update_ep_ring`, which no function calls, would have moved the
dequeue to `0x8020`. -/
theorem doorbell_leaves_dequeue :
    ctrl_dequeue sc_ctrl_queued = some (0x8000, 1, 0x8000, 0x8001) ∧
    (ring_ctrl_doorbell sc_ctrl_queued).is_done = true ∧
    sc_ctrl_queued.rtsregs.er_events_cnt = 1 ∧
    sc_ctrl_rung.rtsregs.er_events_cnt = 2 ∧
    sc_ctrl_rung.evmem 0x2010 =
      event_stored (transfer_event 1 1 XHCI_TRB_ERROR_SHORT_PKT 0x8010 54) 1 ∧
    (((sc_ctrl_rung.devs 0).eps 1).ep_xfer.map fun x => x.ndata) = some 0 ∧
    ctrl_dequeue sc_ctrl_rung = some (0x8000, 1, 0x8000, 0x8001) ∧
    sc_ctrl_rung.trbmem 0x8000 = sc_ctrl_queued.trbmem 0x8000 ∧
    sc_ctrl_rung.trbmem 0x8010 = sc_ctrl_queued.trbmem 0x8010 ∧
    sc_ctrl_rung.trbmem 0x8020 = sc_ctrl_queued.trbmem 0x8020 ∧
    (ring_ctrl_doorbell sc_ctrl_rung).is_done = true ∧
    sc_ctrl_rung_twice.rtsregs.er_events_cnt = 3 ∧
    sc_ctrl_rung_twice.evmem 0x2020 =
      event_stored (transfer_event 1 1 XHCI_TRB_ERROR_SHORT_PKT 0x8010 54) 1 ∧
    ctrl_dequeue sc_ctrl_rung_twice = some (0x8000, 1, 0x8000, 0x8001) ∧
    (pci_xhci_update_ep_ring sc_ctrl_rung 0 0x7000 1 0 0x8020 1).bind ctrl_dequeue =
      some (0x8020, 1, 0x8020, 0x8021) := by
  refine ⟨by decide, by decide, by decide, by decide, by decide, by decide, by decide,
    by decide, by decide, by decide, by decide, by decide, by decide, by decide, by decide⟩

theorem dequeue_kept_refl (sc : pci_xhci_softc) : dequeue_kept sc sc :=
  ⟨fun _ _ => ⟨rfl, rfl, rfl⟩, fun _ _ => rfl⟩

theorem dequeue_kept_trans (a b c : pci_xhci_softc) (h1 : dequeue_kept a b)
    (h2 : dequeue_kept b c) : dequeue_kept a c := by
  refine ⟨fun d e => ?_, fun x e => ?_⟩
  · obtain ⟨p1, p2, p3⟩ := h1.1 d e
    obtain ⟨q1, q2, q3⟩ := h2.1 d e
    exact ⟨q1.trans p1, q2.trans p2, q3.trans p3⟩
  · exact (h2.2 x e).trans (h1.2 x e)

theorem dequeue_kept_of_eq (sc sc1 : pci_xhci_softc) (h1 : sc1.devs = sc.devs)
    (h2 : sc1.devctxmem = sc.devctxmem) : dequeue_kept sc sc1 := by
  refine ⟨fun d e => ?_, fun x e => ?_⟩
  · rw [h1]; exact ⟨rfl, rfl, rfl⟩
  · rw [h2]

theorem assert_interrupt_dequeue (sc : pci_xhci_softc) :
    dequeue_kept sc (pci_xhci_assert_interrupt sc) := by
  apply dequeue_kept_of_eq
  · exact (assert_interrupt_keeps sc).2.2.2.1
  · unfold pci_xhci_assert_interrupt
    simp only
    split_ifs <;> rfl

theorem set_ep_xfer_dequeue (sc : pci_xhci_softc) (d epid : Nat) (xfer : usb_data_xfer) :
    dequeue_kept sc (set_ep_xfer sc d epid xfer) := by
  refine ⟨fun d1 e1 => ?_, fun x e => rfl⟩
  by_cases hd : d1 = d
  · subst hd
    by_cases he : e1 = epid
    · subst he
      simp [set_ep_xfer, set_devep, upd]
    · simp [set_ep_xfer, set_devep, upd, he]
  · simp [set_ep_xfer, set_devep, upd, hd]

theorem set_ep_running_dequeue (sc : pci_xhci_softc) (a epid : Nat) :
    dequeue_kept sc (set_ep_running sc a epid) := by
  refine ⟨fun d1 e1 => ⟨rfl, rfl, rfl⟩, fun x e => ?_⟩
  by_cases hx : x = a
  · subst hx
    by_cases he : e = epid
    · subst he
      simp [set_ep_running, set_ctx_ep, upd]
    · simp [set_ep_running, set_ctx_ep, upd, he]
  · simp [set_ep_running, set_ctx_ep, upd, hx]

/-- The loop of `pci_xhci_xfer_complete` leaves the device instances as they are. -/
theorem xfer_complete_loop_devs (slot epid : Nat) :
    ∀ (n : Nat) (s r : xfer_complete_state), xfer_complete_loop slot epid n s = some r →
      r.xdev.devs = s.xdev.devs :=
  fun n s r h =>
    (xfer_complete_loop_rel (fun a b => b.devs = a.devs) (fun _ => rfl)
      (fun _ _ _ h1 h2 => h2.trans h1) (fun _ => rfl)
      (fun _ _ _ => (insert_event_keeps _ _ _).2.2.2.1) slot epid n s r h)

theorem xfer_complete_dequeue (xdev : pci_xhci_softc) (xfer : usb_data_xfer) (slot epid : Nat)
    (r : xfer_complete_state) (h : pci_xhci_xfer_complete xdev xfer slot epid = some r) :
    dequeue_kept xdev r.xdev := by
  unfold pci_xhci_xfer_complete at h
  split at h
  · cases h
  · cases h
  · rename_i a _
    refine ⟨fun d e => ?_, fun x e => ?_⟩
    · rw [xfer_complete_loop_devs _ _ _ _ _ h]
      simp only
      split <;> exact ⟨rfl, rfl, rfl⟩
    · rw [xfer_complete_loop_devctx _ _ _ _ _ h]
      simp only
      split
      · by_cases hx : x = a
        · subst hx
          by_cases he : e = epid
          · subst he
            simp [set_ctx_ep, upd]
          · simp [set_ctx_ep, upd, he]
        · simp [upd, hx]
      · rfl

theorem try_usb_xfer_dequeue (sc : pci_xhci_softc) (d a slot epid : Nat)
    (r : pci_xhci_softc × Nat) (h : pci_xhci_try_usb_xfer sc d a slot epid = some r) :
    dequeue_kept sc r.1 := by
  have h0 := set_ep_running_dequeue sc a epid
  unfold pci_xhci_try_usb_xfer at h
  simp only at h
  cases hx : (((set_ep_running sc a epid).devs d).eps epid).ep_xfer with
  | none => rw [hx] at h; cases h
  | some xfer =>
    rw [hx] at h
    simp only at h
    cases hu : ((set_ep_running sc a epid).devs d).dev_ue.ue_data with
    | none =>
      rw [hu] at h
      simp only [Option.some.injEq] at h
      subst h
      exact h0
    | some f =>
      rw [hu] at h
      simp only at h
      generalize f xfer (if epid &&& 0x1 ≠ 0 then USB_XFER_IN else USB_XFER_OUT) (epid / 2) = res
        at h
      by_cases hc : res.2 = USB_ERR_CANCELLED
      · rw [if_pos hc] at h
        simp only [Option.some.injEq] at h
        subst h
        exact dequeue_kept_trans _ _ _ h0 (set_ep_xfer_dequeue _ _ _ _)
      · rw [if_neg hc] at h
        cases hq : pci_xhci_xfer_complete (set_ep_running sc a epid) res.1 slot epid with
        | none => rw [hq] at h; cases h
        | some c =>
          rw [hq] at h
          simp only [Option.some.injEq] at h
          subst h
          have h1 := xfer_complete_dequeue _ _ _ _ _ hq
          have h2 : dequeue_kept c.xdev
              (if c.err = XHCI_TRB_ERROR_SUCCESS ∧ c.do_intr ≠ 0 then
                pci_xhci_assert_interrupt c.xdev else c.xdev) := by
            split
            · exact assert_interrupt_dequeue _
            · exact dequeue_kept_refl _
          exact dequeue_kept_trans _ _ _ h0
            (dequeue_kept_trans _ _ _ h1
              (dequeue_kept_trans _ _ _ h2 (set_ep_xfer_dequeue _ _ _ _)))

/-- The body of `pci_xhci_handle_transfer` keeps the transfer dequeue of every endpoint. -/
theorem handle_transfer_retry_dequeue (slot epid streamid d a fuel : Nat) :
    ∀ (n : Nat) (sc : pci_xhci_softc) (w : transfer_walk_state) (sc1 : pci_xhci_softc)
      (err : Nat),
      handle_transfer_retry slot epid streamid d a fuel n sc w = transfer_result.done sc1 err →
      dequeue_kept sc sc1 := by
  intro n
  induction n with
  | zero =>
    intro sc w sc1 err h
    rw [handle_transfer_retry] at h
    cases h
  | succ n ih =>
    intro sc w sc1 err h
    rw [handle_transfer_retry] at h
    cases hw : handle_transfer_walk sc epid streamid fuel { w with setup_trb := false } with
    | out_of_fuel => rw [hw] at h; cases h
    | aborted => rw [hw] at h; cases h
    | errout w1 =>
      rw [hw] at h
      simp only [transfer_result.done.injEq] at h
      rw [← h.1]
      exact set_ep_xfer_dequeue _ _ _ _
    | stop w1 do_retry =>
      rw [hw] at h
      simp only at h
      by_cases he : epid = 1
      · rw [if_pos he] at h
        generalize request_transfer (sc.devs d).dev_ue w1.xfer = res at h
        by_cases hs : USB_TO_XHCI_ERR res.2 = XHCI_TRB_ERROR_SUCCESS ∨
            USB_TO_XHCI_ERR res.2 = XHCI_TRB_ERROR_SHORT_PKT
        · rw [if_pos hs] at h
          cases hq : pci_xhci_xfer_complete sc res.1 slot epid with
          | none => rw [hq] at h; cases h
          | some c =>
            rw [hq] at h
            simp only at h
            have h1 := xfer_complete_dequeue _ _ _ _ _ hq
            have h2 : dequeue_kept c.xdev
                (if c.do_intr ≠ 0 then pci_xhci_assert_interrupt c.xdev else c.xdev) := by
              split
              · exact assert_interrupt_dequeue _
              · exact dequeue_kept_refl _
            have h12 := dequeue_kept_trans _ _ _ h1 h2
            by_cases hr : do_retry = true ∧ c.err = XHCI_TRB_ERROR_SUCCESS
            · rw [if_pos hr] at h
              exact dequeue_kept_trans _ _ _ h12 (ih _ _ _ _ h)
            · rw [if_neg hr] at h
              simp only [transfer_result.done.injEq] at h
              rw [← h.1]
              exact dequeue_kept_trans _ _ _ h12 (set_ep_xfer_dequeue _ _ _ _)
        · rw [if_neg hs] at h
          by_cases hr : do_retry = true
          · rw [if_pos hr] at h
            exact ih _ _ _ _ h
          · rw [if_neg hr] at h
            simp only [transfer_result.done.injEq] at h
            rw [← h.1]
            exact set_ep_xfer_dequeue _ _ _ _
      · rw [if_neg he] at h
        cases ht : pci_xhci_try_usb_xfer (set_ep_xfer sc d epid w1.xfer) d a slot epid with
        | none => rw [ht] at h; cases h
        | some t =>
          rw [ht] at h
          simp only [transfer_result.done.injEq] at h
          rw [← h.1]
          exact dequeue_kept_trans _ _ _ (set_ep_xfer_dequeue _ _ _ _)
            (try_usb_xfer_dequeue _ _ _ _ _ _ ht)

/-- `pci_xhci_handle_transfer` keeps the transfer dequeue of every endpoint. -/
theorem handle_transfer_dequeue (fuel : Nat) (sc : pci_xhci_softc)
    (d a trb slot epid addr ccs streamid : Nat) (sc1 : pci_xhci_softc) (err : Nat)
    (h : pci_xhci_handle_transfer fuel sc d a trb slot epid addr ccs streamid =
      transfer_result.done sc1 err) :
    dequeue_kept sc sc1 := by
  unfold pci_xhci_handle_transfer at h
  simp only at h
  cases hx : (((set_ep_running sc a epid).devs d).eps epid).ep_xfer with
  | none => rw [hx] at h; cases h
  | some xfer =>
    rw [hx] at h
    exact dequeue_kept_trans _ _ _ (set_ep_running_dequeue sc a epid)
      (handle_transfer_retry_dequeue _ _ _ _ _ _ _ _ _ _ _ h)

theorem to_cmd_result_done (r : transfer_result) (sc1 : pci_xhci_softc)
    (h : r.to_cmd_result = cmd_result.done sc1) : ∃ err, r = transfer_result.done sc1 err := by
  cases r with
  | done s e =>
    simp only [transfer_result.to_cmd_result, cmd_result.done.injEq] at h
    exact ⟨e, by rw [h]⟩
  | aborted => cases h
  | out_of_fuel => cases h

/-- A device doorbell keeps the transfer dequeue of every endpoint: whenever
`pci_xhci_device_doorbell` returns, the cached ring of every endpoint and the TR dequeue
pointer of every endpoint context are what they were. -/
theorem device_doorbell_keeps_dequeue (fuel : Nat) (sc : pci_xhci_softc)
    (slot epid streamid : Nat) (sc1 : pci_xhci_softc)
    (h : pci_xhci_device_doorbell fuel sc slot epid streamid = cmd_result.done sc1) :
    dequeue_kept sc sc1 := by
  have hdone : ∀ s : pci_xhci_softc, cmd_result.done s = cmd_result.done sc1 →
      dequeue_kept s sc1 := by
    intro s hs
    simp only [cmd_result.done.injEq] at hs
    rw [hs]
    exact dequeue_kept_refl _
  have hht : ∀ (d a trb addr ccs : Nat),
      (pci_xhci_handle_transfer fuel sc d a trb slot epid addr ccs streamid).to_cmd_result =
        cmd_result.done sc1 → dequeue_kept sc sc1 := by
    intro d a trb addr ccs hh
    obtain ⟨err, he⟩ := to_cmd_result_done _ _ hh
    exact handle_transfer_dequeue _ _ _ _ _ _ _ _ _ _ _ _ he
  unfold pci_xhci_device_doorbell at h
  split at h
  · exact hdone _ h
  · split at h
    · exact hdone _ h
    · split at h
      · cases h
      · exact hdone _ h
      · simp only at h
        split at h
        · exact hdone _ h
        · split at h
          · cases h
          · split at h
            · cases h
            · split at h
              · split at h
                · cases h
                · rename_i r hr
                  simp only [cmd_result.done.injEq] at h
                  rw [← h]
                  exact try_usb_xfer_dequeue _ _ _ _ _ _ hr
              · split at h
                · split at h
                  · exact hdone _ h
                  · split at h
                    · exact hdone _ h
                    · split at h
                      · cases h
                      · split at h
                        · exact hdone _ h
                        · exact hht _ _ _ _ _ h
                · split at h
                  · exact hdone _ h
                  · split at h
                    · exact hdone _ h
                    · exact hht _ _ _ _ _ h

/-! ## The assertion of `pci_xhci_get_dev_ctx` -/

set_option maxRecDepth 1000000 in
/-- C35: a sequence of valid guest commands reaches `pci_xhci_get_dev_ctx` with a slot above
`ndevices`.  On the controller whose one device, the tablet, is Addressed in slot 1
(`ndevices` is 1, DCBAAP is set), ENABLE_SLOT returns SUCCESS with slot 2 and leaves
`ndevices` at 1; the input context at `0x4A00` has drop mask 0 and add flags A0 and A1; for
slot 2 the assertion of `pci_xhci_get_dev_ctx` fails, and so EVALUATE_CTX for slot 2 stops
the emulator, also when it is run through the dispatch of the command ring.  On the
controller with one connected host device and slots 1, 2 and 3 allocated (`ndevices` is 1),
ADDRESS_DEVICE for slot 3 with the input context at `0x4000` (drop mask 0, add mask 3)
stops the emulator, while the same command for slot 2 returns SUCCESS with `ndevices` 2. -/
theorem get_dev_ctx_assertion_reachable :
    sc_eval.ndevices = 1 ∧
    (pci_xhci_cmd_enable_slot sc_eval 0).2 = (XHCI_TRB_ERROR_SUCCESS, 2) ∧
    sc_eval_second_slot.ndevices = 1 ∧
    sc_eval_second_slot.opregs.dcbaa_p = some 0x6000 ∧
    sc_eval_second_slot.slot_allocated 2 = true ∧
    (sc_eval_second_slot.inctxmem 0x4A00).ctx_input.dwInCtx0 = 0 ∧
    (sc_eval_second_slot.inctxmem 0x4A00).ctx_input.dwInCtx1 = 3 ∧
    pci_xhci_get_dev_ctx sc_eval_second_slot 2 = none ∧
    (pci_xhci_cmd_eval_ctx sc_eval_second_slot 2
      (trb_cmd XHCI_TRB_TYPE_EVALUATE_CTX 0x4A00 2)).isNone = true ∧
    (cmd_dispatch sc_eval_second_slot
      (trb_cmd XHCI_TRB_TYPE_EVALUATE_CTX 0x4A00 2) 1).isNone = true ∧
    (sc_native_enabled backend_stick).ndevices = 1 ∧
    (pci_xhci_cmd_enable_slot (sc_native_enabled backend_stick) 0).2 =
      (XHCI_TRB_ERROR_SUCCESS, 2) ∧
    (pci_xhci_cmd_enable_slot
      (pci_xhci_cmd_enable_slot (sc_native_enabled backend_stick) 0).1 0).2 =
      (XHCI_TRB_ERROR_SUCCESS, 3) ∧
    sc_native_three_slots.ndevices = 1 ∧
    (sc_native_three_slots.inctxmem 0x4000).ctx_input.dwInCtx0 = 0 ∧
    (sc_native_three_slots.inctxmem 0x4000).ctx_input.dwInCtx1 = 3 ∧
    (pci_xhci_cmd_address_device sc_native_three_slots 3 (trb_address_device 3)).isNone =
      true ∧
    (pci_xhci_cmd_address_device sc_native_three_slots 2 (trb_address_device 2)).map
      (fun r => (r.2, r.1.ndevices)) = some (XHCI_TRB_ERROR_SUCCESS, 2) := by
  decide

/-! ## The dequeue pointer after SET_TR_DEQUEUE -/

set_option maxRecDepth 1000000 in
/-- C33, evaluated at the failing input: endpoint 1 of the Addressed tablet in slot 1, stopped
by STOP_EP and without streams; SET_TR_DEQUEUE with parameter `0x9001` (dequeue pointer
`0x9000`, DCS 1) returns SUCCESS, caches the ring address `0x9000` with cycle state 1, and
stores `0x9000` in `qwEpCtx2` of the endpoint context: the DCS bit is not in the context.  A
STOP_EP that follows stores `ep_ringaddr | ep_ccs`, which is `0x9001`. -/
theorem set_tr_context_without_dcs :
    XHCI_EPCTX_0_MAXP_STREAMS_GET ((sc_ep0_stopped.devctxmem 0x7000).ctx_ep 1).dwEpCtx0 = 0 ∧
    (pci_xhci_cmd_set_tr sc_ep0_stopped 1
      (trb_ep_cmd XHCI_TRB_TYPE_SET_TR_DEQUEUE 0x9001 1 1)).map
      (fun r => (r.2, ((r.1.devs 0).eps 1).ep_ringaddr, ((r.1.devs 0).eps 1).ep_ccs,
        ((r.1.devctxmem 0x7000).ctx_ep 1).qwEpCtx2)) =
      some (XHCI_TRB_ERROR_SUCCESS, 0x9000, 1, 0x9000) ∧
    ((pci_xhci_cmd_set_tr sc_ep0_stopped 1
      (trb_ep_cmd XHCI_TRB_TYPE_SET_TR_DEQUEUE 0x9001 1 1)).bind
      (fun r => pci_xhci_cmd_reset_ep r.1 1 (trb_ep_cmd XHCI_TRB_TYPE_STOP_EP 0 1 1))).map
      (fun r => (r.2, ((r.1.devs 0).eps 1).ep_ringaddr, ((r.1.devs 0).eps 1).ep_ccs,
        ((r.1.devctxmem 0x7000).ctx_ep 1).qwEpCtx2)) =
      some (XHCI_TRB_ERROR_SUCCESS, 0x9000, 1, 0x9001) := by
  refine ⟨by decide, by decide, by decide⟩

/-- Every SET_TR_DEQUEUE that completes with SUCCESS on an endpoint without streams, with a
parameter whose bit 0 (DCS) is set, leaves `qwEpCtx2` different from
`ep_ringaddr | ep_ccs`. -/
theorem set_tr_dcs_not_in_context (sc sc1 : pci_xhci_softc) (slot d a : Nat) (trb : xhci_trb)
    (hs : sc.slots slot = some d) (hc : (sc.devs d).dev_ctx = some a)
    (hm : XHCI_EPCTX_0_MAXP_STREAMS_GET
      ((sc.devctxmem a).ctx_ep (XHCI_TRB_3_EP_GET trb.dwTrb3)).dwEpCtx0 = 0)
    (hb : trb.qwTrb0 &&& 1 = 1)
    (h : pci_xhci_cmd_set_tr sc slot trb = some (sc1, XHCI_TRB_ERROR_SUCCESS)) :
    ((sc1.devctxmem a).ctx_ep (XHCI_TRB_3_EP_GET trb.dwTrb3)).qwEpCtx2 ≠
      ((sc1.devs d).eps (XHCI_TRB_3_EP_GET trb.dwTrb3)).ep_ringaddr |||
        ((sc1.devs d).eps (XHCI_TRB_3_EP_GET trb.dwTrb3)).ep_ccs := by
  obtain ⟨-, -, -, -, hr, hcc, -, hq⟩ := set_tr_no_streams sc sc1 slot d a trb hs hc hm h
  rw [hq, hr, hcc, hb]
  intro he
  have h0 : (MASK_NOT_F trb.qwTrb0).testBit 0 = false := by
    unfold MASK_NOT_F
    simp [Nat.testBit_and]
  have h1 := congrArg (fun x => x.testBit 0) he
  simp only [Nat.testBit_or, h0] at h1
  simp at h1

/-! ## The completion code of the later events of a failed batch -/

/-- The body of the loop of `xhci_vbdp_thread`, for any state in which it finds a saved port
in state END: on a controller whose event ring segment table is programmed, a pass that
finds such a saved port whose path is that of a Connected native port returns and writes to the PORTSC of its virtual port CCS, PP, CSC and the speed
field `pci_xhci_convert_speed (pci_xhci_convert_speed info.speed)`: the speed is converted
by the worker and once more by `pci_xhci_change_port`. -/
theorem vbdp_thread_pass_portsc (xdev : pci_xhci_softc) (i j : Nat)
    (pr : Nat → pci_xhci_portregs)
    (hi : (List.range XHCI_MAX_DEVICES).find?
      (fun i => (xdev.vbdp_devs i).state = S3_VBDP_END) = some i)
    (hj : pci_xhci_get_native_port_index_by_path xdev (xdev.vbdp_devs i).path = some j)
    (hs : (xdev.native_ports j).state = VPORT_CONNECTED)
    (hp : xdev.portregs = some pr) (p : Nat) (hptr : xdev.rtsregs.erstba_p = some p) :
    ∃ r, xhci_vbdp_thread_pass xdev = some r ∧
      portsc_of r (xdev.native_ports j).vport =
        (XHCI_PS_CCS ||| XHCI_PS_PP ||| XHCI_PS_CSC) |||
          XHCI_PS_SPEED_SET
            (pci_xhci_convert_speed (pci_xhci_convert_speed (xdev.native_ports j).info.speed)) := by
  have hj1 : pci_xhci_get_native_port_index_by_path
      { xdev with
        vbdp_devs := upd xdev.vbdp_devs i { xdev.vbdp_devs i with state := S3_VBDP_NONE } }
      (upd xdev.vbdp_devs i { xdev.vbdp_devs i with state := S3_VBDP_NONE } i).path = some j := by
    have : (upd xdev.vbdp_devs i { xdev.vbdp_devs i with state := S3_VBDP_NONE } i).path =
        (xdev.vbdp_devs i).path := by simp [upd]
    rw [this]
    exact hj
  have hs1 : ¬ (xdev.native_ports j).state ≠ VPORT_CONNECTED := not_not.mpr hs
  unfold xhci_vbdp_thread_pass
  simp only [hi, hj1, if_neg hs1]
  unfold pci_xhci_connect_port pci_xhci_change_port
  simp only [hp, Bool.true_eq_false, if_false]
  split
  · refine ⟨_, rfl, ?_⟩
    simp [portsc_of, upd]
  · simp only [pci_xhci_insert_event, hptr, Option.map_some']
    refine ⟨_, rfl, ?_⟩
    simp only [portsc_of]
    rw [(insert_event_keeps _ _ _).1]
    simp [upd]

/-! ## The first loop of ENABLE_SLOT -/

theorem enable_slot_find_dev_none (l : List Nat) (sc : pci_xhci_softc)
    (h : ∀ i ∈ l, ∀ d, sc.slots i = some d → (sc.devs d).dev_slotstate ≠ XHCI_ST_DISABLED) :
    enable_slot_find_dev sc l = none := by
  induction l with
  | nil => rfl
  | cons j rest ih =>
    unfold enable_slot_find_dev
    split
    · rename_i d hd
      rw [if_neg (h j (List.mem_cons_self _ _) d hd)]
      exact ih fun i hi => h i (List.mem_cons_of_mem _ hi)
    · exact ih fun i hi => h i (List.mem_cons_of_mem _ hi)

/-- C36, as the code has it: the first loop of `pci_xhci_cmd_enable_slot` is not dead.  The
function and the variant without the loop leave the same `slot_allocated` flags; they return
the same completion code and slot id when the scan of `slot_allocated` stops below
`XHCI_MAX_SLOTS`; they return the same code, slot id and state when the port registers are
not allocated or no slot device is in state Disabled; and when the first loop finds the
device `d` of slot `i` in state Disabled, the state the function leaves is the state the
variant leaves with `d` set to Enabled and its address set to `i`. -/
theorem enable_slot_first_loop (sc : pci_xhci_softc) (slot : Nat) :
    (pci_xhci_cmd_enable_slot sc slot).1.slot_allocated =
      (pci_xhci_cmd_enable_slot_without_first_loop sc slot).1.slot_allocated ∧
    (enable_slot_scan sc < XHCI_MAX_SLOTS →
      (pci_xhci_cmd_enable_slot sc slot).2 =
        (pci_xhci_cmd_enable_slot_without_first_loop sc slot).2) ∧
    (sc.portregs = none ∨ enable_slot_find_dev sc (List.range' 1 XHCI_MAX_SLOTS) = none →
      pci_xhci_cmd_enable_slot sc slot =
        pci_xhci_cmd_enable_slot_without_first_loop sc slot) ∧
    (∀ i d, sc.portregs.isSome = true →
      enable_slot_find_dev sc (List.range' 1 XHCI_MAX_SLOTS) = some (i, d) →
      (sc.devs d).dev_slotstate = XHCI_ST_DISABLED ∧
      (pci_xhci_cmd_enable_slot sc slot).1 =
        { (pci_xhci_cmd_enable_slot_without_first_loop sc slot).1 with
          devs := upd sc.devs d
            { sc.devs d with
              dev_slotstate := XHCI_ST_ENABLED
              hci_address := i } }) := by
  have hscan : ∀ i d, enable_slot_scan
      { sc with
        devs := upd sc.devs d
          { sc.devs d with dev_slotstate := XHCI_ST_ENABLED, hci_address := i } } =
      enable_slot_scan sc := fun _ _ => rfl
  refine ⟨?_, ?_, ?_, ?_⟩
  · unfold pci_xhci_cmd_enable_slot pci_xhci_cmd_enable_slot_without_first_loop
    cases hp : sc.portregs.isSome
    · simp only [Bool.false_eq_true, if_false]
    · cases hf : enable_slot_find_dev sc (List.range' 1 XHCI_MAX_SLOTS) with
      | none => simp only [if_true]
      | some r =>
        simp only [if_true, hscan]
        split <;> rfl
  · intro hlt
    unfold pci_xhci_cmd_enable_slot pci_xhci_cmd_enable_slot_without_first_loop
    cases hp : sc.portregs.isSome
    · simp only [Bool.false_eq_true, if_false, if_pos hlt]
    · cases hf : enable_slot_find_dev sc (List.range' 1 XHCI_MAX_SLOTS) with
      | none => simp only [if_true, if_pos hlt]
      | some r => simp only [if_true, hscan, if_pos hlt]
  · intro h
    unfold pci_xhci_cmd_enable_slot pci_xhci_cmd_enable_slot_without_first_loop
    rcases h with h | h
    · simp only [h, Option.isSome_none, Bool.false_eq_true, if_false]
    · simp only [h]
      split <;> rfl
  · intro i d hp hf
    refine ⟨enable_slot_find_dev_disabled sc _ i d hf, ?_⟩
    unfold pci_xhci_cmd_enable_slot pci_xhci_cmd_enable_slot_without_first_loop
    simp only [hp, hf, if_true, hscan]
    split <;> rfl

set_option maxRecDepth 1000000 in
/-- Witness of C36 as amended: on the fresh controller with the tablet bound to slot 1 and
Disabled, the scan stops at slot 1; the function and the variant return the same code and
slot id, and the function leaves the state of the variant with the tablet Enabled at
address 1. -/
theorem enable_slot_first_loop_witness :
    (enable_slot_scan sc_fresh < XHCI_MAX_SLOTS ∧
      enable_slot_find_dev sc_fresh (List.range' 1 XHCI_MAX_SLOTS) = some (1, 0)) ∧
    (pci_xhci_cmd_enable_slot sc_fresh 0).2 =
      (pci_xhci_cmd_enable_slot_without_first_loop sc_fresh 0).2 ∧
    ((sc_fresh.devs 0).dev_slotstate = XHCI_ST_DISABLED ∧
      (pci_xhci_cmd_enable_slot sc_fresh 0).1 =
        { (pci_xhci_cmd_enable_slot_without_first_loop sc_fresh 0).1 with
          devs := upd sc_fresh.devs 0
            { sc_fresh.devs 0 with
              dev_slotstate := XHCI_ST_ENABLED
              hci_address := 1 } }) :=
  ⟨⟨by decide, by decide⟩, (enable_slot_first_loop sc_fresh 0).2.1 (by decide),
    (enable_slot_first_loop sc_fresh 0).2.2.2 1 0 (by decide) (by decide)⟩

set_option maxRecDepth 1000000 in
/-- C36 fails as stated.  On the fresh controller with the tablet bound to slot 1, the
function and the variant without the first loop both return SUCCESS with slot 1, but the
function leaves the tablet Enabled with address 1 and the variant leaves it Disabled with
address 0.  On the controller with the slot ids 1..63 allocated and the tablet Disabled by
DISABLE_SLOT, the function returns SUCCESS with slot 1 and the variant returns NO_SLOTS. -/
theorem enable_slot_first_loop_counterexample :
    (pci_xhci_cmd_enable_slot sc_fresh 0).2 = (XHCI_TRB_ERROR_SUCCESS, 1) ∧
    (pci_xhci_cmd_enable_slot_without_first_loop sc_fresh 0).2 = (XHCI_TRB_ERROR_SUCCESS, 1) ∧
    sc_fresh.slots 1 = some 0 ∧
    ((pci_xhci_cmd_enable_slot sc_fresh 0).1.devs 0).dev_slotstate = XHCI_ST_ENABLED ∧
    ((pci_xhci_cmd_enable_slot sc_fresh 0).1.devs 0).hci_address = 1 ∧
    ((pci_xhci_cmd_enable_slot_without_first_loop sc_fresh 0).1.devs 0).dev_slotstate =
      XHCI_ST_DISABLED ∧
    ((pci_xhci_cmd_enable_slot_without_first_loop sc_fresh 0).1.devs 0).hci_address = 0 ∧
    (pci_xhci_cmd_disable_slot sc_slots_63 1).2 = XHCI_TRB_ERROR_SUCCESS ∧
    (pci_xhci_cmd_enable_slot sc_slots_63_disabled 0).2 = (XHCI_TRB_ERROR_SUCCESS, 1) ∧
    (pci_xhci_cmd_enable_slot_without_first_loop sc_slots_63_disabled 0).2 =
      (XHCI_TRB_ERROR_NO_SLOTS, 0) := by
  refine ⟨by decide, by decide, by decide, by decide, by decide, by decide, by decide,
    by decide, by decide, by decide⟩

/-! ## Frames of the commands, the transfers and the register writes -/

theorem regs_frame_refl (sc : pci_xhci_softc) : regs_frame sc sc := ⟨rfl, fun _ h => h⟩

theorem regs_frame_trans {a b c : pci_xhci_softc} (h1 : regs_frame a b) (h2 : regs_frame b c) :
    regs_frame a c :=
  ⟨h2.1.trans h1.1, fun s h => h2.2 s (h1.2 s h)⟩

theorem reset_slot_regs (sc : pci_xhci_softc) (slot : Nat) :
    regs_frame sc (pci_xhci_reset_slot sc slot) := by
  unfold pci_xhci_reset_slot
  split <;> exact ⟨rfl, fun _ h => h⟩

theorem enable_slot_regs (sc : pci_xhci_softc) (slot : Nat) :
    regs_frame sc (pci_xhci_cmd_enable_slot sc slot).1 := by
  have key : ∀ r1 : pci_xhci_softc × Nat × Nat, r1.1.opregs = sc.opregs →
      r1.1.slot_allocated = sc.slot_allocated →
      regs_frame sc
        (if enable_slot_scan r1.1 < XHCI_MAX_SLOTS then
          ({ r1.1 with slot_allocated := upd r1.1.slot_allocated (enable_slot_scan r1.1) true },
            XHCI_TRB_ERROR_SUCCESS, enable_slot_scan r1.1)
        else r1).1 := by
    intro r1 h1 h2
    split
    · refine ⟨h1, fun s h => ?_⟩
      simp only [upd]
      split
      · rfl
      · rw [h2]; exact h
    · exact ⟨h1, fun s h => by rw [h2]; exact h⟩
  unfold pci_xhci_cmd_enable_slot
  exact key _ (by split <;> (try split) <;> rfl) (by split <;> (try split) <;> rfl)

theorem disable_slot_regs (sc : pci_xhci_softc) (slot : Nat) :
    regs_frame sc (pci_xhci_cmd_disable_slot sc slot).1 := by
  unfold pci_xhci_cmd_disable_slot
  split
  · exact ⟨rfl, fun _ h => h⟩
  · split
    · exact ⟨rfl, fun _ h => h⟩
    · split
      · split <;> exact ⟨rfl, fun _ h => h⟩
      · exact ⟨rfl, fun _ h => h⟩

theorem reset_device_regs (sc : pci_xhci_softc) (slot : Nat) (r : pci_xhci_softc × Nat)
    (h : pci_xhci_cmd_reset_device sc slot = some r) : regs_frame sc r.1 := by
  unfold pci_xhci_cmd_reset_device at h
  split at h
  · cases h; exact regs_frame_refl sc
  · split at h
    · cases h; exact reset_slot_regs sc slot
    · split at h
      · cases h; exact reset_slot_regs sc slot
      · simp only at h
        split at h
        · cases h
          exact regs_frame_trans ⟨rfl, fun _ h => h⟩ (reset_slot_regs _ slot)
        · cases h

theorem init_ep_regs (sc : pci_xhci_softc) (d a epid : Nat) (r : pci_xhci_softc)
    (h : pci_xhci_init_ep sc d a epid = some r) : regs_frame sc r := by
  unfold pci_xhci_init_ep at h
  simp only at h
  split at h
  · cases h
  · cases h; exact ⟨rfl, fun _ h => h⟩

theorem disable_ep_regs (sc : pci_xhci_softc) (d epid : Nat) (r : pci_xhci_softc)
    (h : pci_xhci_disable_ep sc d epid = some r) : regs_frame sc r := by
  unfold pci_xhci_disable_ep at h
  simp only at h
  split at h
  · cases h
  · split at h
    · cases h
    · cases h; exact ⟨rfl, fun _ h => h⟩

theorem disable_eps_regs (l : List Nat) (sc : pci_xhci_softc) (d : Nat) (r : pci_xhci_softc)
    (h : disable_eps sc d l = some r) : regs_frame sc r := by
  induction l generalizing sc with
  | nil =>
    unfold disable_eps at h
    cases h; exact regs_frame_refl _
  | cons i rest ih =>
    unfold disable_eps at h
    split at h
    · cases h
    · rename_i sc1 h1
      exact regs_frame_trans (disable_ep_regs sc d i sc1 h1) (ih sc1 h)

theorem config_ep_loop_regs (ic : xhci_input_dev_ctx) (d a : Nat) (l : List Nat)
    (sc : pci_xhci_softc) (r : pci_xhci_softc)
    (h : config_ep_loop ic d a sc l = some r) : regs_frame sc r := by
  induction l generalizing sc with
  | nil =>
    unfold config_ep_loop at h
    cases h; exact regs_frame_refl _
  | cons i rest ih =>
    unfold config_ep_loop at h
    simp only at h
    split at h
    · cases h
    · rename_i sc1 h1
      have f1 : regs_frame sc sc1 := by
        split at h1
        · exact disable_ep_regs sc d i sc1 h1
        · cases h1; exact regs_frame_refl _
      split at h
      · split at h
        · cases h
        · rename_i sc3 h3
          have f3 := init_ep_regs _ d a i sc3 h3
          have f4 := ih _ h
          exact regs_frame_trans f1
            (regs_frame_trans (regs_frame_trans ⟨rfl, fun _ h => h⟩ f3)
              (regs_frame_trans ⟨rfl, fun _ h => h⟩ f4))
      · exact regs_frame_trans f1 (ih sc1 h)

theorem address_device_regs (sc : pci_xhci_softc) (slot : Nat) (trb : xhci_trb)
    (r : pci_xhci_softc × Nat) (h : pci_xhci_cmd_address_device sc slot trb = some r) :
    regs_frame sc r.1 := by
  unfold pci_xhci_cmd_address_device at h
  simp only at h
  split at h
  · cases h; exact regs_frame_refl _
  · split at h
    · cases h; exact regs_frame_refl _
    · split at h
      · cases h; exact regs_frame_refl _
      · rename_i sc1 hb
        have f1 : regs_frame sc sc1 := by
          split at hb
          · cases hb; exact regs_frame_refl _
          · split at hb
            · cases hb
            · split at hb
              · cases hb
              · cases hb; exact ⟨rfl, fun _ h => h⟩
        split at h
        · cases h
        · cases h; exact f1
        · split at h
          · cases h
          · split at h
            · cases h; exact regs_frame_trans f1 ⟨rfl, fun _ h => h⟩
            · split at h
              · cases h
              · rename_i sc4 h4
                cases h
                have f4 := init_ep_regs _ _ _ _ sc4 h4
                exact regs_frame_trans f1
                  (regs_frame_trans (regs_frame_trans ⟨rfl, fun _ h => h⟩ f4)
                    ⟨rfl, fun _ h => h⟩)

theorem config_ep_regs (sc : pci_xhci_softc) (slot : Nat) (trb : xhci_trb)
    (r : pci_xhci_softc × Nat) (h : pci_xhci_cmd_config_ep sc slot trb = some r) :
    regs_frame sc r.1 := by
  unfold pci_xhci_cmd_config_ep at h
  split at h
  · cases h
  · simp only at h
    split at h
    · split at h
      · split at h
        · cases h
        · rename_i sc3 h3
          cases h
          have f3 := disable_eps_regs _ _ _ sc3 h3
          exact regs_frame_trans ⟨rfl, fun _ h => h⟩ f3
      · cases h
    · split at h
      · cases h; exact regs_frame_refl _
      · split at h
        · cases h
        · split at h
          · cases h
          · rename_i sc1 h1
            cases h
            exact regs_frame_trans (config_ep_loop_regs _ _ _ _ _ sc1 h1) ⟨rfl, fun _ h => h⟩

theorem reset_ep_regs (sc : pci_xhci_softc) (slot : Nat) (trb : xhci_trb)
    (r : pci_xhci_softc × Nat) (h : pci_xhci_cmd_reset_ep sc slot trb = some r) :
    regs_frame sc r.1 := by
  unfold pci_xhci_cmd_reset_ep at h
  simp only at h
  split at h
  · cases h
  · split at h
    · cases h; exact regs_frame_refl _
    · split at h
      · cases h
      · split at h <;> (cases h; exact ⟨rfl, fun _ h => h⟩)

theorem set_tr_regs (sc : pci_xhci_softc) (slot : Nat) (trb : xhci_trb)
    (r : pci_xhci_softc × Nat) (h : pci_xhci_cmd_set_tr sc slot trb = some r) :
    regs_frame sc r.1 := by
  unfold pci_xhci_cmd_set_tr at h
  split at h
  · cases h
  · simp only at h
    split at h
    · cases h; exact regs_frame_refl _
    · split at h
      · cases h
      · split at h
        · cases h; exact regs_frame_refl _
        · split at h
          · split at h
            · cases h
            · rename_i sc1 h1
              cases h
              have f1 : regs_frame sc sc1 := by
                split at h1
                · cases h1; exact regs_frame_refl _
                · split at h1
                  · cases h1; exact ⟨rfl, fun _ h => h⟩
                  · cases h1
              exact regs_frame_trans f1 ⟨rfl, fun _ h => h⟩
          · cases h; exact ⟨rfl, fun _ h => h⟩

theorem eval_ctx_regs (sc : pci_xhci_softc) (slot : Nat) (trb : xhci_trb)
    (r : pci_xhci_softc × Nat) (h : pci_xhci_cmd_eval_ctx sc slot trb = some r) :
    regs_frame sc r.1 := by
  unfold pci_xhci_cmd_eval_ctx at h
  simp only at h
  split at h
  · cases h; exact regs_frame_refl _
  · split at h
    · cases h; exact ⟨rfl, fun _ h => h⟩
    · cases h


theorem run_frame_refl (sc : pci_xhci_softc) : run_frame sc sc := ⟨rfl, rfl, fun _ h => h⟩

theorem run_frame_trans (a b c : pci_xhci_softc) (h1 : run_frame a b) (h2 : run_frame b c) :
    run_frame a c :=
  ⟨h2.1.trans h1.1, h2.2.1.trans h1.2.1, fun s h => h2.2.2 s (h1.2.2 s h)⟩

theorem run_frame_of_regs {sc sc1 : pci_xhci_softc} (h : regs_frame sc sc1) :
    run_frame sc sc1 :=
  ⟨by rw [h.1], by rw [h.1], h.2⟩

theorem or_eint_and_hch (x : Nat) : (x ||| XHCI_STS_EINT) &&& XHCI_STS_HCH = x &&& XHCI_STS_HCH := by
  apply Nat.eq_of_testBit_eq
  intro i
  rw [Nat.testBit_and, Nat.testBit_and, Nat.testBit_or]
  show ((x.testBit i || Nat.testBit 8 i) && Nat.testBit 1 i) =
    (x.testBit i && Nat.testBit 1 i)
  rw [testBit_8, testBit_1]
  by_cases h0 : i = 0
  · subst h0; simp
  · simp [h0]

theorem assert_interrupt_run (sc : pci_xhci_softc) :
    run_frame sc (pci_xhci_assert_interrupt sc) := by
  unfold pci_xhci_assert_interrupt
  simp only
  split
  · split <;> exact ⟨rfl, or_eint_and_hch _, fun _ h => h⟩
  · exact ⟨rfl, or_eint_and_hch _, fun _ h => h⟩

/-- An event insertion leaves USBCMD, USBSTS.HCH and the allocated slot ids as they are. -/
theorem insert_event_run (sc : pci_xhci_softc) (ev : xhci_trb) (b : Bool) :
    run_frame sc (insert_event_ring sc ev b).1 := by
  have hd : ∀ (s : pci_xhci_softc) (c : Bool) (e : Nat),
      run_frame s (insert_event_done s c e).1 := by
    intro s c e
    unfold insert_event_done
    cases c
    · exact run_frame_refl _
    · exact assert_interrupt_run s
  have hs : ∀ (s : pci_xhci_softc) (c : Bool), run_frame s (insert_event_store s ev c).1 := by
    intro s c
    unfold insert_event_store
    exact run_frame_trans _ _ _ ⟨rfl, rfl, fun _ h => h⟩ (hd _ _ _)
  unfold insert_event_ring
  simp only
  split_ifs
  · exact hd _ _ _
  · exact run_frame_trans _ _ _ ⟨rfl, rfl, fun _ h => h⟩ (hd _ _ _)
  · exact hs _ _
  · exact run_frame_trans _ _ _ ⟨rfl, rfl, fun _ h => h⟩ (hs _ _)

theorem set_ep_xfer_run (sc : pci_xhci_softc) (d epid : Nat) (xfer : usb_data_xfer) :
    run_frame sc (set_ep_xfer sc d epid xfer) := ⟨rfl, rfl, fun _ h => h⟩

theorem set_ep_running_run (sc : pci_xhci_softc) (a epid : Nat) :
    run_frame sc (set_ep_running sc a epid) := ⟨rfl, rfl, fun _ h => h⟩

/-- The loop of `pci_xhci_xfer_complete` leaves USBCMD, USBSTS.HCH and the allocated slot ids
as they are. -/
theorem xfer_complete_loop_run (slot epid : Nat) :
    ∀ (n : Nat) (s r : xfer_complete_state), xfer_complete_loop slot epid n s = some r →
      run_frame s.xdev r.xdev :=
  xfer_complete_loop_rel run_frame run_frame_refl run_frame_trans
    (fun _ => ⟨rfl, rfl, fun _ h => h⟩) insert_event_run slot epid

theorem xfer_complete_run (xdev : pci_xhci_softc) (xfer : usb_data_xfer) (slot epid : Nat)
    (r : xfer_complete_state) (h : pci_xhci_xfer_complete xdev xfer slot epid = some r) :
    run_frame xdev r.xdev := by
  unfold pci_xhci_xfer_complete at h
  split at h
  · cases h
  · cases h
  · refine run_frame_trans _ _ _ ?_ (xfer_complete_loop_run _ _ _ _ _ h)
    simp only
    split <;> exact ⟨rfl, rfl, fun _ h => h⟩


theorem try_usb_xfer_run (sc : pci_xhci_softc) (d a slot epid : Nat)
    (r : pci_xhci_softc × Nat) (h : pci_xhci_try_usb_xfer sc d a slot epid = some r) :
    run_frame sc r.1 := by
  have h0 := set_ep_running_run sc a epid
  unfold pci_xhci_try_usb_xfer at h
  simp only at h
  cases hx : (((set_ep_running sc a epid).devs d).eps epid).ep_xfer with
  | none => rw [hx] at h; cases h
  | some xfer =>
    rw [hx] at h
    simp only at h
    cases hu : ((set_ep_running sc a epid).devs d).dev_ue.ue_data with
    | none =>
      rw [hu] at h
      simp only [Option.some.injEq] at h
      subst h
      exact h0
    | some f =>
      rw [hu] at h
      simp only at h
      generalize f xfer (if epid &&& 0x1 ≠ 0 then USB_XFER_IN else USB_XFER_OUT) (epid / 2) = res
        at h
      by_cases hc : res.2 = USB_ERR_CANCELLED
      · rw [if_pos hc] at h
        simp only [Option.some.injEq] at h
        subst h
        exact run_frame_trans _ _ _ h0 (set_ep_xfer_run _ _ _ _)
      · rw [if_neg hc] at h
        cases hq : pci_xhci_xfer_complete (set_ep_running sc a epid) res.1 slot epid with
        | none => rw [hq] at h; cases h
        | some c =>
          rw [hq] at h
          simp only [Option.some.injEq] at h
          subst h
          have h1 := xfer_complete_run _ _ _ _ _ hq
          have h2 : run_frame c.xdev
              (if c.err = XHCI_TRB_ERROR_SUCCESS ∧ c.do_intr ≠ 0 then
                pci_xhci_assert_interrupt c.xdev else c.xdev) := by
            split
            · exact assert_interrupt_run _
            · exact run_frame_refl _
          exact run_frame_trans _ _ _ h0
            (run_frame_trans _ _ _ h1
              (run_frame_trans _ _ _ h2 (set_ep_xfer_run _ _ _ _)))

/-- The body of `pci_xhci_handle_transfer` leaves USBCMD, USBSTS.HCH and the allocated slot
ids as they are. -/
theorem handle_transfer_retry_run (slot epid streamid d a fuel : Nat) :
    ∀ (n : Nat) (sc : pci_xhci_softc) (w : transfer_walk_state) (sc1 : pci_xhci_softc)
      (err : Nat),
      handle_transfer_retry slot epid streamid d a fuel n sc w = transfer_result.done sc1 err →
      run_frame sc sc1 := by
  intro n
  induction n with
  | zero =>
    intro sc w sc1 err h
    rw [handle_transfer_retry] at h
    cases h
  | succ n ih =>
    intro sc w sc1 err h
    rw [handle_transfer_retry] at h
    cases hw : handle_transfer_walk sc epid streamid fuel { w with setup_trb := false } with
    | out_of_fuel => rw [hw] at h; cases h
    | aborted => rw [hw] at h; cases h
    | errout w1 =>
      rw [hw] at h
      simp only [transfer_result.done.injEq] at h
      rw [← h.1]
      exact set_ep_xfer_run _ _ _ _
    | stop w1 do_retry =>
      rw [hw] at h
      simp only at h
      by_cases he : epid = 1
      · rw [if_pos he] at h
        generalize request_transfer (sc.devs d).dev_ue w1.xfer = res at h
        by_cases hs : USB_TO_XHCI_ERR res.2 = XHCI_TRB_ERROR_SUCCESS ∨
            USB_TO_XHCI_ERR res.2 = XHCI_TRB_ERROR_SHORT_PKT
        · rw [if_pos hs] at h
          cases hq : pci_xhci_xfer_complete sc res.1 slot epid with
          | none => rw [hq] at h; cases h
          | some c =>
            rw [hq] at h
            simp only at h
            have h1 := xfer_complete_run _ _ _ _ _ hq
            have h2 : run_frame c.xdev
                (if c.do_intr ≠ 0 then pci_xhci_assert_interrupt c.xdev else c.xdev) := by
              split
              · exact assert_interrupt_run _
              · exact run_frame_refl _
            have h12 := run_frame_trans _ _ _ h1 h2
            by_cases hr : do_retry = true ∧ c.err = XHCI_TRB_ERROR_SUCCESS
            · rw [if_pos hr] at h
              exact run_frame_trans _ _ _ h12 (ih _ _ _ _ h)
            · rw [if_neg hr] at h
              simp only [transfer_result.done.injEq] at h
              rw [← h.1]
              exact run_frame_trans _ _ _ h12 (set_ep_xfer_run _ _ _ _)
        · rw [if_neg hs] at h
          by_cases hr : do_retry = true
          · rw [if_pos hr] at h
            exact ih _ _ _ _ h
          · rw [if_neg hr] at h
            simp only [transfer_result.done.injEq] at h
            rw [← h.1]
            exact set_ep_xfer_run _ _ _ _
      · rw [if_neg he] at h
        cases ht : pci_xhci_try_usb_xfer (set_ep_xfer sc d epid w1.xfer) d a slot epid with
        | none => rw [ht] at h; cases h
        | some t =>
          rw [ht] at h
          simp only [transfer_result.done.injEq] at h
          rw [← h.1]
          exact run_frame_trans _ _ _ (set_ep_xfer_run _ _ _ _)
            (try_usb_xfer_run _ _ _ _ _ _ ht)

/-- `pci_xhci_handle_transfer` leaves USBCMD, USBSTS.HCH and the allocated slot ids as they
are. -/
theorem handle_transfer_run (fuel : Nat) (sc : pci_xhci_softc)
    (d a trb slot epid addr ccs streamid : Nat) (sc1 : pci_xhci_softc) (err : Nat)
    (h : pci_xhci_handle_transfer fuel sc d a trb slot epid addr ccs streamid =
      transfer_result.done sc1 err) :
    run_frame sc sc1 := by
  unfold pci_xhci_handle_transfer at h
  simp only at h
  cases hx : (((set_ep_running sc a epid).devs d).eps epid).ep_xfer with
  | none => rw [hx] at h; cases h
  | some xfer =>
    rw [hx] at h
    exact run_frame_trans _ _ _ (set_ep_running_run sc a epid)
      (handle_transfer_retry_run _ _ _ _ _ _ _ _ _ _ _ h)

/-- A device doorbell that returns leaves USBCMD, USBSTS.HCH and the allocated slot ids as
they are. -/
theorem device_doorbell_run (fuel : Nat) (sc : pci_xhci_softc)
    (slot epid streamid : Nat) (sc1 : pci_xhci_softc)
    (h : pci_xhci_device_doorbell fuel sc slot epid streamid = cmd_result.done sc1) :
    run_frame sc sc1 := by
  have hdone : ∀ s : pci_xhci_softc, cmd_result.done s = cmd_result.done sc1 →
      run_frame s sc1 := by
    intro s hs
    simp only [cmd_result.done.injEq] at hs
    rw [hs]
    exact run_frame_refl _
  have hht : ∀ (d a trb addr ccs : Nat),
      (pci_xhci_handle_transfer fuel sc d a trb slot epid addr ccs streamid).to_cmd_result =
        cmd_result.done sc1 → run_frame sc sc1 := by
    intro d a trb addr ccs hh
    obtain ⟨err, he⟩ := to_cmd_result_done _ _ hh
    exact handle_transfer_run _ _ _ _ _ _ _ _ _ _ _ _ he
  unfold pci_xhci_device_doorbell at h
  split at h
  · exact hdone _ h
  · split at h
    · exact hdone _ h
    · split at h
      · cases h
      · exact hdone _ h
      · simp only at h
        split at h
        · exact hdone _ h
        · split at h
          · cases h
          · split at h
            · cases h
            · split at h
              · split at h
                · cases h
                · rename_i r hr
                  simp only [cmd_result.done.injEq] at h
                  rw [← h]
                  exact try_usb_xfer_run _ _ _ _ _ _ hr
              · split at h
                · split at h
                  · exact hdone _ h
                  · split at h
                    · exact hdone _ h
                    · split at h
                      · cases h
                      · split at h
                        · exact hdone _ h
                        · exact hht _ _ _ _ _ h
                · split at h
                  · exact hdone _ h
                  · split at h
                    · exact hdone _ h
                    · exact hht _ _ _ _ _ h


/-- A command leaves USBCMD, USBSTS.HCH and the allocated slot ids as they are. -/
theorem cmd_dispatch_run (sc : pci_xhci_softc) (t : xhci_trb) (ccs : Nat)
    (r : pci_xhci_softc × Nat × Nat × Nat) (h : cmd_dispatch sc t ccs = some r) :
    run_frame sc r.1 := by
  apply run_frame_of_regs
  unfold cmd_dispatch at h
  simp only at h
  split at h
  · cases h; exact regs_frame_refl _
  split at h
  · cases h; exact enable_slot_regs sc 0
  split at h
  · cases h; exact disable_slot_regs sc _
  split at h
  · rw [Option.map_eq_some'] at h
    obtain ⟨x, hx, rfl⟩ := h
    exact address_device_regs _ _ _ x hx
  split at h
  · rw [Option.map_eq_some'] at h
    obtain ⟨x, hx, rfl⟩ := h
    exact config_ep_regs _ _ _ x hx
  split at h
  · rw [Option.map_eq_some'] at h
    obtain ⟨x, hx, rfl⟩ := h
    exact eval_ctx_regs _ _ _ x hx
  split at h
  · rw [Option.map_eq_some'] at h
    obtain ⟨x, hx, rfl⟩ := h
    exact reset_ep_regs _ _ _ x hx
  split at h
  · rw [Option.map_eq_some'] at h
    obtain ⟨x, hx, rfl⟩ := h
    exact reset_ep_regs _ _ _ x hx
  split at h
  · rw [Option.map_eq_some'] at h
    obtain ⟨x, hx, rfl⟩ := h
    exact set_tr_regs _ _ _ x hx
  split at h
  · rw [Option.map_eq_some'] at h
    obtain ⟨x, hx, rfl⟩ := h
    exact reset_device_regs _ _ x hx
  · cases h; exact regs_frame_refl _

/-- The loop of the command engine leaves USBCMD, USBSTS.HCH and the allocated slot ids as
they are. -/
theorem complete_commands_loop_run :
    ∀ (fuel : Nat) (sc : pci_xhci_softc) (trb crcr ccs : Nat) (sc1 : pci_xhci_softc),
      complete_commands_loop fuel sc trb crcr ccs = cmd_result.done sc1 → run_frame sc sc1 := by
  intro fuel
  induction fuel with
  | zero =>
    intro sc trb crcr ccs sc1 h
    rw [complete_commands_loop] at h
    cases h
  | succ n ih =>
    intro sc trb crcr ccs sc1 h
    rw [complete_commands_loop] at h
    simp only at h
    split at h
    · simp only [cmd_result.done.injEq] at h
      rw [← h]
      exact ⟨rfl, rfl, fun _ h => h⟩
    · split at h
      · cases h
      · rename_i s1 cmderr slot ccs1 hd
        have h0 : run_frame sc { sc with opregs := { sc.opregs with cr_p := trb } } :=
          ⟨rfl, rfl, fun _ h => h⟩
        have h1 := cmd_dispatch_run _ _ _ _ hd
        split at h
        · cases h
        · rename_i sc2 hsc2
          have h2 := ih _ _ _ _ _ h
          refine run_frame_trans _ _ _ (run_frame_trans _ _ _ h0 h1)
            (run_frame_trans _ _ _ ?_ h2)
          split at hsc2
          · have e := insert_event_map_fst _ _ _ _ hsc2
            subst e
            exact insert_event_run _ _ _
          · cases hsc2
            exact run_frame_refl _

theorem complete_commands_run (fuel : Nat) (sc sc1 : pci_xhci_softc)
    (h : pci_xhci_complete_commands fuel sc = cmd_result.done sc1) : run_frame sc sc1 := by
  unfold pci_xhci_complete_commands at h
  simp only at h
  have h1 := complete_commands_loop_run _ _ _ _ _ _ h
  exact run_frame_trans _ _ _ ⟨rfl, rfl, fun _ h => h⟩ h1

/-- A doorbell write that returns leaves USBCMD, USBSTS.HCH and the allocated slot ids as
they are. -/
theorem dbregs_write_run (fuel : Nat) (sc : pci_xhci_softc) (offset value : Nat)
    (sc1 : pci_xhci_softc)
    (h : pci_xhci_dbregs_write (pci_xhci_device_doorbell fuel) fuel sc offset value =
      cmd_result.done sc1) : run_frame sc sc1 := by
  unfold pci_xhci_dbregs_write at h
  simp only at h
  split at h
  · simp only [cmd_result.done.injEq] at h
    rw [← h]; exact run_frame_refl _
  · split at h
    · exact complete_commands_run _ _ _ h
    · split at h
      · exact device_doorbell_run _ _ _ _ _ _ h
      · simp only [cmd_result.done.injEq] at h
        rw [← h]; exact run_frame_refl _

theorem reset_port_run (sc : pci_xhci_softc) (portn : Nat) (warm : Bool) (sc1 : pci_xhci_softc)
    (h : pci_xhci_reset_port sc portn warm = some sc1) : run_frame sc sc1 := by
  unfold pci_xhci_reset_port at h
  split at h
  · cases h
  · split at h
    · cases h; exact run_frame_refl _
    · split at h
      · cases h
      · simp only at h
        split_ifs at h <;>
          first
            | (simp only [Option.some.injEq] at h
               subst h
               exact ⟨rfl, rfl, fun _ h => h⟩)
            | (have e := insert_event_map_fst _ _ _ _ h
               subst e
               exact run_frame_trans _ _ _ ⟨rfl, rfl, fun _ h => h⟩ (insert_event_run _ _ _))

theorem set_portsc_run (sc : pci_xhci_softc) (pr : Nat → pci_xhci_portregs) (port v : Nat) :
    run_frame sc
      { sc with portregs := some (upd pr port { pr port with portsc := v }) } :=
  ⟨rfl, rfl, fun _ h => h⟩

theorem portregs_write_run (sc : pci_xhci_softc) (offset value : Nat) (sc1 : pci_xhci_softc)
    (h : pci_xhci_portregs_write sc offset value = some sc1) : run_frame sc sc1 := by
  unfold pci_xhci_portregs_write at h
  split at h
  · cases h; exact run_frame_refl _
  · rename_i pr hpr
    simp only at h
    by_cases h1 : (offset - 0x3F0) / 0x10 > XHCI_MAX_DEVS
    · rw [if_pos h1] at h
      cases h; exact run_frame_refl _
    rw [if_neg h1] at h
    by_cases h2 : (offset - 0x3F0) % 0x10 = 0
    · rw [if_pos h2] at h
      by_cases h3 : value &&& (XHCI_PS_PR ||| XHCI_PS_WPR) ≠ 0
      · rw [if_pos h3] at h
        exact reset_port_run _ _ _ _ h
      rw [if_neg h3] at h
      by_cases h4 : (pr ((offset - 0x3F0) / 0x10)).portsc &&& XHCI_PS_PP = 0
      · rw [if_pos h4] at h
        cases h; exact run_frame_refl _
      rw [if_neg h4] at h
      by_cases h5 : value &&& XHCI_PS_LWS = 0
      · rw [if_pos h5] at h
        simp only [Option.some.injEq] at h
        rw [← h]; exact set_portsc_run _ _ _ _
      rw [if_neg h5] at h
      by_cases h6 : XHCI_PS_PLS_GET value = 0 ∨ XHCI_PS_PLS_GET value = 3
      · rw [if_pos h6] at h
        by_cases h7 : XHCI_PS_PLS_GET (pr ((offset - 0x3F0) / 0x10)).portsc ≠
            XHCI_PS_PLS_GET value
        · rw [if_pos h7] at h
          by_cases h8 : XHCI_PS_PLS_GET (pr ((offset - 0x3F0) / 0x10)).portsc ≠ 0 ∧
              XHCI_PS_PLS_GET value = 0
          · rw [if_pos h8] at h
            have e := insert_event_map_fst _ _ _ _ h
            rw [e]
            exact run_frame_trans _ _ _ (set_portsc_run _ _ _ _) (insert_event_run _ _ _)
          · rw [if_neg h8] at h
            simp only [Option.some.injEq] at h
            rw [← h]; exact set_portsc_run _ _ _ _
        · rw [if_neg h7] at h
          simp only [Option.some.injEq] at h
          rw [← h]; exact set_portsc_run _ _ _ _
      · rw [if_neg h6] at h
        simp only [Option.some.injEq] at h
        rw [← h]; exact set_portsc_run _ _ _ _
    · rw [if_neg h2] at h
      split_ifs at h <;>
        (simp only [Option.some.injEq] at h
         rw [← h]
         exact ⟨rfl, rfl, fun _ h => h⟩)

theorem deassert_interrupt_run (sc : pci_xhci_softc) :
    run_frame sc (pci_xhci_deassert_interrupt sc) := by
  unfold pci_xhci_deassert_interrupt
  split <;> exact ⟨rfl, rfl, fun _ h => h⟩

theorem rtsregs_write_run (sc : pci_xhci_softc) (offset value : Nat) (sc1 : pci_xhci_softc)
    (h : pci_xhci_rtsregs_write sc offset value = some sc1) : run_frame sc sc1 := by
  unfold pci_xhci_rtsregs_write at h
  simp only at h
  by_cases h0 : (offset + 2 ^ 64 - sc.rtsoff) % 2 ^ 64 = 0
  · rw [if_pos h0] at h; cases h; exact run_frame_refl _
  rw [if_neg h0] at h
  by_cases h1 : ((offset + 2 ^ 64 - sc.rtsoff) % 2 ^ 64 + 2 ^ 64 - 0x20) % 2 ^ 64 = 0x00
  · rw [if_pos h1] at h
    cases h
    by_cases h2 : value &&& XHCI_IMAN_INTR_ENA = 0
    · rw [if_pos h2]
      exact run_frame_trans _ _ _ ⟨rfl, rfl, fun _ h => h⟩ (deassert_interrupt_run _)
    · rw [if_neg h2]; exact ⟨rfl, rfl, fun _ h => h⟩
  rw [if_neg h1] at h
  by_cases h2 : ((offset + 2 ^ 64 - sc.rtsoff) % 2 ^ 64 + 2 ^ 64 - 0x20) % 2 ^ 64 = 0x04
  · rw [if_pos h2] at h; cases h; exact ⟨rfl, rfl, fun _ h => h⟩
  rw [if_neg h2] at h
  by_cases h3 : ((offset + 2 ^ 64 - sc.rtsoff) % 2 ^ 64 + 2 ^ 64 - 0x20) % 2 ^ 64 = 0x08
  · rw [if_pos h3] at h; cases h; exact ⟨rfl, rfl, fun _ h => h⟩
  rw [if_neg h3] at h
  by_cases h4 : ((offset + 2 ^ 64 - sc.rtsoff) % 2 ^ 64 + 2 ^ 64 - 0x20) % 2 ^ 64 = 0x10
  · rw [if_pos h4] at h; cases h; exact ⟨rfl, rfl, fun _ h => h⟩
  rw [if_neg h4] at h
  by_cases h5 : ((offset + 2 ^ 64 - sc.rtsoff) % 2 ^ 64 + 2 ^ 64 - 0x20) % 2 ^ 64 = 0x14
  · rw [if_pos h5] at h; cases h; exact ⟨rfl, rfl, fun _ h => h⟩
  rw [if_neg h5] at h
  by_cases h6 : ((offset + 2 ^ 64 - sc.rtsoff) % 2 ^ 64 + 2 ^ 64 - 0x20) % 2 ^ 64 = 0x18
  · rw [if_pos h6] at h; cases h; exact ⟨rfl, rfl, fun _ h => h⟩
  rw [if_neg h6] at h
  by_cases h7 : ((offset + 2 ^ 64 - sc.rtsoff) % 2 ^ 64 + 2 ^ 64 - 0x20) % 2 ^ 64 = 0x1C
  · rw [if_pos h7] at h
    split at h
    · cases h
    · cases h; exact ⟨rfl, rfl, fun _ h => h⟩
  rw [if_neg h7] at h
  cases h
  exact run_frame_refl _

theorem reset_run (sc : pci_xhci_softc) : run_frame sc (pci_xhci_reset sc) := by
  have hl : ∀ (l : List Nat) (s : pci_xhci_softc),
      run_frame s (l.foldl pci_xhci_reset_slot s) := by
    intro l
    induction l with
    | nil => intro s; exact run_frame_refl _
    | cons i rest ih =>
      intro s
      rw [List.foldl_cons]
      exact run_frame_trans _ _ _ (run_frame_of_regs (reset_slot_regs s i)) (ih _)
  unfold pci_xhci_reset
  exact run_frame_trans _ _ _ ⟨rfl, rfl, fun _ h => h⟩ (hl _ _)

theorem usbcmd_run_ports_run (l : List Nat) :
    ∀ (sc sc1 : pci_xhci_softc), usbcmd_run_ports sc l = some sc1 → run_frame sc sc1 := by
  induction l with
  | nil =>
    intro sc sc1 h
    rw [usbcmd_run_ports] at h
    cases h; exact run_frame_refl _
  | cons i rest ih =>
    intro sc sc1 h
    rw [usbcmd_run_ports] at h
    split at h
    · exact ih _ _ h
    · rename_i d hd
      split at h
      · cases h
      · rename_i pr hpr
        simp only at h
        have key : ∀ v : Nat,
            (if (insert_event_ring
                  { sc with portregs := some (upd pr i { pr i with portsc := v }) }
                  (pci_xhci_set_evtrb i XHCI_TRB_ERROR_SUCCESS XHCI_TRB_EVENT_PORT_STS_CHANGE)
                  false).2 ≠ XHCI_TRB_ERROR_SUCCESS then
                some (insert_event_ring
                  { sc with portregs := some (upd pr i { pr i with portsc := v }) }
                  (pci_xhci_set_evtrb i XHCI_TRB_ERROR_SUCCESS XHCI_TRB_EVENT_PORT_STS_CHANGE)
                  false).1
              else usbcmd_run_ports (insert_event_ring
                  { sc with portregs := some (upd pr i { pr i with portsc := v }) }
                  (pci_xhci_set_evtrb i XHCI_TRB_ERROR_SUCCESS XHCI_TRB_EVENT_PORT_STS_CHANGE)
                  false).1 rest) = some sc1 → run_frame sc sc1 := by
          intro v hv
          have h1 := run_frame_trans _ _ _ (set_portsc_run sc pr i v)
            (insert_event_run { sc with portregs := some (upd pr i { pr i with portsc := v }) }
              (pci_xhci_set_evtrb i XHCI_TRB_ERROR_SUCCESS XHCI_TRB_EVENT_PORT_STS_CHANGE) false)
          split at hv
          · simp only [Option.some.injEq] at hv
            rw [← hv]; exact h1
          · exact run_frame_trans _ _ _ h1 (ih _ _ hv)
        split at h
        · cases h
        · rename_i r hr
          obtain ⟨-, rfl⟩ := insert_event_eq_some _ _ _ _ hr
          exact key _ h

theorem init_port_run (sc : pci_xhci_softc) (portn : Nat) (sc1 : pci_xhci_softc)
    (h : pci_xhci_init_port sc portn = some sc1) : run_frame sc sc1 := by
  unfold pci_xhci_init_port at h
  split at h
  · cases h
  · cases h; exact ⟨rfl, rfl, fun _ h => h⟩

theorem usbcmd_save_ports_run (l : List Nat) :
    ∀ (sc sc1 : pci_xhci_softc), usbcmd_save_ports sc l = some sc1 → run_frame sc sc1 := by
  induction l with
  | nil =>
    intro sc sc1 h
    rw [usbcmd_save_ports] at h
    cases h; exact run_frame_refl _
  | cons i rest ih =>
    intro sc sc1 h
    rw [usbcmd_save_ports] at h
    simp only at h
    split at h
    · split at h
      · cases h
      · rename_i s2 h2
        have f1 := init_port_run _ _ _ h2
        have f2 := ih _ _ h
        exact run_frame_trans _ _ _
          (run_frame_trans _ _ _ ⟨rfl, rfl, fun _ h => h⟩ f1)
          (run_frame_trans _ _ _ ⟨rfl, rfl, fun _ h => h⟩ f2)
    · exact ih _ _ h

/-! ## USBSTS.HCH and USBCMD.RS -/

theorem and_one_ne_zero_iff (x : Nat) : x &&& 1 ≠ 0 ↔ x.testBit 0 = true := by
  rw [Nat.and_one_is_mod, Nat.testBit_zero]
  simp only [decide_eq_true_eq]
  omega

theorem and_one_eq_zero_iff (x : Nat) : x &&& 1 = 0 ↔ x.testBit 0 = false := by
  rw [Nat.and_one_is_mod, Nat.testBit_zero]
  simp only [decide_eq_false_iff_not]
  omega

theorem parse_opts_devs_usbcmd (l : List usb_devemu) :
    ∀ (sc : pci_xhci_softc) (p3 p2 : Nat) (sc1 : pci_xhci_softc),
      parse_opts_devs sc p3 p2 l = some sc1 → sc1.opregs = sc.opregs := by
  induction l with
  | nil =>
    intro sc p3 p2 sc1 h
    rw [parse_opts_devs] at h
    cases h; rfl
  | cons ue rest ih =>
    intro sc p3 p2 sc1 h
    rw [parse_opts_devs] at h
    split at h
    · cases h
    · simp only at h
      have h1 := ih _ _ _ _ h
      exact h1

theorem init_ports_opregs (l : List Nat) :
    ∀ (sc sc1 : pci_xhci_softc), l.foldlM pci_xhci_init_port sc = some sc1 →
      sc1.opregs = sc.opregs := by
  induction l with
  | nil =>
    intro sc sc1 h
    simp only [List.foldlM_nil, Option.pure_def, Option.some.injEq] at h
    rw [h]
  | cons i rest ih =>
    intro sc sc1 h
    simp only [List.foldlM_cons, Option.bind_eq_bind] at h
    cases hp : pci_xhci_init_port sc i with
    | none => rw [hp] at h; cases h
    | some s =>
      rw [hp] at h
      have h1 := ih _ _ h
      unfold pci_xhci_init_port at hp
      split at hp
      · cases hp
      · cases hp; exact h1

theorem parse_opts_portsfinal_opregs (sc sc1 : pci_xhci_softc)
    (h : parse_opts_portsfinal sc = some sc1) : sc1.opregs = sc.opregs := by
  unfold parse_opts_portsfinal at h
  simp only at h
  split at h
  · have h1 := init_ports_opregs _ _ _ h
    exact h1
  · cases h; rfl

/-- `pci_xhci_init` leaves USBSTS with HCH set and USBCMD with RS clear. -/
theorem init_halted (msi : Bool) (backend : usb_native_devinfo → Option usb_devemu)
    (ues : List usb_devemu) (sc : pci_xhci_softc) (h : pci_xhci_init msi backend ues = some sc) :
    halted_iff_stopped sc := by
  unfold pci_xhci_init at h
  simp only at h
  split at h
  · cases h
  · rename_i sc1 h1
    split at h
    · cases h
    · rename_i sc2 h2
      simp only [Option.some.injEq] at h
      have e1 := parse_opts_devs_usbcmd _ _ _ _ _ h1
      have e2 := parse_opts_portsfinal_opregs _ _ h2
      rw [← h]
      unfold halted_iff_stopped
      simp only
      rw [(reset_run _).2.1, (reset_run _).1]
      simp only [e2, e1]
      show XHCI_STS_HCH &&& XHCI_STS_HCH ≠ 0 ↔ 0 &&& XHCI_CMD_RS = 0
      decide

/-- The part of `pci_xhci_usbcmd_write` after the RS test: the controller reset, the save of
the native ports and the interrupt leave USBCMD and USBSTS.HCH as they are, and the value
returned has the bits of `cmd` other than HCRST, CSS and CRS. -/
theorem usbcmd_write_tail (sc1 : pci_xhci_softc) (b : Bool) (c1 : Nat)
    (r : pci_xhci_softc × Nat)
    (h : (match
        (if (if c1 &&& XHCI_CMD_HCRST ≠ 0 then c1 &&& NOT32 XHCI_CMD_HCRST else c1) &&&
            XHCI_CMD_CSS ≠ 0 then
          usbcmd_save_ports
            { (if c1 &&& XHCI_CMD_HCRST ≠ 0 then pci_xhci_reset sc1 else sc1) with
              vbdp_dev_num := 0
              vbdp_devs := fun _ =>
                { path := { bus := 0, depth := 0, path := [] }, vport := 0, state := 0 } }
            (List.range XHCI_MAX_DEVICES)
        else some (if c1 &&& XHCI_CMD_HCRST ≠ 0 then pci_xhci_reset sc1 else sc1)) with
      | none => none
      | some sc3 =>
        some (if b = true then pci_xhci_assert_interrupt sc3 else sc3,
          (if c1 &&& XHCI_CMD_HCRST ≠ 0 then c1 &&& NOT32 XHCI_CMD_HCRST else c1) &&&
            NOT32 (XHCI_CMD_CSS ||| XHCI_CMD_CRS))) = some r) :
    run_frame sc1 r.1 ∧
    r.2 = (if c1 &&& XHCI_CMD_HCRST ≠ 0 then c1 &&& NOT32 XHCI_CMD_HCRST else c1) &&&
      NOT32 (XHCI_CMD_CSS ||| XHCI_CMD_CRS) := by
  have f2 : run_frame sc1 (if c1 &&& XHCI_CMD_HCRST ≠ 0 then pci_xhci_reset sc1 else sc1) := by
    split
    · exact reset_run _
    · exact run_frame_refl _
  generalize (if c1 &&& XHCI_CMD_HCRST ≠ 0 then pci_xhci_reset sc1 else sc1) = sc2 at h f2
  generalize (if c1 &&& XHCI_CMD_HCRST ≠ 0 then c1 &&& NOT32 XHCI_CMD_HCRST else c1) = c2 at h
  have f3 : ∀ sc3, (if c2 &&& XHCI_CMD_CSS ≠ 0 then
          usbcmd_save_ports
            { sc2 with
              vbdp_dev_num := 0
              vbdp_devs := fun _ =>
                { path := { bus := 0, depth := 0, path := [] }, vport := 0, state := 0 } }
            (List.range XHCI_MAX_DEVICES)
        else some sc2) = some sc3 → run_frame sc2 sc3 := by
    intro sc3 h3
    split at h3
    · have h4 := usbcmd_save_ports_run _ _ _ h3
      exact run_frame_trans _ _ _ ⟨rfl, rfl, fun _ h => h⟩ h4
    · cases h3; exact run_frame_refl _
  split at h
  · cases h
  · rename_i sc3 h3
    simp only [Option.some.injEq] at h
    rw [← h]
    refine ⟨run_frame_trans _ _ _ f2 (run_frame_trans _ _ _ (f3 _ h3) ?_), rfl⟩
    simp only
    split
    · exact assert_interrupt_run _
    · exact run_frame_refl _

theorem testBit_zero_tail (c1 : Nat) :
    ((if c1 &&& XHCI_CMD_HCRST ≠ 0 then c1 &&& NOT32 XHCI_CMD_HCRST else c1) &&&
      NOT32 (XHCI_CMD_CSS ||| XHCI_CMD_CRS)).testBit 0 = c1.testBit 0 := by
  have h1 : (NOT32 (XHCI_CMD_CSS ||| XHCI_CMD_CRS)).testBit 0 = true := by decide
  have h2 : (NOT32 XHCI_CMD_HCRST).testBit 0 = true := by decide
  split
  · rw [Nat.testBit_and, Nat.testBit_and, h1, h2]; simp
  · rw [Nat.testBit_and, h1]; simp

/-- What a call of `pci_xhci_usbcmd_write` that returns leaves: with RS in `cmd`, HCH is
clear in USBSTS and RS is set in the value returned; without RS in `cmd`, HCH is set and RS is
clear in the value returned.  The allocated slot ids stay allocated. -/
theorem usbcmd_write_halted (sc : pci_xhci_softc) (cmd : Nat) (r : pci_xhci_softc × Nat)
    (h : pci_xhci_usbcmd_write sc cmd = some r) :
    (r.1.opregs.usbsts &&& XHCI_STS_HCH ≠ 0 ↔ r.2 &&& XHCI_CMD_RS = 0) ∧
    (∀ s, sc.slot_allocated s = true → r.1.slot_allocated s = true) := by
  unfold pci_xhci_usbcmd_write at h
  simp only at h
  by_cases hrs : cmd &&& XHCI_CMD_RS ≠ 0
  · simp only [if_pos hrs] at h
    split at h
    · cases h
    · rename_i sc1 h1
      obtain ⟨ft, hc⟩ := usbcmd_write_tail sc1 _ _ r h
      have f1 : run_frame
          { sc with opregs := { sc.opregs with
              usbcmd := sc.opregs.usbcmd ||| XHCI_CMD_RS
              usbsts := (sc.opregs.usbsts &&& NOT32 XHCI_STS_HCH) ||| XHCI_STS_PCD } } sc1 := by
        split at h1
        · exact usbcmd_run_ports_run _ _ _ h1
        · cases h1; exact run_frame_refl _
      have f := run_frame_trans _ _ _ f1 ft
      refine ⟨?_, f.2.2⟩
      have hb : cmd.testBit 0 = true := (and_one_ne_zero_iff cmd).mp hrs
      have e1 : r.1.opregs.usbsts &&& XHCI_STS_HCH = 0 := by
        rw [f.2.1]
        show ((sc.opregs.usbsts &&& NOT32 XHCI_STS_HCH) ||| XHCI_STS_PCD) &&& 1 = 0
        have hH : XHCI_STS_HCH.testBit 0 = true := by decide
        have hP : XHCI_STS_PCD.testBit 0 = false := by decide
        rw [and_one_eq_zero_iff, Nat.testBit_or, Nat.testBit_and, testBit_NOT32, hH, hP]
        simp
      have e2 : r.2 &&& XHCI_CMD_RS ≠ 0 := by
        show r.2 &&& 1 ≠ 0
        rw [and_one_ne_zero_iff, hc, testBit_zero_tail, Nat.testBit_or, hb]
        exact Bool.true_or _
      constructor
      · intro hx; exact absurd e1 hx
      · intro hx; exact absurd hx e2
  · simp only [if_neg hrs] at h
    obtain ⟨ft, hc⟩ := usbcmd_write_tail _ _ _ r h
    refine ⟨?_, ft.2.2⟩
    have hb : cmd.testBit 0 = false := (and_one_eq_zero_iff cmd).mp (not_not.mp hrs)
    have e1 : r.1.opregs.usbsts &&& XHCI_STS_HCH ≠ 0 := by
      rw [ft.2.1]
      show ((sc.opregs.usbsts ||| XHCI_STS_HCH) &&& NOT32 XHCI_STS_PCD) &&& 1 ≠ 0
      have hH : XHCI_STS_HCH.testBit 0 = true := by decide
      have hP : XHCI_STS_PCD.testBit 0 = false := by decide
      rw [and_one_ne_zero_iff, Nat.testBit_and, Nat.testBit_or, testBit_NOT32, hH, hP]
      simp
    have e2 : r.2 &&& XHCI_CMD_RS = 0 := by
      show r.2 &&& 1 = 0
      have hR : XHCI_CMD_RS.testBit 0 = true := by decide
      rw [and_one_eq_zero_iff, hc, testBit_zero_tail, Nat.testBit_or, hb, Nat.testBit_and]
      show (false || ((sc.opregs.usbcmd &&& NOT32 XHCI_CMD_RS).testBit 0 &&
        XHCI_CMD_RS.testBit 0)) = false
      rw [Nat.testBit_and, testBit_NOT32, hR]
      simp
    exact ⟨fun _ => e2, fun _ => e1⟩

theorem halted_of_run_frame {sc sc1 : pci_xhci_softc} (f : run_frame sc sc1)
    (h : halted_iff_stopped sc) : halted_iff_stopped sc1 := by
  unfold halted_iff_stopped at h ⊢
  rw [f.1, f.2.1]
  exact h

/-- A write to USBCMD that returns leaves HCH set exactly when RS is clear, whatever the
state before. -/
theorem hostop_write_usbcmd (sc : pci_xhci_softc) (offset value : Nat) (sc1 : pci_xhci_softc)
    (ho : (offset + 2 ^ 64 - XHCI_CAPLEN) % 2 ^ 64 = 0x00)
    (h : pci_xhci_hostop_write sc offset value = some sc1) :
    halted_iff_stopped sc1 ∧ ∀ s, sc.slot_allocated s = true → sc1.slot_allocated s = true := by
  unfold pci_xhci_hostop_write at h
  simp only [if_pos ho] at h
  split at h
  · cases h
  · rename_i s1 cmd h1
    simp only [Option.some.injEq] at h
    have hw := usbcmd_write_halted _ _ _ h1
    rw [← h]
    exact ⟨hw.1, hw.2⟩

/-- A write to an operational register other than USBCMD that returns leaves USBCMD,
USBSTS.HCH and the allocated slot ids as they are. -/
theorem hostop_write_other (sc : pci_xhci_softc) (offset value : Nat) (sc1 : pci_xhci_softc)
    (ho : (offset + 2 ^ 64 - XHCI_CAPLEN) % 2 ^ 64 ≠ 0x00)
    (h : pci_xhci_hostop_write sc offset value = some sc1) : run_frame sc sc1 := by
  unfold pci_xhci_hostop_write at h
  simp only [if_neg ho] at h
  by_cases h4 : (offset + 2 ^ 64 - XHCI_CAPLEN) % 2 ^ 64 = 0x04
  · simp only [if_pos h4, Option.some.injEq] at h
    rw [← h]
    refine ⟨rfl, ?_, fun _ h => h⟩
    show (sc.opregs.usbsts &&& NOT32 (value &&&
        (XHCI_STS_HSE ||| XHCI_STS_EINT ||| XHCI_STS_PCD ||| XHCI_STS_SSS ||| XHCI_STS_RSS |||
          XHCI_STS_SRE ||| XHCI_STS_CNR))) &&& XHCI_STS_HCH = sc.opregs.usbsts &&& XHCI_STS_HCH
    apply Nat.eq_of_testBit_eq
    intro i
    have hm : (XHCI_STS_HSE ||| XHCI_STS_EINT ||| XHCI_STS_PCD ||| XHCI_STS_SSS |||
        XHCI_STS_RSS ||| XHCI_STS_SRE ||| XHCI_STS_CNR).testBit 0 = false := by decide
    rw [Nat.testBit_and, Nat.testBit_and, Nat.testBit_and, testBit_NOT32, Nat.testBit_and]
    show ((sc.opregs.usbsts.testBit i && (decide (i < 32) && !(value.testBit i &&
      (XHCI_STS_HSE ||| XHCI_STS_EINT ||| XHCI_STS_PCD ||| XHCI_STS_SSS |||
        XHCI_STS_RSS ||| XHCI_STS_SRE ||| XHCI_STS_CNR).testBit i))) && Nat.testBit 1 i) =
      (sc.opregs.usbsts.testBit i && Nat.testBit 1 i)
    rw [testBit_1]
    by_cases h0 : i = 0
    · subst h0; rw [hm]; simp
    · simp [h0]
  · simp only [if_neg h4] at h
    by_cases h8 : (offset + 2 ^ 64 - XHCI_CAPLEN) % 2 ^ 64 = 0x08
    · simp only [if_pos h8, Option.some.injEq] at h
      rw [← h]; exact run_frame_refl _
    simp only [if_neg h8] at h
    by_cases h14 : (offset + 2 ^ 64 - XHCI_CAPLEN) % 2 ^ 64 = 0x14
    · simp only [if_pos h14, Option.some.injEq] at h
      rw [← h]; exact ⟨rfl, rfl, fun _ h => h⟩
    simp only [if_neg h14] at h
    by_cases h18 : (offset + 2 ^ 64 - XHCI_CAPLEN) % 2 ^ 64 = 0x18
    · simp only [if_pos h18] at h
      split at h <;>
        (simp only [Option.some.injEq] at h
         rw [← h]; exact ⟨rfl, rfl, fun _ h => h⟩)
    simp only [if_neg h18] at h
    by_cases h1c : (offset + 2 ^ 64 - XHCI_CAPLEN) % 2 ^ 64 = 0x1C
    · simp only [if_pos h1c] at h
      split at h <;>
        (simp only [Option.some.injEq] at h
         rw [← h]; exact ⟨rfl, rfl, fun _ h => h⟩)
    simp only [if_neg h1c] at h
    by_cases h30 : (offset + 2 ^ 64 - XHCI_CAPLEN) % 2 ^ 64 = 0x30
    · simp only [if_pos h30, Option.some.injEq] at h
      rw [← h]; exact ⟨rfl, rfl, fun _ h => h⟩
    simp only [if_neg h30] at h
    by_cases h34 : (offset + 2 ^ 64 - XHCI_CAPLEN) % 2 ^ 64 = 0x34
    · simp only [if_pos h34, Option.some.injEq] at h
      rw [← h]; exact ⟨rfl, rfl, fun _ h => h⟩
    simp only [if_neg h34] at h
    by_cases h38 : (offset + 2 ^ 64 - XHCI_CAPLEN) % 2 ^ 64 = 0x38
    · simp only [if_pos h38, Option.some.injEq] at h
      rw [← h]; exact ⟨rfl, rfl, fun _ h => h⟩
    simp only [if_neg h38] at h
    split at h
    · exact portregs_write_run _ _ _ _ h
    · simp only [Option.some.injEq] at h
      rw [← h]; exact run_frame_refl _

/-- A guest write to the register BAR that returns keeps every allocated slot id allocated,
and leaves HCH set exactly when RS is clear if that held before. -/
theorem guest_write_keeps (sc sc1 : pci_xhci_softc) (h : guest_write_step sc sc1) :
    (halted_iff_stopped sc → halted_iff_stopped sc1) ∧
    ∀ s, sc.slot_allocated s = true → sc1.slot_allocated s = true := by
  obtain ⟨fuel, offset, value, hw⟩ := h
  have hdone : ∀ s : pci_xhci_softc, cmd_result.done s = cmd_result.done sc1 →
      run_frame s sc1 := by
    intro s hs
    simp only [cmd_result.done.injEq] at hs
    rw [hs]; exact run_frame_refl _
  have hf : ∀ {s : pci_xhci_softc}, run_frame s sc1 →
      (halted_iff_stopped s → halted_iff_stopped sc1) ∧
      ∀ x, s.slot_allocated x = true → sc1.slot_allocated x = true :=
    fun f => ⟨halted_of_run_frame f, f.2.2⟩
  unfold pci_xhci_write at hw
  split at hw
  · exact hf (hdone _ hw)
  · split at hw
    · split at hw
      · cases hw
      · rename_i s1 h1
        simp only [cmd_result.done.injEq] at hw
        subst hw
        by_cases ho : (offset + 2 ^ 64 - XHCI_CAPLEN) % 2 ^ 64 = 0x00
        · have hu := hostop_write_usbcmd _ _ _ _ ho h1
          exact ⟨fun _ => hu.1, hu.2⟩
        · exact hf (hostop_write_other _ _ _ _ ho h1)
    · split at hw
      · exact hf (dbregs_write_run _ _ _ _ _ hw)
      · split at hw
        · split at hw
          · cases hw
          · rename_i s1 h1
            simp only [cmd_result.done.injEq] at hw
            subst hw
            exact hf (rtsregs_write_run _ _ _ _ h1)
        · exact hf (hdone _ hw)

/-! ## Slot allocation flags -/

theorem enable_slot_scan_free (sc : pci_xhci_softc) (h : enable_slot_scan sc < XHCI_MAX_SLOTS) :
    sc.slot_allocated (enable_slot_scan sc) = false := by
  unfold enable_slot_scan at h ⊢
  cases hf : (List.range' 1 XHCI_MAX_SLOTS).find? (fun i => sc.slot_allocated i = false) with
  | none =>
    rw [hf] at h
    simp only [Option.getD_none] at h
    exact absurd h (by decide)
  | some i =>
    simp only [Option.getD_some]
    have := List.find?_some hf
    simpa using this

theorem enable_slot_allocates (sc : pci_xhci_softc) (slot : Nat)
    (h : enable_slot_scan sc < XHCI_MAX_SLOTS) :
    (pci_xhci_cmd_enable_slot sc slot).2 = (XHCI_TRB_ERROR_SUCCESS, enable_slot_scan sc) ∧
    (pci_xhci_cmd_enable_slot sc slot).1.slot_allocated (enable_slot_scan sc) = true := by
  have key : ∀ r1 : pci_xhci_softc × Nat × Nat, r1.1.slot_allocated = sc.slot_allocated →
      (if enable_slot_scan r1.1 < XHCI_MAX_SLOTS then
          ({ r1.1 with slot_allocated := upd r1.1.slot_allocated (enable_slot_scan r1.1) true },
            XHCI_TRB_ERROR_SUCCESS, enable_slot_scan r1.1)
        else r1).2 = (XHCI_TRB_ERROR_SUCCESS, enable_slot_scan sc) ∧
      (if enable_slot_scan r1.1 < XHCI_MAX_SLOTS then
          ({ r1.1 with slot_allocated := upd r1.1.slot_allocated (enable_slot_scan r1.1) true },
            XHCI_TRB_ERROR_SUCCESS, enable_slot_scan r1.1)
        else r1).1.slot_allocated (enable_slot_scan sc) = true := by
    intro r1 h1
    have hs : enable_slot_scan r1.1 = enable_slot_scan sc := by
      unfold enable_slot_scan
      rw [h1]
    rw [hs, if_pos h]
    simp [upd]
  unfold pci_xhci_cmd_enable_slot
  exact key _ (by split <;> (try split) <;> rfl)

theorem controller_step_alloc (sc sc1 : pci_xhci_softc) (h : controller_step sc sc1) :
    ∀ s, sc.slot_allocated s = true → sc1.slot_allocated s = true := by
  rcases h with ⟨t, ccs, r, hr, rfl⟩ | ⟨cmd, r, hr, rfl⟩ | hg
  · exact (cmd_dispatch_run _ _ _ _ hr).2.2
  · exact (usbcmd_write_halted _ _ _ hr).2
  · exact (guest_write_keeps _ _ hg).2

theorem controller_steps_alloc (sc sc1 : pci_xhci_softc)
    (h : Relation.ReflTransGen controller_step sc sc1) :
    ∀ s, sc.slot_allocated s = true → sc1.slot_allocated s = true := by
  induction h with
  | refl => exact fun _ h => h
  | tail _ hstep ih => exact fun s hs => controller_step_alloc _ _ hstep s (ih s hs)

/-- C37: the slot allocation flags are monotone.  A flag that is set stays set under every
command that the command engine dispatches, under `pci_xhci_reset` and every call of
`pci_xhci_usbcmd_write` (HCRST included), and under every guest write to the register BAR,
hence along every sequence of such steps.  When the allocation loop of ENABLE_SLOT finds a
free flag below `XHCI_MAX_SLOTS`, the flag of the slot id it hands out was clear and is set
afterwards; and after any sequence of steps the allocation loop of a later ENABLE_SLOT does
not hand out that slot id again. -/
theorem slot_allocated_monotone :
    (∀ (sc : pci_xhci_softc) (t : xhci_trb) (ccs : Nat) (r : pci_xhci_softc × Nat × Nat × Nat),
      cmd_dispatch sc t ccs = some r →
      ∀ s, sc.slot_allocated s = true → r.1.slot_allocated s = true) ∧
    (∀ (sc : pci_xhci_softc) (s : Nat),
      sc.slot_allocated s = true → (pci_xhci_reset sc).slot_allocated s = true) ∧
    (∀ (sc : pci_xhci_softc) (cmd : Nat) (r : pci_xhci_softc × Nat),
      pci_xhci_usbcmd_write sc cmd = some r →
      ∀ s, sc.slot_allocated s = true → r.1.slot_allocated s = true) ∧
    (∀ sc sc1 : pci_xhci_softc, Relation.ReflTransGen controller_step sc sc1 →
      ∀ s, sc.slot_allocated s = true → sc1.slot_allocated s = true) ∧
    (∀ (sc : pci_xhci_softc) (slot : Nat), enable_slot_scan sc < XHCI_MAX_SLOTS →
      sc.slot_allocated (enable_slot_scan sc) = false ∧
      (pci_xhci_cmd_enable_slot sc slot).2 = (XHCI_TRB_ERROR_SUCCESS, enable_slot_scan sc) ∧
      (pci_xhci_cmd_enable_slot sc slot).1.slot_allocated (enable_slot_scan sc) = true) ∧
    (∀ (sc sc2 : pci_xhci_softc) (slot slot2 : Nat), enable_slot_scan sc < XHCI_MAX_SLOTS →
      Relation.ReflTransGen controller_step (pci_xhci_cmd_enable_slot sc slot).1 sc2 →
      enable_slot_scan sc2 < XHCI_MAX_SLOTS →
      (pci_xhci_cmd_enable_slot sc2 slot2).2.2 ≠ (pci_xhci_cmd_enable_slot sc slot).2.2) := by
  refine ⟨fun sc t ccs r h => (cmd_dispatch_run _ _ _ _ h).2.2,
    fun sc => (reset_run sc).2.2,
    fun sc cmd r h => (usbcmd_write_halted _ _ _ h).2,
    controller_steps_alloc,
    fun sc slot h => ⟨enable_slot_scan_free sc h, enable_slot_allocates sc slot h⟩, ?_⟩
  intro sc sc2 slot slot2 h hsteps h2 heq
  have a1 := enable_slot_allocates sc slot h
  have a2 := enable_slot_allocates sc2 slot2 h2
  have hset := controller_steps_alloc _ _ hsteps _ a1.2
  have hfree := enable_slot_scan_free sc2 h2
  rw [a1.1, a2.1] at heq
  simp only at heq
  rw [heq, hset] at hfree
  cases hfree

set_option maxRecDepth 1000000 in
/-- Witness of C37: on the fresh controller the allocation loop hands out slot 1; after a
DISABLE_SLOT for slot 1, dispatched by the command engine, the flag of slot 1 is still set
and the allocation loop of the next ENABLE_SLOT hands out slot 2. -/
theorem slot_allocated_monotone_witness :
    (enable_slot_scan sc_fresh < XHCI_MAX_SLOTS ∧
      enable_slot_scan sc_slot1_disabled < XHCI_MAX_SLOTS) ∧
    (pci_xhci_cmd_enable_slot sc_fresh 0).2.2 = 1 ∧
    sc_slot1_disabled.slot_allocated 1 = true ∧
    (pci_xhci_cmd_enable_slot sc_slot1_disabled 0).2.2 = 2 ∧
    (pci_xhci_cmd_enable_slot sc_slot1_disabled 0).2.2 ≠
      (pci_xhci_cmd_enable_slot sc_fresh 0).2.2 :=
  ⟨⟨by decide, by decide⟩, by decide, by decide, by decide,
    slot_allocated_monotone.2.2.2.2.2 sc_fresh sc_slot1_disabled 0 0 (by decide)
      (Relation.ReflTransGen.single
        (Or.inl ⟨trb_cmd XHCI_TRB_TYPE_DISABLE_SLOT 0 1, 1, _,
          option_eta _ (sc_fresh, 0, 0, 0) (by decide), rfl⟩))
      (by decide)⟩


/-- C39: in every state that guest writes to the register BAR reach from `pci_xhci_init`,
USBSTS.HCH is set exactly when USBCMD.RS is clear.  `pci_xhci_init` establishes the relation;
every write to USBCMD that returns establishes it again, whatever the state before; a write
to USBSTS leaves USBCMD alone and clears in USBSTS only bits among HSE, EINT, PCD, SSS, RSS,
SRE and CNR; and every guest write that returns (operational, doorbell and runtime
registers, read-only and invalid offsets) preserves the relation. -/
theorem halted_iff_stopped_reachable :
    (∀ (msi : Bool) (backend : usb_native_devinfo → Option usb_devemu) (ues : List usb_devemu)
      (sc0 : pci_xhci_softc), pci_xhci_init msi backend ues = some sc0 →
      halted_iff_stopped sc0) ∧
    (∀ (sc : pci_xhci_softc) (value : Nat) (sc1 : pci_xhci_softc),
      pci_xhci_hostop_write sc XHCI_CAPLEN value = some sc1 → halted_iff_stopped sc1) ∧
    (∀ (sc : pci_xhci_softc) (value : Nat),
      (pci_xhci_hostop_write sc (XHCI_CAPLEN + 0x04) value).map
        (fun s => (s.opregs.usbcmd, s.opregs.usbsts)) =
      some (sc.opregs.usbcmd, sc.opregs.usbsts &&& NOT32 (value &&&
        (XHCI_STS_HSE ||| XHCI_STS_EINT ||| XHCI_STS_PCD ||| XHCI_STS_SSS ||| XHCI_STS_RSS |||
          XHCI_STS_SRE ||| XHCI_STS_CNR)))) ∧
    (∀ sc sc1 : pci_xhci_softc, guest_write_step sc sc1 → halted_iff_stopped sc →
      halted_iff_stopped sc1) ∧
    (∀ (msi : Bool) (backend : usb_native_devinfo → Option usb_devemu) (ues : List usb_devemu)
      (sc0 sc : pci_xhci_softc), pci_xhci_init msi backend ues = some sc0 →
      Relation.ReflTransGen guest_write_step sc0 sc → halted_iff_stopped sc) := by
  refine ⟨init_halted, ?_, ?_, fun sc sc1 h => (guest_write_keeps sc sc1 h).1, ?_⟩
  · intro sc value sc1 h
    exact (hostop_write_usbcmd sc XHCI_CAPLEN value sc1 (by decide) h).1
  · intro sc value
    have h4 : (XHCI_CAPLEN + 0x04 + 2 ^ 64 - XHCI_CAPLEN) % 2 ^ 64 = 0x04 := by decide
    have h0 : ¬ (XHCI_CAPLEN + 0x04 + 2 ^ 64 - XHCI_CAPLEN) % 2 ^ 64 = 0x00 := by decide
    unfold pci_xhci_hostop_write
    simp only [if_neg h0, if_pos h4, Option.map_some']
  · intro msi backend ues sc0 sc hi hsteps
    induction hsteps with
    | refl => exact init_halted _ _ _ _ hi
    | tail _ hstep ih => exact (guest_write_keeps _ _ hstep).1 ih

set_option maxRecDepth 1000000 in
/-- Witness of C39: the fresh controller with the tablet is halted and stopped.  The guest
writes ERSTBA (low dword, high dword) and then RS to USBCMD (BAR offset `0x20`), each write
returns, and HCH is clear and RS is set in the state reached.  On the controller with an
event ring of four entries at `0x1000`, the write of RS returns and leaves HCH clear and RS
set as well. -/
theorem halted_iff_stopped_reachable_witness :
    halted_iff_stopped sc_fresh ∧
    sc_fresh_erstba.rtsregs.erstba_p = some 0 ∧
    (pci_xhci_write 8 sc_fresh_erstba XHCI_CAPLEN XHCI_CMD_RS).is_done = true ∧
    halted_iff_stopped sc_fresh_started ∧
    sc_fresh_started.opregs.usbsts &&& XHCI_STS_HCH = 0 ∧
    sc_fresh_started.opregs.usbcmd &&& XHCI_CMD_RS = XHCI_CMD_RS ∧
    (sc_evring 4).rtsregs.erstba_p = some 0x1000 ∧
    (pci_xhci_write 8 (sc_evring 4) XHCI_CAPLEN XHCI_CMD_RS).is_done = true ∧
    halted_iff_stopped ((pci_xhci_write 8 (sc_evring 4) XHCI_CAPLEN XHCI_CMD_RS).get sc_fresh) ∧
    ((pci_xhci_write 8 (sc_evring 4) XHCI_CAPLEN XHCI_CMD_RS).get sc_fresh).opregs.usbsts &&&
      XHCI_STS_HCH = 0 :=
  ⟨halted_iff_stopped_reachable.1 false (fun _ => none) [ue_tablet] sc_fresh
      (option_eta _ (softc_zero false fun _ => none) (by decide)),
    by decide, by decide,
    halted_iff_stopped_reachable.2.2.2.2 false (fun _ => none) [ue_tablet] sc_fresh _
      (option_eta _ (softc_zero false fun _ => none) (by decide))
      (Relation.ReflTransGen.tail
        (Relation.ReflTransGen.tail
          (Relation.ReflTransGen.single
            ⟨8, sc_fresh.rtsoff + 0x20 + 0x10, 0, eq_done_of_is_done _ sc_fresh (by decide)⟩)
          ⟨8, sc_fresh.rtsoff + 0x20 + 0x14, 0,
            eq_done_of_is_done _ sc_fresh_erstba_lo (by decide)⟩)
        ⟨8, XHCI_CAPLEN, XHCI_CMD_RS, eq_done_of_is_done _ sc_fresh_erstba (by decide)⟩),
    by decide, by decide, by decide, by decide,
    halted_iff_stopped_reachable.2.2.2.1 (sc_evring 4) _
      ⟨8, XHCI_CAPLEN, XHCI_CMD_RS, eq_done_of_is_done _ sc_fresh (by decide)⟩
      (by unfold halted_iff_stopped; decide),
    by decide⟩

/-! ## Endpoint states through the transfer engine -/

theorem live_kept_refl (ca ce : Nat) (sc : pci_xhci_softc) : live_kept ca ce sc sc := fun h => h

theorem live_kept_trans (ca ce : Nat) (a b c : pci_xhci_softc) (h1 : live_kept ca ce a b)
    (h2 : live_kept ca ce b c) : live_kept ca ce a c := fun h => h2 (h1 h)

theorem live_kept_of_eq (ca ce : Nat) (sc sc1 : pci_xhci_softc)
    (h : sc1.devctxmem = sc.devctxmem) : live_kept ca ce sc sc1 := by
  unfold live_kept ep_state
  rw [h]
  exact fun x => x

theorem assert_interrupt_live (ca ce : Nat) (sc : pci_xhci_softc) :
    live_kept ca ce sc (pci_xhci_assert_interrupt sc) := by
  apply live_kept_of_eq
  unfold pci_xhci_assert_interrupt
  simp only
  split_ifs <;> rfl

theorem set_ep_xfer_live (ca ce : Nat) (sc : pci_xhci_softc) (d epid : Nat)
    (xfer : usb_data_xfer) : live_kept ca ce sc (set_ep_xfer sc d epid xfer) :=
  live_kept_of_eq ca ce _ _ rfl

/-- The store of Running leaves the endpoint it is made on Running. -/
theorem set_ep_running_state (sc : pci_xhci_softc) (a epid : Nat) :
    ep_state (set_ep_running sc a epid) a epid = XHCI_ST_EPCTX_RUNNING := by
  unfold ep_state set_ep_running
  simp only [upd, set_ctx_ep, if_true]
  exact field_replace_epstate _ _ (by decide)

theorem set_ep_running_live (ca ce : Nat) (sc : pci_xhci_softc) (a epid : Nat) :
    live_kept ca ce sc (set_ep_running sc a epid) := by
  intro h
  by_cases hx : ca = a
  · subst hx
    by_cases he : ce = epid
    · subst he
      exact Or.inl (set_ep_running_state sc ca ce)
    · have e : ep_state (set_ep_running sc ca epid) ca ce = ep_state sc ca ce := by
        simp [ep_state, set_ep_running, set_ctx_ep, upd, he]
      rw [e]; exact h
  · have e : ep_state (set_ep_running sc a epid) ca ce = ep_state sc ca ce := by
      simp [ep_state, set_ep_running, upd, hx]
    rw [e]; exact h

theorem xfer_complete_live (ca ce : Nat) (xdev : pci_xhci_softc) (xfer : usb_data_xfer)
    (slot epid : Nat) (r : xfer_complete_state)
    (h : pci_xhci_xfer_complete xdev xfer slot epid = some r) :
    live_kept ca ce xdev r.xdev := by
  unfold pci_xhci_xfer_complete at h
  split at h
  · cases h
  · cases h
  · rename_i a _
    intro hl
    unfold ep_state
    rw [xfer_complete_loop_devctx _ _ _ _ _ h]
    simp only
    split
    · by_cases hx : ca = a
      · subst hx
        by_cases he : ce = epid
        · subst he
          right
          simp only [set_ctx_ep, upd, if_true]
          exact epstate_halted _
        · simp only [set_ctx_ep, upd, if_true, if_neg he]
          exact hl
      · simp only [upd, if_neg hx]
        exact hl
    · exact hl


theorem try_usb_xfer_live (ca ce : Nat) (sc : pci_xhci_softc) (d a slot epid : Nat)
    (r : pci_xhci_softc × Nat) (h : pci_xhci_try_usb_xfer sc d a slot epid = some r) :
    live_kept ca ce sc r.1 := by
  have h0 := set_ep_running_live ca ce sc a epid
  unfold pci_xhci_try_usb_xfer at h
  simp only at h
  cases hx : (((set_ep_running sc a epid).devs d).eps epid).ep_xfer with
  | none => rw [hx] at h; cases h
  | some xfer =>
    rw [hx] at h
    simp only at h
    cases hu : ((set_ep_running sc a epid).devs d).dev_ue.ue_data with
    | none =>
      rw [hu] at h
      simp only [Option.some.injEq] at h
      subst h
      exact h0
    | some f =>
      rw [hu] at h
      simp only at h
      generalize f xfer (if epid &&& 0x1 ≠ 0 then USB_XFER_IN else USB_XFER_OUT) (epid / 2) = res
        at h
      by_cases hc : res.2 = USB_ERR_CANCELLED
      · rw [if_pos hc] at h
        simp only [Option.some.injEq] at h
        subst h
        exact live_kept_trans ca ce _ _ _ h0 (set_ep_xfer_live ca ce _ _ _ _)
      · rw [if_neg hc] at h
        cases hq : pci_xhci_xfer_complete (set_ep_running sc a epid) res.1 slot epid with
        | none => rw [hq] at h; cases h
        | some c =>
          rw [hq] at h
          simp only [Option.some.injEq] at h
          subst h
          have h1 := xfer_complete_live ca ce _ _ _ _ _ hq
          have h2 : live_kept ca ce c.xdev
              (if c.err = XHCI_TRB_ERROR_SUCCESS ∧ c.do_intr ≠ 0 then
                pci_xhci_assert_interrupt c.xdev else c.xdev) := by
            split
            · exact assert_interrupt_live ca ce _
            · exact live_kept_refl ca ce _
          exact live_kept_trans ca ce _ _ _ h0
            (live_kept_trans ca ce _ _ _ h1
              (live_kept_trans ca ce _ _ _ h2 (set_ep_xfer_live ca ce _ _ _ _)))

/-- The body of `pci_xhci_handle_transfer` leaves an endpoint that is Running or Halted
Running or Halted. -/
theorem handle_transfer_retry_live (ca ce : Nat) (slot epid streamid d a fuel : Nat) :
    ∀ (n : Nat) (sc : pci_xhci_softc) (w : transfer_walk_state) (sc1 : pci_xhci_softc)
      (err : Nat),
      handle_transfer_retry slot epid streamid d a fuel n sc w = transfer_result.done sc1 err →
      live_kept ca ce sc sc1 := by
  intro n
  induction n with
  | zero =>
    intro sc w sc1 err h
    rw [handle_transfer_retry] at h
    cases h
  | succ n ih =>
    intro sc w sc1 err h
    rw [handle_transfer_retry] at h
    cases hw : handle_transfer_walk sc epid streamid fuel { w with setup_trb := false } with
    | out_of_fuel => rw [hw] at h; cases h
    | aborted => rw [hw] at h; cases h
    | errout w1 =>
      rw [hw] at h
      simp only [transfer_result.done.injEq] at h
      rw [← h.1]
      exact set_ep_xfer_live ca ce _ _ _ _
    | stop w1 do_retry =>
      rw [hw] at h
      simp only at h
      by_cases he : epid = 1
      · rw [if_pos he] at h
        generalize request_transfer (sc.devs d).dev_ue w1.xfer = res at h
        by_cases hs : USB_TO_XHCI_ERR res.2 = XHCI_TRB_ERROR_SUCCESS ∨
            USB_TO_XHCI_ERR res.2 = XHCI_TRB_ERROR_SHORT_PKT
        · rw [if_pos hs] at h
          cases hq : pci_xhci_xfer_complete sc res.1 slot epid with
          | none => rw [hq] at h; cases h
          | some c =>
            rw [hq] at h
            simp only at h
            have h1 := xfer_complete_live ca ce _ _ _ _ _ hq
            have h2 : live_kept ca ce c.xdev
                (if c.do_intr ≠ 0 then pci_xhci_assert_interrupt c.xdev else c.xdev) := by
              split
              · exact assert_interrupt_live ca ce _
              · exact live_kept_refl ca ce _
            have h12 := live_kept_trans ca ce _ _ _ h1 h2
            by_cases hr : do_retry = true ∧ c.err = XHCI_TRB_ERROR_SUCCESS
            · rw [if_pos hr] at h
              exact live_kept_trans ca ce _ _ _ h12 (ih _ _ _ _ h)
            · rw [if_neg hr] at h
              simp only [transfer_result.done.injEq] at h
              rw [← h.1]
              exact live_kept_trans ca ce _ _ _ h12 (set_ep_xfer_live ca ce _ _ _ _)
        · rw [if_neg hs] at h
          by_cases hr : do_retry = true
          · rw [if_pos hr] at h
            exact ih _ _ _ _ h
          · rw [if_neg hr] at h
            simp only [transfer_result.done.injEq] at h
            rw [← h.1]
            exact set_ep_xfer_live ca ce _ _ _ _
      · rw [if_neg he] at h
        cases ht : pci_xhci_try_usb_xfer (set_ep_xfer sc d epid w1.xfer) d a slot epid with
        | none => rw [ht] at h; cases h
        | some t =>
          rw [ht] at h
          simp only [transfer_result.done.injEq] at h
          rw [← h.1]
          exact live_kept_trans ca ce _ _ _ (set_ep_xfer_live ca ce _ _ _ _)
            (try_usb_xfer_live ca ce _ _ _ _ _ _ ht)

/-- `pci_xhci_handle_transfer` leaves an endpoint that is Running or Halted Running or
Halted. -/
theorem handle_transfer_live (ca ce : Nat) (fuel : Nat) (sc : pci_xhci_softc)
    (d a trb slot epid addr ccs streamid : Nat) (sc1 : pci_xhci_softc) (err : Nat)
    (h : pci_xhci_handle_transfer fuel sc d a trb slot epid addr ccs streamid =
      transfer_result.done sc1 err) :
    live_kept ca ce sc sc1 := by
  unfold pci_xhci_handle_transfer at h
  simp only at h
  cases hx : (((set_ep_running sc a epid).devs d).eps epid).ep_xfer with
  | none => rw [hx] at h; cases h
  | some xfer =>
    rw [hx] at h
    exact live_kept_trans ca ce _ _ _ (set_ep_running_live ca ce sc a epid)
      (handle_transfer_retry_live ca ce _ _ _ _ _ _ _ _ _ _ _ h)



/-- RESET_EP and STOP_EP for a slot with a bound device that has its device context, with an
endpoint id in 1..31, return and leave the endpoint Stopped, whatever its state was. -/
theorem reset_ep_state (sc : pci_xhci_softc) (slot d a : Nat) (trb : xhci_trb)
    (hs : sc.slots slot = some d) (hc : (sc.devs d).dev_ctx = some a)
    (h1 : 1 ≤ XHCI_TRB_3_EP_GET trb.dwTrb3) (h31 : XHCI_TRB_3_EP_GET trb.dwTrb3 ≤ 31) :
    ∃ sc1 err, pci_xhci_cmd_reset_ep sc slot trb = some (sc1, err) ∧
      (err = XHCI_TRB_ERROR_SUCCESS ∨ err = XHCI_TRB_ERROR_ENDP_NOT_ON) ∧
      ep_state sc1 a (XHCI_TRB_3_EP_GET trb.dwTrb3) = XHCI_ST_EPCTX_STOPPED := by
  have hbad : ¬ (XHCI_TRB_3_EP_GET trb.dwTrb3 < 1 ∨ XHCI_TRB_3_EP_GET trb.dwTrb3 > 31) := by
    omega
  have hst : XHCI_ST_EPCTX_STOPPED ≤ 7 := by decide
  unfold pci_xhci_cmd_reset_ep
  simp only [hs, hc, if_neg hbad]
  split
  · refine ⟨_, _, rfl, Or.inr rfl, ?_⟩
    simp only [ep_state, upd, set_ctx_ep, if_true]
    exact and_not7_or_epstate _ _ hst
  · refine ⟨_, _, rfl, Or.inl rfl, ?_⟩
    simp only [ep_state, upd, set_ctx_ep, if_true]
    exact and_not7_or_epstate _ _ hst

/-- A call of `pci_xhci_try_usb_xfer` that returns leaves the endpoint Running or Halted,
whatever its state was. -/
theorem try_usb_xfer_state (sc : pci_xhci_softc) (d a slot epid : Nat)
    (r : pci_xhci_softc × Nat) (h : pci_xhci_try_usb_xfer sc d a slot epid = some r) :
    ep_state r.1 a epid = XHCI_ST_EPCTX_RUNNING ∨ ep_state r.1 a epid = XHCI_ST_EPCTX_HALTED := by
  have h0 : ep_state (set_ep_running sc a epid) a epid = XHCI_ST_EPCTX_RUNNING ∨
      ep_state (set_ep_running sc a epid) a epid = XHCI_ST_EPCTX_HALTED :=
    Or.inl (set_ep_running_state sc a epid)
  unfold pci_xhci_try_usb_xfer at h
  simp only at h
  cases hx : (((set_ep_running sc a epid).devs d).eps epid).ep_xfer with
  | none => rw [hx] at h; cases h
  | some xfer =>
    rw [hx] at h
    simp only at h
    cases hu : ((set_ep_running sc a epid).devs d).dev_ue.ue_data with
    | none =>
      rw [hu] at h
      simp only [Option.some.injEq] at h
      subst h
      exact h0
    | some f =>
      rw [hu] at h
      simp only at h
      generalize f xfer (if epid &&& 0x1 ≠ 0 then USB_XFER_IN else USB_XFER_OUT) (epid / 2) = res
        at h
      by_cases hc : res.2 = USB_ERR_CANCELLED
      · rw [if_pos hc] at h
        simp only [Option.some.injEq] at h
        subst h
        exact set_ep_xfer_live a epid _ _ _ _ h0
      · rw [if_neg hc] at h
        cases hq : pci_xhci_xfer_complete (set_ep_running sc a epid) res.1 slot epid with
        | none => rw [hq] at h; cases h
        | some c =>
          rw [hq] at h
          simp only [Option.some.injEq] at h
          subst h
          have h1 := xfer_complete_live a epid _ _ _ _ _ hq
          have h2 : live_kept a epid c.xdev
              (if c.err = XHCI_TRB_ERROR_SUCCESS ∧ c.do_intr ≠ 0 then
                pci_xhci_assert_interrupt c.xdev else c.xdev) := by
            split
            · exact assert_interrupt_live a epid _
            · exact live_kept_refl a epid _
          exact set_ep_xfer_live a epid _ _ _ _ (h2 (h1 h0))

/-- A call of `pci_xhci_handle_transfer` that returns leaves the endpoint Running or Halted,
whatever its state was. -/
theorem handle_transfer_state (fuel : Nat) (sc : pci_xhci_softc)
    (d a trb slot epid addr ccs streamid : Nat) (sc1 : pci_xhci_softc) (err : Nat)
    (h : pci_xhci_handle_transfer fuel sc d a trb slot epid addr ccs streamid =
      transfer_result.done sc1 err) :
    ep_state sc1 a epid = XHCI_ST_EPCTX_RUNNING ∨ ep_state sc1 a epid = XHCI_ST_EPCTX_HALTED := by
  unfold pci_xhci_handle_transfer at h
  simp only at h
  cases hx : (((set_ep_running sc a epid).devs d).eps epid).ep_xfer with
  | none => rw [hx] at h; cases h
  | some xfer =>
    rw [hx] at h
    exact handle_transfer_retry_live a epid _ _ _ _ _ _ _ _ _ _ _ h
      (Or.inl (set_ep_running_state sc a epid))

/-- A device doorbell that returns has either changed nothing or left the endpoint Running
or Halted, whatever the state of the endpoint was. -/
theorem device_doorbell_state (fuel : Nat) (sc : pci_xhci_softc)
    (slot epid streamid a : Nat) (sc1 : pci_xhci_softc)
    (hc : pci_xhci_get_dev_ctx sc slot = some (some a))
    (h : pci_xhci_device_doorbell fuel sc slot epid streamid = cmd_result.done sc1) :
    sc1 = sc ∨ ep_state sc1 a epid = XHCI_ST_EPCTX_RUNNING ∨
      ep_state sc1 a epid = XHCI_ST_EPCTX_HALTED := by
  have hdone : ∀ s : pci_xhci_softc, s = sc → cmd_result.done s = cmd_result.done sc1 →
      sc1 = sc ∨ ep_state sc1 a epid = XHCI_ST_EPCTX_RUNNING ∨
        ep_state sc1 a epid = XHCI_ST_EPCTX_HALTED := by
    intro s hs hd
    simp only [cmd_result.done.injEq] at hd
    exact Or.inl (hd ▸ hs)
  have hht : ∀ (d trb addr ccs : Nat),
      (pci_xhci_handle_transfer fuel sc d a trb slot epid addr ccs streamid).to_cmd_result =
        cmd_result.done sc1 → sc1 = sc ∨ ep_state sc1 a epid = XHCI_ST_EPCTX_RUNNING ∨
        ep_state sc1 a epid = XHCI_ST_EPCTX_HALTED := by
    intro d trb addr ccs hh
    obtain ⟨err, he⟩ := to_cmd_result_done _ _ hh
    exact Or.inr (handle_transfer_state _ _ _ _ _ _ _ _ _ _ _ _ he)
  unfold pci_xhci_device_doorbell at h
  simp only [hc] at h
  split at h
  · exact hdone _ rfl h
  · split at h
    · exact hdone _ rfl h
    · split at h
      · exact hdone _ rfl h
      · split at h
        · cases h
        · split at h
          · cases h
          · split at h
            · split at h
              · cases h
              · rename_i r hr
                simp only [cmd_result.done.injEq] at h
                rw [← h]
                exact Or.inr (try_usb_xfer_state _ _ _ _ _ _ hr)
            · split at h
              · split at h
                · exact hdone _ rfl h
                · split at h
                  · exact hdone _ rfl h
                  · split at h
                    · cases h
                    · split at h
                      · exact hdone _ rfl h
                      · exact hht _ _ _ _ h
              · split at h
                · exact hdone _ rfl h
                · split at h
                  · exact hdone _ rfl h
                  · exact hht _ _ _ _ h


/-- C34, as the code has it: RESET_EP and STOP_EP go through the same routine, which for a
slot with a bound device that has its device context and an endpoint id in 1..31 returns and
stores Stopped, whatever the state of the endpoint was, Halted included.  A device doorbell
that returns has either changed nothing or gone through the transfer engine, which stores
Running whatever the state was; the endpoint is then Running, or Halted when a completion
with the backend status STALLED has stored Halted again. -/
theorem endpoint_state_changes :
    (∀ (sc : pci_xhci_softc) (slot d a : Nat) (trb : xhci_trb),
      sc.slots slot = some d → (sc.devs d).dev_ctx = some a →
      1 ≤ XHCI_TRB_3_EP_GET trb.dwTrb3 → XHCI_TRB_3_EP_GET trb.dwTrb3 ≤ 31 →
      ∃ sc1 err, pci_xhci_cmd_reset_ep sc slot trb = some (sc1, err) ∧
        (err = XHCI_TRB_ERROR_SUCCESS ∨ err = XHCI_TRB_ERROR_ENDP_NOT_ON) ∧
        ep_state sc1 a (XHCI_TRB_3_EP_GET trb.dwTrb3) = XHCI_ST_EPCTX_STOPPED) ∧
    (∀ (fuel : Nat) (sc : pci_xhci_softc) (slot epid streamid a : Nat) (sc1 : pci_xhci_softc),
      pci_xhci_get_dev_ctx sc slot = some (some a) →
      pci_xhci_device_doorbell fuel sc slot epid streamid = cmd_result.done sc1 →
      sc1 = sc ∨ ep_state sc1 a epid = XHCI_ST_EPCTX_RUNNING ∨
        ep_state sc1 a epid = XHCI_ST_EPCTX_HALTED) :=
  ⟨reset_ep_state, device_doorbell_state⟩

set_option maxRecDepth 1000000 in
/-- Witness of C34 as amended: the control endpoint of slot 1, Halted by a stalled transfer;
RESET_EP returns and leaves it Stopped.  On the controller with a control transfer queued the
endpoint is Running, and the doorbell of slot 1 returns with the endpoint Running. -/
theorem endpoint_state_changes_witness :
    ep_state sc_ep1_halted 0x7000 1 = XHCI_ST_EPCTX_HALTED ∧
    (∃ sc1 err, pci_xhci_cmd_reset_ep sc_ep1_halted 1
        (trb_ep_cmd XHCI_TRB_TYPE_RESET_EP 0 1 1) = some (sc1, err) ∧
      (err = XHCI_TRB_ERROR_SUCCESS ∨ err = XHCI_TRB_ERROR_ENDP_NOT_ON) ∧
      ep_state sc1 0x7000
        (XHCI_TRB_3_EP_GET (trb_ep_cmd XHCI_TRB_TYPE_RESET_EP 0 1 1).dwTrb3) =
          XHCI_ST_EPCTX_STOPPED) ∧
    ep_state sc_ctrl_queued 0x7000 1 = XHCI_ST_EPCTX_RUNNING ∧
    (sc_ctrl_rung = sc_ctrl_queued ∨ ep_state sc_ctrl_rung 0x7000 1 = XHCI_ST_EPCTX_RUNNING ∨
      ep_state sc_ctrl_rung 0x7000 1 = XHCI_ST_EPCTX_HALTED) :=
  ⟨by decide,
    endpoint_state_changes.1 sc_ep1_halted 1 0 0x7000 (trb_ep_cmd XHCI_TRB_TYPE_RESET_EP 0 1 1)
      (by decide) (by decide) (by decide) (by decide),
    by decide,
    endpoint_state_changes.2 8 sc_ctrl_queued 1 1 0 0x7000 sc_ctrl_rung (by decide)
      (eq_done_of_is_done _ sc_ctrl_queued (by decide))⟩

set_option maxRecDepth 1000000 in
/-- C34 fails as stated: the control endpoint of slot 1 is Halted after a stalled transfer.
STOP_EP for it returns SUCCESS and leaves it Stopped, not Halted; and a doorbell write for it
(with a control transfer queued) returns and leaves it Running, not Halted. -/
theorem endpoint_state_changes_counterexample :
    ep_state sc_ep1_halted 0x7000 1 = XHCI_ST_EPCTX_HALTED ∧
    (pci_xhci_cmd_reset_ep sc_ep1_halted 1 (trb_ep_cmd XHCI_TRB_TYPE_STOP_EP 0 1 1)).map
      (fun r => (r.2, ep_state r.1 0x7000 1)) =
      some (XHCI_TRB_ERROR_SUCCESS, XHCI_ST_EPCTX_STOPPED) ∧
    (ring_ctrl_doorbell sc_ep1_halted).is_done = true ∧
    ep_state ((ring_ctrl_doorbell sc_ep1_halted).get sc_ep1_halted) 0x7000 1 =
      XHCI_ST_EPCTX_RUNNING := by
  refine ⟨by decide, by decide, by decide, by decide⟩

/-! ## The save of the native ports -/

theorem init_port_native (sc : pci_xhci_softc) (portn : Nat) (sc1 : pci_xhci_softc)
    (h : pci_xhci_init_port sc portn = some sc1) :
    sc1.native_ports = sc.native_ports ∧ sc1.vbdp_devs = sc.vbdp_devs ∧
    sc1.vbdp_dev_num = sc.vbdp_dev_num := by
  unfold pci_xhci_init_port at h
  split at h
  · cases h
  · cases h; exact ⟨rfl, rfl, rfl⟩

/-- The save loop over a list of distinct indices: every listed entry that is Emulated is
recorded and becomes Assigned without a virtual port, every other entry and record is as it
was, and `vbdp_dev_num` grows by the number of listed Emulated entries. -/
theorem usbcmd_save_ports_spec (l : List Nat) (hnd : l.Nodup) :
    ∀ (sc sc1 : pci_xhci_softc), usbcmd_save_ports sc l = some sc1 →
      (∀ i, i ∈ l → (sc.native_ports i).state = VPORT_EMULATED →
        sc1.native_ports i = native_port_saved (sc.native_ports i) ∧
        sc1.vbdp_devs i = vbdp_record (sc.native_ports i)) ∧
      (∀ i, ¬ (i ∈ l ∧ (sc.native_ports i).state = VPORT_EMULATED) →
        sc1.native_ports i = sc.native_ports i ∧ sc1.vbdp_devs i = sc.vbdp_devs i) ∧
      sc1.vbdp_dev_num = sc.vbdp_dev_num +
        (l.filter fun i => (sc.native_ports i).state = VPORT_EMULATED).length := by
  induction l with
  | nil =>
    intro sc sc1 h
    rw [usbcmd_save_ports] at h
    cases h
    exact ⟨fun i hi => absurd hi (List.not_mem_nil i), fun i _ => ⟨rfl, rfl⟩, rfl⟩
  | cons j rest ih =>
    intro sc sc1 h
    have hj : j ∉ rest := (List.nodup_cons.mp hnd).1
    have hr : rest.Nodup := (List.nodup_cons.mp hnd).2
    rw [usbcmd_save_ports] at h
    simp only at h
    by_cases he : (sc.native_ports j).state = VPORT_EMULATED
    · rw [if_pos he] at h
      split at h
      · cases h
      · rename_i s2 h2
        obtain ⟨n1, n2, n3⟩ := init_port_native _ _ _ h2
        have ih1 := ih hr _ _ h
        have hnp : ∀ i, i ≠ j →
            (upd s2.native_ports j
              { sc.native_ports j with vport := 0, state := VPORT_ASSIGNED }) i =
              sc.native_ports i := by
          intro i hij
          simp only [upd, if_neg hij]
          rw [n1]
        have hfilter : (rest.filter fun i =>
            ((upd s2.native_ports j
              { sc.native_ports j with vport := 0, state := VPORT_ASSIGNED }) i).state =
                VPORT_EMULATED) =
            rest.filter fun i => (sc.native_ports i).state = VPORT_EMULATED := by
          apply List.filter_congr
          intro i hi
          have hij : i ≠ j := fun e => hj (e ▸ hi)
          rw [hnp i hij]
        obtain ⟨a1, a2, a3⟩ := ih1
        refine ⟨?_, ?_, ?_⟩
        · intro i hi hei
          by_cases hij : i = j
          · subst hij
            have hk := a2 i (fun hc => hj hc.1)
            rw [hk.1, hk.2]
            simp only [upd, if_true, n2]
            exact ⟨rfl, rfl⟩
          · have hir : i ∈ rest := by
              rcases List.mem_cons.mp hi with h0 | h0
              · exact absurd h0 hij
              · exact h0
            have hk := a1 i hir (by simp only; rw [hnp i hij]; exact hei)
            simp only at hk
            rw [hnp i hij] at hk
            exact hk
        · intro i hni
          have hij : i ≠ j := fun e => hni ⟨e ▸ List.mem_cons_self _ _, e ▸ he⟩
          have hk := a2 i (by
            intro hc
            apply hni
            refine ⟨List.mem_cons_of_mem _ hc.1, ?_⟩
            have := hc.2
            simp only at this
            rw [hnp i hij] at this
            exact this)
          simp only at hk
          rw [hnp i hij] at hk
          rw [hk.1, hk.2, n2]
          simp only [upd, if_neg hij, and_self]
        · have a3' : sc1.vbdp_dev_num = s2.vbdp_dev_num + (rest.filter fun i =>
              ((upd s2.native_ports j
                { sc.native_ports j with vport := 0, state := VPORT_ASSIGNED }) i).state =
                  VPORT_EMULATED).length := a3
          rw [hfilter, n3] at a3'
          simp only at a3'
          rw [a3', List.filter_cons_of_pos (by simpa using he), List.length_cons]
          omega
    · rw [if_neg he] at h
      obtain ⟨a1, a2, a3⟩ := ih hr _ _ h
      refine ⟨?_, ?_, ?_⟩
      · intro i hi hei
        rcases List.mem_cons.mp hi with h0 | h0
        · subst h0; exact absurd hei he
        · exact a1 i h0 hei
      · intro i hni
        exact a2 i fun hc => hni ⟨List.mem_cons_of_mem _ hc.1, hc.2⟩
      · rw [a3, List.filter_cons_of_neg (by simpa using he)]


theorem reset_native (sc : pci_xhci_softc) :
    (pci_xhci_reset sc).native_ports = sc.native_ports := by
  have hl : ∀ (l : List Nat) (s : pci_xhci_softc),
      (l.foldl pci_xhci_reset_slot s).native_ports = s.native_ports := by
    intro l
    induction l with
    | nil => intro s; rfl
    | cons i rest ih =>
      intro s
      rw [List.foldl_cons, ih]
      unfold pci_xhci_reset_slot
      split <;> rfl
  unfold pci_xhci_reset
  simp only
  rw [hl]

theorem usbcmd_run_ports_native (l : List Nat) :
    ∀ (sc sc1 : pci_xhci_softc), usbcmd_run_ports sc l = some sc1 →
      sc1.native_ports = sc.native_ports := by
  induction l with
  | nil =>
    intro sc sc1 h
    rw [usbcmd_run_ports] at h
    cases h; rfl
  | cons i rest ih =>
    intro sc sc1 h
    rw [usbcmd_run_ports] at h
    split at h
    · exact ih _ _ h
    · split at h
      · cases h
      · rename_i pr hpr
        simp only at h
        have key : ∀ v : Nat,
            (if (insert_event_ring
                  { sc with portregs := some (upd pr i { pr i with portsc := v }) }
                  (pci_xhci_set_evtrb i XHCI_TRB_ERROR_SUCCESS XHCI_TRB_EVENT_PORT_STS_CHANGE)
                  false).2 ≠ XHCI_TRB_ERROR_SUCCESS then
                some (insert_event_ring
                  { sc with portregs := some (upd pr i { pr i with portsc := v }) }
                  (pci_xhci_set_evtrb i XHCI_TRB_ERROR_SUCCESS XHCI_TRB_EVENT_PORT_STS_CHANGE)
                  false).1
              else usbcmd_run_ports (insert_event_ring
                  { sc with portregs := some (upd pr i { pr i with portsc := v }) }
                  (pci_xhci_set_evtrb i XHCI_TRB_ERROR_SUCCESS XHCI_TRB_EVENT_PORT_STS_CHANGE)
                  false).1 rest) = some sc1 → sc1.native_ports = sc.native_ports := by
          intro v hv
          have h1 := (insert_event_keeps
            { sc with portregs := some (upd pr i { pr i with portsc := v }) }
            (pci_xhci_set_evtrb i XHCI_TRB_ERROR_SUCCESS XHCI_TRB_EVENT_PORT_STS_CHANGE)
            false).2.2.2.2.2
          split at hv
          · simp only [Option.some.injEq] at hv
            rw [← hv]; exact h1
          · exact (ih _ _ hv).trans h1
        split at h
        · cases h
        · rename_i r hr
          obtain ⟨-, rfl⟩ := insert_event_eq_some _ _ _ _ hr
          exact key _ h

/-- The part of `pci_xhci_usbcmd_write` after the RS test, when CSS is set in the command:
every entry of the native port table that is Emulated is recorded and becomes Assigned without
a virtual port, the other entries are as they were, and `vbdp_dev_num` is the number of the
entries that were Emulated. -/
theorem usbcmd_write_tail_css (sc1 : pci_xhci_softc) (b : Bool) (c1 : Nat)
    (r : pci_xhci_softc × Nat)
    (hcss : (if c1 &&& XHCI_CMD_HCRST ≠ 0 then c1 &&& NOT32 XHCI_CMD_HCRST else c1) &&&
      XHCI_CMD_CSS ≠ 0)
    (h : (match
        (if (if c1 &&& XHCI_CMD_HCRST ≠ 0 then c1 &&& NOT32 XHCI_CMD_HCRST else c1) &&&
            XHCI_CMD_CSS ≠ 0 then
          usbcmd_save_ports
            { (if c1 &&& XHCI_CMD_HCRST ≠ 0 then pci_xhci_reset sc1 else sc1) with
              vbdp_dev_num := 0
              vbdp_devs := fun _ =>
                { path := { bus := 0, depth := 0, path := [] }, vport := 0, state := 0 } }
            (List.range XHCI_MAX_DEVICES)
        else some (if c1 &&& XHCI_CMD_HCRST ≠ 0 then pci_xhci_reset sc1 else sc1)) with
      | none => none
      | some sc3 =>
        some (if b = true then pci_xhci_assert_interrupt sc3 else sc3,
          (if c1 &&& XHCI_CMD_HCRST ≠ 0 then c1 &&& NOT32 XHCI_CMD_HCRST else c1) &&&
            NOT32 (XHCI_CMD_CSS ||| XHCI_CMD_CRS))) = some r) :
    (∀ i, i < XHCI_MAX_DEVICES → (sc1.native_ports i).state = VPORT_EMULATED →
      r.1.native_ports i = native_port_saved (sc1.native_ports i) ∧
      r.1.vbdp_devs i = vbdp_record (sc1.native_ports i)) ∧
    (∀ i, ¬ (i < XHCI_MAX_DEVICES ∧ (sc1.native_ports i).state = VPORT_EMULATED) →
      r.1.native_ports i = sc1.native_ports i) ∧
    r.1.vbdp_dev_num = (emulated_ports sc1).length := by
  have f2 : (if c1 &&& XHCI_CMD_HCRST ≠ 0 then pci_xhci_reset sc1 else sc1).native_ports =
      sc1.native_ports := by
    split
    · exact reset_native _
    · rfl
  generalize (if c1 &&& XHCI_CMD_HCRST ≠ 0 then pci_xhci_reset sc1 else sc1) = sc2 at h f2
  generalize (if c1 &&& XHCI_CMD_HCRST ≠ 0 then c1 &&& NOT32 XHCI_CMD_HCRST else c1) = c2
    at h hcss
  rw [if_pos hcss] at h
  split at h
  · cases h
  · rename_i sc3 h3
    simp only [Option.some.injEq] at h
    obtain ⟨a1, a2, a3⟩ := usbcmd_save_ports_spec _ (List.nodup_range _) _ _ h3
    simp only at a1 a2 a3
    rw [f2] at a1 a2 a3
    have hk : (if b = true then pci_xhci_assert_interrupt sc3 else sc3).native_ports =
          sc3.native_ports ∧
        (if b = true then pci_xhci_assert_interrupt sc3 else sc3).vbdp_devs = sc3.vbdp_devs ∧
        (if b = true then pci_xhci_assert_interrupt sc3 else sc3).vbdp_dev_num =
          sc3.vbdp_dev_num := by
      split
      · unfold pci_xhci_assert_interrupt
        simp only
        split_ifs <;> exact ⟨rfl, rfl, rfl⟩
      · exact ⟨rfl, rfl, rfl⟩
    rw [← h]
    simp only
    rw [hk.1, hk.2.1, hk.2.2]
    refine ⟨fun i hi he => a1 i (List.mem_range.mpr hi) he,
      fun i hn => (a2 i fun hc => hn ⟨List.mem_range.mp hc.1, hc.2⟩).1, ?_⟩
    rw [a3, Nat.zero_add]
    rfl


theorem and_css_ne_zero_iff (x : Nat) : x &&& XHCI_CMD_CSS ≠ 0 ↔ x.testBit 8 = true := by
  have e : XHCI_CMD_CSS = 2 ^ 8 := by decide
  rw [e, Nat.and_two_pow]
  cases x.testBit 8 <;> simp

theorem css_kept (v x : Nat) (h : v &&& XHCI_CMD_CSS ≠ 0) :
    (if ((v &&& 0x3F0F) ||| x) &&& XHCI_CMD_HCRST ≠ 0 then
        ((v &&& 0x3F0F) ||| x) &&& NOT32 XHCI_CMD_HCRST
      else (v &&& 0x3F0F) ||| x) &&& XHCI_CMD_CSS ≠ 0 := by
  have hb := (and_css_ne_zero_iff v).mp h
  have hm : Nat.testBit 0x3F0F 8 = true := by decide
  have hn : (NOT32 XHCI_CMD_HCRST).testBit 8 = true := by decide
  rw [and_css_ne_zero_iff]
  split
  · rw [Nat.testBit_and, Nat.testBit_or, Nat.testBit_and, hb, hm, hn]; rfl
  · rw [Nat.testBit_or, Nat.testBit_and, hb, hm]; rfl

/-- A guest write to USBCMD with CSS set that returns: every entry of the native port table
that was Emulated is Assigned without a virtual port, and its path and virtual port are
recorded in state START at the same index; the other entries are as they were;
`vbdp_dev_num` is the number of the entries that were Emulated; and CSS and CRS are clear
in the USBCMD that is stored. -/
theorem hostop_write_css (sc : pci_xhci_softc) (value : Nat) (sc1 : pci_xhci_softc)
    (hcss : value &&& XHCI_CMD_CSS ≠ 0)
    (h : pci_xhci_hostop_write sc XHCI_CAPLEN value = some sc1) :
    (∀ i, i < XHCI_MAX_DEVICES → (sc.native_ports i).state = VPORT_EMULATED →
      sc1.native_ports i = native_port_saved (sc.native_ports i) ∧
      sc1.vbdp_devs i = vbdp_record (sc.native_ports i)) ∧
    (∀ i, ¬ (i < XHCI_MAX_DEVICES ∧ (sc.native_ports i).state = VPORT_EMULATED) →
      sc1.native_ports i = sc.native_ports i) ∧
    sc1.vbdp_dev_num = (emulated_ports sc).length ∧
    sc1.opregs.usbcmd &&& (XHCI_CMD_CSS ||| XHCI_CMD_CRS) = 0 := by
  have ho : (XHCI_CAPLEN + 2 ^ 64 - XHCI_CAPLEN) % 2 ^ 64 = 0x00 := by decide
  unfold pci_xhci_hostop_write at h
  simp only [if_pos ho] at h
  split at h
  · cases h
  · rename_i s1 cmd h1
    simp only [Option.some.injEq] at h
    have hmask : ∀ c2 : Nat,
        (c2 &&& NOT32 (XHCI_CMD_CSS ||| XHCI_CMD_CRS)) &&& (XHCI_CMD_CSS ||| XHCI_CMD_CRS) = 0 := by
      intro c2
      rw [Nat.and_assoc]
      have e : NOT32 (XHCI_CMD_CSS ||| XHCI_CMD_CRS) &&& (XHCI_CMD_CSS ||| XHCI_CMD_CRS) = 0 := by
        decide
      rw [e, Nat.and_zero]
    have main : ((∀ i, i < XHCI_MAX_DEVICES → (sc.native_ports i).state = VPORT_EMULATED →
          s1.native_ports i = native_port_saved (sc.native_ports i) ∧
          s1.vbdp_devs i = vbdp_record (sc.native_ports i)) ∧
        (∀ i, ¬ (i < XHCI_MAX_DEVICES ∧ (sc.native_ports i).state = VPORT_EMULATED) →
          s1.native_ports i = sc.native_ports i) ∧
        s1.vbdp_dev_num = (emulated_ports sc).length) ∧
        cmd &&& (XHCI_CMD_CSS ||| XHCI_CMD_CRS) = 0 := by
      unfold pci_xhci_usbcmd_write at h1
      simp only at h1
      by_cases hrs : value &&& 0x3F0F &&& XHCI_CMD_RS ≠ 0
      · simp only [if_pos hrs] at h1
        split at h1
        · cases h1
        · rename_i sa ha
          have hn : sa.native_ports = sc.native_ports := by
            split at ha
            · have hq := usbcmd_run_ports_native _ _ _ ha
              exact hq
            · cases ha; rfl
          have ht := usbcmd_write_tail_css sa _ _ (s1, cmd) (css_kept value _ hcss) h1
          have hc := (usbcmd_write_tail sa _ _ (s1, cmd) h1).2
          simp only at ht hc
          unfold emulated_ports at ht ⊢
          rw [hn] at ht
          exact ⟨ht, by rw [hc]; exact hmask _⟩
      · simp only [if_neg hrs] at h1
        have ht := usbcmd_write_tail_css _ _ _ (s1, cmd) (css_kept value _ hcss) h1
        have hc := (usbcmd_write_tail _ _ _ (s1, cmd) h1).2
        simp only at ht hc
        exact ⟨ht, by rw [hc]; exact hmask _⟩
    rw [← h]
    exact ⟨main.1.1, main.1.2.1, main.1.2.2, main.2⟩

/-- The connect of a device that is no external hub while a record in state START with a
non-zero virtual port matches its path: the callback returns 0, the native port of the path
is Connected on the recorded virtual port, and nothing else changes, so that no event is
inserted and no PORTSC is written. -/
theorem conn_cb_resume (xdev : pci_xhci_softc) (di : usb_native_devinfo) (index i : Nat)
    (hidx : pci_xhci_get_native_port_index_by_path xdev di.path = some index)
    (hhub : di.type ≠ USB_TYPE_EXTHUB)
    (hrec : vbdp_find_start xdev di.path = some i)
    (hv : (xdev.vbdp_devs i).vport ≠ 0) :
    pci_xhci_native_usb_dev_conn_cb xdev di =
      some (native_port_connected xdev index (xdev.vbdp_devs i).vport di, 0) := by
  unfold pci_xhci_native_usb_dev_conn_cb
  simp only [hidx, if_neg hhub, hrec, if_neg hv, Option.isSome_some, if_true]
  rfl


/-- C31, as the code has it: a guest write to USBCMD with CSS set that returns leaves every
entry of the native port table that was Emulated Assigned with virtual port 0, with its path
and its virtual port as they were recorded in `vbdp_devs` at the same index in state START;
the other entries are as they were; `vbdp_dev_num` is the number of the entries that were
Emulated; CSS and CRS are clear in the USBCMD that is stored.  When the host then reports a
device that is no external hub on a path of the native port table whose first matching
record in state START is that of such an entry, with a non-zero virtual port, the callback
returns 0 and changes only the native port of the path, which is Connected on the recorded
virtual port and holds the device information: no event is inserted, no PORTSC written. -/
theorem css_save_and_resume :
    (∀ (sc : pci_xhci_softc) (value : Nat) (sc1 : pci_xhci_softc),
      value &&& XHCI_CMD_CSS ≠ 0 →
      pci_xhci_hostop_write sc XHCI_CAPLEN value = some sc1 →
      (∀ i, i < XHCI_MAX_DEVICES → (sc.native_ports i).state = VPORT_EMULATED →
        sc1.native_ports i = native_port_saved (sc.native_ports i) ∧
        sc1.vbdp_devs i = vbdp_record (sc.native_ports i)) ∧
      (∀ i, ¬ (i < XHCI_MAX_DEVICES ∧ (sc.native_ports i).state = VPORT_EMULATED) →
        sc1.native_ports i = sc.native_ports i) ∧
      sc1.vbdp_dev_num = (emulated_ports sc).length ∧
      sc1.opregs.usbcmd &&& (XHCI_CMD_CSS ||| XHCI_CMD_CRS) = 0) ∧
    (∀ (sc : pci_xhci_softc) (value : Nat) (sc1 : pci_xhci_softc) (di : usb_native_devinfo)
      (index i : Nat),
      value &&& XHCI_CMD_CSS ≠ 0 →
      pci_xhci_hostop_write sc XHCI_CAPLEN value = some sc1 →
      i < XHCI_MAX_DEVICES → (sc.native_ports i).state = VPORT_EMULATED →
      (sc.native_ports i).vport ≠ 0 →
      di.type ≠ USB_TYPE_EXTHUB →
      pci_xhci_get_native_port_index_by_path sc1 di.path = some index →
      vbdp_find_start sc1 di.path = some i →
      pci_xhci_native_usb_dev_conn_cb sc1 di =
        some (native_port_connected sc1 index (sc.native_ports i).vport di, 0)) := by
  refine ⟨hostop_write_css, ?_⟩
  intro sc value sc1 di index i hcss hw hi he hv hhub hidx hrec
  have hr := ((hostop_write_css sc value sc1 hcss hw).1 i hi he).2
  have hv1 : (sc1.vbdp_devs i).vport ≠ 0 := by rw [hr]; exact hv
  have h := conn_cb_resume sc1 di index i hidx hhub hrec hv1
  rw [hr] at h
  exact h

set_option maxRecDepth 1000000 in
/-- Witness of C31 as amended: a high-speed host device, Emulated on virtual port 5; the guest
writes USBCMD with RS, INTE and CSS.  The native port is Assigned with virtual port 0, the
record holds its path and virtual port 5 in state START, `vbdp_dev_num` is 1, and CSS and
CRS are clear in USBCMD; the connect that the host reports next leaves the native port
Connected on virtual port 5 and the event ring as it was. -/
theorem css_save_and_resume_witness :
    (((sc_speed_emulated USB_SPEED_HIGH).native_ports 0).state = VPORT_EMULATED ∧
      ((sc_speed_emulated USB_SPEED_HIGH).native_ports 0).vport = 5) ∧
    ((sc_speed_saved USB_SPEED_HIGH).native_ports 0 =
        native_port_saved ((sc_speed_emulated USB_SPEED_HIGH).native_ports 0) ∧
      (sc_speed_saved USB_SPEED_HIGH).vbdp_devs 0 =
        vbdp_record ((sc_speed_emulated USB_SPEED_HIGH).native_ports 0)) ∧
    (sc_speed_saved USB_SPEED_HIGH).vbdp_dev_num = 1 ∧
    (sc_speed_saved USB_SPEED_HIGH).opregs.usbcmd &&& (XHCI_CMD_CSS ||| XHCI_CMD_CRS) = 0 ∧
    pci_xhci_native_usb_dev_conn_cb (sc_speed_saved USB_SPEED_HIGH) (di_speed USB_SPEED_HIGH) =
      some (native_port_connected (sc_speed_saved USB_SPEED_HIGH) 0
        ((sc_speed_emulated USB_SPEED_HIGH).native_ports 0).vport (di_speed USB_SPEED_HIGH), 0) ∧
    (sc_speed_reconnected USB_SPEED_HIGH).rtsregs.er_enq_idx =
      (sc_speed_saved USB_SPEED_HIGH).rtsregs.er_enq_idx :=
  ⟨⟨by decide, by decide⟩,
    (css_save_and_resume.1 (sc_speed_emulated USB_SPEED_HIGH)
      (XHCI_CMD_RS ||| XHCI_CMD_INTE ||| XHCI_CMD_CSS) (sc_speed_saved USB_SPEED_HIGH)
      (by decide) (option_eta _ (sc_speed_emulated USB_SPEED_HIGH) (by decide))).1 0
      (by decide) (by decide),
    by decide, by decide,
    css_save_and_resume.2 (sc_speed_emulated USB_SPEED_HIGH)
      (XHCI_CMD_RS ||| XHCI_CMD_INTE ||| XHCI_CMD_CSS) (sc_speed_saved USB_SPEED_HIGH)
      (di_speed USB_SPEED_HIGH) 0 0 (by decide)
      (option_eta _ (sc_speed_emulated USB_SPEED_HIGH) (by decide))
      (by decide) (by decide) (by decide) (by decide) (by decide) (by decide),
    by decide⟩

set_option maxRecDepth 1000000 in
/-- C31 fails as stated: the path of the saved port is recorded in state START with virtual
port 5, and the host reports an external hub on that path.  The callback returns 0 and the
native port of the path is still Assigned with virtual port 0: the connect does not get the
recorded virtual port. -/
theorem css_save_and_resume_counterexample :
    ((sc_speed_saved USB_SPEED_HIGH).vbdp_devs 0).state = S3_VBDP_START ∧
    ((sc_speed_saved USB_SPEED_HIGH).vbdp_devs 0).vport = 5 ∧
    ((sc_speed_saved USB_SPEED_HIGH).vbdp_devs 0).path = (di_speed USB_SPEED_HIGH).path ∧
    (pci_xhci_native_usb_dev_conn_cb (sc_speed_saved USB_SPEED_HIGH)
      { di_speed USB_SPEED_HIGH with
        type := USB_TYPE_EXTHUB
        maxchild := 4 }).map (fun r => r.2) = some 0 ∧
    (sc_saved_hub.native_ports 0).state = VPORT_ASSIGNED ∧
    (sc_saved_hub.native_ports 0).vport = 0 := by
  refine ⟨by decide, by decide, by decide, by decide, by decide, by decide⟩

/-! ## State changes of the native ports -/

theorem assert_interrupt_vbdp (sc : pci_xhci_softc) :
    (pci_xhci_assert_interrupt sc).vbdp_devs = sc.vbdp_devs := by
  unfold pci_xhci_assert_interrupt
  simp only
  split
  · split <;> rfl
  · rfl

theorem insert_event_ring_vbdp (sc : pci_xhci_softc) (ev : xhci_trb) (b : Bool) :
    (insert_event_ring sc ev b).1.vbdp_devs = sc.vbdp_devs := by
  have hd : ∀ (s : pci_xhci_softc) (c : Bool) (e : Nat),
      (insert_event_done s c e).1.vbdp_devs = s.vbdp_devs := by
    intro s c e
    unfold insert_event_done
    cases c
    · rfl
    · exact assert_interrupt_vbdp s
  have hs : ∀ (s : pci_xhci_softc) (c : Bool),
      (insert_event_store s ev c).1.vbdp_devs = s.vbdp_devs := by
    intro s c
    unfold insert_event_store
    exact hd _ _ _
  unfold insert_event_ring
  simp only
  split
  · exact hd _ _ _
  · split
    · split
      · exact hd _ _ _
      · exact hs _ _
    · exact hs _ _

theorem change_port_vbdp (xdev : pci_xhci_softc) (port usb_speed : Nat) (conn need_intr : Bool)
    (r : pci_xhci_softc × Int)
    (h : pci_xhci_change_port xdev port usb_speed conn need_intr = some r) :
    r.1.vbdp_devs = xdev.vbdp_devs := by
  unfold pci_xhci_change_port at h
  split at h
  · cases h
  · simp only at h
    split at h
    · cases h; rfl
    · split at h
      · cases h; rfl
      · rw [Option.map_eq_some'] at h
        obtain ⟨x, hx, rfl⟩ := h
        obtain ⟨-, rfl⟩ := insert_event_eq_some _ _ _ _ hx
        exact insert_event_ring_vbdp _ _ _

theorem set_native_port_assigned_vbdp (xdev : pci_xhci_softc) (info : usb_native_devinfo) :
    (pci_xhci_set_native_port_assigned xdev info).1.vbdp_devs = xdev.vbdp_devs := by
  unfold pci_xhci_set_native_port_assigned
  split <;> rfl

theorem assign_hub_ports_vbdp (xdev : pci_xhci_softc) (info : usb_native_devinfo) :
    (pci_xhci_assign_hub_ports xdev info).1.vbdp_devs = xdev.vbdp_devs := by
  have hl : ∀ (l : List Nat) (s : pci_xhci_softc),
      (assign_hub_ports_loop s info l).1.vbdp_devs = s.vbdp_devs := by
    intro l
    induction l with
    | nil => intro s; rfl
    | cons i rest ih =>
      intro s
      rw [assign_hub_ports_loop]
      split
      · exact set_native_port_assigned_vbdp _ _
      · rw [ih]
        exact set_native_port_assigned_vbdp _ _
  unfold pci_xhci_assign_hub_ports
  split
  · rfl
  · split
    · rfl
    · rw [hl]

theorem unassign_hub_ports_vbdp (xdev : pci_xhci_softc) (info : usb_native_devinfo) :
    (pci_xhci_unassign_hub_ports xdev info).1.vbdp_devs = xdev.vbdp_devs := by
  have hc : ∀ (s : pci_xhci_softc) (di : usb_native_devinfo),
      (pci_xhci_clr_native_port_assigned s di).vbdp_devs = s.vbdp_devs := by
    intro s di
    unfold pci_xhci_clr_native_port_assigned
    split <;> rfl
  have hl : ∀ (l : List Nat) (p : usb_devpath) (s : pci_xhci_softc),
      (l.foldl (fun s i =>
          pci_xhci_clr_native_port_assigned s
            { path := hub_port_path p i, speed := 0, bcd := 0, type := 0, maxchild := 0 })
        s).vbdp_devs = s.vbdp_devs := by
    intro l p
    induction l with
    | nil => intro s; rfl
    | cons i rest ih =>
      intro s
      rw [List.foldl_cons, ih]
      exact hc _ _
  unfold pci_xhci_unassign_hub_ports
  split
  · rfl
  · split
    · rfl
    · exact hl _ _ _

/-- The connect callback leaves the saved ports as they are. -/
theorem conn_cb_vbdp (xdev : pci_xhci_softc) (di : usb_native_devinfo)
    (r : pci_xhci_softc × Int) (h : pci_xhci_native_usb_dev_conn_cb xdev di = some r) :
    r.1.vbdp_devs = xdev.vbdp_devs := by
  unfold pci_xhci_native_usb_dev_conn_cb at h
  split at h
  · cases h; rfl
  · split at h
    · cases h; exact assign_hub_ports_vbdp _ _
    · simp only at h
      split at h
      · cases h; rfl
      · split at h
        · cases h; rfl
        · split at h
          · cases h
          · rename_i x hx
            cases h
            have e := change_port_vbdp _ _ _ true _ x hx
            exact e

/-- The disconnect callback leaves the saved ports as they are. -/
theorem disconn_cb_vbdp (xdev : pci_xhci_softc) (di : usb_native_devinfo)
    (r : pci_xhci_softc × Int) (h : pci_xhci_native_usb_dev_disconn_cb xdev di = some r) :
    r.1.vbdp_devs = xdev.vbdp_devs := by
  unfold pci_xhci_native_usb_dev_disconn_cb at h
  split at h
  · cases h; rfl
  · split at h
    · cases h; rfl
    · split at h
      · cases h; exact unassign_hub_ports_vbdp _ _
      · simp only at h
        split at h
        · split at h
          · cases h
          · rename_i x hx
            cases h
            have e := change_port_vbdp _ _ _ false _ x hx
            exact e
        · split at h
          · cases h; rfl
          · split at h
            · cases h
            · rename_i x hx
              have e := change_port_vbdp _ _ _ false _ x hx
              split at h <;> (cases h; exact e)

theorem reset_vbdp (sc : pci_xhci_softc) : (pci_xhci_reset sc).vbdp_devs = sc.vbdp_devs := by
  have hl : ∀ (l : List Nat) (s : pci_xhci_softc),
      (l.foldl pci_xhci_reset_slot s).vbdp_devs = s.vbdp_devs := by
    intro l
    induction l with
    | nil => intro s; rfl
    | cons i rest ih =>
      intro s
      rw [List.foldl_cons, ih]
      unfold pci_xhci_reset_slot
      split <;> rfl
  unfold pci_xhci_reset
  simp only
  rw [hl]

theorem usbcmd_run_ports_vbdp (l : List Nat) :
    ∀ (sc sc1 : pci_xhci_softc), usbcmd_run_ports sc l = some sc1 →
      sc1.vbdp_devs = sc.vbdp_devs := by
  induction l with
  | nil =>
    intro sc sc1 h
    rw [usbcmd_run_ports] at h
    cases h; rfl
  | cons i rest ih =>
    intro sc sc1 h
    rw [usbcmd_run_ports] at h
    split at h
    · exact ih _ _ h
    · split at h
      · cases h
      · rename_i pr hpr
        simp only at h
        have key : ∀ v : Nat,
            (if (insert_event_ring
                  { sc with portregs := some (upd pr i { pr i with portsc := v }) }
                  (pci_xhci_set_evtrb i XHCI_TRB_ERROR_SUCCESS XHCI_TRB_EVENT_PORT_STS_CHANGE)
                  false).2 ≠ XHCI_TRB_ERROR_SUCCESS then
                some (insert_event_ring
                  { sc with portregs := some (upd pr i { pr i with portsc := v }) }
                  (pci_xhci_set_evtrb i XHCI_TRB_ERROR_SUCCESS XHCI_TRB_EVENT_PORT_STS_CHANGE)
                  false).1
              else usbcmd_run_ports (insert_event_ring
                  { sc with portregs := some (upd pr i { pr i with portsc := v }) }
                  (pci_xhci_set_evtrb i XHCI_TRB_ERROR_SUCCESS XHCI_TRB_EVENT_PORT_STS_CHANGE)
                  false).1 rest) = some sc1 → sc1.vbdp_devs = sc.vbdp_devs := by
          intro v hv
          have h1 := insert_event_ring_vbdp
            { sc with portregs := some (upd pr i { pr i with portsc := v }) }
            (pci_xhci_set_evtrb i XHCI_TRB_ERROR_SUCCESS XHCI_TRB_EVENT_PORT_STS_CHANGE) false
          split at hv
          · simp only [Option.some.injEq] at hv
            rw [← hv]; exact h1
          · exact (ih _ _ hv).trans h1
        split at h
        · cases h
        · rename_i x hx
          obtain ⟨-, rfl⟩ := insert_event_eq_some _ _ _ _ hx
          exact key _ h

theorem usbcmd_save_ports_no_end (l : List Nat) :
    ∀ (sc sc1 : pci_xhci_softc), usbcmd_save_ports sc l = some sc1 → vbdp_no_end sc →
      vbdp_no_end sc1 := by
  induction l with
  | nil =>
    intro sc sc1 h hn
    rw [usbcmd_save_ports] at h
    cases h; exact hn
  | cons i rest ih =>
    intro sc sc1 h hn
    rw [usbcmd_save_ports] at h
    simp only at h
    split at h
    · split at h
      · cases h
      · rename_i s2 h2
        refine ih _ _ h fun j => ?_
        simp only
        rw [(init_port_native _ _ _ h2).2.1]
        simp only [upd]
        split
        · exact (by decide : S3_VBDP_START ≠ S3_VBDP_END)
        · exact hn j
    · exact ih _ _ h hn

/-- A call of `pci_xhci_usbcmd_write` that returns puts no saved port in state END. -/
theorem usbcmd_write_no_end (sc : pci_xhci_softc) (cmd : Nat) (r : pci_xhci_softc × Nat)
    (h : pci_xhci_usbcmd_write sc cmd = some r) (hn : vbdp_no_end sc) : vbdp_no_end r.1 := by
  unfold pci_xhci_usbcmd_write at h
  simp only at h
  split at h
  · cases h
  · rename_i sc1 h1
    have hn1 : vbdp_no_end sc1 := by
      have e : sc1.vbdp_devs = sc.vbdp_devs := by
        split at h1
        · split at h1
          · have e1 := usbcmd_run_ports_vbdp _ _ _ h1
            exact e1
          · cases h1; rfl
        · cases h1; rfl
      intro j
      rw [e]; exact hn j
    split at h
    · cases h
    · rename_i sc3 h3
      cases h
      have hn3 : vbdp_no_end sc3 := by
        split at h3 <;> (try split at h3) <;>
          first
            | (have e3 := usbcmd_save_ports_no_end _ _ _ h3
                 (fun j => (by decide : (0 : Nat) ≠ S3_VBDP_END))
               exact e3)
            | (cases h3
               intro j
               first
                 | (rw [reset_vbdp]; exact hn1 j)
                 | exact hn1 j)
      intro j
      simp only
      split
      · rw [assert_interrupt_vbdp]; exact hn3 j
      · exact hn3 j

/-- A pass of `xhci_vbdp_thread` on a state without a saved port in state END returns the
state as it is: no connect is replayed. -/
theorem vbdp_thread_pass_idle (xdev : pci_xhci_softc) (hn : vbdp_no_end xdev) :
    xhci_vbdp_thread_pass xdev = some xdev := by
  have hf : (List.range XHCI_MAX_DEVICES).find?
      (fun i => decide ((xdev.vbdp_devs i).state = S3_VBDP_END)) = none := by
    rw [List.find?_eq_none]
    intro i _
    simpa using hn i
  unfold xhci_vbdp_thread_pass
  rw [hf]

theorem parse_opts_devs_vbdp (l : List usb_devemu) :
    ∀ (sc : pci_xhci_softc) (p3 p2 : Nat) (sc1 : pci_xhci_softc),
      parse_opts_devs sc p3 p2 l = some sc1 → sc1.vbdp_devs = sc.vbdp_devs := by
  induction l with
  | nil =>
    intro sc p3 p2 sc1 h
    rw [parse_opts_devs] at h
    cases h; rfl
  | cons ue rest ih =>
    intro sc p3 p2 sc1 h
    rw [parse_opts_devs] at h
    split at h
    · cases h
    · simp only at h
      have h1 := ih _ _ _ _ h
      exact h1

theorem init_ports_vbdp (l : List Nat) :
    ∀ (sc sc1 : pci_xhci_softc), l.foldlM pci_xhci_init_port sc = some sc1 →
      sc1.vbdp_devs = sc.vbdp_devs := by
  induction l with
  | nil =>
    intro sc sc1 h
    simp only [List.foldlM_nil, Option.pure_def, Option.some.injEq] at h
    rw [h]
  | cons i rest ih =>
    intro sc sc1 h
    simp only [List.foldlM_cons, Option.bind_eq_bind] at h
    cases hp : pci_xhci_init_port sc i with
    | none => rw [hp] at h; cases h
    | some s =>
      rw [hp] at h
      exact (ih _ _ h).trans (init_port_native _ _ _ hp).2.1

/-- After `pci_xhci_init` no saved port is in state END. -/
theorem init_no_end (msi : Bool) (backend : usb_native_devinfo → Option usb_devemu)
    (ues : List usb_devemu) (sc : pci_xhci_softc) (h : pci_xhci_init msi backend ues = some sc) :
    vbdp_no_end sc := by
  unfold pci_xhci_init at h
  simp only at h
  split at h
  · cases h
  · rename_i sc1 h1
    split at h
    · cases h
    · rename_i sc2 h2
      simp only [Option.some.injEq] at h
      have e1 := parse_opts_devs_vbdp _ _ _ _ _ h1
      have e2 : sc2.vbdp_devs = sc1.vbdp_devs := by
        unfold parse_opts_portsfinal at h2
        simp only at h2
        split at h2
        · have h3 := init_ports_vbdp _ _ _ h2
          exact h3
        · cases h2; rfl
      intro j
      rw [← h]
      simp only
      rw [reset_vbdp]
      simp only
      rw [e2, e1]
      exact (by decide : (0 : Nat) ≠ S3_VBDP_END)

/-- From `pci_xhci_init` on, through USBCMD writes, connect and disconnect callbacks and
passes of `xhci_vbdp_thread`, no saved port is ever in state END, and a pass of
`xhci_vbdp_thread` returns the state as it is: the worker replays no connect. -/
theorem vbdp_never_replays (msi : Bool) (backend : usb_native_devinfo → Option usb_devemu)
    (ues : List usb_devemu) (sc0 sc : pci_xhci_softc)
    (hi : pci_xhci_init msi backend ues = some sc0)
    (hs : Relation.ReflTransGen vbdp_step sc0 sc) :
    vbdp_no_end sc ∧ xhci_vbdp_thread_pass sc = some sc := by
  have hn : vbdp_no_end sc := by
    induction hs with
    | refl => exact init_no_end _ _ _ _ hi
    | tail _ hstep ih =>
      rcases hstep with ⟨cmd, r, h, rfl⟩ | ⟨di, r, h, rfl⟩ | ⟨di, r, h, rfl⟩ | h
      · exact usbcmd_write_no_end _ _ _ h ih
      · intro j; rw [conn_cb_vbdp _ _ _ h]; exact ih j
      · intro j; rw [disconn_cb_vbdp _ _ _ h]; exact ih j
      · rw [vbdp_thread_pass_idle _ ih] at h
        cases h
        exact ih
  exact ⟨hn, vbdp_thread_pass_idle _ hn⟩

end Xhci
